import Mathlib

/-!
EDAS: embedded distributed averaging system.

A shallow embedding of the protocol engine of the repository (`src/app/*.c`,
`src/config/*`) and theorems about it.

Conventions of the embedding.

* C `int` variables are unbounded integers (`Int`): signed overflow is undefined
  in C.  Conversions to `int8_t` and `uint8_t` are explicit (`to_int8`,
  `to_uint8`).
* C `float` values are elements of a type `F` with the arithmetic passed as a
  record `FloatOps F`; `exact_arith` instantiates it with the rationals.
* Arrays are lists read with `getD`; the indices read by the code are inside the
  arrays whenever the configuration is well formed.
* Two stores take their index from data: `stack[top]` in `push` and
  `consensus_states[rx_buffer[1]]` in `handle_rx_packet_payload`. A store whose
  index is outside the array is not dropped: it is recorded in `Stack.overrun`
  or `Board.consensus_overrun`. C gives no meaning to an execution after such a
  store; the statements about variables that such a store could overwrite in
  the program (the restart epoch, the watchdog and token flags, the divisor
  `batons_per_cycle`) are made for the executions that are `memory_intact`.
* Calls to the radio and timer collaborators are recorded in `Board.trace`.
-/

namespace Edas

/-! ## Integer conversions -/

/-- Conversion of an integer value to `uint8_t`. -/
def to_uint8 (x : Int) : Int := x % 256

/-- Conversion of an integer value to `int8_t` (two's complement). -/
def to_int8 (x : Int) : Int := (x + 128) % 256 - 128

/-- The C remainder operator on `int` (truncated division). -/
def c_mod (a b : Int) : Int := Int.tmod a b

/-! ## Enumerations of `app_process.c` -/

/-- The states of the state machine (`state_t`, app_process.c:32-45). -/
inductive state_t
  | S_RESTART_COMPLETED
  | S_START_AVG_CONSENSUS
  | S_SEND_AVG_CONSENSUS_MSGS
  | S_UPDATE_AVG_CONSENSUS_STATE
  | S_INIT_AND_SLEEP
  | S_PACKET_TX
  | S_PACKET_RECEIVED
  | S_PACKET_SENT
  | S_RX_PACKET_ERROR
  | S_TX_PACKET_ERROR
  | S_CALIBRATION_ERROR
  | S_IDLE
  deriving DecidableEq, Repr

/-- The integer value of an enumerator of `state_t`. -/
def state_t.toInt : state_t → Int
  | .S_RESTART_COMPLETED => 0
  | .S_START_AVG_CONSENSUS => 1
  | .S_SEND_AVG_CONSENSUS_MSGS => 2
  | .S_UPDATE_AVG_CONSENSUS_STATE => 3
  | .S_INIT_AND_SLEEP => 4
  | .S_PACKET_TX => 5
  | .S_PACKET_RECEIVED => 6
  | .S_PACKET_SENT => 7
  | .S_RX_PACKET_ERROR => 8
  | .S_TX_PACKET_ERROR => 9
  | .S_CALIBRATION_ERROR => 10
  | .S_IDLE => 11

/-- The enumerator of `state_t` with a given integer value, if there is one. -/
def state_t.ofInt (x : Int) : Option state_t :=
  if x = 0 then some .S_RESTART_COMPLETED
  else if x = 1 then some .S_START_AVG_CONSENSUS
  else if x = 2 then some .S_SEND_AVG_CONSENSUS_MSGS
  else if x = 3 then some .S_UPDATE_AVG_CONSENSUS_STATE
  else if x = 4 then some .S_INIT_AND_SLEEP
  else if x = 5 then some .S_PACKET_TX
  else if x = 6 then some .S_PACKET_RECEIVED
  else if x = 7 then some .S_PACKET_SENT
  else if x = 8 then some .S_RX_PACKET_ERROR
  else if x = 9 then some .S_TX_PACKET_ERROR
  else if x = 10 then some .S_CALIBRATION_ERROR
  else if x = 11 then some .S_IDLE
  else none

/-- The transmit operations (`tx_operation_t`, app_process.c:53-58). -/
inductive tx_operation_t
  | O_GLB_RESTART
  | O_GLB_START_TASK
  | O_GLB_SEND_STATE
  | O_GIVE_BATON
  deriving DecidableEq, Repr

/-- The tasks (`task_t`, app_process.c:64-67). -/
inductive task_t
  | T_NONE
  | T_CONSENSUS
  deriving DecidableEq, Repr

/-- The integer value of an enumerator of `task_t`. -/
def task_t.toInt : task_t → Int
  | .T_NONE => 0
  | .T_CONSENSUS => 1

/-- The message kinds (`message_t`, app_process.c:75-80). -/
inductive message_t
  | MSG_RESTART
  | MSG_START_TASK
  | MSG_CONSENSUS_STATE
  | MSG_BATON
  deriving DecidableEq, Repr

/-- The integer value of an enumerator of `message_t`. -/
def message_t.toInt : message_t → Int
  | .MSG_RESTART => 0
  | .MSG_START_TASK => 1
  | .MSG_CONSENSUS_STATE => 2
  | .MSG_BATON => 3

/-- The enumerator of `message_t` with a given integer value, if there is one. -/
def message_t.ofInt (x : Int) : Option message_t :=
  if x = 0 then some .MSG_RESTART
  else if x = 1 then some .MSG_START_TASK
  else if x = 2 then some .MSG_CONSENSUS_STATE
  else if x = 3 then some .MSG_BATON
  else none

/-- The value that marks the transition of the system to sleep (app_process.c:83). -/
def SEND_SYSTEM_TO_SLEEP : Int := -1

/-! ## Constants of `app_tools.h`, `app_network.h` and `app_stack.h` -/

def MSGIDX_TYPE : Nat := 0
def MSGIDX_SRC_BOARD : Nat := 1
def MSGIDX_DST_BOARD : Nat := 2
def MSGIDX_TASK : Nat := 3
def MSGIDX_BOARDS_OVER : Nat := 3
def MSGIDX_RESTART_ID : Nat := 3
def TX_PAYLOAD_LENGTH : Nat := 16
def MAX_DELAY_PER_BATON_STEP_MILISECS : Int := 1000
def MIN_TEMPERATURE : Int := -273
def STACK_MAXSIZE : Int := 20

/-! ## The continuation stack (`app_stack.c`) -/

/-- The two statics of `app_stack.c`: `int stack[STACK_MAXSIZE]` and `int top`.
A store to `stack[i]` with `i` outside `0..STACK_MAXSIZE-1` does not fit the
array; such stores are recorded in `overrun` (most recent first), and a load
from such an index returns the value last stored there. -/
structure Stack where
  stack : List Int
  top : Int
  overrun : List (Int × Int)
  deriving DecidableEq, Repr

/-- The load `stack[i]`. -/
def Stack.load (s : Stack) (i : Int) : Int :=
  if 0 ≤ i ∧ i < STACK_MAXSIZE then s.stack.getD i.toNat 0
  else match s.overrun.find? (fun p => p.1 == i) with
    | some p => p.2
    | none => 0

/-- The store `stack[i] = v`. -/
def Stack.store (s : Stack) (i v : Int) : Stack :=
  if 0 ≤ i ∧ i < STACK_MAXSIZE then { s with stack := s.stack.set i.toNat v }
  else { s with overrun := (i, v) :: s.overrun }

/-- The function `isempty` (app_stack.c:48-53). -/
def Stack.isempty (s : Stack) : Bool :=
  if s.top = -1 then true else false

/-- The function `isfull` (app_stack.c:55-60). -/
def Stack.isfull (s : Stack) : Bool :=
  if s.top = STACK_MAXSIZE then true else false

/-- The function `peek` (app_stack.c:16-21). -/
def Stack.peek (s : Stack) : Int :=
  if !s.isempty then s.load s.top else -1

/-- The function `pop` (app_stack.c:23-33): the returned value and the new stack. -/
def Stack.pop (s : Stack) : Int × Stack :=
  if !s.isempty then (s.load s.top, { s with top := s.top - 1 })
  else (-1, s)

/-- The function `push` (app_stack.c:35-42). -/
def Stack.push (s : Stack) (data : Int) : Stack :=
  if !s.isfull then
    let s1 := { s with top := s.top + 1 }
    s1.store s1.top data
  else s

/-- The function `clear` (app_stack.c:44-46). -/
def Stack.clear (s : Stack) : Stack := { s with top := -1 }

/-- The entries held by the stack, bottom first: `stack[0..top]`. -/
def Stack.entries (s : Stack) : List Int :=
  (List.range (s.top + 1).toNat).map (fun i : Nat => s.load (i : Int))

/-- The stack as the program starts: zeroed storage, `top = -1`. -/
def Stack.init : Stack :=
  { stack := List.replicate 20 0, top := -1, overrun := [] }

/-! ## Configuration (`app_config.h`, `app_config.c`) -/

/-- The arithmetic of the C type `float` used by the program. -/
structure FloatOps (F : Type) where
  ofInt : Int → F
  add : F → F → F
  sub : F → F → F
  mul : F → F → F
  div : F → F → F
  fabs : F → F
  le : F → F → Bool
  lt : F → F → Bool

/-- The byte representation of the C type `float` (four bytes, native order). -/
structure FloatCodec (F : Type) where
  to_bytes : F → List Int
  of_bytes : List Int → F

/-- Exact rational arithmetic in place of `float`. -/
def exact_arith : FloatOps ℚ where
  ofInt := fun n => (n : ℚ)
  add := fun a b => a + b
  sub := fun a b => a - b
  mul := fun a b => a * b
  div := fun a b => a / b
  fabs := fun a => |a|
  le := fun a b => decide (a ≤ b)
  lt := fun a b => decide (a < b)

/-- The compile-time configuration of one board. `NUM_OF_BOARDS` is the size of
`graph`, `baton_path.length` is `LENGTH_OF_BATON_PATH`; the entries of
`baton_path` are `int8_t` values. -/
structure Config (F : Type) where
  BOARD_ID : Nat
  NUM_OF_BOARDS : Nat
  graph : List (List Bool)
  baton_path : List Int
  STOP_THRESHOLD : F
  simulated_temperatures : List F

/-- The constant `LENGTH_OF_BATON_PATH`. -/
def Config.LENGTH_OF_BATON_PATH {F : Type} (cfg : Config F) : Nat := cfg.baton_path.length

/-- The entry `graph[i][j]`. -/
def Config.graph_at {F : Type} (cfg : Config F) (i j : Nat) : Bool :=
  (cfg.graph.getD i []).getD j false

/-- The constant `RESTART_TIMEOUT_MILISECS` (app_tools.h:15). -/
def Config.RESTART_TIMEOUT_MILISECS {F : Type} (cfg : Config F) : Int :=
  ((cfg.LENGTH_OF_BATON_PATH : Int) - 1) * MAX_DELAY_PER_BATON_STEP_MILISECS

/-- The topology of app_config.c:8-14. -/
def shipped_graph : List (List Bool) :=
  [[true,  true,  false, false, false, true],
   [true,  true,  true,  false, false, true],
   [false, true,  true,  true,  false, false],
   [false, false, true,  true,  false, false],
   [false, false, false, false, true,  true],
   [true,  true,  false, false, true,  true]]

/-- The tour of app_config.c:24. -/
def shipped_baton_path : List Int := [3, 2, 1, 0, 5, 4, 5, 1, 2]

/-- The configuration of the repository for board `id`, over the rationals. -/
def shipped_config (id : Nat) : Config ℚ where
  BOARD_ID := id
  NUM_OF_BOARDS := 6
  graph := shipped_graph
  baton_path := shipped_baton_path
  STOP_THRESHOLD := 1 / 10
  simulated_temperatures := [10, 20, 30, 20, 15, 25]

/-! ## Topology and schedule -/

/-- The cyclic predecessor of position `k` in a tour of length `L`. -/
def cyc_pred (L k : Nat) : Nat := if k = 0 then L - 1 else k - 1

/-- The cyclic successor of position `k` in a tour of length `L`. -/
def cyc_succ (L k : Nat) : Nat := if k + 1 = L then 0 else k + 1

/-- Rule R3 of the tour (RULE 4 of app_config.h): no two cyclic occurrences of a
board have the same predecessor and different successors. -/
def rule_R3 (path : List Int) : Prop :=
  ∀ i, i < path.length → ∀ j, j < path.length →
    path.getD i 0 = path.getD j 0 →
    path.getD (cyc_pred path.length i) 0 = path.getD (cyc_pred path.length j) 0 →
    path.getD (cyc_succ path.length i) 0 = path.getD (cyc_succ path.length j) 0

instance (path : List Int) : Decidable (rule_R3 path) := by
  unfold rule_R3; infer_instance

/-- The board `self` has a cyclic occurrence in the tour whose predecessor is `src`. -/
def valid_predecessor (path : List Int) (self src : Int) : Prop :=
  ∃ k, k < path.length ∧ path.getD k 0 = self ∧ path.getD (cyc_pred path.length k) 0 = src

instance (path : List Int) (self src : Int) : Decidable (valid_predecessor path self src) := by
  unfold valid_predecessor; infer_instance

/-- The computation of `dst_of_baton` in `handle_rx_packet_payload`
(app_process.c:354-366), for the tour `path`, the board `self` (`BOARD_ID`) and
the sender `src` (`rx_buffer[MSGIDX_SRC_BOARD]`). The `for` loop with its `break`
finds the first index `i` in `1..L-2` that matches. -/
def next_hop (path : List Int) (self src : Int) : Int :=
  let L := path.length
  if path.getD (L - 1) 0 = src ∧ path.getD 0 0 = self then
    path.getD 1 0
  else if path.getD (L - 2) 0 = src ∧ path.getD (L - 1) 0 = self then
    path.getD 0 0
  else
    match (List.range' 1 (L - 2)).find?
        (fun i => decide (path.getD i 0 = self) && decide (path.getD (i - 1) 0 = src)) with
    | some i => path.getD (i + 1) 0
    | none => -1

/-! ## The state of one board -/

/-- A call to a collaborator outside the protocol engine (radio, timer). -/
inductive Action
  | send_packet (payload : List Int) (destination : Int)
  | start_receiving (channel : Int)
  | set_timer (microsecs : Int)
  | cancel_timer
  deriving DecidableEq, Repr

/-- The global and static variables of the protocol engine, with the state of
the watchdog timer `tmr0` and the calls made to the collaborators so far. -/
structure Board (F : Type) where
  /- app_process.c -/
  state : Int
  current_task : task_t
  tx_operation_to_achieve : tx_operation_t
  num_of_pending_msgs_for_tx : Int
  batons_per_cycle : Int
  boards_completed_their_task : Int
  consensus_is_over : Bool
  /- app_process.h -/
  calibration_status : Int
  error_code : Int
  packet_received : Bool
  packet_sent : Bool
  rx_error : Bool
  tx_error : Bool
  cal_error : Bool
  starting_board : Int
  baton : Bool
  dst_of_baton : Int
  baton_cntr : Int
  /- app_tools.h, app_tools.c -/
  average_command : Bool
  restart_command : Bool
  restart_id : Int
  temperature : F
  ready_to_sleep : Bool
  /- app_stack.c -/
  stk : Stack
  /- app_consensus.h, app_consensus.c -/
  weights : List F
  consensus_iters : Int
  consensus_states : List F
  /- app_network.h -/
  tx_packet : List Int
  /- collaborators -/
  tmr0_running : Bool
  trace : List Action
  /- stores `consensus_states[i] = v` with `i` outside the array, most recent first -/
  consensus_overrun : List (Nat × F)
  deriving DecidableEq, Repr

variable {F : Type}

/-! ## Tools (`app_tools.c`) -/

/-- The function `app_is_ok_to_sleep` (app_tools.c:23-25). -/
def app_is_ok_to_sleep (b : Board F) : Bool := b.ready_to_sleep

/-- The function `sleep` (app_tools.c:30-32). -/
def sleep (b : Board F) : Board F := { b with ready_to_sleep := true }

/-- The function `wake_up` (app_tools.c:37-41). -/
def wake_up (b : Board F) : Board F := { b with ready_to_sleep := false }

/-- The call `RAIL_CancelMultiTimer(&tmr0)`. -/
def cancel_timer (b : Board F) : Board F :=
  { b with tmr0_running := false, trace := b.trace ++ [Action.cancel_timer] }

/-! ## Message handling (`app_process.c`) -/

/-- The statement `consensus_states[i] = v;` of `handle_rx_packet_payload`
(app_process.c:349), whose index is the sender byte of the received frame and
is not checked. The array is the list `consensus_states` (`NUM_OF_BOARDS`
entries in every state reached from `power_on`); a store with `i` outside it
does not fit the array and is recorded in `consensus_overrun`. -/
def set_consensus_state (b : Board F) (i : Nat) (v : F) : Board F :=
  if i < b.consensus_states.length then
    { b with consensus_states := b.consensus_states.set i v }
  else { b with consensus_overrun := (i, v) :: b.consensus_overrun }

/-- The function `handle_rx_packet_payload` (app_process.c:330-381). -/
def handle_rx_packet_payload (cfg : Config F) (cd : FloatCodec F) (rx_buffer : List Int)
    (b : Board F) : Board F :=
  let rx := fun i => rx_buffer.getD i 0
  match message_t.ofInt (rx MSGIDX_TYPE) with
  | some .MSG_RESTART =>
    if rx MSGIDX_RESTART_ID > b.restart_id then
      let b := wake_up b
      { b with restart_command := true, restart_id := rx MSGIDX_RESTART_ID }
    else b
  | some .MSG_START_TASK =>
    let b := wake_up b
    if rx MSGIDX_TASK ≠ b.current_task.toInt ∧ rx MSGIDX_TASK = task_t.T_CONSENSUS.toInt then
      { b with average_command := true }
    else b
  | some .MSG_CONSENSUS_STATE =>
    if app_is_ok_to_sleep b then b
    else
      let num := cd.of_bytes [rx 3, rx 4, rx 5, rx 6]
      set_consensus_state b (rx MSGIDX_SRC_BOARD).toNat num
  | some .MSG_BATON =>
    if app_is_ok_to_sleep b then b
    else
      let b := { b with dst_of_baton := next_hop cfg.baton_path (cfg.BOARD_ID : Int) (rx MSGIDX_SRC_BOARD) }
      if b.dst_of_baton < 0 then b
      else
        let b := if b.starting_board = (cfg.BOARD_ID : Int) then cancel_timer b else b
        let b := { b with baton := true,
                          baton_cntr := b.baton_cntr + 1,
                          boards_completed_their_task := to_int8 (rx MSGIDX_BOARDS_OVER) }
        if b.boards_completed_their_task ≥ (cfg.NUM_OF_BOARDS : Int) ∧ b.starting_board = (cfg.BOARD_ID : Int)
            ∧ c_mod (b.baton_cntr - 1) b.batons_per_cycle = 0 then
          { b with boards_completed_their_task := SEND_SYSTEM_TO_SLEEP }
        else b
  | none => b

/-! ## Consensus engine (`app_consensus.c`) -/

/-- The value `deg[i]` computed by the inner loop of `initialize_weights`
(app_consensus.c:21-26). -/
def degree (cfg : Config F) (i : Nat) : Int :=
  (List.range cfg.NUM_OF_BOARDS).foldl
    (fun d j => if cfg.graph_at i j && i != j then d + 1 else d) 0

/-- The value `gr_deg` computed by the outer loop of `initialize_weights`
(app_consensus.c:19-29). -/
def graph_degree (cfg : Config F) : Int :=
  (List.range cfg.NUM_OF_BOARDS).foldl
    (fun gr i => if degree cfg i > gr then degree cfg i else gr) 0

/-- The function `initialize_weights` (app_consensus.c:18-40): the array
`weights` it leaves. -/
def initialize_weights (fl : FloatOps F) (cfg : Config F) : List F :=
  (List.range cfg.NUM_OF_BOARDS).map (fun j =>
    if !cfg.graph_at cfg.BOARD_ID j then fl.ofInt 0
    else if j = cfg.BOARD_ID then
      fl.sub (fl.ofInt 1)
        (fl.div (fl.ofInt (degree cfg cfg.BOARD_ID))
          (fl.mul (fl.ofInt 1) (fl.ofInt (graph_degree cfg + 1))))
    else fl.div (fl.ofInt 1) (fl.ofInt (graph_degree cfg + 1)))

/-- The function `initialize_consensus_setup` (app_consensus.c:45-57). -/
def initialize_consensus_setup (fl : FloatOps F) (cfg : Config F) (b : Board F) : Board F :=
  if fl.lt b.temperature (fl.ofInt MIN_TEMPERATURE) then b
  else
    { b with weights := initialize_weights fl cfg,
             consensus_iters := 0,
             consensus_states := b.consensus_states.set cfg.BOARD_ID b.temperature }

/-- The function `update_consensus_state` (app_consensus.c:62-68). -/
def update_consensus_state (fl : FloatOps F) (cfg : Config F) (b : Board F) : Board F :=
  let next_state := (List.range cfg.NUM_OF_BOARDS).foldl
    (fun acc i => fl.add acc
      (fl.mul (b.weights.getD i (fl.ofInt 0)) (b.consensus_states.getD i (fl.ofInt 0))))
    (fl.ofInt 0)
  { b with consensus_states := b.consensus_states.set cfg.BOARD_ID next_state,
           consensus_iters := to_uint8 (b.consensus_iters + 1) }

/-- The matrix of the weight rows: entry `(i, j)` is `weights[j]` as computed by
board `i` on the common topology, in exact arithmetic. -/
def weight_matrix (cfg : Config ℚ) (i j : Nat) : ℚ :=
  (initialize_weights exact_arith { cfg with BOARD_ID := i }).getD j 0

/-! ## Collaborator calls and initialisation -/

/-- The stack function `push` on the board. -/
def Board.push (b : Board F) (data : Int) : Board F := { b with stk := b.stk.push data }

/-- The stack function `clear` on the board. -/
def Board.clear (b : Board F) : Board F := { b with stk := b.stk.clear }

/-- The statement `state = pop();`. -/
def Board.pop_state (b : Board F) : Board F :=
  { b with state := b.stk.pop.1, stk := b.stk.pop.2 }

/-- The entry `graph[i][j]` for `int` indices; a read outside the array gives `false`. -/
def Config.graph_at_int (cfg : Config F) (i j : Int) : Bool :=
  if 0 ≤ i ∧ 0 ≤ j then cfg.graph_at i.toNat j.toNat else false

/-- The entry `baton_path[i]` for an `int` index; a read outside the array gives `0`. -/
def Config.baton_path_at (cfg : Config F) (i : Int) : Int :=
  if 0 ≤ i then cfg.baton_path.getD i.toNat 0 else 0

/-- The function `send_packet` (app_network.c:78-91): the content of `tx_packet`
is handed to the radio for transmission on channel `destination`. -/
def send_packet (b : Board F) (destination : Int) : Board F :=
  { b with trace := b.trace ++ [Action.send_packet b.tx_packet destination] }

/-- The function `start_receiving` (app_network.c:96-100). -/
def start_receiving (cfg : Config F) (b : Board F) : Board F :=
  { b with trace := b.trace ++ [Action.start_receiving cfg.BOARD_ID] }

/-- The call `RAIL_SetMultiTimer(&tmr0, RESTART_TIMEOUT_MILISECS*1000, ...)`
(app_process.c:287). -/
def set_timer (cfg : Config F) (b : Board F) : Board F :=
  { b with tmr0_running := true,
           trace := b.trace ++ [Action.set_timer (cfg.RESTART_TIMEOUT_MILISECS * 1000)] }

/-- The function `initialize_tools` (app_tools.c:90-96). -/
def initialize_tools (fl : FloatOps F) (b : Board F) : Board F :=
  { b with temperature := fl.ofInt (MIN_TEMPERATURE - 1),
           average_command := false,
           restart_command := false,
           restart_id := 0 }

/-- The function `measure_temperature` (app_tools.c:52-62), with
`SIMULATE_TEMPERATURE_MEASUREMENTS` set to 1 as in app_config.h. -/
def measure_temperature (fl : FloatOps F) (cfg : Config F) (b : Board F) : Board F :=
  { b with temperature := cfg.simulated_temperatures.getD cfg.BOARD_ID (fl.ofInt 0) }

/-- The value of `batons_per_cycle` after the loop of `initialize_app`
(app_process.c:466-471), which starts from `batons_per_cycle = 0`. -/
def count_occurrences (cfg : Config F) : Int :=
  (List.range cfg.LENGTH_OF_BATON_PATH).foldl
    (fun n i => if cfg.baton_path.getD i 0 = (cfg.BOARD_ID : Int) then n + 1 else n) 0

/-- The function `initialize_app` (app_process.c:447-478). -/
def initialize_app (fl : FloatOps F) (cfg : Config F) (b : Board F) : Board F :=
  let b := start_receiving cfg b
  let b := initialize_tools fl b
  let b := b.clear
  let b := cancel_timer b
  { b with calibration_status := 0,
           error_code := 0,
           packet_received := false,
           packet_sent := false,
           rx_error := false,
           tx_error := false,
           cal_error := false,
           baton := false,
           batons_per_cycle := count_occurrences cfg,
           baton_cntr := 0,
           current_task := task_t.T_NONE,
           boards_completed_their_task := 0,
           consensus_is_over := false,
           starting_board := -1 }

/-! ## Transmission (`app_process.c`) -/

/-- The statement `tx_packet[i] = v;` on the `uint8_t` array `tx_packet`. -/
def set_tx_packet (b : Board F) (i : Nat) (v : Int) : Board F :=
  { b with tx_packet := b.tx_packet.set i (to_uint8 v) }

/-- The function `packet_transmission` (app_process.c:387-442): the returned
flag and the new board. -/
def packet_transmission (cfg : Config F) (cd : FloatCodec F) (oper : tx_operation_t)
    (b : Board F) : Bool × Board F :=
  match oper with
  | .O_GLB_RESTART =>
    let send_addr : Int := (cfg.NUM_OF_BOARDS : Int) - b.num_of_pending_msgs_for_tx
    let b := set_tx_packet b MSGIDX_TYPE message_t.MSG_RESTART.toInt
    let b := set_tx_packet b MSGIDX_SRC_BOARD cfg.BOARD_ID
    let b := set_tx_packet b MSGIDX_DST_BOARD send_addr
    let b := set_tx_packet b MSGIDX_RESTART_ID b.restart_id
    if send_addr ≠ (cfg.BOARD_ID : Int) ∧ cfg.graph_at_int cfg.BOARD_ID send_addr then
      (true, send_packet b (b.tx_packet.getD MSGIDX_DST_BOARD 0))
    else (false, b)
  | .O_GLB_START_TASK =>
    let send_addr : Int := (cfg.NUM_OF_BOARDS : Int) - b.num_of_pending_msgs_for_tx
    let b := set_tx_packet b MSGIDX_TYPE message_t.MSG_START_TASK.toInt
    let b := set_tx_packet b MSGIDX_SRC_BOARD cfg.BOARD_ID
    let b := set_tx_packet b MSGIDX_DST_BOARD send_addr
    let b := set_tx_packet b MSGIDX_TASK b.current_task.toInt
    if send_addr ≠ (cfg.BOARD_ID : Int) ∧ cfg.graph_at_int cfg.BOARD_ID send_addr then
      (true, send_packet b (b.tx_packet.getD MSGIDX_DST_BOARD 0))
    else (false, b)
  | .O_GLB_SEND_STATE =>
    let send_addr : Int := (cfg.NUM_OF_BOARDS : Int) - b.num_of_pending_msgs_for_tx
    let b := set_tx_packet b MSGIDX_TYPE message_t.MSG_CONSENSUS_STATE.toInt
    let b := set_tx_packet b MSGIDX_SRC_BOARD cfg.BOARD_ID
    let b := set_tx_packet b MSGIDX_DST_BOARD send_addr
    let conv : List Int :=
      match b.consensus_states.get? cfg.BOARD_ID with
      | some x => cd.to_bytes x
      | none => [0, 0, 0, 0]
    let b := set_tx_packet b 3 (conv.getD 0 0)
    let b := set_tx_packet b 4 (conv.getD 1 0)
    let b := set_tx_packet b 5 (conv.getD 2 0)
    let b := set_tx_packet b 6 (conv.getD 3 0)
    if send_addr ≠ (cfg.BOARD_ID : Int) ∧ cfg.graph_at_int cfg.BOARD_ID send_addr then
      (true, send_packet b (b.tx_packet.getD MSGIDX_DST_BOARD 0))
    else (false, b)
  | .O_GIVE_BATON =>
    let b := set_tx_packet b MSGIDX_TYPE message_t.MSG_BATON.toInt
    let b := set_tx_packet b MSGIDX_SRC_BOARD cfg.BOARD_ID
    let b := set_tx_packet b MSGIDX_DST_BOARD b.dst_of_baton
    let b := set_tx_packet b MSGIDX_BOARDS_OVER b.boards_completed_their_task
    (true, send_packet b (b.tx_packet.getD MSGIDX_DST_BOARD 0))

/-- The function `handle_received_packet` (app_network.c:122-150) on the frames
`rx_queue` held by the radio, oldest first. Every frame of `TX_PAYLOAD_LENGTH`
bytes is released and, when byte 2 is `BOARD_ID`, dispatched. The radio is
configured for payloads of that length; a frame of another length is skipped
here. -/
def handle_received_packet (cfg : Config F) (cd : FloatCodec F) (rx_queue : List (List Int))
    (b : Board F) : Board F :=
  rx_queue.foldl
    (fun b start_of_packet =>
      if start_of_packet.length ≠ TX_PAYLOAD_LENGTH then b
      else if start_of_packet.getD 2 0 = (cfg.BOARD_ID : Int) then
        handle_rx_packet_payload cfg cd start_of_packet b
      else b)
    b

/-! ## The state machine (`app_process.c`) -/

/-- The function `handle_app_events` (app_process.c:153-214). -/
def handle_app_events (fl : FloatOps F) (cfg : Config F) (b : Board F) : Board F :=
  if b.packet_received then
    let b := { b with packet_received := false }
    let b := b.push b.state
    { b with state := state_t.S_PACKET_RECEIVED.toInt }
  else if b.packet_sent then
    { b with packet_sent := false, state := state_t.S_PACKET_SENT.toInt }
  else if b.rx_error then
    { b with rx_error := false, state := state_t.S_RX_PACKET_ERROR.toInt }
  else if b.tx_error then
    { b with tx_error := false, state := state_t.S_TX_PACKET_ERROR.toInt }
  else if b.cal_error then
    { b with cal_error := false, state := state_t.S_CALIBRATION_ERROR.toInt }
  else if b.baton ∧ b.boards_completed_their_task = SEND_SYSTEM_TO_SLEEP
      ∧ c_mod b.baton_cntr b.batons_per_cycle = 0 then
    let b := b.clear
    let b := { b with temperature := fl.ofInt (MIN_TEMPERATURE - 1),
                      current_task := task_t.T_NONE,
                      baton_cntr := 0,
                      consensus_is_over := false }
    let b := b.push state_t.S_INIT_AND_SLEEP.toInt
    { b with tx_operation_to_achieve := tx_operation_t.O_GIVE_BATON,
             state := state_t.S_PACKET_TX.toInt }
  else if b.restart_command ∧ b.baton then
    let hold_dst_of_baton := b.dst_of_baton
    let hold_start_brd := b.starting_board
    let hold_restart_id := b.restart_id
    let b := initialize_app fl cfg b
    let b := { b with starting_board := hold_start_brd,
                      dst_of_baton := hold_dst_of_baton,
                      baton_cntr := 1,
                      baton := true,
                      restart_id := hold_restart_id,
                      num_of_pending_msgs_for_tx := (cfg.NUM_OF_BOARDS : Int),
                      state := state_t.S_PACKET_TX.toInt,
                      tx_operation_to_achieve := tx_operation_t.O_GLB_RESTART }
    b.push state_t.S_RESTART_COMPLETED.toInt
  else if b.baton ∧ c_mod (b.baton_cntr - 1) b.batons_per_cycle ≠ 0 then
    let b := b.push b.state
    { b with tx_operation_to_achieve := tx_operation_t.O_GIVE_BATON,
             state := state_t.S_PACKET_TX.toInt }
  else if b.average_command ∧ b.baton then
    let b := { b with average_command := false,
                      num_of_pending_msgs_for_tx := (cfg.NUM_OF_BOARDS : Int),
                      current_task := task_t.T_CONSENSUS,
                      state := state_t.S_PACKET_TX.toInt,
                      tx_operation_to_achieve := tx_operation_t.O_GLB_START_TASK }
    b.push state_t.S_START_AVG_CONSENSUS.toInt
  else b

/-- None of the five transport signals is pending. -/
def no_transport_signal (b : Board F) : Prop :=
  b.packet_received = false ∧ b.packet_sent = false ∧ b.rx_error = false
    ∧ b.tx_error = false ∧ b.cal_error = false

/-- The guard of rule 6 of `handle_app_events` (app_process.c:170). -/
def sleep_rule_applies (b : Board F) : Prop :=
  b.baton ∧ b.boards_completed_their_task = SEND_SYSTEM_TO_SLEEP
    ∧ c_mod b.baton_cntr b.batons_per_cycle = 0

/-- The guard of rule 7 of `handle_app_events` (app_process.c:182). -/
def restart_rule_applies (b : Board F) : Prop :=
  b.restart_command ∧ b.baton

/-- The guard of rule 8 of `handle_app_events` (app_process.c:201). -/
def bypass_rule_applies (b : Board F) : Prop :=
  b.baton ∧ c_mod (b.baton_cntr - 1) b.batons_per_cycle ≠ 0

/-- The guard of rule 9 of `handle_app_events` (app_process.c:205). -/
def average_rule_applies (b : Board F) : Prop :=
  b.average_command ∧ b.baton

instance (b : Board F) : Decidable (no_transport_signal b) := by
  unfold no_transport_signal; infer_instance

instance (b : Board F) : Decidable (sleep_rule_applies b) := by
  unfold sleep_rule_applies; infer_instance

instance (b : Board F) : Decidable (restart_rule_applies b) := by
  unfold restart_rule_applies; infer_instance

instance (b : Board F) : Decidable (bypass_rule_applies b) := by
  unfold bypass_rule_applies; infer_instance

instance (b : Board F) : Decidable (average_rule_applies b) := by
  unfold average_rule_applies; infer_instance

/-- The convergence bookkeeping of the state `S_UPDATE_AVG_CONSENSUS_STATE`
(app_process.c:254-263), for the own state `prev_state` before the update. -/
def update_completion_tally (fl : FloatOps F) (cfg : Config F) (prev_state : F)
    (b : Board F) : Board F :=
  let cur := b.consensus_states.getD cfg.BOARD_ID (fl.ofInt 0)
  if fl.le (fl.fabs (fl.sub prev_state cur)) cfg.STOP_THRESHOLD ∧ ¬ b.consensus_is_over then
    { b with consensus_is_over := true,
             boards_completed_their_task := to_int8 (b.boards_completed_their_task + 1) }
  else if fl.lt cfg.STOP_THRESHOLD (fl.fabs (fl.sub prev_state cur)) ∧ b.consensus_is_over
      ∧ b.boards_completed_their_task ≠ SEND_SYSTEM_TO_SLEEP then
    { b with consensus_is_over := false,
             boards_completed_their_task := to_int8 (b.boards_completed_their_task - 1) }
  else b

/-- The post-transmission part of the state `S_PACKET_TX` (app_process.c:275-296),
for the flag `msg_sent` returned by `packet_transmission`. -/
def after_transmission (cfg : Config F) (msg_sent : Bool) (b : Board F) : Board F :=
  let b :=
    match b.tx_operation_to_achieve with
    | .O_GIVE_BATON =>
      let b := { b with baton := false }
      let b := if b.starting_board = (cfg.BOARD_ID : Int) then set_timer cfg b else b
      { b with boards_completed_their_task := 0 }
    | _ =>
      let b := { b with num_of_pending_msgs_for_tx := b.num_of_pending_msgs_for_tx - 1 }
      let b := b.push state_t.S_PACKET_TX.toInt
      if b.num_of_pending_msgs_for_tx = 0 then
        { b with tx_operation_to_achieve := tx_operation_t.O_GIVE_BATON }
      else b
  if msg_sent then { b with state := state_t.S_IDLE.toInt }
  else b.pop_state

/-- The function `execute_app_state` (app_process.c:219-325); `rx_queue` holds
the frames that the radio delivers to `handle_received_packet`. -/
def execute_app_state (fl : FloatOps F) (cd : FloatCodec F) (cfg : Config F)
    (rx_queue : List (List Int)) (b : Board F) : Board F :=
  match state_t.ofInt b.state with
  | some .S_RESTART_COMPLETED =>
    let b := if b.starting_board = (cfg.BOARD_ID : Int) then { b with average_command := true }
             else b
    { b with state := state_t.S_IDLE.toInt }
  | some .S_START_AVG_CONSENSUS =>
    if b.baton then
      let b := measure_temperature fl cfg b
      let b := initialize_consensus_setup fl cfg b
      { b with state := state_t.S_SEND_AVG_CONSENSUS_MSGS.toInt }
    else b
  | some .S_SEND_AVG_CONSENSUS_MSGS =>
    if b.baton then
      let b := b.push state_t.S_UPDATE_AVG_CONSENSUS_STATE.toInt
      { b with num_of_pending_msgs_for_tx := (cfg.NUM_OF_BOARDS : Int),
               state := state_t.S_PACKET_TX.toInt,
               tx_operation_to_achieve := tx_operation_t.O_GLB_SEND_STATE }
    else b
  | some .S_UPDATE_AVG_CONSENSUS_STATE =>
    if b.baton then
      let prev_state := b.consensus_states.getD cfg.BOARD_ID (fl.ofInt 0)
      let b := update_consensus_state fl cfg b
      let b := b.push state_t.S_SEND_AVG_CONSENSUS_MSGS.toInt
      let b := { b with state := state_t.S_PACKET_TX.toInt,
                        tx_operation_to_achieve := tx_operation_t.O_GIVE_BATON }
      update_completion_tally fl cfg prev_state b
    else b
  | some .S_INIT_AND_SLEEP =>
    let b := initialize_app fl cfg b
    let b := { b with state := state_t.S_IDLE.toInt }
    sleep b
  | some .S_PACKET_TX =>
    let r := packet_transmission cfg cd b.tx_operation_to_achieve b
    after_transmission cfg r.1 r.2
  | some .S_PACKET_RECEIVED =>
    let b := handle_received_packet cfg cd rx_queue b
    b.pop_state
  | some .S_PACKET_SENT =>
    let b := start_receiving cfg b
    b.pop_state
  | some .S_RX_PACKET_ERROR => { b with state := state_t.S_IDLE.toInt }
  | some .S_TX_PACKET_ERROR => { b with state := state_t.S_IDLE.toInt }
  | some .S_CALIBRATION_ERROR => { b with state := state_t.S_IDLE.toInt }
  | some .S_IDLE => b
  | none => { b with state := state_t.S_IDLE.toInt }

/-- The function `app_process_action` (app_process.c:145-148): one scheduler tick. -/
def app_process_action (fl : FloatOps F) (cd : FloatCodec F) (cfg : Config F)
    (rx_queue : List (List Int)) (b : Board F) : Board F :=
  execute_app_state fl cd cfg rx_queue (handle_app_events fl cfg b)

/-! ## Asynchronous entry points -/

/-- The bits of a RAIL event mask that `sl_rail_util_on_event` tests, with the
result of `RAIL_Calibrate` when it is called. -/
structure RailEvents where
  events : Int
  rx_completion : Bool
  rx_packet_received : Bool
  tx_completion : Bool
  tx_packet_sent : Bool
  cal_needed : Bool
  calibrate_result : Int
  deriving DecidableEq, Repr

/-- The function `sl_rail_util_on_event` (app_network.c:155-179);
`RAIL_STATUS_NO_ERROR` is 0. -/
def sl_rail_util_on_event (ev : RailEvents) (b : Board F) : Board F :=
  let b := { b with error_code := ev.events }
  let b :=
    if ev.rx_completion then
      if ev.rx_packet_received then { b with packet_received := true }
      else { b with rx_error := true }
    else b
  let b :=
    if ev.tx_completion then
      if ev.tx_packet_sent then { b with packet_sent := true }
      else { b with tx_error := true }
    else b
  if ev.cal_needed then
    let b := { b with calibration_status := ev.calibrate_result }
    if b.calibration_status ≠ 0 then { b with cal_error := true } else b
  else b

/-- The computation of `dst_of_baton` shared by `enable_alarm` (app_tools.c:71-79)
and `cli_avg_consensus` (app_cli.c:44-52): the tour entry after the first
occurrence of `BOARD_ID`. -/
def set_dst_after_first_occurrence (cfg : Config F) (b : Board F) : Board F :=
  let b :=
    match (List.range cfg.LENGTH_OF_BATON_PATH).find?
        (fun i => decide (cfg.baton_path.getD i 0 = (cfg.BOARD_ID : Int))) with
    | some i => { b with dst_of_baton := to_int8 ((i : Int) + 1) }
    | none => b
  let b := if b.dst_of_baton = (cfg.LENGTH_OF_BATON_PATH : Int) then { b with dst_of_baton := 0 }
           else b
  { b with dst_of_baton := cfg.baton_path_at b.dst_of_baton }

/-- The function `enable_alarm` (app_tools.c:67-84) called for the timer `tmr0`. -/
def enable_alarm (cfg : Config F) (b : Board F) : Board F :=
  let b := { b with baton := true }
  let b := set_dst_after_first_occurrence cfg b
  { b with restart_command := true, restart_id := b.restart_id + 1 }

/-- The function `cli_avg_consensus` (app_cli.c:32-55). -/
def cli_avg_consensus (cfg : Config F) (b : Board F) : Board F :=
  if !app_is_ok_to_sleep b then b
  else
    let b := wake_up b
    let b := { b with average_command := true,
                      starting_board := (cfg.BOARD_ID : Int),
                      baton := true,
                      baton_cntr := 1 }
    set_dst_after_first_occurrence cfg b

/-- What can happen to a board: a scheduler tick (with the frames the radio
holds), a radio event, the expiry of the watchdog `tmr0`, the CLI command. -/
inductive Input
  | tick (rx_queue : List (List Int))
  | rail_event (ev : RailEvents)
  | alarm
  | cli_average
  deriving DecidableEq, Repr

/-- The effect of one input. The single-shot timer `tmr0` expires only while it
runs, and no longer runs afterwards. -/
def step (fl : FloatOps F) (cd : FloatCodec F) (cfg : Config F) (b : Board F) :
    Input → Board F
  | .tick rx_queue => app_process_action fl cd cfg rx_queue b
  | .rail_event ev => sl_rail_util_on_event ev b
  | .alarm => if b.tmr0_running then enable_alarm cfg { b with tmr0_running := false } else b
  | .cli_average => cli_avg_consensus cfg b

/-- The board after a sequence of inputs. -/
def run (fl : FloatOps F) (cd : FloatCodec F) (cfg : Config F) (b : Board F)
    (inputs : List Input) : Board F :=
  inputs.foldl (step fl cd cfg) b

/-- The part of the board that does not record where the token goes next:
`dst_of_baton`, the bytes of `tx_packet` and the collaborator trace are blanked. -/
def Board.control (b : Board F) : Board F :=
  { b with dst_of_baton := 0, tx_packet := [], trace := [] }

/-! ## Concrete values for evaluating the model -/

/-- A byte representation for the rationals, used where the model is evaluated
at a concrete board: the integer part of the value modulo `2^32`, least
significant byte first. The theorems are stated for every codec. -/
def int_part_codec : FloatCodec ℚ where
  to_bytes := fun x =>
    [⌊x⌋ % 256, ⌊x⌋ / 256 % 256, ⌊x⌋ / 65536 % 256, ⌊x⌋ / 16777216 % 256]
  of_bytes := fun l =>
    ((l.getD 0 0 + 256 * l.getD 1 0 + 65536 * l.getD 2 0 + 16777216 * l.getD 3 0 : Int) : ℚ)

/-- The variables as the C program starts, before `app_init`: statics and
globals are zero, except `state` (`S_INIT_AND_SLEEP`) and the stack's `top`. -/
def power_on (fl : FloatOps F) (cfg : Config F) : Board F where
  state := state_t.S_INIT_AND_SLEEP.toInt
  current_task := task_t.T_NONE
  tx_operation_to_achieve := tx_operation_t.O_GLB_RESTART
  num_of_pending_msgs_for_tx := 0
  batons_per_cycle := 0
  boards_completed_their_task := 0
  consensus_is_over := false
  calibration_status := 0
  error_code := 0
  packet_received := false
  packet_sent := false
  rx_error := false
  tx_error := false
  cal_error := false
  starting_board := 0
  baton := false
  dst_of_baton := 0
  baton_cntr := 0
  average_command := false
  restart_command := false
  restart_id := 0
  temperature := fl.ofInt 0
  ready_to_sleep := false
  stk := Stack.init
  weights := List.replicate cfg.NUM_OF_BOARDS (fl.ofInt 0)
  consensus_iters := 0
  consensus_states := List.replicate cfg.NUM_OF_BOARDS (fl.ofInt 0)
  tx_packet := List.replicate TX_PAYLOAD_LENGTH 0
  tmr0_running := false
  trace := []
  consensus_overrun := []

/-- A 16-byte frame with the given type, source, destination and byte 3. -/
def frame_of (type src dst byte3 : Int) : List Int :=
  [type, src, dst, byte3, 0, 0, 0, 0, 0, 0, 0, 0, 0, 0, 0, 0]


/-! ## Synchronous consensus rounds -/

/-- The board `i` as it runs `update_consensus_state` in a synchronous round on
the state vector `x`: its weights are those of `initialize_weights` and its
`consensus_states` hold `x`. -/
def board_in_round (cfg : Config ℚ) (i : Nat) (x : List ℚ) : Board ℚ :=
  { power_on exact_arith { cfg with BOARD_ID := i } with
    weights := initialize_weights exact_arith { cfg with BOARD_ID := i },
    consensus_states := x }

/-- One synchronous consensus round: entry `i` is the value that
`update_consensus_state` writes to the own entry of board `i`. -/
def synchronous_round (cfg : Config ℚ) (x : List ℚ) : List ℚ :=
  (List.range cfg.NUM_OF_BOARDS).map (fun i =>
    (update_consensus_state exact_arith { cfg with BOARD_ID := i }
      (board_in_round cfg i x)).consensus_states.getD i 0)

/-- The state vector after `k` synchronous rounds. -/
def synchronous_rounds (cfg : Config ℚ) : Nat → List ℚ → List ℚ
  | 0, x => x
  | k + 1, x => synchronous_rounds cfg k (synchronous_round cfg x)

/-- The mean of a state vector over the `N` boards. -/
def network_mean (cfg : Config ℚ) (x : List ℚ) : ℚ := x.sum / (cfg.NUM_OF_BOARDS : ℚ)

/-! ## Frames and broadcasts -/

/-- The content of `tx_packet` once `packet_transmission` has filled it for the
operation `oper`. -/
def frame_built (cfg : Config F) (cd : FloatCodec F) (oper : tx_operation_t) (b : Board F) :
    List Int :=
  (packet_transmission cfg cd oper b).2.tx_packet

/-- The destination that `packet_transmission` computes for a broadcast:
`send_addr = NUM_OF_BOARDS - num_of_pending_msgs_for_tx`. -/
def send_addr (cfg : Config F) (b : Board F) : Int :=
  (cfg.NUM_OF_BOARDS : Int) - b.num_of_pending_msgs_for_tx

/-- The frames handed to the radio by the calls recorded in a trace, in order. -/
def frames_sent : List Action → List (List Int)
  | [] => []
  | Action.send_packet payload _ :: rest => payload :: frames_sent rest
  | _ :: rest => frames_sent rest

/-- The destination bytes (offset 2) of the frames handed to the radio. -/
def destinations_sent (trace : List Action) : List Int :=
  (frames_sent trace).map (fun frame => frame.getD MSGIDX_DST_BOARD 0)

/-- One execution of `execute_app_state` in the state `S_PACKET_TX`. -/
def transmit_once (fl : FloatOps F) (cd : FloatCodec F) (cfg : Config F) (b : Board F) :
    Board F :=
  execute_app_state fl cd cfg [] { b with state := state_t.S_PACKET_TX.toInt }

/-- The board after `k` executions of the state `S_PACKET_TX`. -/
def transmit_times (fl : FloatOps F) (cd : FloatCodec F) (cfg : Config F) :
    Nat → Board F → Board F
  | 0, b => b
  | k + 1, b => transmit_times fl cd cfg k (transmit_once fl cd cfg b)

/-- The boards `d < N` other than `BOARD_ID` that are adjacent to it in `graph`,
in ascending order. -/
def neighbours (cfg : Config F) : List Nat :=
  (List.range cfg.NUM_OF_BOARDS).filter
    (fun d => decide (d ≠ cfg.BOARD_ID) && cfg.graph_at cfg.BOARD_ID d)

/-! ## Floats as bit patterns -/

/-- The byte representation of a `float` given as its 32-bit pattern: the
four bytes of the pattern, least significant first (the memory order of the
little-endian target). `packet_transmission` copies these bytes into the frame
and `handle_rx_packet_payload` reads them back. -/
def float_bits_codec : FloatCodec Int where
  to_bytes := fun v => [v % 256, v / 256 % 256, v / 65536 % 256, v / 16777216 % 256]
  of_bytes := fun l =>
    l.getD 0 0 + 256 * l.getD 1 0 + 65536 * l.getD 2 0 + 16777216 * l.getD 3 0

/-- The configuration of the repository for board `id`, with the `float`
constants given as bit patterns (`0.1f`, and the readings `10, 20, 30, 20, 15,
25`). -/
def shipped_config_bits (id : Nat) : Config Int where
  BOARD_ID := id
  NUM_OF_BOARDS := 6
  graph := shipped_graph
  baton_path := shipped_baton_path
  STOP_THRESHOLD := 0x3DCCCCCD
  simulated_temperatures :=
    [0x41200000, 0x41A00000, 0x41F00000, 0x41A00000, 0x41700000, 0x41C80000]

/-- The variables as the C program starts, with floats as bit patterns (`0.0f`
is the pattern 0). -/
def power_on_bits (cfg : Config Int) : Board Int where
  state := state_t.S_INIT_AND_SLEEP.toInt
  current_task := task_t.T_NONE
  tx_operation_to_achieve := tx_operation_t.O_GLB_RESTART
  num_of_pending_msgs_for_tx := 0
  batons_per_cycle := 0
  boards_completed_their_task := 0
  consensus_is_over := false
  calibration_status := 0
  error_code := 0
  packet_received := false
  packet_sent := false
  rx_error := false
  tx_error := false
  cal_error := false
  starting_board := 0
  baton := false
  dst_of_baton := 0
  baton_cntr := 0
  average_command := false
  restart_command := false
  restart_id := 0
  temperature := 0
  ready_to_sleep := false
  stk := Stack.init
  weights := List.replicate cfg.NUM_OF_BOARDS 0
  consensus_iters := 0
  consensus_states := List.replicate cfg.NUM_OF_BOARDS 0
  tx_packet := List.replicate TX_PAYLOAD_LENGTH 0
  tmr0_running := false
  trace := []
  consensus_overrun := []


/-! ## Connectivity of the topology -/

/-- The boards `a` and `b` (both `< N`) are joined by an edge of `graph`. -/
def adjacent (cfg : Config F) (a b : Nat) : Prop :=
  a < cfg.NUM_OF_BOARDS ∧ b < cfg.NUM_OF_BOARDS ∧ cfg.graph_at a b = true

instance (cfg : Config F) (a b : Nat) : Decidable (adjacent cfg a b) := by
  unfold adjacent; infer_instance

/-- Board `j` is reachable from board `i` along edges of `graph`. -/
def reachable (cfg : Config F) (i j : Nat) : Prop :=
  Relation.ReflTransGen (adjacent cfg) i j


/-! ## Convergence on the shipped network -/

/-- The state vector `x` of the six boards sums to 120 (mean 20) and each of
its entries is within `c` of 20. -/
def near_mean (c : ℚ) (x : List ℚ) : Prop :=
  ∃ x0 x1 x2 x3 x4 x5 : ℚ, x = [x0, x1, x2, x3, x4, x5]
    ∧ x0 + x1 + x2 + x3 + x4 + x5 = 120
    ∧ |x0 - 20| ≤ c ∧ |x1 - 20| ≤ c ∧ |x2 - 20| ≤ c
    ∧ |x3 - 20| ≤ c ∧ |x4 - 20| ≤ c ∧ |x5 - 20| ≤ c


/-! ## Ticks with transmissions that complete -/

/-- The radio event that reports a completed transmission: of the bits that
`sl_rail_util_on_event` tests, those of `RAIL_EVENTS_TX_COMPLETION` and
`RAIL_EVENT_TX_PACKET_SENT` are set in the mask `events`. -/
def send_complete (events : Int) : RailEvents where
  events := events
  rx_completion := false
  rx_packet_received := false
  tx_completion := true
  tx_packet_sent := true
  cal_needed := false
  calibrate_result := 0

/-- A scheduler tick with no frame waiting in the radio, followed by the
send-complete event if (and only if) the tick handed a frame to the radio. -/
def tick_with_completion (fl : FloatOps F) (cd : FloatCodec F) (cfg : Config F) (events : Int)
    (b : Board F) : Board F :=
  if (frames_sent (app_process_action fl cd cfg [] b).trace).length
      = (frames_sent b.trace).length then
    app_process_action fl cd cfg [] b
  else sl_rail_util_on_event (send_complete events) (app_process_action fl cd cfg [] b)

/-- The board after `k` ticks, each transmission being completed before the
next tick. -/
def ticks_with_completion (fl : FloatOps F) (cd : FloatCodec F) (cfg : Config F)
    (events : Int) : Nat → Board F → Board F
  | 0, b => b
  | k + 1, b => ticks_with_completion fl cd cfg events k (tick_with_completion fl cd cfg events b)

/-- The type byte and the destination byte of the frames handed to the radio,
in order. -/
def frame_kinds_sent (trace : List Action) : List (Int × Int) :=
  (frames_sent trace).map (fun frame =>
    (frame.getD MSGIDX_TYPE 0, frame.getD MSGIDX_DST_BOARD 0))

/-- The type byte of the frames of a transmit operation. -/
def frame_type (oper : tx_operation_t) : Int :=
  match oper with
  | .O_GLB_RESTART => message_t.MSG_RESTART.toInt
  | .O_GLB_START_TASK => message_t.MSG_START_TASK.toInt
  | .O_GLB_SEND_STATE => message_t.MSG_CONSENSUS_STATE.toInt
  | .O_GIVE_BATON => message_t.MSG_BATON.toInt

/-- The board is in the transmission loop of the broadcast `oper`: it holds the
token, is in the state `S_PACKET_TX` with candidate address `j` next (`j = N`:
the broadcast is over and the token is released next), no signal or command is
pending, none of the rules 6 to 9 of `handle_app_events` applies, and the stack
holds the entries `es` with a free slot. -/
structure Transmitting (cfg : Config F) (oper : tx_operation_t) (es : List Int) (dst : Int)
    (j : Nat) (b : Board F) : Prop where
  state_tx : b.state = state_t.S_PACKET_TX.toInt
  operation : b.tx_operation_to_achieve
    = if j = cfg.NUM_OF_BOARDS then tx_operation_t.O_GIVE_BATON else oper
  pending : b.num_of_pending_msgs_for_tx = (cfg.NUM_OF_BOARDS : Int) - (j : Int)
  token : b.baton = true
  quiet : no_transport_signal b
  no_sleep : ¬ sleep_rule_applies b
  no_restart : b.restart_command = false
  no_bypass : ¬ bypass_rule_applies b
  no_average : b.average_command = false
  storage : b.stk.stack.length = 20
  top : b.stk.top = (es.length : Int) - 1
  entries : b.stk.entries = es
  room : es.length < 20
  next_holder : b.dst_of_baton = dst
  frame_size : b.tx_packet.length = TX_PAYLOAD_LENGTH

/-! ## A network of boards -/

/-- The radio event that reports a received packet: of the bits that
`sl_rail_util_on_event` tests, those of `RAIL_EVENTS_RX_COMPLETION` and
`RAIL_EVENT_RX_PACKET_RECEIVED` are set in the mask `events`. -/
def packet_arrived (events : Int) : RailEvents where
  events := events
  rx_completion := true
  rx_packet_received := true
  tx_completion := false
  tx_packet_sent := false
  cal_needed := false
  calibrate_result := 0

/-- The configuration compiled into board `i`: `BOARD_ID` is `i`. -/
def Config.for_board (cfg : Config F) (i : Nat) : Config F := { cfg with BOARD_ID := i }

/-- The boards `0..N-1` of a network with their radios: `rx_queues i` holds the
frames that the radio of board `i` has received and not yet handed to
`handle_received_packet`, `in_flight` the frames transmitted and not yet
received, and `tx_busy i` says that the radio of board `i` is transmitting: a
frame was handed to it (`RAIL_StartTx`) and the send-complete event has not
been raised yet. -/
structure Network (F : Type) where
  boards : Nat → Board F
  rx_queues : Nat → List (List Int)
  in_flight : List (List Int)
  tx_busy : Nat → Bool

/-- The frames that a tick handed to the radio: those of the record `after`
beyond those of the record `before`. -/
def frames_emitted (before after : List Action) : List (List Int) :=
  (frames_sent after).drop (frames_sent before).length

/-- A scheduler tick of board `i` in the network. The frames held by its radio
are consumed when the tick runs `handle_received_packet` (the state after event
intake is `S_PACKET_RECEIVED`); a frame handed to the radio is in flight and
the radio is transmitting from then on. -/
def net_tick (fl : FloatOps F) (cd : FloatCodec F) (cfg : Config F)
    (net : Network F) (i : Nat) : Network F :=
  if i < cfg.NUM_OF_BOARDS then
    { boards := Function.update net.boards i
        (app_process_action fl cd (cfg.for_board i) (net.rx_queues i) (net.boards i)),
      rx_queues :=
        if (handle_app_events fl (cfg.for_board i) (net.boards i)).state
            = state_t.S_PACKET_RECEIVED.toInt
        then Function.update net.rx_queues i [] else net.rx_queues,
      in_flight := net.in_flight
        ++ frames_emitted (net.boards i).trace
            (app_process_action fl cd (cfg.for_board i) (net.rx_queues i) (net.boards i)).trace,
      tx_busy := Function.update net.tx_busy i
        (net.tx_busy i
          || !(frames_emitted (net.boards i).trace
            (app_process_action fl cd (cfg.for_board i) (net.rx_queues i)
              (net.boards i)).trace).isEmpty) }
  else net

/-- The radio of board `i` ends its transmission and raises the send-complete
event. Nothing happens if the radio is not transmitting. -/
def net_complete (cfg : Config F) (events : Int) (net : Network F) (i : Nat) : Network F :=
  if i < cfg.NUM_OF_BOARDS ∧ net.tx_busy i = true then
    { boards := Function.update net.boards i
        (sl_rail_util_on_event (send_complete events) (net.boards i)),
      rx_queues := net.rx_queues,
      in_flight := net.in_flight,
      tx_busy := Function.update net.tx_busy i false }
  else net

/-- The delivery of the `k`-th frame in flight to the board that listens on
the channel given by its destination byte; the radio of that board raises the
packet-received event. The radio is half-duplex: a frame is not delivered
while the radio of its destination is transmitting, it stays in flight, as
does a frame for a channel on which no board listens. -/
def net_deliver (cfg : Config F) (events : Int) (net : Network F) (k : Nat) : Network F :=
  match net.in_flight.get? k with
  | none => net
  | some frame =>
    if (0 ≤ frame.getD MSGIDX_DST_BOARD 0
        ∧ frame.getD MSGIDX_DST_BOARD 0 < (cfg.NUM_OF_BOARDS : Int))
        ∧ net.tx_busy (frame.getD MSGIDX_DST_BOARD 0).toNat = false then
      { boards := Function.update net.boards (frame.getD MSGIDX_DST_BOARD 0).toNat
          (sl_rail_util_on_event (packet_arrived events)
            (net.boards (frame.getD MSGIDX_DST_BOARD 0).toNat)),
        rx_queues := Function.update net.rx_queues (frame.getD MSGIDX_DST_BOARD 0).toNat
          (net.rx_queues (frame.getD MSGIDX_DST_BOARD 0).toNat ++ [frame]),
        in_flight := net.in_flight.eraseIdx k,
        tx_busy := net.tx_busy }
    else net

/-- What can happen in a network run without frame loss and without watchdog
expiry: a board ticks, a radio ends its transmission, or a frame in flight is
delivered. -/
inductive NetInput
  | tick (i : Nat)
  | complete (i : Nat)
  | deliver (k : Nat)
  deriving DecidableEq, Repr

/-- The effect of one input on the network. -/
def net_step (fl : FloatOps F) (cd : FloatCodec F) (cfg : Config F) (events : Int)
    (net : Network F) : NetInput → Network F
  | .tick i => net_tick fl cd cfg net i
  | .complete i => net_complete cfg events net i
  | .deliver k => net_deliver cfg events net k

/-- Board `i` after power-on and its first tick (`S_INIT_AND_SLEEP`):
initialised and asleep. -/
def asleep_board (fl : FloatOps F) (cd : FloatCodec F) (cfg : Config F) (i : Nat) : Board F :=
  app_process_action fl cd (cfg.for_board i) [] (power_on fl (cfg.for_board i))

/-- The network in which every board is initialised and asleep and the
averaging command has just been given on board `s`. -/
def initial_network (fl : FloatOps F) (cd : FloatCodec F) (cfg : Config F) (s : Nat) :
    Network F where
  boards := fun i =>
    if i = s then cli_avg_consensus (cfg.for_board s) (asleep_board fl cd cfg s)
    else asleep_board fl cd cfg i
  rx_queues := fun _ => []
  in_flight := []
  tx_busy := fun _ => false

/-- The network after a sequence of inputs. -/
def net_run (fl : FloatOps F) (cd : FloatCodec F) (cfg : Config F) (events : Int) (s : Nat)
    (inputs : List NetInput) : Network F :=
  inputs.foldl (net_step fl cd cfg events) (initial_network fl cd cfg s)

/-- The number of tokens held by a board: 1 if its token flag is set. -/
def token_count (b : Board F) : Nat := if b.baton then 1 else 0

/-- The number of boards of the network whose token flag is set. -/
def token_holders (cfg : Config F) (net : Network F) : Nat :=
  ((List.range cfg.NUM_OF_BOARDS).map (fun i => token_count (net.boards i))).sum

/-- The number of Baton frames in a list of frames. -/
def baton_frames (frames : List (List Int)) : Nat :=
  (frames.filter (fun frame => decide (frame.getD MSGIDX_TYPE 0 = message_t.MSG_BATON.toInt))).length

/-- The number of Baton frames in the network: in flight or held by a radio. -/
def baton_frames_in_network (cfg : Config F) (net : Network F) : Nat :=
  baton_frames net.in_flight
    + ((List.range cfg.NUM_OF_BOARDS).map (fun i => baton_frames (net.rx_queues i))).sum

/-! ## The shapes of a board in a run without restart -/

/-- The state is one of the three task states in which a board waits for the
token: `S_START_AVG_CONSENSUS`, `S_SEND_AVG_CONSENSUS_MSGS`,
`S_UPDATE_AVG_CONSENSUS_STATE`. -/
def is_task_state (s : Int) : Prop :=
  s = state_t.S_START_AVG_CONSENSUS.toInt ∨ s = state_t.S_SEND_AVG_CONSENSUS_MSGS.toInt
    ∨ s = state_t.S_UPDATE_AVG_CONSENSUS_STATE.toInt

/-- The board runs the averaging task and has no averaging command pending. -/
def working (b : Board F) : Prop :=
  b.current_task = task_t.T_CONSENSUS ∧ b.average_command = false

/-- The token received last is one on which the board acts: the guard of the
bypass rule (rule 8) is false while the token is held. -/
def acting (b : Board F) : Prop :=
  c_mod (b.baton_cntr - 1) b.batons_per_cycle = 0

/-- What holds of every board in a run without restart and radio errors: no
restart command and no error signal is pending, the stack storage has its 20
slots and the transmit buffer its 16 bytes. -/
structure Steady (b : Board F) : Prop where
  no_restart : b.restart_command = false
  no_rx_error : b.rx_error = false
  no_tx_error : b.tx_error = false
  no_cal_error : b.cal_error = false
  storage : b.stk.stack.length = 20
  frame_size : b.tx_packet.length = TX_PAYLOAD_LENGTH

/-- The shapes of the state, the stack and the send-complete signal of a board
whose radio is not transmitting.
`idle`: state `S_IDLE`, empty stack.
`waiting`: a task state, empty stack.
`init`: state `S_INIT_AND_SLEEP`, empty stack.
`transmitting c`: state `S_PACKET_TX` with the token, stack `[c]`.
`sending c`: a frame of a broadcast was sent, state `S_IDLE`, stack
`[c, S_PACKET_TX]`, send-complete pending.
`released c`: the Baton frame was sent, state `S_IDLE`, stack `[c]`,
send-complete pending. -/
inductive Shape (b : Board F) : Prop
  | idle (hs : b.state = state_t.S_IDLE.toInt) (ht : b.stk.top = -1)
      (hp : b.packet_sent = false)
  | waiting (hc : is_task_state b.state) (ht : b.stk.top = -1) (hp : b.packet_sent = false)
      (hw : working b)
  | init (hs : b.state = state_t.S_INIT_AND_SLEEP.toInt) (ht : b.stk.top = -1)
      (hp : b.packet_sent = false)
  | transmitting (c : Int) (hc : is_task_state c) (hs : b.state = state_t.S_PACKET_TX.toInt)
      (ht : b.stk.top = 0) (he : b.stk.entries = [c]) (hp : b.packet_sent = false)
      (hb : b.baton = true) (ha : acting b) (hw : working b)
      (ho : b.tx_operation_to_achieve ≠ tx_operation_t.O_GLB_RESTART)
  | sending (c : Int) (hc : is_task_state c) (hs : b.state = state_t.S_IDLE.toInt)
      (ht : b.stk.top = 1) (he : b.stk.entries = [c, state_t.S_PACKET_TX.toInt])
      (hp : b.packet_sent = true) (hb : b.baton = true) (ha : acting b) (hw : working b)
      (ho : b.tx_operation_to_achieve ≠ tx_operation_t.O_GLB_RESTART)
  | released (c : Int)
      (hc : c = state_t.S_IDLE.toInt ∨ c = state_t.S_INIT_AND_SLEEP.toInt
        ∨ (is_task_state c ∧ working b))
      (hs : b.state = state_t.S_IDLE.toInt) (ht : b.stk.top = 0) (he : b.stk.entries = [c])
      (hp : b.packet_sent = true)

/-- The shapes of a board whose radio is transmitting: a frame was handed to
the radio and the send-complete event has not been raised.
`broadcast c`: a frame of a broadcast, state `S_IDLE`, stack
`[c, S_PACKET_TX]`, the token is held and the sleep rule does not apply.
`release c`: the Baton frame, state `S_IDLE`, stack `[c]`, no token. -/
inductive Awaiting (b : Board F) : Prop
  | broadcast (c : Int) (hc : is_task_state c) (hs : b.state = state_t.S_IDLE.toInt)
      (ht : b.stk.top = 1) (he : b.stk.entries = [c, state_t.S_PACKET_TX.toInt])
      (hp : b.packet_sent = false) (hr : b.packet_received = false)
      (hb : b.baton = true) (ha : acting b) (hw : working b)
      (ho : b.tx_operation_to_achieve ≠ tx_operation_t.O_GLB_RESTART)
      (hn : ¬ sleep_rule_applies b)
  | release (c : Int)
      (hc : c = state_t.S_IDLE.toInt ∨ c = state_t.S_INIT_AND_SLEEP.toInt
        ∨ (is_task_state c ∧ working b))
      (hs : b.state = state_t.S_IDLE.toInt) (ht : b.stk.top = 0) (he : b.stk.entries = [c])
      (hp : b.packet_sent = false) (hr : b.packet_received = false)
      (hb : b.baton = false)

/-- The shape of a board whose radio is transmitting (`busy`) or not. -/
def ShapeFor (busy : Bool) (b : Board F) : Prop :=
  if busy then Awaiting b else Shape b

/-- The effect of handling received frames on the fields that steer the state
machine, when none of the frames is a Restart frame; `no_baton` says that none
is a Baton frame. -/
structure RxEffect (no_baton : Prop) (b b1 : Board F) : Prop where
  state : b1.state = b.state
  stk : b1.stk = b.stk
  packet_received : b1.packet_received = b.packet_received
  packet_sent : b1.packet_sent = b.packet_sent
  rx_error : b1.rx_error = b.rx_error
  tx_error : b1.tx_error = b.tx_error
  cal_error : b1.cal_error = b.cal_error
  restart_command : b1.restart_command = b.restart_command
  operation : b1.tx_operation_to_achieve = b.tx_operation_to_achieve
  task : b1.current_task = b.current_task
  per_cycle : b1.batons_per_cycle = b.batons_per_cycle
  frame : b1.tx_packet = b.tx_packet
  frames : frames_sent b1.trace = frames_sent b.trace
  token_kept : b.baton = true → b1.baton = true
  command_kept : b.current_task = task_t.T_CONSENSUS → b1.average_command = b.average_command
  untouched : no_baton → b1.baton = b.baton ∧ b1.baton_cntr = b.baton_cntr

/-- The invariant of a network run: every board has one of the shapes and is
steady, no Restart frame is in the network, and the tokens held plus the Baton
frames in the network are at most one. -/
structure NetInv (cfg : Config F) (net : Network F) : Prop where
  shapes : ∀ i, i < cfg.NUM_OF_BOARDS → ShapeFor (net.tx_busy i) (net.boards i)
  steady : ∀ i, i < cfg.NUM_OF_BOARDS → Steady (net.boards i)
  flying : ∀ frame, frame ∈ net.in_flight →
    frame.getD MSGIDX_TYPE 0 ≠ message_t.MSG_RESTART.toInt
  queued : ∀ i, i < cfg.NUM_OF_BOARDS → ∀ frame, frame ∈ net.rx_queues i →
    frame.getD MSGIDX_TYPE 0 ≠ message_t.MSG_RESTART.toInt
  tokens : token_holders cfg net + baton_frames_in_network cfg net ≤ 1


/-- The outcome of a tick of a board: the board `b2` after the tick has one of
the shapes, for a radio that is transmitting or not as `busy` says, and is
steady, the frames `out` handed to the radio contain no Restart frame, and the
tokens held afterwards plus the Baton frames sent are at most the tokens held
before plus `budget`, the number of Baton frames consumed. -/
structure TickOutcome (b b2 : Board F) (out : List (List Int)) (budget : Nat)
    (busy : Bool) : Prop where
  shape : ShapeFor busy b2
  steady : Steady b2
  clean : ∀ frame, frame ∈ out → frame.getD MSGIDX_TYPE 0 ≠ message_t.MSG_RESTART.toInt
  tokens : token_count b2 + baton_frames out ≤ token_count b + budget

/-! ## The contribution of one board to the tally -/

/-- The change that the convergence bookkeeping of
`S_UPDATE_AVG_CONSENSUS_STATE` (app_process.c:254-263) makes to the tally, for
the own state `prev_state` before the update and the board `b` after it: `1`
for `boards_completed_their_task++`, `-1` for `boards_completed_their_task--`,
`0` if neither statement runs. -/
def tally_change (fl : FloatOps F) (cfg : Config F) (prev_state : F) (b : Board F) : Int :=
  let cur := b.consensus_states.getD cfg.BOARD_ID (fl.ofInt 0)
  if fl.le (fl.fabs (fl.sub prev_state cur)) cfg.STOP_THRESHOLD ∧ ¬ b.consensus_is_over then 1
  else if fl.lt cfg.STOP_THRESHOLD (fl.fabs (fl.sub prev_state cur)) ∧ b.consensus_is_over
      ∧ b.boards_completed_their_task ≠ SEND_SYSTEM_TO_SLEEP then -1
  else 0

/-- The change that executing `S_UPDATE_AVG_CONSENSUS_STATE` on the board `b`
makes to the tally: that of the bookkeeping if the token is held, none
otherwise. -/
def update_step_change (fl : FloatOps F) (cfg : Config F) (b : Board F) : Int :=
  if b.baton then
    tally_change fl cfg (b.consensus_states.getD cfg.BOARD_ID (fl.ofInt 0))
      (update_consensus_state fl cfg b)
  else 0

/-- The board as it executes an `S_UPDATE_AVG_CONSENSUS_STATE` step of a task:
between two such steps everything may have changed (frames received, the
token passed on and received again) except the converged flag, which only the
bookkeeping of these steps writes within a task. `flag` is the converged flag
left by the previous step, `next` gives every other field. -/
def at_update_step (flag : Bool) (next : Board F) : Board F :=
  { next with state := state_t.S_UPDATE_AVG_CONSENSUS_STATE.toInt, consensus_is_over := flag }

/-- The converged flag after a sequence of `S_UPDATE_AVG_CONSENSUS_STATE` steps
of one board within a task, and the net contribution of the board to the
tally: the number of increments it made minus the number of decrements. -/
def net_contribution (fl : FloatOps F) (cd : FloatCodec F) (cfg : Config F) :
    Bool → List (Board F) → Bool × Int
  | flag, [] => (flag, 0)
  | flag, next :: rest =>
    ((net_contribution fl cd cfg
        (execute_app_state fl cd cfg [] (at_update_step flag next)).consensus_is_over rest).1,
     update_step_change fl cfg (at_update_step flag next)
      + (net_contribution fl cd cfg
        (execute_app_state fl cd cfg [] (at_update_step flag next)).consensus_is_over rest).2)

/-- Whole-number arithmetic in place of `float`, used where the bookkeeping is
evaluated at concrete boards. The theorems are stated for every arithmetic. -/
def integer_arith : FloatOps Int where
  ofInt := fun n => n
  add := fun a b => a + b
  sub := fun a b => a - b
  mul := fun a b => a * b
  div := fun a b => a / b
  fabs := fun a => |a|
  le := fun a b => decide (a ≤ b)
  lt := fun a b => decide (a < b)

/-- Board 5 of the shipped topology and tour with whole-number readings and
the stop threshold 1, for `integer_arith`. -/
def whole_number_config : Config Int where
  BOARD_ID := 5
  NUM_OF_BOARDS := 6
  graph := shipped_graph
  baton_path := shipped_baton_path
  STOP_THRESHOLD := 1
  simulated_temperatures := [10, 20, 30, 20, 15, 25]

/-- Board 5 holding the token with the weight row `weights` and the known
states `[10, 20, 30, 20, 15, 25]`. -/
def whole_number_board (weights : List Int) : Board Int :=
  { power_on integer_arith whole_number_config with
    baton := true,
    weights := weights,
    consensus_states := [10, 20, 30, 20, 15, 25] }

/-! ## The watchdog -/

/-- Every store made so far has stayed inside its array: no store to `stack[]`
and no store to `consensus_states[]` is recorded as an overrun. The records are
never removed (`memory_intact_before_run`), so a run that ends in such a state
has made no store outside an array. -/
def memory_intact (b : Board F) : Prop :=
  b.stk.overrun.isEmpty = true ∧ b.consensus_overrun.isEmpty = true

instance (b : Board F) : Decidable (memory_intact b) := by
  unfold memory_intact; infer_instance

/-! ## Theorems: topology and schedule -/

theorem mem_range'_one {n i : Nat} : i ∈ List.range' 1 n ↔ 1 ≤ i ∧ i < 1 + n := by
  simp only [List.mem_range', Nat.one_mul]
  constructor
  · rintro ⟨t, ht, rfl⟩; omega
  · intro h; exact ⟨i - 1, by omega, by omega⟩

theorem next_hop_of_occurrence (path : List Int) (self src : Int) (hL : 2 ≤ path.length)
    (k : Nat) (hk : k < path.length) (hself : path.getD k 0 = self)
    (hsrc : path.getD (cyc_pred path.length k) 0 = src) :
    ∃ j, j < path.length ∧ path.getD j 0 = self ∧ path.getD (cyc_pred path.length j) 0 = src ∧
      next_hop path self src = path.getD (cyc_succ path.length j) 0 := by
  unfold next_hop
  simp only []
  split_ifs with h1 h2
  · refine ⟨0, by omega, h1.2, ?_, ?_⟩
    · simpa [cyc_pred] using h1.1
    · have : ¬ (0 + 1 = path.length) := by omega
      simp [cyc_succ, this]
  · refine ⟨path.length - 1, by omega, h2.2, ?_, ?_⟩
    · have : ¬ (path.length - 1 = 0) := by omega
      have e : path.length - 1 - 1 = path.length - 2 := by omega
      simpa [cyc_pred, this, e] using h2.1
    · have : path.length - 1 + 1 = path.length := by omega
      simp [cyc_succ, this]
  · cases hf : (List.range' 1 (path.length - 2)).find?
        (fun i => decide (path.getD i 0 = self) && decide (path.getD (i - 1) 0 = src)) with
    | some i =>
      have hp := List.find?_some hf
      have hm := List.mem_of_find?_eq_some hf
      rw [mem_range'_one] at hm
      simp only [Bool.and_eq_true, decide_eq_true_eq] at hp
      refine ⟨i, by omega, hp.1, ?_, ?_⟩
      · have : ¬ (i = 0) := by omega
        simpa [cyc_pred, this] using hp.2
      · have : ¬ (i + 1 = path.length) := by omega
        simp [cyc_succ, this]
    | none =>
      exfalso
      rw [List.find?_eq_none] at hf
      by_cases hk0 : k = 0
      · subst hk0
        apply h1
        refine ⟨?_, hself⟩
        simpa [cyc_pred] using hsrc
      · by_cases hkl : k = path.length - 1
        · apply h2
          subst hkl
          refine ⟨?_, hself⟩
          have : ¬ (path.length - 1 = 0) := by omega
          have e : path.length - 1 - 1 = path.length - 2 := by omega
          simpa [cyc_pred, this, e] using hsrc
        · have hm : k ∈ List.range' 1 (path.length - 2) := by
            rw [mem_range'_one]; omega
          apply hf k hm
          simp only [Bool.and_eq_true, decide_eq_true_eq]
          refine ⟨hself, ?_⟩
          simpa [cyc_pred, hk0] using hsrc

theorem next_hop_eq_neg_one_of_no_occurrence (path : List Int) (self src : Int)
    (h : ¬ valid_predecessor path self src) (hL : 2 ≤ path.length) :
    next_hop path self src = -1 := by
  unfold next_hop
  simp only []
  split_ifs with h1 h2
  · exfalso; apply h
    refine ⟨0, by omega, h1.2, ?_⟩
    simpa [cyc_pred] using h1.1
  · exfalso; apply h
    refine ⟨path.length - 1, by omega, h2.2, ?_⟩
    have : ¬ (path.length - 1 = 0) := by omega
    have e : path.length - 1 - 1 = path.length - 2 := by omega
    simpa [cyc_pred, this, e] using h2.1
  · cases hf : (List.range' 1 (path.length - 2)).find?
        (fun i => decide (path.getD i 0 = self) && decide (path.getD (i - 1) 0 = src)) with
    | some i =>
      exfalso; apply h
      have hp := List.find?_some hf
      have hm := List.mem_of_find?_eq_some hf
      rw [mem_range'_one] at hm
      simp only [Bool.and_eq_true, decide_eq_true_eq] at hp
      refine ⟨i, by omega, hp.1, ?_⟩
      have : ¬ (i = 0) := by omega
      simpa [cyc_pred, this] using hp.2
    | none => rfl

/-- C1: on a tour of length at least 3 that satisfies rule R3, the board at any
position `k` of the tour that handles (awake) a Baton frame sent by the board at
the cyclically preceding position computes, as next hop, the entry at the
cyclically following position. -/
theorem next_hop_follows_tour (cfg : Config F) (cd : FloatCodec F) (rx_buffer : List Int)
    (b : Board F) (k : Nat)
    (hL : 3 ≤ cfg.baton_path.length) (hR3 : rule_R3 cfg.baton_path)
    (hk : k < cfg.baton_path.length)
    (hself : (cfg.BOARD_ID : Int) = cfg.baton_path.getD k 0)
    (htype : rx_buffer.getD MSGIDX_TYPE 0 = message_t.MSG_BATON.toInt)
    (hsrc : rx_buffer.getD MSGIDX_SRC_BOARD 0
      = cfg.baton_path.getD (cyc_pred cfg.baton_path.length k) 0)
    (hawake : app_is_ok_to_sleep b = false) :
    next_hop cfg.baton_path (cfg.BOARD_ID : Int) (rx_buffer.getD MSGIDX_SRC_BOARD 0)
        = cfg.baton_path.getD (cyc_succ cfg.baton_path.length k) 0
      ∧ (handle_rx_packet_payload cfg cd rx_buffer b).dst_of_baton
        = cfg.baton_path.getD (cyc_succ cfg.baton_path.length k) 0 := by
  have hnh : next_hop cfg.baton_path (cfg.BOARD_ID : Int) (rx_buffer.getD MSGIDX_SRC_BOARD 0)
      = cfg.baton_path.getD (cyc_succ cfg.baton_path.length k) 0 := by
    obtain ⟨j, hj, hjs, hjp, hjn⟩ := next_hop_of_occurrence cfg.baton_path (cfg.BOARD_ID : Int)
      (rx_buffer.getD MSGIDX_SRC_BOARD 0) (by omega) k hk hself.symm hsrc.symm
    rw [hjn]
    exact hR3 j hj k hk (by rw [hjs, hself]) (by rw [hjp, hsrc])
  refine ⟨hnh, ?_⟩
  simp only [app_is_ok_to_sleep] at hawake
  have hm : message_t.ofInt (rx_buffer.getD MSGIDX_TYPE 0) = some message_t.MSG_BATON := by
    rw [htype]; rfl
  unfold handle_rx_packet_payload
  simp only [hm, app_is_ok_to_sleep, hawake, hnh]
  split_ifs <;> first | contradiction | rfl

/-- C1 at the nine positions of the shipped tour `[3,2,1,0,5,4,5,1,2]`. -/
theorem next_hop_follows_tour_shipped :
    rule_R3 shipped_baton_path
    ∧ (handle_rx_packet_payload (shipped_config 3) int_part_codec (frame_of 3 2 3 0)
        (power_on exact_arith (shipped_config 3))).dst_of_baton = 2
    ∧ (handle_rx_packet_payload (shipped_config 2) int_part_codec (frame_of 3 3 2 0)
        (power_on exact_arith (shipped_config 2))).dst_of_baton = 1
    ∧ (handle_rx_packet_payload (shipped_config 1) int_part_codec (frame_of 3 2 1 0)
        (power_on exact_arith (shipped_config 1))).dst_of_baton = 0
    ∧ (handle_rx_packet_payload (shipped_config 0) int_part_codec (frame_of 3 1 0 0)
        (power_on exact_arith (shipped_config 0))).dst_of_baton = 5
    ∧ (handle_rx_packet_payload (shipped_config 5) int_part_codec (frame_of 3 0 5 0)
        (power_on exact_arith (shipped_config 5))).dst_of_baton = 4
    ∧ (handle_rx_packet_payload (shipped_config 4) int_part_codec (frame_of 3 5 4 0)
        (power_on exact_arith (shipped_config 4))).dst_of_baton = 5
    ∧ (handle_rx_packet_payload (shipped_config 5) int_part_codec (frame_of 3 4 5 0)
        (power_on exact_arith (shipped_config 5))).dst_of_baton = 1
    ∧ (handle_rx_packet_payload (shipped_config 1) int_part_codec (frame_of 3 5 1 0)
        (power_on exact_arith (shipped_config 1))).dst_of_baton = 2
    ∧ (handle_rx_packet_payload (shipped_config 2) int_part_codec (frame_of 3 1 2 0)
        (power_on exact_arith (shipped_config 2))).dst_of_baton = 3 :=
  ⟨by decide,
    (next_hop_follows_tour (shipped_config 3) int_part_codec (frame_of 3 2 3 0)
      (power_on exact_arith (shipped_config 3)) 0 (by decide) (by decide) (by decide) rfl rfl rfl rfl).2,
    (next_hop_follows_tour (shipped_config 2) int_part_codec (frame_of 3 3 2 0)
      (power_on exact_arith (shipped_config 2)) 1 (by decide) (by decide) (by decide) rfl rfl rfl rfl).2,
    (next_hop_follows_tour (shipped_config 1) int_part_codec (frame_of 3 2 1 0)
      (power_on exact_arith (shipped_config 1)) 2 (by decide) (by decide) (by decide) rfl rfl rfl rfl).2,
    (next_hop_follows_tour (shipped_config 0) int_part_codec (frame_of 3 1 0 0)
      (power_on exact_arith (shipped_config 0)) 3 (by decide) (by decide) (by decide) rfl rfl rfl rfl).2,
    (next_hop_follows_tour (shipped_config 5) int_part_codec (frame_of 3 0 5 0)
      (power_on exact_arith (shipped_config 5)) 4 (by decide) (by decide) (by decide) rfl rfl rfl rfl).2,
    (next_hop_follows_tour (shipped_config 4) int_part_codec (frame_of 3 5 4 0)
      (power_on exact_arith (shipped_config 4)) 5 (by decide) (by decide) (by decide) rfl rfl rfl rfl).2,
    (next_hop_follows_tour (shipped_config 5) int_part_codec (frame_of 3 4 5 0)
      (power_on exact_arith (shipped_config 5)) 6 (by decide) (by decide) (by decide) rfl rfl rfl rfl).2,
    (next_hop_follows_tour (shipped_config 1) int_part_codec (frame_of 3 5 1 0)
      (power_on exact_arith (shipped_config 1)) 7 (by decide) (by decide) (by decide) rfl rfl rfl rfl).2,
    (next_hop_follows_tour (shipped_config 2) int_part_codec (frame_of 3 1 2 0)
      (power_on exact_arith (shipped_config 2)) 8 (by decide) (by decide) (by decide) rfl rfl rfl rfl).2⟩

/-- C2: on a tour with at least two entries, all of them board ids in `0..N-1`,
the next-hop computation yields `-1` exactly when the tour has no cyclic
occurrence of `self` whose predecessor is `src`; an awake board that handles a
Baton frame then stores that value in `dst_of_baton`. -/
theorem next_hop_fails_iff (N : Nat) (path : List Int) (self src : Int)
    (hL : 2 ≤ path.length) (hids : ∀ x ∈ path, 0 ≤ x ∧ x < (N : Int)) :
    (next_hop path self src = -1 ↔ ¬ valid_predecessor path self src)
      ∧ ∀ (cd : FloatCodec F) (cfg : Config F) (rx_buffer : List Int) (b : Board F),
          cfg.baton_path = path → (cfg.BOARD_ID : Int) = self →
          rx_buffer.getD MSGIDX_TYPE 0 = message_t.MSG_BATON.toInt →
          rx_buffer.getD MSGIDX_SRC_BOARD 0 = src → app_is_ok_to_sleep b = false →
          ((handle_rx_packet_payload cfg cd rx_buffer b).dst_of_baton = -1
            ↔ ¬ valid_predecessor path self src) := by
  have key : next_hop path self src = -1 ↔ ¬ valid_predecessor path self src := by
    constructor
    · rintro h ⟨k, hk, hself, hsrc⟩
      obtain ⟨j, hj, -, -, hjn⟩ := next_hop_of_occurrence path self src hL k hk hself hsrc
      rw [hjn] at h
      have hlt : cyc_succ path.length j < path.length := by
        unfold cyc_succ; split_ifs <;> omega
      have hmem : path.getD (cyc_succ path.length j) 0 ∈ path := by
        rw [List.getD_eq_getElem path 0 hlt]
        exact List.getElem_mem hlt
      have := (hids _ hmem).1
      omega
    · intro h
      exact next_hop_eq_neg_one_of_no_occurrence path self src h hL
  refine ⟨key, ?_⟩
  intro cd cfg rx_buffer b hpath hid htype hsrc hawake
  simp only [app_is_ok_to_sleep] at hawake
  have hm : message_t.ofInt (rx_buffer.getD MSGIDX_TYPE 0) = some message_t.MSG_BATON := by
    rw [htype]; rfl
  have hd : (handle_rx_packet_payload cfg cd rx_buffer b).dst_of_baton
      = next_hop path self src := by
    unfold handle_rx_packet_payload
    simp only [hm, app_is_ok_to_sleep, hawake, hpath, hid, hsrc]
    split_ifs <;> first | contradiction | rfl
  rw [hd]
  exact key

/-- C2 on the shipped tour: board 5 has no valid next hop for a token sent by
board 1, and has one (board 4) for a token sent by board 0. -/
theorem next_hop_fails_iff_shipped :
    next_hop shipped_baton_path 5 1 = -1 ∧ next_hop shipped_baton_path 5 0 ≠ -1 :=
  ⟨((next_hop_fails_iff (F := ℚ) 6 shipped_baton_path 5 1 (by decide) (by decide)).1).mpr
      (by decide),
   fun h => ((next_hop_fails_iff (F := ℚ) 6 shipped_baton_path 5 0 (by decide) (by decide)).1).mp h
      (by decide)⟩

/-! ## Theorems: message handling -/

/-- C4: handling a Restart frame with epoch byte `e`. If `e > restart_id` the
board is awake afterwards, a restart is pending and `restart_id = e`; if
`e ≤ restart_id` the board state is unchanged. -/
theorem restart_frame_epoch_filter (cfg : Config F) (cd : FloatCodec F) (rx_buffer : List Int)
    (b : Board F) (e : Int)
    (htype : rx_buffer.getD MSGIDX_TYPE 0 = message_t.MSG_RESTART.toInt)
    (hepoch : rx_buffer.getD MSGIDX_RESTART_ID 0 = e) :
    (e > b.restart_id →
        app_is_ok_to_sleep (handle_rx_packet_payload cfg cd rx_buffer b) = false
        ∧ (handle_rx_packet_payload cfg cd rx_buffer b).restart_command = true
        ∧ (handle_rx_packet_payload cfg cd rx_buffer b).restart_id = e)
      ∧ (e ≤ b.restart_id → handle_rx_packet_payload cfg cd rx_buffer b = b) := by
  have hm : message_t.ofInt (rx_buffer.getD MSGIDX_TYPE 0) = some message_t.MSG_RESTART := by
    rw [htype]; rfl
  constructor
  · intro he
    unfold handle_rx_packet_payload
    simp only [hm, hepoch, if_pos he]
    refine ⟨?_, ?_, ?_⟩ <;> first | rfl | trivial
  · intro he
    unfold handle_rx_packet_payload
    have : ¬ (e > b.restart_id) := by omega
    simp only [hm, hepoch, if_neg this]

/-- C4 with stored epoch 5: a frame with epoch 5 is ignored (also by a sleeping
board, which stays asleep), a frame with epoch 6 is accepted. -/
theorem restart_frame_epoch_filter_at_5 :
    handle_rx_packet_payload (shipped_config 5) int_part_codec (frame_of 0 1 5 5)
        { power_on exact_arith (shipped_config 5) with restart_id := 5, ready_to_sleep := true }
      = { power_on exact_arith (shipped_config 5) with restart_id := 5, ready_to_sleep := true }
    ∧ app_is_ok_to_sleep (handle_rx_packet_payload (shipped_config 5) int_part_codec
        (frame_of 0 1 5 6)
        { power_on exact_arith (shipped_config 5) with restart_id := 5, ready_to_sleep := true })
      = false
    ∧ (handle_rx_packet_payload (shipped_config 5) int_part_codec (frame_of 0 1 5 6)
        { power_on exact_arith (shipped_config 5) with restart_id := 5, ready_to_sleep := true }
        ).restart_command = true
    ∧ (handle_rx_packet_payload (shipped_config 5) int_part_codec (frame_of 0 1 5 6)
        { power_on exact_arith (shipped_config 5) with restart_id := 5, ready_to_sleep := true }
        ).restart_id = 6 :=
  ⟨(restart_frame_epoch_filter (shipped_config 5) int_part_codec (frame_of 0 1 5 5)
      { power_on exact_arith (shipped_config 5) with restart_id := 5, ready_to_sleep := true }
      5 rfl rfl).2 (by decide),
   (restart_frame_epoch_filter (shipped_config 5) int_part_codec (frame_of 0 1 5 6)
      { power_on exact_arith (shipped_config 5) with restart_id := 5, ready_to_sleep := true }
      6 rfl rfl).1 (by decide)⟩

/-- C5: an awake board handles a Baton frame from a valid tour predecessor (tour
with at least two entries, all board ids in `0..N-1`). The token is held, the
receive counter grows by one, `dst_of_baton` is the computed next hop, the
watchdog is cancelled exactly when `starting_board` is this board, and the
tally is byte 3 read as `int8_t`, replaced by the sleep sentinel exactly when
that value is at least `N`, this board is the initiator and
`(new counter - 1) % batons_per_cycle = 0`. -/
theorem baton_frame_accepted (cfg : Config F) (cd : FloatCodec F) (rx_buffer : List Int)
    (b : Board F)
    (hL : 2 ≤ cfg.baton_path.length)
    (hids : ∀ x ∈ cfg.baton_path, 0 ≤ x ∧ x < (cfg.NUM_OF_BOARDS : Int))
    (htype : rx_buffer.getD MSGIDX_TYPE 0 = message_t.MSG_BATON.toInt)
    (hvalid : valid_predecessor cfg.baton_path (cfg.BOARD_ID : Int) (rx_buffer.getD MSGIDX_SRC_BOARD 0))
    (hawake : app_is_ok_to_sleep b = false) :
    (handle_rx_packet_payload cfg cd rx_buffer b).baton = true
    ∧ (handle_rx_packet_payload cfg cd rx_buffer b).baton_cntr = b.baton_cntr + 1
    ∧ (handle_rx_packet_payload cfg cd rx_buffer b).dst_of_baton
        = next_hop cfg.baton_path (cfg.BOARD_ID : Int) (rx_buffer.getD MSGIDX_SRC_BOARD 0)
    ∧ (b.starting_board = (cfg.BOARD_ID : Int) →
        (handle_rx_packet_payload cfg cd rx_buffer b).trace = b.trace ++ [Action.cancel_timer]
        ∧ (handle_rx_packet_payload cfg cd rx_buffer b).tmr0_running = false)
    ∧ (b.starting_board ≠ (cfg.BOARD_ID : Int) →
        (handle_rx_packet_payload cfg cd rx_buffer b).trace = b.trace
        ∧ (handle_rx_packet_payload cfg cd rx_buffer b).tmr0_running = b.tmr0_running)
    ∧ (handle_rx_packet_payload cfg cd rx_buffer b).boards_completed_their_task
        = (if to_int8 (rx_buffer.getD MSGIDX_BOARDS_OVER 0) ≥ (cfg.NUM_OF_BOARDS : Int)
              ∧ b.starting_board = (cfg.BOARD_ID : Int)
              ∧ c_mod ((b.baton_cntr + 1) - 1) b.batons_per_cycle = 0
            then SEND_SYSTEM_TO_SLEEP
            else to_int8 (rx_buffer.getD MSGIDX_BOARDS_OVER 0)) := by
  have hm : message_t.ofInt (rx_buffer.getD MSGIDX_TYPE 0) = some message_t.MSG_BATON := by
    rw [htype]; rfl
  simp only [app_is_ok_to_sleep] at hawake
  have hnn : ¬ (next_hop cfg.baton_path (cfg.BOARD_ID : Int) (rx_buffer.getD MSGIDX_SRC_BOARD 0) < 0) := by
    obtain ⟨k, hk, hself, hsrc⟩ := hvalid
    obtain ⟨j, hj, -, -, hjn⟩ := next_hop_of_occurrence cfg.baton_path (cfg.BOARD_ID : Int)
      (rx_buffer.getD MSGIDX_SRC_BOARD 0) hL k hk hself hsrc
    rw [hjn]
    have hlt : cyc_succ cfg.baton_path.length j < cfg.baton_path.length := by
      unfold cyc_succ; split_ifs <;> omega
    have hmem : cfg.baton_path.getD (cyc_succ cfg.baton_path.length j) 0 ∈ cfg.baton_path := by
      rw [List.getD_eq_getElem cfg.baton_path 0 hlt]
      exact List.getElem_mem hlt
    have := (hids _ hmem).1
    omega
  unfold handle_rx_packet_payload
  simp only [hm, app_is_ok_to_sleep, hawake, Bool.false_eq_true, if_false, if_neg hnn]
  by_cases hs : b.starting_board = (cfg.BOARD_ID : Int)
  · simp only [hs, if_true, cancel_timer]
    split_ifs <;> simp_all
  · simp only [hs, if_false]
    split_ifs <;> simp_all

/-- C5 on board 5 of the shipped configuration, initiator of the task with two
token visits per cycle, at its third token: a frame from board 0 with tally 6
gives the token, next hop 4, a cancelled watchdog and the sleep sentinel; the
same frame with tally 5 leaves the tally at 5. Byte `0xFF` read as `int8_t` is
`-1`. -/
theorem baton_frame_accepted_shipped :
    (handle_rx_packet_payload (shipped_config 5) int_part_codec (frame_of 3 0 5 6)
        { power_on exact_arith (shipped_config 5) with
          starting_board := 5, batons_per_cycle := 2, baton_cntr := 2, tmr0_running := true }
        ).baton = true
    ∧ (handle_rx_packet_payload (shipped_config 5) int_part_codec (frame_of 3 0 5 6)
        { power_on exact_arith (shipped_config 5) with
          starting_board := 5, batons_per_cycle := 2, baton_cntr := 2, tmr0_running := true }
        ).baton_cntr = 3
    ∧ (handle_rx_packet_payload (shipped_config 5) int_part_codec (frame_of 3 0 5 6)
        { power_on exact_arith (shipped_config 5) with
          starting_board := 5, batons_per_cycle := 2, baton_cntr := 2, tmr0_running := true }
        ).dst_of_baton = 4
    ∧ (handle_rx_packet_payload (shipped_config 5) int_part_codec (frame_of 3 0 5 6)
        { power_on exact_arith (shipped_config 5) with
          starting_board := 5, batons_per_cycle := 2, baton_cntr := 2, tmr0_running := true }
        ).tmr0_running = false
    ∧ (handle_rx_packet_payload (shipped_config 5) int_part_codec (frame_of 3 0 5 6)
        { power_on exact_arith (shipped_config 5) with
          starting_board := 5, batons_per_cycle := 2, baton_cntr := 2, tmr0_running := true }
        ).boards_completed_their_task = -1
    ∧ (handle_rx_packet_payload (shipped_config 5) int_part_codec (frame_of 3 0 5 5)
        { power_on exact_arith (shipped_config 5) with
          starting_board := 5, batons_per_cycle := 2, baton_cntr := 2, tmr0_running := true }
        ).boards_completed_their_task = 5
    ∧ to_int8 255 = -1 ∧ to_int8 127 = 127 ∧ to_int8 128 = -128 :=
  have h6 := baton_frame_accepted (shipped_config 5) int_part_codec (frame_of 3 0 5 6)
    { power_on exact_arith (shipped_config 5) with
      starting_board := 5, batons_per_cycle := 2, baton_cntr := 2, tmr0_running := true }
    (by decide) (by decide) rfl (by decide) rfl
  have h5 := baton_frame_accepted (shipped_config 5) int_part_codec (frame_of 3 0 5 5)
    { power_on exact_arith (shipped_config 5) with
      starting_board := 5, batons_per_cycle := 2, baton_cntr := 2, tmr0_running := true }
    (by decide) (by decide) rfl (by decide) rfl
  ⟨h6.1, h6.2.1, h6.2.2.1.trans (by decide), (h6.2.2.2.1 rfl).2,
    h6.2.2.2.2.2.trans (by decide), h5.2.2.2.2.2.trans (by decide),
    by decide, by decide, by decide⟩

/-! ## Theorems: continuation stack -/

theorem Stack.load_store_same (s : Stack) (i v : Int) (hlen : s.stack.length = 20)
    : (s.store i v).load i = v := by
  unfold Stack.store Stack.load
  by_cases h : 0 ≤ i ∧ i < STACK_MAXSIZE
  · have hi : i.toNat < s.stack.length := by
      have := h.2; simp only [STACK_MAXSIZE] at this; omega
    simp [h, List.getD_eq_getElem?_getD, List.getElem?_set, hi]
  · simp [h]

theorem Stack.load_store_inside (s : Stack) (i j v : Int) (hj : 0 ≤ j) (hji : j < i) :
    (s.store i v).load j = s.load j := by
  unfold Stack.store Stack.load
  by_cases h : 0 ≤ i ∧ i < STACK_MAXSIZE
  · have hj2 : 0 ≤ j ∧ j < STACK_MAXSIZE := ⟨hj, by omega⟩
    have hne : i.toNat ≠ j.toNat := by omega
    simp [h, hj2, List.getD_eq_getElem?_getD, List.getElem?_set, hne]
  · simp only [h, if_false]
    by_cases hj2 : 0 ≤ j ∧ j < STACK_MAXSIZE
    · simp [hj2]
    · have hne : (i == j) = false := by
        have : ¬ (i = j) := by omega
        simpa using this
      simp [hj2, List.find?, hne]

/-- C6, the code at a full stack: `push` on a stack that holds 20 entries
(`top = 19`) is not rejected. `top` becomes 20 and the value is stored at
`stack[20]`, outside the 20 slots; only a further `push` is rejected. -/
theorem push_on_full_stack_not_rejected :
    Stack.isfull { stack := List.replicate 20 1, top := 19, overrun := [] } = false
    ∧ (Stack.push { stack := List.replicate 20 1, top := 19, overrun := [] } 7).top = 20
    ∧ (Stack.push { stack := List.replicate 20 1, top := 19, overrun := [] } 7).overrun = [(20, 7)]
    ∧ (Stack.push { stack := List.replicate 20 1, top := 19, overrun := [] } 7).entries.length = 21
    ∧ Stack.push (Stack.push { stack := List.replicate 20 1, top := 19, overrun := [] } 7) 8
        = Stack.push { stack := List.replicate 20 1, top := 19, overrun := [] } 7
    ∧ ((List.range 20).foldl (fun s i => Stack.push s (i : Int)) Stack.init).top = 19
    ∧ (((List.range 20).foldl (fun s i => Stack.push s (i : Int)) Stack.init).push 7).top = 20
    ∧ (((List.range 20).foldl (fun s i => Stack.push s (i : Int)) Stack.init).push 7).overrun
        = [(20, 7)] := by
  decide

/-- C7: on a stack that holds fewer than 20 entries, `push v` followed by `pop`
returns `v` and leaves the original entries, in order; `peek` after `push v`
returns `v`, and the pushed stack holds the original entries followed by `v`. -/
theorem push_pop_roundtrip (s : Stack) (v : Int) (hlen : s.stack.length = 20)
    (hlo : -1 ≤ s.top) (hhi : s.top + 1 < 20) :
    (s.push v).pop.1 = v
    ∧ (s.push v).pop.2.entries = s.entries
    ∧ (s.push v).pop.2.top = s.top
    ∧ (s.push v).pop.2.overrun = s.overrun
    ∧ (s.push v).peek = v
    ∧ (s.push v).entries = s.entries ++ [v] := by
  have hfull : s.isfull = false := by
    unfold Stack.isfull; simp only [STACK_MAXSIZE]
    have : ¬ (s.top = 20) := by omega
    simp [this]
  have hpush : s.push v = Stack.store { s with top := s.top + 1 } (s.top + 1) v := by
    unfold Stack.push; simp [hfull]
  have hin : 0 ≤ s.top + 1 ∧ s.top + 1 < STACK_MAXSIZE := by
    simp only [STACK_MAXSIZE]; omega
  have htop : (s.push v).top = s.top + 1 := by
    rw [hpush]; unfold Stack.store; simp [hin]
  have hover : (s.push v).overrun = s.overrun := by
    rw [hpush]; unfold Stack.store; simp [hin]
  have hne : (s.push v).isempty = false := by
    unfold Stack.isempty
    have : ¬ ((s.push v).top = -1) := by rw [htop]; omega
    simp [this]
  have hload_top : (s.push v).load (s.top + 1) = v := by
    rw [hpush]; exact Stack.load_store_same _ _ _ hlen
  have hload_lt : ∀ j : Int, 0 ≤ j → j < s.top + 1 → (s.push v).load j = s.load j := by
    intro j hj hlt
    rw [hpush, Stack.load_store_inside _ _ _ _ hj hlt]
    rfl
  have hpop : (s.push v).pop = (v, { s.push v with top := s.top }) := by
    unfold Stack.pop
    simp only [hne, Bool.not_false, if_true, htop, hload_top]
    congr 2
    omega
  have hent : ∀ t : Stack, (∀ j : Int, 0 ≤ j → j < s.top + 1 → t.load j = s.load j) →
      t.top = s.top → t.entries = s.entries := by
    intro t ht htt
    unfold Stack.entries
    rw [htt]
    apply List.map_congr_left
    intro i hi
    rw [List.mem_range] at hi
    apply ht
    · omega
    · omega
  refine ⟨?_, ?_, ?_, ?_, ?_, ?_⟩
  · rw [hpop]
  · rw [hpop]
    apply hent
    · intro j hj hlt
      rw [← hload_lt j hj hlt]
      rfl
    · rfl
  · rw [hpop]
  · rw [hpop]; exact hover
  · unfold Stack.peek
    simp only [hne, Bool.not_false, if_true, htop, hload_top]
  · unfold Stack.entries
    rw [htop]
    have e : (s.top + 1 + 1).toNat = (s.top + 1).toNat + 1 := by omega
    rw [e, List.range_succ, List.map_append]
    congr 1
    · apply List.map_congr_left
      intro i hi
      rw [List.mem_range] at hi
      apply hload_lt <;> omega
    · have e2 : (((s.top + 1).toNat : Nat) : Int) = s.top + 1 := by omega
      simp only [List.map_cons, List.map_nil, e2, hload_top]

/-- C7 on the empty stack and on a stack with 19 entries. -/
theorem push_pop_roundtrip_examples :
    (Stack.init.push 5).pop.1 = 5 ∧ (Stack.init.push 5).pop.2.entries = []
    ∧ (Stack.push { stack := List.replicate 20 1, top := 18, overrun := [] } 5).pop.1 = 5
    ∧ (Stack.push { stack := List.replicate 20 1, top := 18, overrun := [] } 5).peek = 5 :=
  ⟨(push_pop_roundtrip Stack.init 5 rfl (by decide) (by decide)).1,
   (push_pop_roundtrip Stack.init 5 rfl (by decide) (by decide)).2.1,
   (push_pop_roundtrip { stack := List.replicate 20 1, top := 18, overrun := [] } 5 rfl
      (by decide) (by decide)).1,
   (push_pop_roundtrip { stack := List.replicate 20 1, top := 18, overrun := [] } 5 rfl
      (by decide) (by decide)).2.2.2.2.1⟩

/-- C8: on an empty stack (`top = -1`, as after `clear`), `pop` and `peek`
return `-1`, the stack stays as it is (empty), and `-1` is the value of none of
the twelve states. -/
theorem pop_peek_on_empty (s : Stack) (hempty : s.top = -1) :
    s.pop = (-1, s) ∧ s.peek = -1 ∧ s.pop.2.entries = []
    ∧ (∀ t : Stack, t.clear.top = -1 ∧ t.clear.pop = (-1, t.clear) ∧ t.clear.peek = -1
        ∧ t.clear.entries = [])
    ∧ (∀ st : state_t, st.toInt ≠ -1) ∧ state_t.ofInt (-1) = none := by
  have hpop : ∀ t : Stack, t.top = -1 → t.pop = (-1, t) := by
    intro t ht; unfold Stack.pop Stack.isempty; simp [ht]
  have hpeek : ∀ t : Stack, t.top = -1 → t.peek = -1 := by
    intro t ht; unfold Stack.peek Stack.isempty; simp [ht]
  have hent : ∀ t : Stack, t.top = -1 → t.entries = [] := by
    intro t ht; unfold Stack.entries; simp [ht]
  refine ⟨hpop s hempty, hpeek s hempty, ?_, ?_, ?_, ?_⟩
  · rw [hpop s hempty]; exact hent s hempty
  · intro t
    exact ⟨rfl, hpop _ rfl, hpeek _ rfl, hent _ rfl⟩
  · intro st; cases st <;> decide
  · decide

/-- C8 on the stack as the program starts and on a cleared stack with entries. -/
theorem pop_peek_on_empty_examples :
    Stack.init.pop = (-1, Stack.init) ∧ Stack.init.peek = -1
    ∧ (Stack.clear ((Stack.init.push 3).push 4)).pop.1 = -1 :=
  ⟨(pop_peek_on_empty Stack.init rfl).1, (pop_peek_on_empty Stack.init rfl).2.1,
   congrArg Prod.fst ((pop_peek_on_empty Stack.init rfl).2.2.2.1 ((Stack.init.push 3).push 4)).2.1⟩


/-! ## Theorems: consensus weights -/

theorem getD_map_range {α : Type} (f : Nat → α) (n j : Nat) (d : α) (hj : j < n) :
    ((List.range n).map f).getD j d = f j := by
  have hlen : j < ((List.range n).map f).length := by simpa using hj
  rw [List.getD_eq_getElem _ d hlen]
  simp

theorem foldl_count (p : Nat → Bool) (n : Nat) :
    (List.range n).foldl (fun (d : Int) j => if p j then d + 1 else d) 0
      = (((List.range n).countP p : Nat) : Int) := by
  induction n with
  | zero => rfl
  | succ n ih =>
    rw [List.range_succ, List.foldl_append, ih, List.countP_append]
    simp only [List.foldl_cons, List.foldl_nil, List.countP_cons, List.countP_nil]
    split_ifs <;> simp

theorem foldl_max (f : Nat → Int) (n : Nat) :
    (∀ i, i < n → f i ≤ (List.range n).foldl (fun (g : Int) i => if f i > g then f i else g) 0)
    ∧ 0 ≤ (List.range n).foldl (fun (g : Int) i => if f i > g then f i else g) 0
    ∧ ((List.range n).foldl (fun (g : Int) i => if f i > g then f i else g) 0 = 0
        ∨ ∃ i, i < n
            ∧ (List.range n).foldl (fun (g : Int) i => if f i > g then f i else g) 0 = f i) := by
  induction n with
  | zero => simp
  | succ n ih =>
    rw [List.range_succ, List.foldl_append]
    simp only [List.foldl_cons, List.foldl_nil]
    obtain ⟨h1, h2, h3⟩ := ih
    split_ifs with h
    · refine ⟨?_, by omega, Or.inr ⟨n, by omega, rfl⟩⟩
      intro i hi
      by_cases hin : i = n
      · rw [hin]
      · have := h1 i (by omega); omega
    · refine ⟨?_, h2, ?_⟩
      · intro i hi
        by_cases hin : i = n
        · rw [hin]; omega
        · exact h1 i (by omega)
      · rcases h3 with h3 | ⟨i, hi, h3⟩
        · exact Or.inl h3
        · exact Or.inr ⟨i, by omega, h3⟩

/-- The value `deg[i]` is the number of boards `j ≠ i` with `graph[i][j]` set. -/
theorem degree_eq_count (cfg : Config F) (i : Nat) :
    degree cfg i
      = (((List.range cfg.NUM_OF_BOARDS).countP (fun j => cfg.graph_at i j && i != j) : Nat) : Int) :=
  foldl_count (fun j => cfg.graph_at i j && i != j) cfg.NUM_OF_BOARDS

/-- The value `gr_deg` is the maximum of the degrees (0 for no board). -/
theorem graph_degree_is_max (cfg : Config F) :
    (∀ i, i < cfg.NUM_OF_BOARDS → degree cfg i ≤ graph_degree cfg)
    ∧ 0 ≤ graph_degree cfg
    ∧ (graph_degree cfg = 0 ∨ ∃ i, i < cfg.NUM_OF_BOARDS ∧ graph_degree cfg = degree cfg i) :=
  foldl_max (degree cfg) cfg.NUM_OF_BOARDS

theorem weights_sum_upto (G : Nat → Bool) (b : Nat) (A c : ℚ) (hG : G b = true) (n : Nat) :
    ((List.range n).map (fun j => if !G j then (0 : ℚ) else if j = b then A else c)).sum
      = (if b < n then A else 0)
        + c * (((List.range n).foldl (fun d j => if G j && b != j then d + 1 else d) (0 : Int) : Int) : ℚ) := by
  induction n with
  | zero => simp
  | succ n ih =>
    rw [List.range_succ, List.map_append, List.sum_append, ih, List.foldl_append]
    simp only [List.map_cons, List.map_nil, List.sum_cons, List.sum_nil, List.foldl_cons,
      List.foldl_nil, add_zero]
    by_cases hnb : n = b
    · subst hnb
      simp [hG]
      ring
    · have hbn : ¬ (b = n) := fun h => hnb h.symm
      by_cases hlt : b < n
      · have hlt2 : b < n + 1 := by omega
        by_cases hGn : G n = true
        · simp [hnb, hbn, hlt, hlt2, hGn]; ring
        · simp [hnb, hbn, hlt, hlt2, hGn]
      · have hlt2 : ¬ (b < n + 1) := by omega
        by_cases hGn : G n = true
        · simp [hnb, hbn, hlt, hlt2, hGn]; ring
        · simp [hnb, hbn, hlt, hlt2, hGn]

theorem initialize_weights_sum (cfg : Config ℚ)
    (hself : cfg.graph_at cfg.BOARD_ID cfg.BOARD_ID = true)
    (hb : cfg.BOARD_ID < cfg.NUM_OF_BOARDS) :
    (initialize_weights exact_arith cfg).sum = 1 := by
  unfold initialize_weights
  simp only [exact_arith]
  have h := weights_sum_upto (fun j => cfg.graph_at cfg.BOARD_ID j) cfg.BOARD_ID
    (((1 : Int) : ℚ) - ((degree cfg cfg.BOARD_ID : Int) : ℚ)
      / (((1 : Int) : ℚ) * ((graph_degree cfg + 1 : Int) : ℚ)))
    (((1 : Int) : ℚ) / ((graph_degree cfg + 1 : Int) : ℚ)) hself cfg.NUM_OF_BOARDS
  simp only [Int.cast_zero] at h ⊢
  rw [h]
  simp only [hb, if_true]
  have hd : (List.range cfg.NUM_OF_BOARDS).foldl
      (fun d j => if cfg.graph_at cfg.BOARD_ID j && cfg.BOARD_ID != j then d + 1 else d) (0 : Int)
      = degree cfg cfg.BOARD_ID := rfl
  rw [hd]
  simp only [Int.cast_one, one_mul, div_eq_mul_inv]
  ring

theorem weight_matrix_entry (cfg : Config ℚ) (i j : Nat) (hj : j < cfg.NUM_OF_BOARDS) :
    weight_matrix cfg i j
      = if cfg.graph_at i j = false then 0
        else if j = i then
          1 - ((degree cfg i : Int) : ℚ) / (((graph_degree cfg : Int) : ℚ) + 1)
        else 1 / (((graph_degree cfg : Int) : ℚ) + 1) := by
  unfold weight_matrix initialize_weights
  rw [getD_map_range _ _ _ _ hj]
  have hg : graph_degree { cfg with BOARD_ID := i } = graph_degree cfg := rfl
  have hd : degree { cfg with BOARD_ID := i } i = degree cfg i := rfl
  have ha : Config.graph_at { cfg with BOARD_ID := i } i j = cfg.graph_at i j := rfl
  simp only [exact_arith, hg, hd, ha]
  by_cases h : cfg.graph_at i j = true
  · simp [h]
  · simp [h]

/-- C9: for a topology with `graph[b][b] = true` for the board `b` (`b < N`),
the weights computed by `initialize_weights` in exact rational arithmetic are
`1 - deg(b)/(maxDeg+1)` for `b` itself, `1/(maxDeg+1)` for each neighbour and `0`
for the other boards, where `deg(b)` counts the neighbours of `b` other than `b`
and `maxDeg` is the largest degree; they sum to exactly 1. -/
theorem weights_row_sums_to_one (cfg : Config ℚ)
    (hb : cfg.BOARD_ID < cfg.NUM_OF_BOARDS)
    (hself : cfg.graph_at cfg.BOARD_ID cfg.BOARD_ID = true) :
    (initialize_weights exact_arith cfg).length = cfg.NUM_OF_BOARDS
    ∧ degree cfg cfg.BOARD_ID
        = (((List.range cfg.NUM_OF_BOARDS).countP
            (fun j => cfg.graph_at cfg.BOARD_ID j && cfg.BOARD_ID != j) : Nat) : Int)
    ∧ (∀ i, i < cfg.NUM_OF_BOARDS → degree cfg i ≤ graph_degree cfg)
    ∧ (∃ i, i < cfg.NUM_OF_BOARDS ∧ graph_degree cfg = degree cfg i)
    ∧ (∀ j, j < cfg.NUM_OF_BOARDS →
        (initialize_weights exact_arith cfg).getD j 0
          = if cfg.graph_at cfg.BOARD_ID j = false then 0
            else if j = cfg.BOARD_ID then
              1 - ((degree cfg cfg.BOARD_ID : Int) : ℚ) / (((graph_degree cfg : Int) : ℚ) + 1)
            else 1 / (((graph_degree cfg : Int) : ℚ) + 1))
    ∧ (initialize_weights exact_arith cfg).sum = 1 := by
  refine ⟨by simp [initialize_weights], degree_eq_count cfg cfg.BOARD_ID,
    (graph_degree_is_max cfg).1, ?_, ?_, initialize_weights_sum cfg hself hb⟩
  · rcases (graph_degree_is_max cfg).2.2 with h0 | h
    · refine ⟨cfg.BOARD_ID, hb, ?_⟩
      have h1 := (graph_degree_is_max cfg).1 cfg.BOARD_ID hb
      have h2 : 0 ≤ degree cfg cfg.BOARD_ID := by
        rw [degree_eq_count]; exact Int.natCast_nonneg _
      omega
    · exact h
  · intro j hj
    exact weight_matrix_entry cfg cfg.BOARD_ID j hj

/-- C9 on board 5 of the shipped topology: the weights are
`[1/4, 1/4, 0, 0, 1/4, 1/4]`. -/
theorem weights_row_sums_to_one_shipped :
    (initialize_weights exact_arith (shipped_config 5)).sum = 1
    ∧ (initialize_weights exact_arith (shipped_config 5)).getD 5 0
        = 1 - ((degree (shipped_config 5) 5 : Int) : ℚ)
            / (((graph_degree (shipped_config 5) : Int) : ℚ) + 1)
    ∧ degree (shipped_config 5) 5 = 3 ∧ graph_degree (shipped_config 5) = 3 :=
  ⟨(weights_row_sums_to_one (shipped_config 5) (by decide) (by decide)).2.2.2.2.2,
   (weights_row_sums_to_one (shipped_config 5) (by decide) (by decide)).2.2.2.2.1 5 (by decide),
   by decide, by decide⟩

theorem weight_matrix_row (cfg : Config ℚ) (i : Nat) :
    (List.range cfg.NUM_OF_BOARDS).map (fun j => weight_matrix cfg i j)
      = initialize_weights exact_arith { cfg with BOARD_ID := i } := by
  unfold weight_matrix
  conv_rhs => unfold initialize_weights
  apply List.map_congr_left
  intro j hj
  rw [List.mem_range] at hj
  unfold initialize_weights
  exact getD_map_range _ _ _ _ hj

/-- C10: for a symmetric topology with all self-loops set, the matrix of the
weight rows computed by the boards (exact rational arithmetic) is symmetric,
and each of its rows and each of its columns sums to exactly 1. -/
theorem weight_matrix_doubly_stochastic (cfg : Config ℚ)
    (hsym : ∀ i, i < cfg.NUM_OF_BOARDS → ∀ j, j < cfg.NUM_OF_BOARDS →
      cfg.graph_at i j = cfg.graph_at j i)
    (hloops : ∀ i, i < cfg.NUM_OF_BOARDS → cfg.graph_at i i = true) :
    (∀ i, i < cfg.NUM_OF_BOARDS → ∀ j, j < cfg.NUM_OF_BOARDS →
        weight_matrix cfg i j = weight_matrix cfg j i)
    ∧ (∀ i, i < cfg.NUM_OF_BOARDS →
        ((List.range cfg.NUM_OF_BOARDS).map (fun j => weight_matrix cfg i j)).sum = 1)
    ∧ (∀ j, j < cfg.NUM_OF_BOARDS →
        ((List.range cfg.NUM_OF_BOARDS).map (fun i => weight_matrix cfg i j)).sum = 1) := by
  have hS : ∀ i, i < cfg.NUM_OF_BOARDS → ∀ j, j < cfg.NUM_OF_BOARDS →
      weight_matrix cfg i j = weight_matrix cfg j i := by
    intro i hi j hj
    by_cases hij : i = j
    · rw [hij]
    · have hji : ¬ (j = i) := fun h => hij h.symm
      rw [weight_matrix_entry cfg i j hj, weight_matrix_entry cfg j i hi, hsym i hi j hj]
      simp only [hij, hji, if_false]
  have hR : ∀ i, i < cfg.NUM_OF_BOARDS →
      ((List.range cfg.NUM_OF_BOARDS).map (fun j => weight_matrix cfg i j)).sum = 1 := by
    intro i hi
    rw [weight_matrix_row cfg i]
    exact initialize_weights_sum { cfg with BOARD_ID := i } (hloops i hi) hi
  refine ⟨hS, hR, ?_⟩
  intro j hj
  rw [← hR j hj]
  congr 1
  apply List.map_congr_left
  intro i hi
  rw [List.mem_range] at hi
  exact hS i hi j hj

/-- C10 on the shipped topology. -/
theorem weight_matrix_doubly_stochastic_shipped :
    weight_matrix (shipped_config 0) 1 5 = weight_matrix (shipped_config 0) 5 1
    ∧ ((List.range 6).map (fun j => weight_matrix (shipped_config 0) 4 j)).sum = 1
    ∧ ((List.range 6).map (fun i => weight_matrix (shipped_config 0) i 4)).sum = 1 :=
  ⟨(weight_matrix_doubly_stochastic (shipped_config 0) (by decide) (by decide)).1
      1 (by decide) 5 (by decide),
   (weight_matrix_doubly_stochastic (shipped_config 0) (by decide) (by decide)).2.1 4 (by decide),
   (weight_matrix_doubly_stochastic (shipped_config 0) (by decide) (by decide)).2.2 4 (by decide)⟩


/-! ## Theorems: the next token hop does not steer the state machine -/

theorem control_congr (f : Board F → Board F)
    (hf : ∀ b, (f b).control = (f b.control).control) (b1 b2 : Board F)
    (h : b1.control = b2.control) : (f b1).control = (f b2).control := by
  rw [hf b1, hf b2, h]

theorem control_handle_rx_packet_payload (cfg : Config F) (cd : FloatCodec F)
    (rx_buffer : List Int) (b : Board F) :
    (handle_rx_packet_payload cfg cd rx_buffer b).control
      = (handle_rx_packet_payload cfg cd rx_buffer b.control).control := by
  simp only [handle_rx_packet_payload]
  generalize message_t.ofInt (rx_buffer.getD MSGIDX_TYPE 0) = m
  rcases m with _ | m
  · rfl
  · cases m
    all_goals simp only [Board.control, app_is_ok_to_sleep, wake_up, cancel_timer,
      set_consensus_state]
    all_goals split_ifs <;> rfl

theorem control_set_dst_after_first_occurrence (cfg : Config F) (b : Board F) :
    (set_dst_after_first_occurrence cfg b).control = b.control := by
  simp only [set_dst_after_first_occurrence]
  cases (List.range cfg.LENGTH_OF_BATON_PATH).find?
      (fun i => decide (cfg.baton_path.getD i 0 = (cfg.BOARD_ID : Int))) with
  | none => simp only [Board.control]; split_ifs <;> rfl
  | some i => simp only [Board.control]; split_ifs <;> rfl

theorem control_enable_alarm (cfg : Config F) (b : Board F) :
    (enable_alarm cfg b).control = (enable_alarm cfg b.control).control := by
  have h : ∀ c : Board F, (enable_alarm cfg c).control
      = { (set_dst_after_first_occurrence cfg { c with baton := true }).control with
          restart_command := true,
          restart_id := (set_dst_after_first_occurrence cfg { c with baton := true }).control.restart_id + 1 } :=
    fun _ => rfl
  rw [h b, h b.control, control_set_dst_after_first_occurrence,
    control_set_dst_after_first_occurrence]
  rfl

theorem control_cli_avg_consensus (cfg : Config F) (b : Board F) :
    (cli_avg_consensus cfg b).control = (cli_avg_consensus cfg b.control).control := by
  simp only [cli_avg_consensus, app_is_ok_to_sleep]
  have e : b.control.ready_to_sleep = b.ready_to_sleep := rfl
  rw [e]
  cases b.ready_to_sleep with
  | false => rfl
  | true =>
    simp only [Bool.not_true, Bool.false_eq_true, if_false]
    rw [control_set_dst_after_first_occurrence, control_set_dst_after_first_occurrence]
    rfl

theorem control_sl_rail_util_on_event (ev : RailEvents) (b : Board F) :
    (sl_rail_util_on_event ev b).control = (sl_rail_util_on_event ev b.control).control := by
  simp only [sl_rail_util_on_event, Board.control]
  split_ifs <;> rfl

theorem control_initialize_app (fl : FloatOps F) (cfg : Config F) (b : Board F) :
    (initialize_app fl cfg b).control = (initialize_app fl cfg b.control).control := rfl

theorem not_true_of_false {x : Bool} (h : x = false) : ¬ (x = true) := by
  rw [h]; exact Bool.false_ne_true

theorem handle_app_events_packet_received (fl : FloatOps F) (cfg : Config F) (b : Board F)
    (h1 : b.packet_received = true) :
    handle_app_events fl cfg b
      = { ({ b with packet_received := false } : Board F).push b.state with
          state := state_t.S_PACKET_RECEIVED.toInt } := by
  unfold handle_app_events
  rw [if_pos h1]

theorem handle_app_events_packet_sent (fl : FloatOps F) (cfg : Config F) (b : Board F)
    (h1 : b.packet_received = false) (h2 : b.packet_sent = true) :
    handle_app_events fl cfg b
      = { b with packet_sent := false, state := state_t.S_PACKET_SENT.toInt } := by
  unfold handle_app_events
  rw [if_neg (not_true_of_false h1), if_pos h2]

theorem handle_app_events_rx_error (fl : FloatOps F) (cfg : Config F) (b : Board F)
    (h1 : b.packet_received = false) (h2 : b.packet_sent = false) (h3 : b.rx_error = true) :
    handle_app_events fl cfg b
      = { b with rx_error := false, state := state_t.S_RX_PACKET_ERROR.toInt } := by
  unfold handle_app_events
  rw [if_neg (not_true_of_false h1), if_neg (not_true_of_false h2), if_pos h3]

theorem handle_app_events_tx_error (fl : FloatOps F) (cfg : Config F) (b : Board F)
    (h1 : b.packet_received = false) (h2 : b.packet_sent = false) (h3 : b.rx_error = false)
    (h4 : b.tx_error = true) :
    handle_app_events fl cfg b
      = { b with tx_error := false, state := state_t.S_TX_PACKET_ERROR.toInt } := by
  unfold handle_app_events
  rw [if_neg (not_true_of_false h1), if_neg (not_true_of_false h2),
    if_neg (not_true_of_false h3), if_pos h4]

theorem handle_app_events_cal_error (fl : FloatOps F) (cfg : Config F) (b : Board F)
    (h1 : b.packet_received = false) (h2 : b.packet_sent = false) (h3 : b.rx_error = false)
    (h4 : b.tx_error = false) (h5 : b.cal_error = true) :
    handle_app_events fl cfg b
      = { b with cal_error := false, state := state_t.S_CALIBRATION_ERROR.toInt } := by
  unfold handle_app_events
  rw [if_neg (not_true_of_false h1), if_neg (not_true_of_false h2),
    if_neg (not_true_of_false h3), if_neg (not_true_of_false h4), if_pos h5]

theorem handle_app_events_sleep (fl : FloatOps F) (cfg : Config F) (b : Board F)
    (hs : no_transport_signal b) (h6 : sleep_rule_applies b) :
    handle_app_events fl cfg b
      = { ({ b.clear with temperature := fl.ofInt (MIN_TEMPERATURE - 1),
                          current_task := task_t.T_NONE,
                          baton_cntr := 0,
                          consensus_is_over := false } : Board F).push
            state_t.S_INIT_AND_SLEEP.toInt with
          tx_operation_to_achieve := tx_operation_t.O_GIVE_BATON,
          state := state_t.S_PACKET_TX.toInt } := by
  obtain ⟨h1, h2, h3, h4, h5⟩ := hs
  simp only [sleep_rule_applies, restart_rule_applies, bypass_rule_applies,
    average_rule_applies] at *
  unfold handle_app_events
  rw [if_neg (not_true_of_false h1), if_neg (not_true_of_false h2),
    if_neg (not_true_of_false h3), if_neg (not_true_of_false h4),
    if_neg (not_true_of_false h5), if_pos h6]

theorem handle_app_events_restart (fl : FloatOps F) (cfg : Config F) (b : Board F)
    (hs : no_transport_signal b) (h6 : ¬ sleep_rule_applies b) (h7 : restart_rule_applies b) :
    handle_app_events fl cfg b
      = ({ initialize_app fl cfg b with
            starting_board := b.starting_board,
            dst_of_baton := b.dst_of_baton,
            baton_cntr := 1,
            baton := true,
            restart_id := b.restart_id,
            num_of_pending_msgs_for_tx := (cfg.NUM_OF_BOARDS : Int),
            state := state_t.S_PACKET_TX.toInt,
            tx_operation_to_achieve := tx_operation_t.O_GLB_RESTART } : Board F).push
          state_t.S_RESTART_COMPLETED.toInt := by
  obtain ⟨h1, h2, h3, h4, h5⟩ := hs
  simp only [sleep_rule_applies, restart_rule_applies, bypass_rule_applies,
    average_rule_applies] at *
  unfold handle_app_events
  rw [if_neg (not_true_of_false h1), if_neg (not_true_of_false h2),
    if_neg (not_true_of_false h3), if_neg (not_true_of_false h4),
    if_neg (not_true_of_false h5), if_neg h6, if_pos h7]

theorem handle_app_events_bypass (fl : FloatOps F) (cfg : Config F) (b : Board F)
    (hs : no_transport_signal b) (h6 : ¬ sleep_rule_applies b) (h7 : ¬ restart_rule_applies b)
    (h8 : bypass_rule_applies b) :
    handle_app_events fl cfg b
      = { b.push b.state with
          tx_operation_to_achieve := tx_operation_t.O_GIVE_BATON,
          state := state_t.S_PACKET_TX.toInt } := by
  obtain ⟨h1, h2, h3, h4, h5⟩ := hs
  simp only [sleep_rule_applies, restart_rule_applies, bypass_rule_applies,
    average_rule_applies] at *
  unfold handle_app_events
  rw [if_neg (not_true_of_false h1), if_neg (not_true_of_false h2),
    if_neg (not_true_of_false h3), if_neg (not_true_of_false h4),
    if_neg (not_true_of_false h5), if_neg h6, if_neg h7, if_pos h8]

theorem handle_app_events_average (fl : FloatOps F) (cfg : Config F) (b : Board F)
    (hs : no_transport_signal b) (h6 : ¬ sleep_rule_applies b) (h7 : ¬ restart_rule_applies b)
    (h8 : ¬ bypass_rule_applies b) (h9 : average_rule_applies b) :
    handle_app_events fl cfg b
      = ({ b with average_command := false,
                  num_of_pending_msgs_for_tx := (cfg.NUM_OF_BOARDS : Int),
                  current_task := task_t.T_CONSENSUS,
                  state := state_t.S_PACKET_TX.toInt,
                  tx_operation_to_achieve := tx_operation_t.O_GLB_START_TASK } : Board F).push
          state_t.S_START_AVG_CONSENSUS.toInt := by
  obtain ⟨h1, h2, h3, h4, h5⟩ := hs
  simp only [sleep_rule_applies, restart_rule_applies, bypass_rule_applies,
    average_rule_applies] at *
  unfold handle_app_events
  rw [if_neg (not_true_of_false h1), if_neg (not_true_of_false h2),
    if_neg (not_true_of_false h3), if_neg (not_true_of_false h4),
    if_neg (not_true_of_false h5), if_neg h6, if_neg h7, if_neg h8, if_pos h9]

theorem handle_app_events_no_rule (fl : FloatOps F) (cfg : Config F) (b : Board F)
    (hs : no_transport_signal b) (h6 : ¬ sleep_rule_applies b) (h7 : ¬ restart_rule_applies b)
    (h8 : ¬ bypass_rule_applies b) (h9 : ¬ average_rule_applies b) :
    handle_app_events fl cfg b = b := by
  obtain ⟨h1, h2, h3, h4, h5⟩ := hs
  simp only [sleep_rule_applies, restart_rule_applies, bypass_rule_applies,
    average_rule_applies] at *
  unfold handle_app_events
  rw [if_neg (not_true_of_false h1), if_neg (not_true_of_false h2),
    if_neg (not_true_of_false h3), if_neg (not_true_of_false h4),
    if_neg (not_true_of_false h5), if_neg h6, if_neg h7, if_neg h8, if_neg h9]

theorem control_handle_app_events (fl : FloatOps F) (cfg : Config F) (b : Board F) :
    (handle_app_events fl cfg b).control = (handle_app_events fl cfg b.control).control := by
  by_cases h1 : b.packet_received = true
  · rw [handle_app_events_packet_received fl cfg b h1,
      handle_app_events_packet_received fl cfg b.control h1]
    rfl
  have h1 : b.packet_received = false := by simpa using h1
  by_cases h2 : b.packet_sent = true
  · rw [handle_app_events_packet_sent fl cfg b h1 h2,
      handle_app_events_packet_sent fl cfg b.control h1 h2]
    rfl
  have h2 : b.packet_sent = false := by simpa using h2
  by_cases h3 : b.rx_error = true
  · rw [handle_app_events_rx_error fl cfg b h1 h2 h3,
      handle_app_events_rx_error fl cfg b.control h1 h2 h3]
    rfl
  have h3 : b.rx_error = false := by simpa using h3
  by_cases h4 : b.tx_error = true
  · rw [handle_app_events_tx_error fl cfg b h1 h2 h3 h4,
      handle_app_events_tx_error fl cfg b.control h1 h2 h3 h4]
    rfl
  have h4 : b.tx_error = false := by simpa using h4
  by_cases h5 : b.cal_error = true
  · rw [handle_app_events_cal_error fl cfg b h1 h2 h3 h4 h5,
      handle_app_events_cal_error fl cfg b.control h1 h2 h3 h4 h5]
    rfl
  have h5 : b.cal_error = false := by simpa using h5
  have hs : no_transport_signal b := ⟨h1, h2, h3, h4, h5⟩
  have hs2 : no_transport_signal b.control := ⟨h1, h2, h3, h4, h5⟩
  by_cases h6 : sleep_rule_applies b
  · rw [handle_app_events_sleep fl cfg b hs h6, handle_app_events_sleep fl cfg b.control hs2 h6]
    rfl
  by_cases h7 : restart_rule_applies b
  · rw [handle_app_events_restart fl cfg b hs h6 h7,
      handle_app_events_restart fl cfg b.control hs2 h6 h7]
    rfl
  by_cases h8 : bypass_rule_applies b
  · rw [handle_app_events_bypass fl cfg b hs h6 h7 h8,
      handle_app_events_bypass fl cfg b.control hs2 h6 h7 h8]
    rfl
  by_cases h9 : average_rule_applies b
  · rw [handle_app_events_average fl cfg b hs h6 h7 h8 h9,
      handle_app_events_average fl cfg b.control hs2 h6 h7 h8 h9]
    rfl
  · rw [handle_app_events_no_rule fl cfg b hs h6 h7 h8 h9,
      handle_app_events_no_rule fl cfg b.control hs2 h6 h7 h8 h9]
    rfl

theorem control_handle_received_packet (cfg : Config F) (cd : FloatCodec F)
    (rx_queue : List (List Int)) (b1 b2 : Board F) (h : b1.control = b2.control) :
    (handle_received_packet cfg cd rx_queue b1).control
      = (handle_received_packet cfg cd rx_queue b2).control := by
  unfold handle_received_packet
  induction rx_queue generalizing b1 b2 with
  | nil => exact h
  | cons p q ih =>
    simp only [List.foldl_cons]
    apply ih
    split_ifs
    · exact h
    · exact control_congr _ (control_handle_rx_packet_payload cfg cd p) b1 b2 h
    · exact h

theorem control_set_tx_packet (b : Board F) (i : Nat) (v : Int) :
    (set_tx_packet b i v).control = b.control := rfl

theorem control_send_packet (b : Board F) (d : Int) : (send_packet b d).control = b.control := rfl

theorem pending_set_tx_packet (b : Board F) (i : Nat) (v : Int) :
    (set_tx_packet b i v).num_of_pending_msgs_for_tx = b.num_of_pending_msgs_for_tx := rfl

theorem packet_transmission_control (cfg : Config F) (cd : FloatCodec F) (oper : tx_operation_t)
    (b : Board F) : (packet_transmission cfg cd oper b).2.control = b.control := by
  cases oper
  all_goals simp only [packet_transmission]
  all_goals (try split_ifs)
  all_goals simp only [control_send_packet, control_set_tx_packet]

theorem packet_transmission_flag (cfg : Config F) (cd : FloatCodec F) (oper : tx_operation_t)
    (b1 b2 : Board F) (h : b1.num_of_pending_msgs_for_tx = b2.num_of_pending_msgs_for_tx) :
    (packet_transmission cfg cd oper b1).1 = (packet_transmission cfg cd oper b2).1 := by
  cases oper
  all_goals simp only [packet_transmission, h]
  all_goals (try split_ifs)
  all_goals rfl

theorem control_after_transmission (cfg : Config F) (msg_sent : Bool) (b : Board F) :
    (after_transmission cfg msg_sent b).control
      = (after_transmission cfg msg_sent b.control).control := by
  have e : b.control.tx_operation_to_achieve = b.tx_operation_to_achieve := rfl
  simp only [after_transmission, e]
  cases b.tx_operation_to_achieve
  all_goals simp only [Board.control, Board.push, Board.pop_state, set_timer]
  all_goals split_ifs <;> rfl

/-! ## Theorems: the state executed by a tick -/

theorem execute_app_state_restart_completed (fl : FloatOps F) (cd : FloatCodec F) (cfg : Config F)
    (rx_queue : List (List Int)) (b : Board F)
    (h : state_t.ofInt b.state = some state_t.S_RESTART_COMPLETED) :
    execute_app_state fl cd cfg rx_queue b
      = { (if b.starting_board = (cfg.BOARD_ID : Int) then { b with average_command := true }
           else b) with state := state_t.S_IDLE.toInt } := by
  unfold execute_app_state
  rw [h]

theorem execute_app_state_start_avg_consensus (fl : FloatOps F) (cd : FloatCodec F) (cfg : Config F)
    (rx_queue : List (List Int)) (b : Board F)
    (h : state_t.ofInt b.state = some state_t.S_START_AVG_CONSENSUS) :
    execute_app_state fl cd cfg rx_queue b
      = if b.baton then
          { initialize_consensus_setup fl cfg (measure_temperature fl cfg b) with
            state := state_t.S_SEND_AVG_CONSENSUS_MSGS.toInt }
        else b := by
  unfold execute_app_state
  rw [h]

theorem execute_app_state_send_avg_consensus_msgs (fl : FloatOps F) (cd : FloatCodec F) (cfg : Config F)
    (rx_queue : List (List Int)) (b : Board F)
    (h : state_t.ofInt b.state = some state_t.S_SEND_AVG_CONSENSUS_MSGS) :
    execute_app_state fl cd cfg rx_queue b
      = if b.baton then
          { b.push state_t.S_UPDATE_AVG_CONSENSUS_STATE.toInt with
            num_of_pending_msgs_for_tx := (cfg.NUM_OF_BOARDS : Int),
            state := state_t.S_PACKET_TX.toInt,
            tx_operation_to_achieve := tx_operation_t.O_GLB_SEND_STATE }
        else b := by
  unfold execute_app_state
  rw [h]

theorem execute_app_state_update_avg_consensus_state (fl : FloatOps F) (cd : FloatCodec F) (cfg : Config F)
    (rx_queue : List (List Int)) (b : Board F)
    (h : state_t.ofInt b.state = some state_t.S_UPDATE_AVG_CONSENSUS_STATE) :
    execute_app_state fl cd cfg rx_queue b
      = if b.baton then
          update_completion_tally fl cfg (b.consensus_states.getD cfg.BOARD_ID (fl.ofInt 0))
            { (update_consensus_state fl cfg b).push state_t.S_SEND_AVG_CONSENSUS_MSGS.toInt with
              state := state_t.S_PACKET_TX.toInt,
              tx_operation_to_achieve := tx_operation_t.O_GIVE_BATON }
        else b := by
  unfold execute_app_state
  rw [h]

theorem execute_app_state_init_and_sleep (fl : FloatOps F) (cd : FloatCodec F) (cfg : Config F)
    (rx_queue : List (List Int)) (b : Board F)
    (h : state_t.ofInt b.state = some state_t.S_INIT_AND_SLEEP) :
    execute_app_state fl cd cfg rx_queue b
      = sleep { initialize_app fl cfg b with state := state_t.S_IDLE.toInt } := by
  unfold execute_app_state
  rw [h]

theorem execute_app_state_packet_tx (fl : FloatOps F) (cd : FloatCodec F) (cfg : Config F)
    (rx_queue : List (List Int)) (b : Board F)
    (h : state_t.ofInt b.state = some state_t.S_PACKET_TX) :
    execute_app_state fl cd cfg rx_queue b
      = after_transmission cfg (packet_transmission cfg cd b.tx_operation_to_achieve b).1
          (packet_transmission cfg cd b.tx_operation_to_achieve b).2 := by
  unfold execute_app_state
  rw [h]

theorem execute_app_state_packet_received (fl : FloatOps F) (cd : FloatCodec F) (cfg : Config F)
    (rx_queue : List (List Int)) (b : Board F)
    (h : state_t.ofInt b.state = some state_t.S_PACKET_RECEIVED) :
    execute_app_state fl cd cfg rx_queue b
      = (handle_received_packet cfg cd rx_queue b).pop_state := by
  unfold execute_app_state
  rw [h]

theorem execute_app_state_packet_sent (fl : FloatOps F) (cd : FloatCodec F) (cfg : Config F)
    (rx_queue : List (List Int)) (b : Board F)
    (h : state_t.ofInt b.state = some state_t.S_PACKET_SENT) :
    execute_app_state fl cd cfg rx_queue b
      = (start_receiving cfg b).pop_state := by
  unfold execute_app_state
  rw [h]

theorem execute_app_state_rx_packet_error (fl : FloatOps F) (cd : FloatCodec F) (cfg : Config F)
    (rx_queue : List (List Int)) (b : Board F)
    (h : state_t.ofInt b.state = some state_t.S_RX_PACKET_ERROR) :
    execute_app_state fl cd cfg rx_queue b
      = { b with state := state_t.S_IDLE.toInt } := by
  unfold execute_app_state
  rw [h]

theorem execute_app_state_tx_packet_error (fl : FloatOps F) (cd : FloatCodec F) (cfg : Config F)
    (rx_queue : List (List Int)) (b : Board F)
    (h : state_t.ofInt b.state = some state_t.S_TX_PACKET_ERROR) :
    execute_app_state fl cd cfg rx_queue b
      = { b with state := state_t.S_IDLE.toInt } := by
  unfold execute_app_state
  rw [h]

theorem execute_app_state_calibration_error (fl : FloatOps F) (cd : FloatCodec F) (cfg : Config F)
    (rx_queue : List (List Int)) (b : Board F)
    (h : state_t.ofInt b.state = some state_t.S_CALIBRATION_ERROR) :
    execute_app_state fl cd cfg rx_queue b
      = { b with state := state_t.S_IDLE.toInt } := by
  unfold execute_app_state
  rw [h]

theorem execute_app_state_idle (fl : FloatOps F) (cd : FloatCodec F) (cfg : Config F)
    (rx_queue : List (List Int)) (b : Board F)
    (h : state_t.ofInt b.state = some state_t.S_IDLE) :
    execute_app_state fl cd cfg rx_queue b
      = b := by
  unfold execute_app_state
  rw [h]

theorem execute_app_state_unexpected (fl : FloatOps F) (cd : FloatCodec F) (cfg : Config F)
    (rx_queue : List (List Int)) (b : Board F) (h : state_t.ofInt b.state = none) :
    execute_app_state fl cd cfg rx_queue b = { b with state := state_t.S_IDLE.toInt } := by
  unfold execute_app_state
  rw [h]

theorem control_update_completion_tally (fl : FloatOps F) (cfg : Config F) (prev_state : F)
    (b : Board F) :
    (update_completion_tally fl cfg prev_state b).control
      = (update_completion_tally fl cfg prev_state b.control).control := by
  have e1 : b.control.consensus_states = b.consensus_states := rfl
  have e2 : b.control.consensus_is_over = b.consensus_is_over := rfl
  have e3 : b.control.boards_completed_their_task = b.boards_completed_their_task := rfl
  simp only [update_completion_tally, e1, e2, e3]
  split_ifs <;> rfl

theorem control_initialize_consensus_setup (fl : FloatOps F) (cfg : Config F) (b : Board F) :
    (initialize_consensus_setup fl cfg b).control
      = (initialize_consensus_setup fl cfg b.control).control := by
  have e1 : b.control.temperature = b.temperature := rfl
  simp only [initialize_consensus_setup, e1]
  split_ifs <;> rfl

theorem control_execute_app_state (fl : FloatOps F) (cd : FloatCodec F) (cfg : Config F)
    (rx_queue : List (List Int)) (b : Board F) :
    (execute_app_state fl cd cfg rx_queue b).control
      = (execute_app_state fl cd cfg rx_queue b.control).control := by
  have hb : b.control.baton = b.baton := rfl
  cases h : state_t.ofInt b.state with
  | none =>
    rw [execute_app_state_unexpected fl cd cfg rx_queue b h,
      execute_app_state_unexpected fl cd cfg rx_queue b.control h]
    rfl
  | some st =>
    cases st with
    | S_RESTART_COMPLETED =>
      rw [execute_app_state_restart_completed fl cd cfg rx_queue b h,
        execute_app_state_restart_completed fl cd cfg rx_queue b.control h]
      have e : b.control.starting_board = b.starting_board := rfl
      rw [e]
      split_ifs <;> rfl
    | S_START_AVG_CONSENSUS =>
      rw [execute_app_state_start_avg_consensus fl cd cfg rx_queue b h,
        execute_app_state_start_avg_consensus fl cd cfg rx_queue b.control h, hb]
      split_ifs
      · exact congrArg (fun c : Board F => { c with state := state_t.S_SEND_AVG_CONSENSUS_MSGS.toInt })
          (control_congr _ (control_initialize_consensus_setup fl cfg)
            (measure_temperature fl cfg b) (measure_temperature fl cfg b.control) rfl)
      · rfl
    | S_SEND_AVG_CONSENSUS_MSGS =>
      rw [execute_app_state_send_avg_consensus_msgs fl cd cfg rx_queue b h,
        execute_app_state_send_avg_consensus_msgs fl cd cfg rx_queue b.control h, hb]
      split_ifs <;> rfl
    | S_UPDATE_AVG_CONSENSUS_STATE =>
      rw [execute_app_state_update_avg_consensus_state fl cd cfg rx_queue b h,
        execute_app_state_update_avg_consensus_state fl cd cfg rx_queue b.control h, hb]
      have e : b.control.consensus_states = b.consensus_states := rfl
      rw [e]
      split_ifs
      · exact control_congr _ (control_update_completion_tally fl cfg _) _ _ rfl
      · rfl
    | S_INIT_AND_SLEEP =>
      rw [execute_app_state_init_and_sleep fl cd cfg rx_queue b h,
        execute_app_state_init_and_sleep fl cd cfg rx_queue b.control h]
      rfl
    | S_PACKET_TX =>
      rw [execute_app_state_packet_tx fl cd cfg rx_queue b h,
        execute_app_state_packet_tx fl cd cfg rx_queue b.control h]
      have e : b.control.tx_operation_to_achieve = b.tx_operation_to_achieve := rfl
      rw [e, packet_transmission_flag cfg cd b.tx_operation_to_achieve b.control b rfl,
        control_after_transmission, control_after_transmission cfg _ (packet_transmission cfg cd
          b.tx_operation_to_achieve b.control).2,
        packet_transmission_control, packet_transmission_control]
      rfl
    | S_PACKET_RECEIVED =>
      rw [execute_app_state_packet_received fl cd cfg rx_queue b h,
        execute_app_state_packet_received fl cd cfg rx_queue b.control h]
      have e := control_handle_received_packet cfg cd rx_queue b b.control rfl
      have p : ∀ c : Board F, c.pop_state.control = c.control.pop_state.control := fun _ => rfl
      rw [p, p (handle_received_packet cfg cd rx_queue b.control), e]
    | S_PACKET_SENT =>
      rw [execute_app_state_packet_sent fl cd cfg rx_queue b h,
        execute_app_state_packet_sent fl cd cfg rx_queue b.control h]
      rfl
    | S_RX_PACKET_ERROR =>
      rw [execute_app_state_rx_packet_error fl cd cfg rx_queue b h,
        execute_app_state_rx_packet_error fl cd cfg rx_queue b.control h]
      rfl
    | S_TX_PACKET_ERROR =>
      rw [execute_app_state_tx_packet_error fl cd cfg rx_queue b h,
        execute_app_state_tx_packet_error fl cd cfg rx_queue b.control h]
      rfl
    | S_CALIBRATION_ERROR =>
      rw [execute_app_state_calibration_error fl cd cfg rx_queue b h,
        execute_app_state_calibration_error fl cd cfg rx_queue b.control h]
      rfl
    | S_IDLE =>
      rw [execute_app_state_idle fl cd cfg rx_queue b h,
        execute_app_state_idle fl cd cfg rx_queue b.control h]
      rfl

theorem control_step (fl : FloatOps F) (cd : FloatCodec F) (cfg : Config F) (b1 b2 : Board F)
    (h : b1.control = b2.control) (i : Input) :
    (step fl cd cfg b1 i).control = (step fl cd cfg b2 i).control := by
  cases i with
  | tick rx_queue =>
    simp only [step, app_process_action]
    exact control_congr _ (control_execute_app_state fl cd cfg rx_queue) _ _
      (control_congr _ (control_handle_app_events fl cfg) b1 b2 h)
  | rail_event ev =>
    exact control_congr _ (control_sl_rail_util_on_event ev) b1 b2 h
  | alarm =>
    have e0 : b1.control.tmr0_running = b2.control.tmr0_running := by rw [h]
    have e : b1.tmr0_running = b2.tmr0_running := e0
    simp only [step, e]
    split_ifs
    · exact control_congr _ (control_enable_alarm cfg) _ _
        (congrArg (fun c : Board F => { c with tmr0_running := false }) h)
    · exact h
  | cli_average =>
    exact control_congr _ (control_cli_avg_consensus cfg) b1 b2 h

theorem control_run (fl : FloatOps F) (cd : FloatCodec F) (cfg : Config F)
    (inputs : List Input) (b1 b2 : Board F) (h : b1.control = b2.control) :
    (run fl cd cfg b1 inputs).control = (run fl cd cfg b2 inputs).control := by
  unfold run
  induction inputs generalizing b1 b2 with
  | nil => exact h
  | cons i rest ih =>
    simp only [List.foldl_cons]
    exact ih _ _ (control_step fl cd cfg b1 b2 h i)

/-- C3: an awake board handles a Baton frame whose sender is not a valid tour
predecessor of the board (tour with at least two entries). The handling only
sets `dst_of_baton` to `-1`: the token flag, the receive counter, the tally, the
current task, the command flags, the continuation stack and the state are as
before. Whatever ticks, radio events, watchdog expiries and CLI commands follow,
the board then goes through the same states, with the same token flag, stack
and task data, as if the frame had not been handled. -/
theorem baton_frame_from_invalid_sender_dropped (fl : FloatOps F) (cd : FloatCodec F)
    (cfg : Config F) (rx_buffer : List Int) (b : Board F)
    (hL : 2 ≤ cfg.baton_path.length)
    (htype : rx_buffer.getD MSGIDX_TYPE 0 = message_t.MSG_BATON.toInt)
    (hinvalid : ¬ valid_predecessor cfg.baton_path (cfg.BOARD_ID : Int)
      (rx_buffer.getD MSGIDX_SRC_BOARD 0))
    (hawake : app_is_ok_to_sleep b = false) :
    handle_rx_packet_payload cfg cd rx_buffer b = { b with dst_of_baton := -1 }
    ∧ (handle_rx_packet_payload cfg cd rx_buffer b).baton = b.baton
    ∧ (handle_rx_packet_payload cfg cd rx_buffer b).baton_cntr = b.baton_cntr
    ∧ (handle_rx_packet_payload cfg cd rx_buffer b).boards_completed_their_task
        = b.boards_completed_their_task
    ∧ (handle_rx_packet_payload cfg cd rx_buffer b).current_task = b.current_task
    ∧ (handle_rx_packet_payload cfg cd rx_buffer b).average_command = b.average_command
    ∧ (handle_rx_packet_payload cfg cd rx_buffer b).restart_command = b.restart_command
    ∧ (handle_rx_packet_payload cfg cd rx_buffer b).stk = b.stk
    ∧ (handle_rx_packet_payload cfg cd rx_buffer b).state = b.state
    ∧ ∀ inputs : List Input,
        (run fl cd cfg (handle_rx_packet_payload cfg cd rx_buffer b) inputs).control
          = (run fl cd cfg b inputs).control
        ∧ (run fl cd cfg (handle_rx_packet_payload cfg cd rx_buffer b) inputs).state
          = (run fl cd cfg b inputs).state
        ∧ (run fl cd cfg (handle_rx_packet_payload cfg cd rx_buffer b) inputs).baton
          = (run fl cd cfg b inputs).baton := by
  have hm : message_t.ofInt (rx_buffer.getD MSGIDX_TYPE 0) = some message_t.MSG_BATON := by
    rw [htype]; rfl
  simp only [app_is_ok_to_sleep] at hawake
  have hnh := next_hop_eq_neg_one_of_no_occurrence cfg.baton_path (cfg.BOARD_ID : Int)
    (rx_buffer.getD MSGIDX_SRC_BOARD 0) hinvalid hL
  have hdrop : handle_rx_packet_payload cfg cd rx_buffer b = { b with dst_of_baton := -1 } := by
    unfold handle_rx_packet_payload
    simp only [hm, app_is_ok_to_sleep, hawake, Bool.false_eq_true, if_false, hnh]
    rfl
  refine ⟨hdrop, by rw [hdrop], by rw [hdrop], by rw [hdrop], by rw [hdrop], by rw [hdrop],
    by rw [hdrop], by rw [hdrop], by rw [hdrop], ?_⟩
  intro inputs
  have hc := control_run fl cd cfg inputs (handle_rx_packet_payload cfg cd rx_buffer b) b
    (by rw [hdrop]; rfl)
  have hst : (run fl cd cfg (handle_rx_packet_payload cfg cd rx_buffer b) inputs).control.state
      = (run fl cd cfg b inputs).control.state := by rw [hc]
  have hbt : (run fl cd cfg (handle_rx_packet_payload cfg cd rx_buffer b) inputs).control.baton
      = (run fl cd cfg b inputs).control.baton := by rw [hc]
  exact ⟨hc, hst, hbt⟩

/-- C3 on board 5 of the shipped configuration: a Baton frame sent by board 1
gives no token and leaves the next tick in the state it would have had. -/
theorem baton_frame_from_invalid_sender_dropped_shipped :
    (handle_rx_packet_payload (shipped_config 5) int_part_codec (frame_of 3 1 5 6)
        (power_on exact_arith (shipped_config 5))).baton = false
    ∧ (handle_rx_packet_payload (shipped_config 5) int_part_codec (frame_of 3 1 5 6)
        (power_on exact_arith (shipped_config 5))).dst_of_baton = -1
    ∧ (run exact_arith int_part_codec (shipped_config 5)
        (handle_rx_packet_payload (shipped_config 5) int_part_codec (frame_of 3 1 5 6)
          (power_on exact_arith (shipped_config 5))) [Input.tick []]).state
      = (run exact_arith int_part_codec (shipped_config 5)
          (power_on exact_arith (shipped_config 5)) [Input.tick []]).state :=
  have h := baton_frame_from_invalid_sender_dropped exact_arith int_part_codec (shipped_config 5)
    (frame_of 3 1 5 6) (power_on exact_arith (shipped_config 5)) (by decide) rfl (by decide) rfl
  ⟨h.2.1, by rw [h.1], (h.2.2.2.2.2.2.2.2.2 [Input.tick []]).2.1⟩

/-! ## Theorems: mean preservation -/

theorem list_sum_map_range (f : Nat → ℚ) (n : Nat) :
    ((List.range n).map f).sum = ∑ i in Finset.range n, f i := by
  induction n with
  | zero => simp
  | succ n ih =>
    rw [List.range_succ, List.map_append, List.sum_append, ih, Finset.sum_range_succ]
    simp

theorem foldl_add_range (f : Nat → ℚ) (n : Nat) :
    (List.range n).foldl (fun acc i => acc + f i) 0 = ∑ i in Finset.range n, f i := by
  induction n with
  | zero => simp
  | succ n ih =>
    rw [List.range_succ, List.foldl_append, ih, Finset.sum_range_succ]
    simp

theorem list_sum_eq_sum_getD (x : List ℚ) :
    x.sum = ∑ i in Finset.range x.length, x.getD i 0 := by
  rw [← list_sum_map_range]
  congr 1
  apply List.ext_getElem
  · simp
  · intro n h1 h2
    simp [List.getD_eq_getElem?_getD, List.getElem?_eq_getElem h1]

theorem getD_set_same {α : Type} (l : List α) (i : Nat) (v d : α) (h : i < l.length) :
    (l.set i v).getD i d = v := by
  simp [List.getD_eq_getElem?_getD, List.getElem?_set, h]

theorem exact_arith_zero : exact_arith.ofInt 0 = (0 : ℚ) := by
  simp [exact_arith]

theorem synchronous_round_entry (cfg : Config ℚ) (x : List ℚ)
    (hx : x.length = cfg.NUM_OF_BOARDS) (i : Nat) (hi : i < cfg.NUM_OF_BOARDS) :
    (update_consensus_state exact_arith { cfg with BOARD_ID := i }
      (board_in_round cfg i x)).consensus_states.getD i 0
      = ∑ j in Finset.range cfg.NUM_OF_BOARDS, weight_matrix cfg i j * x.getD j 0 := by
  have hlt : i < x.length := by omega
  have e : (update_consensus_state exact_arith { cfg with BOARD_ID := i }
      (board_in_round cfg i x)).consensus_states
      = x.set i ((List.range cfg.NUM_OF_BOARDS).foldl
          (fun acc j => acc
            + (initialize_weights exact_arith { cfg with BOARD_ID := i }).getD j
                (exact_arith.ofInt 0) * x.getD j (exact_arith.ofInt 0))
          (exact_arith.ofInt 0)) := rfl
  rw [e, getD_set_same _ _ _ _ hlt, exact_arith_zero, foldl_add_range]
  rfl

theorem weight_matrix_symm (cfg : Config ℚ)
    (hsym : ∀ i, i < cfg.NUM_OF_BOARDS → ∀ j, j < cfg.NUM_OF_BOARDS →
      cfg.graph_at i j = cfg.graph_at j i)
    (i j : Nat) (hi : i < cfg.NUM_OF_BOARDS) (hj : j < cfg.NUM_OF_BOARDS) :
    weight_matrix cfg i j = weight_matrix cfg j i := by
  by_cases hij : i = j
  · rw [hij]
  · have hji : ¬ (j = i) := fun h => hij h.symm
    rw [weight_matrix_entry cfg i j hj, weight_matrix_entry cfg j i hi, hsym i hi j hj]
    simp only [hij, hji, if_false]

theorem weight_matrix_col_sum (cfg : Config ℚ)
    (hsym : ∀ i, i < cfg.NUM_OF_BOARDS → ∀ j, j < cfg.NUM_OF_BOARDS →
      cfg.graph_at i j = cfg.graph_at j i)
    (hloops : ∀ i, i < cfg.NUM_OF_BOARDS → cfg.graph_at i i = true)
    (j : Nat) (hj : j < cfg.NUM_OF_BOARDS) :
    ∑ i in Finset.range cfg.NUM_OF_BOARDS, weight_matrix cfg i j = 1 := by
  have h1 : ∑ i in Finset.range cfg.NUM_OF_BOARDS, weight_matrix cfg i j
      = ∑ i in Finset.range cfg.NUM_OF_BOARDS, weight_matrix cfg j i := by
    apply Finset.sum_congr rfl
    intro i hi
    rw [Finset.mem_range] at hi
    exact weight_matrix_symm cfg hsym i j hi hj
  rw [h1, ← list_sum_map_range, weight_matrix_row cfg j]
  exact initialize_weights_sum { cfg with BOARD_ID := j } (hloops j hj) hj

theorem synchronous_round_length (cfg : Config ℚ) (x : List ℚ) :
    (synchronous_round cfg x).length = cfg.NUM_OF_BOARDS := by
  simp [synchronous_round]

theorem synchronous_round_sum (cfg : Config ℚ) (x : List ℚ)
    (hx : x.length = cfg.NUM_OF_BOARDS)
    (hsym : ∀ i, i < cfg.NUM_OF_BOARDS → ∀ j, j < cfg.NUM_OF_BOARDS →
      cfg.graph_at i j = cfg.graph_at j i)
    (hloops : ∀ i, i < cfg.NUM_OF_BOARDS → cfg.graph_at i i = true) :
    (synchronous_round cfg x).sum = x.sum := by
  unfold synchronous_round
  rw [list_sum_map_range]
  have h1 : ∑ i in Finset.range cfg.NUM_OF_BOARDS,
      (update_consensus_state exact_arith { cfg with BOARD_ID := i }
        (board_in_round cfg i x)).consensus_states.getD i 0
      = ∑ i in Finset.range cfg.NUM_OF_BOARDS,
          ∑ j in Finset.range cfg.NUM_OF_BOARDS, weight_matrix cfg i j * x.getD j 0 := by
    apply Finset.sum_congr rfl
    intro i hi
    rw [Finset.mem_range] at hi
    exact synchronous_round_entry cfg x hx i hi
  rw [h1, Finset.sum_comm, list_sum_eq_sum_getD x, hx]
  apply Finset.sum_congr rfl
  intro j hj
  rw [Finset.mem_range] at hj
  rw [← Finset.sum_mul, weight_matrix_col_sum cfg hsym hloops j hj, one_mul]

theorem synchronous_rounds_sum (cfg : Config ℚ)
    (hsym : ∀ i, i < cfg.NUM_OF_BOARDS → ∀ j, j < cfg.NUM_OF_BOARDS →
      cfg.graph_at i j = cfg.graph_at j i)
    (hloops : ∀ i, i < cfg.NUM_OF_BOARDS → cfg.graph_at i i = true)
    (k : Nat) (x : List ℚ) (hx : x.length = cfg.NUM_OF_BOARDS) :
    (synchronous_rounds cfg k x).length = cfg.NUM_OF_BOARDS
      ∧ (synchronous_rounds cfg k x).sum = x.sum := by
  induction k generalizing x with
  | zero => exact ⟨hx, rfl⟩
  | succ k ih =>
    have h := ih (synchronous_round cfg x) (synchronous_round_length cfg x)
    exact ⟨h.1, h.2.trans (synchronous_round_sum cfg x hx hsym hloops)⟩

/-- C11: for a symmetric topology with all self-loops set and a state vector
`x` with one entry per board, a synchronous round in which every board `i`
replaces `x[i]` by the value `update_consensus_state` computes from its weights
(the sum of `weight_i[j] * x[j]`, exact arithmetic) leaves the sum of `x`, and so
the network mean, unchanged; the same holds after any number of rounds. -/
theorem consensus_round_preserves_mean (cfg : Config ℚ) (x : List ℚ)
    (hx : x.length = cfg.NUM_OF_BOARDS)
    (hsym : ∀ i, i < cfg.NUM_OF_BOARDS → ∀ j, j < cfg.NUM_OF_BOARDS →
      cfg.graph_at i j = cfg.graph_at j i)
    (hloops : ∀ i, i < cfg.NUM_OF_BOARDS → cfg.graph_at i i = true) :
    (∀ i, i < cfg.NUM_OF_BOARDS →
        (synchronous_round cfg x).getD i 0
          = ∑ j in Finset.range cfg.NUM_OF_BOARDS,
              (initialize_weights exact_arith { cfg with BOARD_ID := i }).getD j 0 * x.getD j 0)
    ∧ (synchronous_round cfg x).sum = x.sum
    ∧ network_mean cfg (synchronous_round cfg x) = network_mean cfg x
    ∧ ∀ k, (synchronous_rounds cfg k x).sum = x.sum
        ∧ network_mean cfg (synchronous_rounds cfg k x) = network_mean cfg x := by
  refine ⟨?_, synchronous_round_sum cfg x hx hsym hloops, ?_, ?_⟩
  · intro i hi
    unfold synchronous_round
    rw [getD_map_range _ _ _ _ hi]
    exact synchronous_round_entry cfg x hx i hi
  · unfold network_mean
    rw [synchronous_round_sum cfg x hx hsym hloops]
  · intro k
    have h := (synchronous_rounds_sum cfg hsym hloops k x hx).2
    refine ⟨h, ?_⟩
    unfold network_mean
    rw [h]

/-- C11 on the shipped topology and readings `[10,20,30,20,15,25]`: the sum
stays 120 and the mean 20 after one round and after seven rounds. -/
theorem consensus_round_preserves_mean_shipped :
    (synchronous_round (shipped_config 0) [10, 20, 30, 20, 15, 25]).sum = 120
    ∧ network_mean (shipped_config 0) (synchronous_rounds (shipped_config 0) 7
        [10, 20, 30, 20, 15, 25]) = 20 :=
  ⟨((consensus_round_preserves_mean (shipped_config 0) [10, 20, 30, 20, 15, 25] rfl
      (by decide) (by decide)).2.1).trans (by norm_num),
   ((consensus_round_preserves_mean (shipped_config 0) [10, 20, 30, 20, 15, 25] rfl
      (by decide) (by decide)).2.2.2 7).2.trans (by norm_num [network_mean, shipped_config])⟩


/-! ## Theorems: event intake -/

theorem Stack.entries_clear_push (s : Stack) (v : Int) (hlen : s.stack.length = 20) :
    (s.clear.push v).entries = [v] := by
  have hfull : s.clear.isfull = false := rfl
  have hpush : s.clear.push v = Stack.store { s.clear with top := 0 } 0 v := by
    unfold Stack.push
    rw [hfull]
    rfl
  have htop : (s.clear.push v).top = 0 := by
    rw [hpush]; rfl
  have hload : (s.clear.push v).load 0 = v := by
    rw [hpush]
    exact Stack.load_store_same _ _ _ hlen
  unfold Stack.entries
  rw [htop]
  have e : (0 + 1 : Int).toNat = 1 := rfl
  rw [e]
  have r1 : List.range 1 = [0] := rfl
  rw [r1]
  simp only [List.map_cons, List.map_nil, Nat.cast_zero, hload]

/-- C12: when a transport signal is pending, `handle_app_events` consumes the
pending one of highest priority (packet received, packet sent, rx error, tx
error, calibration error). Only its flag is cleared, the state becomes the
matching state, and the previous state is pushed only for a received packet.
The result is the board with just these changes, so none of the rules 6 to 9
is applied, whatever their guards. -/
theorem transport_signal_priority (fl : FloatOps F) (cfg : Config F) (b : Board F) :
    (b.packet_received = true →
      handle_app_events fl cfg b
        = { b with packet_received := false,
                   stk := b.stk.push b.state,
                   state := state_t.S_PACKET_RECEIVED.toInt })
    ∧ (b.packet_received = false → b.packet_sent = true →
      handle_app_events fl cfg b
        = { b with packet_sent := false, state := state_t.S_PACKET_SENT.toInt })
    ∧ (b.packet_received = false → b.packet_sent = false → b.rx_error = true →
      handle_app_events fl cfg b
        = { b with rx_error := false, state := state_t.S_RX_PACKET_ERROR.toInt })
    ∧ (b.packet_received = false → b.packet_sent = false → b.rx_error = false →
        b.tx_error = true →
      handle_app_events fl cfg b
        = { b with tx_error := false, state := state_t.S_TX_PACKET_ERROR.toInt })
    ∧ (b.packet_received = false → b.packet_sent = false → b.rx_error = false →
        b.tx_error = false → b.cal_error = true →
      handle_app_events fl cfg b
        = { b with cal_error := false, state := state_t.S_CALIBRATION_ERROR.toInt }) := by
  refine ⟨?_, ?_, ?_, ?_, ?_⟩
  · intro h1
    rw [handle_app_events_packet_received fl cfg b h1]
    rfl
  · intro h1 h2
    exact handle_app_events_packet_sent fl cfg b h1 h2
  · intro h1 h2 h3
    exact handle_app_events_rx_error fl cfg b h1 h2 h3
  · intro h1 h2 h3 h4
    exact handle_app_events_tx_error fl cfg b h1 h2 h3 h4
  · intro h1 h2 h3 h4 h5
    exact handle_app_events_cal_error fl cfg b h1 h2 h3 h4 h5

/-- C12 on a board of the shipped configuration that holds the token with a
restart and an averaging command pending. With packet sent and calibration
error both raised, only packet sent is consumed; with packet received raised
too, only packet received is consumed and the state is pushed. -/
theorem transport_signal_priority_shipped :
    handle_app_events exact_arith (shipped_config 5)
        { power_on exact_arith (shipped_config 5) with
          baton := true, baton_cntr := 1, batons_per_cycle := 2, restart_command := true,
          average_command := true, packet_sent := true, cal_error := true }
      = { power_on exact_arith (shipped_config 5) with
          baton := true, baton_cntr := 1, batons_per_cycle := 2, restart_command := true,
          average_command := true, packet_sent := false, cal_error := true,
          state := state_t.S_PACKET_SENT.toInt }
    ∧ handle_app_events exact_arith (shipped_config 5)
        { power_on exact_arith (shipped_config 5) with
          baton := true, baton_cntr := 1, batons_per_cycle := 2, restart_command := true,
          average_command := true, packet_received := true, packet_sent := true,
          cal_error := true }
      = { power_on exact_arith (shipped_config 5) with
          baton := true, baton_cntr := 1, batons_per_cycle := 2, restart_command := true,
          average_command := true, packet_received := false, packet_sent := true,
          cal_error := true, stk := Stack.init.push state_t.S_INIT_AND_SLEEP.toInt,
          state := state_t.S_PACKET_RECEIVED.toInt } :=
  ⟨(transport_signal_priority exact_arith (shipped_config 5)
      { power_on exact_arith (shipped_config 5) with
        baton := true, baton_cntr := 1, batons_per_cycle := 2, restart_command := true,
        average_command := true, packet_sent := true, cal_error := true }).2.1 rfl rfl,
   (transport_signal_priority exact_arith (shipped_config 5)
      { power_on exact_arith (shipped_config 5) with
        baton := true, baton_cntr := 1, batons_per_cycle := 2, restart_command := true,
        average_command := true, packet_received := true, packet_sent := true,
        cal_error := true }).1 rfl⟩

/-- C13: with no transport signal pending and rule 6 not applicable, a pending
restart on a board that holds the token makes `handle_app_events` keep
`starting_board`, `dst_of_baton` and `restart_id` and re-initialise the protocol
state: token held, receive counter 1, both commands and all transport flags
cleared, no task, tally 0, not converged, pending count `N`, state `S_PACKET_TX`
with operation `O_GLB_RESTART`, the stack holding just `S_RESTART_COMPLETED`.
The equation lists every field that changes; the sleep flag, the weights, the
state vector, its iteration counter and `tx_packet` are not touched. -/
theorem restart_rule_effect (fl : FloatOps F) (cfg : Config F) (b : Board F)
    (hs : no_transport_signal b) (h6 : ¬ sleep_rule_applies b)
    (hr : b.restart_command = true) (hb : b.baton = true)
    (hlen : b.stk.stack.length = 20) :
    handle_app_events fl cfg b
      = { b with
          baton := true,
          baton_cntr := 1,
          restart_command := false,
          average_command := false,
          packet_received := false,
          packet_sent := false,
          rx_error := false,
          tx_error := false,
          cal_error := false,
          current_task := task_t.T_NONE,
          boards_completed_their_task := 0,
          consensus_is_over := false,
          num_of_pending_msgs_for_tx := (cfg.NUM_OF_BOARDS : Int),
          state := state_t.S_PACKET_TX.toInt,
          tx_operation_to_achieve := tx_operation_t.O_GLB_RESTART,
          stk := b.stk.clear.push state_t.S_RESTART_COMPLETED.toInt,
          temperature := fl.ofInt (MIN_TEMPERATURE - 1),
          calibration_status := 0,
          error_code := 0,
          batons_per_cycle := count_occurrences cfg,
          tmr0_running := false,
          trace := b.trace ++ [Action.start_receiving cfg.BOARD_ID, Action.cancel_timer] }
    ∧ (handle_app_events fl cfg b).starting_board = b.starting_board
    ∧ (handle_app_events fl cfg b).dst_of_baton = b.dst_of_baton
    ∧ (handle_app_events fl cfg b).restart_id = b.restart_id
    ∧ (handle_app_events fl cfg b).stk.entries = [state_t.S_RESTART_COMPLETED.toInt] := by
  have h := handle_app_events_restart fl cfg b hs h6 ⟨hr, hb⟩
  have e : handle_app_events fl cfg b
      = { b with
          baton := true,
          baton_cntr := 1,
          restart_command := false,
          average_command := false,
          packet_received := false,
          packet_sent := false,
          rx_error := false,
          tx_error := false,
          cal_error := false,
          current_task := task_t.T_NONE,
          boards_completed_their_task := 0,
          consensus_is_over := false,
          num_of_pending_msgs_for_tx := (cfg.NUM_OF_BOARDS : Int),
          state := state_t.S_PACKET_TX.toInt,
          tx_operation_to_achieve := tx_operation_t.O_GLB_RESTART,
          stk := b.stk.clear.push state_t.S_RESTART_COMPLETED.toInt,
          temperature := fl.ofInt (MIN_TEMPERATURE - 1),
          calibration_status := 0,
          error_code := 0,
          batons_per_cycle := count_occurrences cfg,
          tmr0_running := false,
          trace := b.trace ++ [Action.start_receiving cfg.BOARD_ID, Action.cancel_timer] } := by
    rw [h]
    simp only [initialize_app, start_receiving, initialize_tools, Board.clear, cancel_timer,
      Board.push, List.append_assoc, List.singleton_append]
  refine ⟨e, by rw [e], by rw [e], by rw [e], ?_⟩
  rw [e]
  exact Stack.entries_clear_push b.stk _ hlen

/-- C13 on board 5 of the shipped configuration: initiator 3, next hop 4 and
epoch 7 survive, a pending averaging command and a pending tally do not. -/
theorem restart_rule_effect_shipped :
    (handle_app_events exact_arith (shipped_config 5)
        { power_on exact_arith (shipped_config 5) with
          baton := true, baton_cntr := 3, batons_per_cycle := 2, restart_command := true,
          average_command := true, starting_board := 3, dst_of_baton := 4, restart_id := 7,
          boards_completed_their_task := 2, state := state_t.S_IDLE.toInt }).starting_board = 3
    ∧ (handle_app_events exact_arith (shipped_config 5)
        { power_on exact_arith (shipped_config 5) with
          baton := true, baton_cntr := 3, batons_per_cycle := 2, restart_command := true,
          average_command := true, starting_board := 3, dst_of_baton := 4, restart_id := 7,
          boards_completed_their_task := 2, state := state_t.S_IDLE.toInt }).dst_of_baton = 4
    ∧ (handle_app_events exact_arith (shipped_config 5)
        { power_on exact_arith (shipped_config 5) with
          baton := true, baton_cntr := 3, batons_per_cycle := 2, restart_command := true,
          average_command := true, starting_board := 3, dst_of_baton := 4, restart_id := 7,
          boards_completed_their_task := 2, state := state_t.S_IDLE.toInt }).restart_id = 7
    ∧ (handle_app_events exact_arith (shipped_config 5)
        { power_on exact_arith (shipped_config 5) with
          baton := true, baton_cntr := 3, batons_per_cycle := 2, restart_command := true,
          average_command := true, starting_board := 3, dst_of_baton := 4, restart_id := 7,
          boards_completed_their_task := 2, state := state_t.S_IDLE.toInt }).stk.entries
        = [state_t.S_RESTART_COMPLETED.toInt] :=
  (restart_rule_effect exact_arith (shipped_config 5)
    { power_on exact_arith (shipped_config 5) with
      baton := true, baton_cntr := 3, batons_per_cycle := 2, restart_command := true,
      average_command := true, starting_board := 3, dst_of_baton := 4, restart_id := 7,
      boards_completed_their_task := 2, state := state_t.S_IDLE.toInt }
    (by decide) (by decide) rfl rfl rfl).2

/-- C14: with no transport signal pending, a board that holds the token with
the tally at the sleep sentinel and `baton_cntr % batons_per_cycle = 0` has its
task state cleared by `handle_app_events` (no task, receive counter 0, not
converged, temperature unmeasured), the stack left holding just
`S_INIT_AND_SLEEP`, and state `S_PACKET_TX` with operation `O_GIVE_BATON`. Nothing
else changes: a pending restart or averaging command stays pending and its
rule is not applied. -/
theorem sleep_rule_effect (fl : FloatOps F) (cfg : Config F) (b : Board F)
    (hs : no_transport_signal b) (hb : b.baton = true)
    (ht : b.boards_completed_their_task = SEND_SYSTEM_TO_SLEEP)
    (hc : c_mod b.baton_cntr b.batons_per_cycle = 0)
    (hlen : b.stk.stack.length = 20) :
    handle_app_events fl cfg b
      = { b with
          current_task := task_t.T_NONE,
          baton_cntr := 0,
          consensus_is_over := false,
          temperature := fl.ofInt (MIN_TEMPERATURE - 1),
          stk := b.stk.clear.push state_t.S_INIT_AND_SLEEP.toInt,
          tx_operation_to_achieve := tx_operation_t.O_GIVE_BATON,
          state := state_t.S_PACKET_TX.toInt }
    ∧ (handle_app_events fl cfg b).stk.entries = [state_t.S_INIT_AND_SLEEP.toInt]
    ∧ (handle_app_events fl cfg b).restart_command = b.restart_command
    ∧ (handle_app_events fl cfg b).average_command = b.average_command
    ∧ (handle_app_events fl cfg b).baton = true := by
  have e : handle_app_events fl cfg b
      = { b with
          current_task := task_t.T_NONE,
          baton_cntr := 0,
          consensus_is_over := false,
          temperature := fl.ofInt (MIN_TEMPERATURE - 1),
          stk := b.stk.clear.push state_t.S_INIT_AND_SLEEP.toInt,
          tx_operation_to_achieve := tx_operation_t.O_GIVE_BATON,
          state := state_t.S_PACKET_TX.toInt } := by
    rw [handle_app_events_sleep fl cfg b hs ⟨hb, ht, hc⟩]
    rfl
  refine ⟨e, ?_, by rw [e], by rw [e], by rw [e]; exact hb⟩
  rw [e]
  exact Stack.entries_clear_push b.stk _ hlen

/-- C14 on board 5 of the shipped configuration with a restart and an averaging
command pending as well: the sleep rule is the one applied. -/
theorem sleep_rule_effect_shipped :
    (handle_app_events exact_arith (shipped_config 5)
        { power_on exact_arith (shipped_config 5) with
          baton := true, baton_cntr := 4, batons_per_cycle := 2, restart_command := true,
          average_command := true, boards_completed_their_task := -1,
          current_task := task_t.T_CONSENSUS, state := state_t.S_IDLE.toInt }).stk.entries
        = [state_t.S_INIT_AND_SLEEP.toInt]
    ∧ (handle_app_events exact_arith (shipped_config 5)
        { power_on exact_arith (shipped_config 5) with
          baton := true, baton_cntr := 4, batons_per_cycle := 2, restart_command := true,
          average_command := true, boards_completed_their_task := -1,
          current_task := task_t.T_CONSENSUS, state := state_t.S_IDLE.toInt }).restart_command
        = true
    ∧ (handle_app_events exact_arith (shipped_config 5)
        { power_on exact_arith (shipped_config 5) with
          baton := true, baton_cntr := 4, batons_per_cycle := 2, restart_command := true,
          average_command := true, boards_completed_their_task := -1,
          current_task := task_t.T_CONSENSUS, state := state_t.S_IDLE.toInt }).average_command
        = true :=
  ⟨(sleep_rule_effect exact_arith (shipped_config 5)
      { power_on exact_arith (shipped_config 5) with
        baton := true, baton_cntr := 4, batons_per_cycle := 2, restart_command := true,
        average_command := true, boards_completed_their_task := -1,
        current_task := task_t.T_CONSENSUS, state := state_t.S_IDLE.toInt }
      (by decide) rfl rfl (by decide) rfl).2.1,
   (sleep_rule_effect exact_arith (shipped_config 5)
      { power_on exact_arith (shipped_config 5) with
        baton := true, baton_cntr := 4, batons_per_cycle := 2, restart_command := true,
        average_command := true, boards_completed_their_task := -1,
        current_task := task_t.T_CONSENSUS, state := state_t.S_IDLE.toInt }
      (by decide) rfl rfl (by decide) rfl).2.2.1,
   (sleep_rule_effect exact_arith (shipped_config 5)
      { power_on exact_arith (shipped_config 5) with
        baton := true, baton_cntr := 4, batons_per_cycle := 2, restart_command := true,
        average_command := true, boards_completed_their_task := -1,
        current_task := task_t.T_CONSENSUS, state := state_t.S_IDLE.toInt }
      (by decide) rfl rfl (by decide) rfl).2.2.2.1⟩


/-! ## Theorems: frames -/

theorem getD_set_ne {α : Type} (l : List α) (i j : Nat) (v d : α) (h : i ≠ j) :
    (l.set i v).getD j d = l.getD j d := by
  simp [List.getD_eq_getElem?_getD, List.getElem?_set, h]

theorem set_tx_packet_tx_packet (b : Board F) (i : Nat) (v : Int) :
    (set_tx_packet b i v).tx_packet = b.tx_packet.set i (to_uint8 v) := rfl

theorem send_packet_trace (b : Board F) (d : Int) :
    (send_packet b d).trace = b.trace ++ [Action.send_packet b.tx_packet d] := rfl

theorem send_packet_tx_packet (b : Board F) (d : Int) : (send_packet b d).tx_packet = b.tx_packet := rfl

theorem set_tx_packet_trace (b : Board F) (i : Nat) (v : Int) :
    (set_tx_packet b i v).trace = b.trace := rfl

theorem set_tx_packet_num_of_pending_msgs_for_tx (b : Board F) (i : Nat) (v : Int) :
    (set_tx_packet b i v).num_of_pending_msgs_for_tx = b.num_of_pending_msgs_for_tx := rfl

theorem send_packet_num_of_pending_msgs_for_tx (b : Board F) (d : Int) : (send_packet b d).num_of_pending_msgs_for_tx = b.num_of_pending_msgs_for_tx := rfl

theorem set_tx_packet_tx_operation_to_achieve (b : Board F) (i : Nat) (v : Int) :
    (set_tx_packet b i v).tx_operation_to_achieve = b.tx_operation_to_achieve := rfl

theorem send_packet_tx_operation_to_achieve (b : Board F) (d : Int) : (send_packet b d).tx_operation_to_achieve = b.tx_operation_to_achieve := rfl

theorem set_tx_packet_restart_id (b : Board F) (i : Nat) (v : Int) :
    (set_tx_packet b i v).restart_id = b.restart_id := rfl

theorem send_packet_restart_id (b : Board F) (d : Int) : (send_packet b d).restart_id = b.restart_id := rfl

theorem set_tx_packet_current_task (b : Board F) (i : Nat) (v : Int) :
    (set_tx_packet b i v).current_task = b.current_task := rfl

theorem send_packet_current_task (b : Board F) (d : Int) : (send_packet b d).current_task = b.current_task := rfl

theorem set_tx_packet_dst_of_baton (b : Board F) (i : Nat) (v : Int) :
    (set_tx_packet b i v).dst_of_baton = b.dst_of_baton := rfl

theorem send_packet_dst_of_baton (b : Board F) (d : Int) : (send_packet b d).dst_of_baton = b.dst_of_baton := rfl

theorem set_tx_packet_boards_completed_their_task (b : Board F) (i : Nat) (v : Int) :
    (set_tx_packet b i v).boards_completed_their_task = b.boards_completed_their_task := rfl

theorem send_packet_boards_completed_their_task (b : Board F) (d : Int) : (send_packet b d).boards_completed_their_task = b.boards_completed_their_task := rfl

theorem set_tx_packet_consensus_states (b : Board F) (i : Nat) (v : Int) :
    (set_tx_packet b i v).consensus_states = b.consensus_states := rfl

theorem send_packet_consensus_states (b : Board F) (d : Int) : (send_packet b d).consensus_states = b.consensus_states := rfl

theorem set_tx_packet_starting_board (b : Board F) (i : Nat) (v : Int) :
    (set_tx_packet b i v).starting_board = b.starting_board := rfl

theorem send_packet_starting_board (b : Board F) (d : Int) : (send_packet b d).starting_board = b.starting_board := rfl

theorem set_tx_packet_stk (b : Board F) (i : Nat) (v : Int) :
    (set_tx_packet b i v).stk = b.stk := rfl

theorem send_packet_stk (b : Board F) (d : Int) : (send_packet b d).stk = b.stk := rfl

theorem set_tx_packet_state (b : Board F) (i : Nat) (v : Int) :
    (set_tx_packet b i v).state = b.state := rfl

theorem send_packet_state (b : Board F) (d : Int) : (send_packet b d).state = b.state := rfl

theorem set_tx_packet_baton (b : Board F) (i : Nat) (v : Int) :
    (set_tx_packet b i v).baton = b.baton := rfl

theorem send_packet_baton (b : Board F) (d : Int) : (send_packet b d).baton = b.baton := rfl

theorem frame_built_restart (cfg : Config F) (cd : FloatCodec F) (b : Board F) :
    frame_built cfg cd tx_operation_t.O_GLB_RESTART b
      = (((b.tx_packet.set MSGIDX_TYPE (to_uint8 message_t.MSG_RESTART.toInt)).set
            MSGIDX_SRC_BOARD (to_uint8 cfg.BOARD_ID)).set
            MSGIDX_DST_BOARD (to_uint8 (send_addr cfg b))).set
            MSGIDX_RESTART_ID (to_uint8 b.restart_id) := by
  simp only [frame_built, packet_transmission, send_addr]
  split_ifs <;> simp only [set_tx_packet_tx_packet, send_packet_trace, set_tx_packet_trace, set_tx_packet_num_of_pending_msgs_for_tx, set_tx_packet_tx_operation_to_achieve, set_tx_packet_restart_id, set_tx_packet_current_task, set_tx_packet_dst_of_baton, set_tx_packet_boards_completed_their_task, set_tx_packet_consensus_states, set_tx_packet_starting_board, set_tx_packet_stk, set_tx_packet_state, set_tx_packet_baton, send_packet_tx_packet, send_packet_num_of_pending_msgs_for_tx, send_packet_tx_operation_to_achieve, send_packet_restart_id, send_packet_current_task, send_packet_dst_of_baton, send_packet_boards_completed_their_task, send_packet_consensus_states, send_packet_starting_board, send_packet_stk, send_packet_state, send_packet_baton]

theorem frame_built_start_task (cfg : Config F) (cd : FloatCodec F) (b : Board F) :
    frame_built cfg cd tx_operation_t.O_GLB_START_TASK b
      = (((b.tx_packet.set MSGIDX_TYPE (to_uint8 message_t.MSG_START_TASK.toInt)).set
            MSGIDX_SRC_BOARD (to_uint8 cfg.BOARD_ID)).set
            MSGIDX_DST_BOARD (to_uint8 (send_addr cfg b))).set
            MSGIDX_TASK (to_uint8 b.current_task.toInt) := by
  simp only [frame_built, packet_transmission, send_addr]
  split_ifs <;> simp only [set_tx_packet_tx_packet, send_packet_trace, set_tx_packet_trace, set_tx_packet_num_of_pending_msgs_for_tx, set_tx_packet_tx_operation_to_achieve, set_tx_packet_restart_id, set_tx_packet_current_task, set_tx_packet_dst_of_baton, set_tx_packet_boards_completed_their_task, set_tx_packet_consensus_states, set_tx_packet_starting_board, set_tx_packet_stk, set_tx_packet_state, set_tx_packet_baton, send_packet_tx_packet, send_packet_num_of_pending_msgs_for_tx, send_packet_tx_operation_to_achieve, send_packet_restart_id, send_packet_current_task, send_packet_dst_of_baton, send_packet_boards_completed_their_task, send_packet_consensus_states, send_packet_starting_board, send_packet_stk, send_packet_state, send_packet_baton]

theorem frame_built_give_baton (cfg : Config F) (cd : FloatCodec F) (b : Board F) :
    frame_built cfg cd tx_operation_t.O_GIVE_BATON b
      = (((b.tx_packet.set MSGIDX_TYPE (to_uint8 message_t.MSG_BATON.toInt)).set
            MSGIDX_SRC_BOARD (to_uint8 cfg.BOARD_ID)).set
            MSGIDX_DST_BOARD (to_uint8 b.dst_of_baton)).set
            MSGIDX_BOARDS_OVER (to_uint8 b.boards_completed_their_task) := by
  simp only [frame_built, packet_transmission]
  simp only [set_tx_packet_tx_packet, send_packet_trace, set_tx_packet_trace, set_tx_packet_num_of_pending_msgs_for_tx, set_tx_packet_tx_operation_to_achieve, set_tx_packet_restart_id, set_tx_packet_current_task, set_tx_packet_dst_of_baton, set_tx_packet_boards_completed_their_task, set_tx_packet_consensus_states, set_tx_packet_starting_board, set_tx_packet_stk, set_tx_packet_state, set_tx_packet_baton, send_packet_tx_packet, send_packet_num_of_pending_msgs_for_tx, send_packet_tx_operation_to_achieve, send_packet_restart_id, send_packet_current_task, send_packet_dst_of_baton, send_packet_boards_completed_their_task, send_packet_consensus_states, send_packet_starting_board, send_packet_stk, send_packet_state, send_packet_baton]

/-- The four bytes that `packet_transmission` reads from the own state. -/
theorem frame_built_send_state (cfg : Config F) (cd : FloatCodec F) (b : Board F)
    (conv : List Int)
    (hconv : conv = (match b.consensus_states.get? cfg.BOARD_ID with
      | some x => cd.to_bytes x
      | none => [0, 0, 0, 0])) :
    frame_built cfg cd tx_operation_t.O_GLB_SEND_STATE b
      = ((((((b.tx_packet.set MSGIDX_TYPE (to_uint8 message_t.MSG_CONSENSUS_STATE.toInt)).set
            MSGIDX_SRC_BOARD (to_uint8 cfg.BOARD_ID)).set
            MSGIDX_DST_BOARD (to_uint8 (send_addr cfg b))).set
            3 (to_uint8 (conv.getD 0 0))).set
            4 (to_uint8 (conv.getD 1 0))).set
            5 (to_uint8 (conv.getD 2 0))).set
            6 (to_uint8 (conv.getD 3 0)) := by
  simp only [frame_built, packet_transmission, send_addr]
  split_ifs <;> simp only [set_tx_packet_tx_packet, send_packet_trace, set_tx_packet_trace, set_tx_packet_num_of_pending_msgs_for_tx, set_tx_packet_tx_operation_to_achieve, set_tx_packet_restart_id, set_tx_packet_current_task, set_tx_packet_dst_of_baton, set_tx_packet_boards_completed_their_task, set_tx_packet_consensus_states, set_tx_packet_starting_board, set_tx_packet_stk, set_tx_packet_state, set_tx_packet_baton, send_packet_tx_packet, send_packet_num_of_pending_msgs_for_tx, send_packet_tx_operation_to_achieve, send_packet_restart_id, send_packet_current_task, send_packet_dst_of_baton, send_packet_boards_completed_their_task, send_packet_consensus_states, send_packet_starting_board, send_packet_stk, send_packet_state, send_packet_baton, hconv]

theorem packet_transmission_flag_iff (cfg : Config F) (cd : FloatCodec F)
    (oper : tx_operation_t) (b : Board F) :
    (packet_transmission cfg cd oper b).1 = true
      ↔ (oper = tx_operation_t.O_GIVE_BATON
          ∨ (send_addr cfg b ≠ (cfg.BOARD_ID : Int)
              ∧ cfg.graph_at_int cfg.BOARD_ID (send_addr cfg b) = true)) := by
  cases oper
  all_goals simp only [packet_transmission, send_addr]
  all_goals (try split_ifs with h)
  all_goals simp_all

theorem packet_transmission_trace (cfg : Config F) (cd : FloatCodec F)
    (oper : tx_operation_t) (b : Board F) :
    (packet_transmission cfg cd oper b).2.trace
      = if (packet_transmission cfg cd oper b).1 = true then
          b.trace ++ [Action.send_packet (frame_built cfg cd oper b)
            ((frame_built cfg cd oper b).getD MSGIDX_DST_BOARD 0)]
        else b.trace := by
  cases oper
  all_goals simp only [frame_built, packet_transmission]
  all_goals (try split_ifs)
  all_goals first | contradiction | simp only [set_tx_packet_tx_packet, send_packet_trace, set_tx_packet_trace, set_tx_packet_num_of_pending_msgs_for_tx, set_tx_packet_tx_operation_to_achieve, set_tx_packet_restart_id, set_tx_packet_current_task, set_tx_packet_dst_of_baton, set_tx_packet_boards_completed_their_task, set_tx_packet_consensus_states, set_tx_packet_starting_board, set_tx_packet_stk, set_tx_packet_state, set_tx_packet_baton, send_packet_tx_packet, send_packet_num_of_pending_msgs_for_tx, send_packet_tx_operation_to_achieve, send_packet_restart_id, send_packet_current_task, send_packet_dst_of_baton, send_packet_boards_completed_their_task, send_packet_consensus_states, send_packet_starting_board, send_packet_stk, send_packet_state, send_packet_baton, if_true, Bool.false_eq_true, if_false]

theorem packet_transmission_pending (cfg : Config F) (cd : FloatCodec F)
    (oper : tx_operation_t) (b : Board F) :
    (packet_transmission cfg cd oper b).2.num_of_pending_msgs_for_tx
      = b.num_of_pending_msgs_for_tx := by
  cases oper
  all_goals simp only [packet_transmission]
  all_goals (try split_ifs)
  all_goals simp only [set_tx_packet_tx_packet, send_packet_trace, set_tx_packet_trace, set_tx_packet_num_of_pending_msgs_for_tx, set_tx_packet_tx_operation_to_achieve, set_tx_packet_restart_id, set_tx_packet_current_task, set_tx_packet_dst_of_baton, set_tx_packet_boards_completed_their_task, set_tx_packet_consensus_states, set_tx_packet_starting_board, set_tx_packet_stk, set_tx_packet_state, set_tx_packet_baton, send_packet_tx_packet, send_packet_num_of_pending_msgs_for_tx, send_packet_tx_operation_to_achieve, send_packet_restart_id, send_packet_current_task, send_packet_dst_of_baton, send_packet_boards_completed_their_task, send_packet_consensus_states, send_packet_starting_board, send_packet_stk, send_packet_state, send_packet_baton]

theorem packet_transmission_operation (cfg : Config F) (cd : FloatCodec F)
    (oper : tx_operation_t) (b : Board F) :
    (packet_transmission cfg cd oper b).2.tx_operation_to_achieve
      = b.tx_operation_to_achieve := by
  cases oper
  all_goals simp only [packet_transmission]
  all_goals (try split_ifs)
  all_goals simp only [set_tx_packet_tx_packet, send_packet_trace, set_tx_packet_trace, set_tx_packet_num_of_pending_msgs_for_tx, set_tx_packet_tx_operation_to_achieve, set_tx_packet_restart_id, set_tx_packet_current_task, set_tx_packet_dst_of_baton, set_tx_packet_boards_completed_their_task, set_tx_packet_consensus_states, set_tx_packet_starting_board, set_tx_packet_stk, set_tx_packet_state, set_tx_packet_baton, send_packet_tx_packet, send_packet_num_of_pending_msgs_for_tx, send_packet_tx_operation_to_achieve, send_packet_restart_id, send_packet_current_task, send_packet_dst_of_baton, send_packet_boards_completed_their_task, send_packet_consensus_states, send_packet_starting_board, send_packet_stk, send_packet_state, send_packet_baton]

theorem packet_transmission_dst_of_baton (cfg : Config F) (cd : FloatCodec F)
    (oper : tx_operation_t) (b : Board F) :
    (packet_transmission cfg cd oper b).2.dst_of_baton = b.dst_of_baton := by
  cases oper
  all_goals simp only [packet_transmission]
  all_goals (try split_ifs)
  all_goals simp only [set_tx_packet_tx_packet, send_packet_trace, set_tx_packet_trace, set_tx_packet_num_of_pending_msgs_for_tx, set_tx_packet_tx_operation_to_achieve, set_tx_packet_restart_id, set_tx_packet_current_task, set_tx_packet_dst_of_baton, set_tx_packet_boards_completed_their_task, set_tx_packet_consensus_states, set_tx_packet_starting_board, set_tx_packet_stk, set_tx_packet_state, set_tx_packet_baton, send_packet_tx_packet, send_packet_num_of_pending_msgs_for_tx, send_packet_tx_operation_to_achieve, send_packet_restart_id, send_packet_current_task, send_packet_dst_of_baton, send_packet_boards_completed_their_task, send_packet_consensus_states, send_packet_starting_board, send_packet_stk, send_packet_state, send_packet_baton]


theorem getD_set {α : Type} (l : List α) (i j : Nat) (v d : α) :
    (l.set i v).getD j d = if i = j ∧ i < l.length then v else l.getD j d := by
  by_cases h : i = j
  · subst h
    by_cases hl : i < l.length
    · simp [List.getD_eq_getElem?_getD, List.getElem?_set, hl]
    · have hn : l[i]? = none := List.getElem?_eq_none (by omega)
      simp [List.getD_eq_getElem?_getD, List.getElem?_set, hl, hn]
  · simp [List.getD_eq_getElem?_getD, List.getElem?_set, h]

theorem to_int8_to_uint8 (t : Int) (h1 : -128 ≤ t) (h2 : t ≤ 127) : to_int8 (to_uint8 t) = t := by
  unfold to_int8 to_uint8
  omega

theorem to_uint8_of_byte (d : Int) (h1 : 0 ≤ d) (h2 : d < 256) : to_uint8 d = d := by
  unfold to_uint8
  omega

theorem frame_built_length (cfg : Config F) (cd : FloatCodec F) (oper : tx_operation_t)
    (b : Board F) : (frame_built cfg cd oper b).length = b.tx_packet.length := by
  cases oper
  · rw [frame_built_restart]; simp only [List.length_set]
  · rw [frame_built_start_task]; simp only [List.length_set]
  · rw [frame_built_send_state cfg cd b _ rfl]; simp only [List.length_set]
  · rw [frame_built_give_baton]; simp only [List.length_set]

theorem frame_built_source (cfg : Config F) (cd : FloatCodec F) (oper : tx_operation_t)
    (b : Board F) (hlen : b.tx_packet.length = TX_PAYLOAD_LENGTH) :
    (frame_built cfg cd oper b).getD MSGIDX_SRC_BOARD 0 = to_uint8 cfg.BOARD_ID := by
  cases oper
  · rw [frame_built_restart]
    simp [getD_set, List.length_set, hlen, MSGIDX_TYPE, MSGIDX_SRC_BOARD, MSGIDX_DST_BOARD,
      MSGIDX_RESTART_ID, TX_PAYLOAD_LENGTH]
  · rw [frame_built_start_task]
    simp [getD_set, List.length_set, hlen, MSGIDX_TYPE, MSGIDX_SRC_BOARD, MSGIDX_DST_BOARD,
      MSGIDX_TASK, TX_PAYLOAD_LENGTH]
  · rw [frame_built_send_state cfg cd b _ rfl]
    simp [getD_set, List.length_set, hlen, MSGIDX_TYPE, MSGIDX_SRC_BOARD, MSGIDX_DST_BOARD,
      TX_PAYLOAD_LENGTH]
  · rw [frame_built_give_baton]
    simp [getD_set, List.length_set, hlen, MSGIDX_TYPE, MSGIDX_SRC_BOARD, MSGIDX_DST_BOARD,
      MSGIDX_BOARDS_OVER, TX_PAYLOAD_LENGTH]

theorem frame_built_destination (cfg : Config F) (cd : FloatCodec F) (oper : tx_operation_t)
    (b : Board F) (hlen : b.tx_packet.length = TX_PAYLOAD_LENGTH) :
    (frame_built cfg cd oper b).getD MSGIDX_DST_BOARD 0
      = if oper = tx_operation_t.O_GIVE_BATON then to_uint8 b.dst_of_baton
        else to_uint8 (send_addr cfg b) := by
  cases oper
  · rw [frame_built_restart]
    simp [getD_set, List.length_set, hlen, MSGIDX_TYPE, MSGIDX_SRC_BOARD, MSGIDX_DST_BOARD,
      MSGIDX_RESTART_ID, TX_PAYLOAD_LENGTH]
  · rw [frame_built_start_task]
    simp [getD_set, List.length_set, hlen, MSGIDX_TYPE, MSGIDX_SRC_BOARD, MSGIDX_DST_BOARD,
      MSGIDX_TASK, TX_PAYLOAD_LENGTH]
  · rw [frame_built_send_state cfg cd b _ rfl]
    simp [getD_set, List.length_set, hlen, MSGIDX_TYPE, MSGIDX_SRC_BOARD, MSGIDX_DST_BOARD,
      TX_PAYLOAD_LENGTH]
  · rw [frame_built_give_baton]
    simp [getD_set, List.length_set, hlen, MSGIDX_TYPE, MSGIDX_SRC_BOARD, MSGIDX_DST_BOARD,
      MSGIDX_BOARDS_OVER, TX_PAYLOAD_LENGTH]

theorem frame_built_type (cfg : Config F) (cd : FloatCodec F) (oper : tx_operation_t)
    (b : Board F) (hlen : b.tx_packet.length = TX_PAYLOAD_LENGTH) :
    (frame_built cfg cd oper b).getD MSGIDX_TYPE 0
      = match oper with
        | .O_GLB_RESTART => 0
        | .O_GLB_START_TASK => 1
        | .O_GLB_SEND_STATE => 2
        | .O_GIVE_BATON => 3 := by
  cases oper
  · rw [frame_built_restart]
    simp [getD_set, List.length_set, hlen, MSGIDX_TYPE, MSGIDX_SRC_BOARD, MSGIDX_DST_BOARD,
      MSGIDX_RESTART_ID, TX_PAYLOAD_LENGTH, to_uint8, message_t.toInt]
  · rw [frame_built_start_task]
    simp [getD_set, List.length_set, hlen, MSGIDX_TYPE, MSGIDX_SRC_BOARD, MSGIDX_DST_BOARD,
      MSGIDX_TASK, TX_PAYLOAD_LENGTH, to_uint8, message_t.toInt]
  · rw [frame_built_send_state cfg cd b _ rfl]
    simp [getD_set, List.length_set, hlen, MSGIDX_TYPE, MSGIDX_SRC_BOARD, MSGIDX_DST_BOARD,
      TX_PAYLOAD_LENGTH, to_uint8, message_t.toInt]
  · rw [frame_built_give_baton]
    simp [getD_set, List.length_set, hlen, MSGIDX_TYPE, MSGIDX_SRC_BOARD, MSGIDX_DST_BOARD,
      MSGIDX_BOARDS_OVER, TX_PAYLOAD_LENGTH, to_uint8, message_t.toInt]

theorem frame_built_byte3 (cfg : Config F) (cd : FloatCodec F) (b : Board F)
    (hlen : b.tx_packet.length = TX_PAYLOAD_LENGTH) :
    (frame_built cfg cd tx_operation_t.O_GLB_RESTART b).getD 3 0 = to_uint8 b.restart_id
    ∧ (frame_built cfg cd tx_operation_t.O_GLB_START_TASK b).getD 3 0
        = to_uint8 b.current_task.toInt
    ∧ (frame_built cfg cd tx_operation_t.O_GIVE_BATON b).getD 3 0
        = to_uint8 b.boards_completed_their_task := by
  refine ⟨?_, ?_, ?_⟩
  · rw [frame_built_restart]
    simp [getD_set, List.length_set, hlen, MSGIDX_RESTART_ID, TX_PAYLOAD_LENGTH]
  · rw [frame_built_start_task]
    simp [getD_set, List.length_set, hlen, MSGIDX_TASK, TX_PAYLOAD_LENGTH]
  · rw [frame_built_give_baton]
    simp [getD_set, List.length_set, hlen, MSGIDX_BOARDS_OVER, TX_PAYLOAD_LENGTH]

theorem frame_built_state_bytes (cfg : Config F) (cd : FloatCodec F) (b : Board F)
    (hlen : b.tx_packet.length = TX_PAYLOAD_LENGTH) (x : F)
    (hx : b.consensus_states.get? cfg.BOARD_ID = some x) :
    (frame_built cfg cd tx_operation_t.O_GLB_SEND_STATE b).getD 3 0
        = to_uint8 ((cd.to_bytes x).getD 0 0)
    ∧ (frame_built cfg cd tx_operation_t.O_GLB_SEND_STATE b).getD 4 0
        = to_uint8 ((cd.to_bytes x).getD 1 0)
    ∧ (frame_built cfg cd tx_operation_t.O_GLB_SEND_STATE b).getD 5 0
        = to_uint8 ((cd.to_bytes x).getD 2 0)
    ∧ (frame_built cfg cd tx_operation_t.O_GLB_SEND_STATE b).getD 6 0
        = to_uint8 ((cd.to_bytes x).getD 3 0) := by
  rw [frame_built_send_state cfg cd b (cd.to_bytes x) (by rw [hx])]
  refine ⟨?_, ?_, ?_, ?_⟩ <;>
    simp [getD_set, List.length_set, hlen, TX_PAYLOAD_LENGTH]

/-- C18: the frame that `packet_transmission` builds in `tx_packet` (16 bytes)
and hands to the radio when it transmits. Byte 0 is 0, 1, 2 or 3 for Restart,
StartTask, ConsensusState, Baton; byte 1 is the own id; byte 2 is the
destination (`send_addr`, or `dst_of_baton` for Baton) and is the channel used;
byte 3 is `restart_id` modulo 256, the task id, or the tally as a byte (`0xFF`
for the sleep sentinel); for ConsensusState bytes 3..6 are the four bytes of the
own state. Reading byte 3 of a Baton frame as `int8_t` gives back the tally for
every tally in `-1..127`. -/
theorem frame_layout (cfg : Config F) (cd : FloatCodec F) (b : Board F)
    (hlen : b.tx_packet.length = TX_PAYLOAD_LENGTH) :
    (∀ oper : tx_operation_t,
        (frame_built cfg cd oper b).length = TX_PAYLOAD_LENGTH
        ∧ (frame_built cfg cd oper b).getD 0 0
            = (match oper with
              | .O_GLB_RESTART => 0
              | .O_GLB_START_TASK => 1
              | .O_GLB_SEND_STATE => 2
              | .O_GIVE_BATON => 3)
        ∧ (frame_built cfg cd oper b).getD 1 0 = to_uint8 cfg.BOARD_ID
        ∧ (cfg.BOARD_ID < 256 → (frame_built cfg cd oper b).getD 1 0 = (cfg.BOARD_ID : Int))
        ∧ ((packet_transmission cfg cd oper b).1 = true →
            (packet_transmission cfg cd oper b).2.trace
              = b.trace ++ [Action.send_packet (frame_built cfg cd oper b)
                  ((frame_built cfg cd oper b).getD 2 0)])
        ∧ ((packet_transmission cfg cd oper b).1 = false →
            (packet_transmission cfg cd oper b).2.trace = b.trace))
    ∧ ((frame_built cfg cd tx_operation_t.O_GLB_RESTART b).getD 2 0 = to_uint8 (send_addr cfg b)
        ∧ (frame_built cfg cd tx_operation_t.O_GLB_RESTART b).getD 3 0 = b.restart_id % 256)
    ∧ ((frame_built cfg cd tx_operation_t.O_GLB_START_TASK b).getD 2 0
          = to_uint8 (send_addr cfg b)
        ∧ (frame_built cfg cd tx_operation_t.O_GLB_START_TASK b).getD 3 0
          = b.current_task.toInt)
    ∧ ((frame_built cfg cd tx_operation_t.O_GLB_SEND_STATE b).getD 2 0
          = to_uint8 (send_addr cfg b)
        ∧ ∀ x, b.consensus_states.get? cfg.BOARD_ID = some x →
            (frame_built cfg cd tx_operation_t.O_GLB_SEND_STATE b).getD 3 0
                = to_uint8 ((cd.to_bytes x).getD 0 0)
            ∧ (frame_built cfg cd tx_operation_t.O_GLB_SEND_STATE b).getD 4 0
                = to_uint8 ((cd.to_bytes x).getD 1 0)
            ∧ (frame_built cfg cd tx_operation_t.O_GLB_SEND_STATE b).getD 5 0
                = to_uint8 ((cd.to_bytes x).getD 2 0)
            ∧ (frame_built cfg cd tx_operation_t.O_GLB_SEND_STATE b).getD 6 0
                = to_uint8 ((cd.to_bytes x).getD 3 0))
    ∧ ((frame_built cfg cd tx_operation_t.O_GIVE_BATON b).getD 2 0 = to_uint8 b.dst_of_baton
        ∧ (frame_built cfg cd tx_operation_t.O_GIVE_BATON b).getD 3 0
            = to_uint8 b.boards_completed_their_task
        ∧ (b.boards_completed_their_task = SEND_SYSTEM_TO_SLEEP →
            (frame_built cfg cd tx_operation_t.O_GIVE_BATON b).getD 3 0 = 255)
        ∧ (-1 ≤ b.boards_completed_their_task → b.boards_completed_their_task ≤ 127 →
            to_int8 ((frame_built cfg cd tx_operation_t.O_GIVE_BATON b).getD
              MSGIDX_BOARDS_OVER 0) = b.boards_completed_their_task))
    ∧ (∀ d : Int, 0 ≤ d → d < 256 → to_uint8 d = d) := by
  have h3 := frame_built_byte3 cfg cd b hlen
  have hd := fun oper => frame_built_destination cfg cd oper b hlen
  refine ⟨?_, ?_, ?_, ?_, ?_, to_uint8_of_byte⟩
  · intro oper
    refine ⟨?_, frame_built_type cfg cd oper b hlen, frame_built_source cfg cd oper b hlen,
      ?_, ?_, ?_⟩
    · rw [frame_built_length, hlen]
    · intro hid
      rw [show (1 : Nat) = MSGIDX_SRC_BOARD from rfl, frame_built_source cfg cd oper b hlen]
      exact to_uint8_of_byte _ (Int.natCast_nonneg _) (by exact_mod_cast hid)
    · intro hs
      rw [packet_transmission_trace, if_pos hs]
      rfl
    · intro hs
      rw [packet_transmission_trace, if_neg (by rw [hs]; exact Bool.false_ne_true)]
  · exact ⟨by simpa using hd tx_operation_t.O_GLB_RESTART, h3.1⟩
  · refine ⟨by simpa using hd tx_operation_t.O_GLB_START_TASK, ?_⟩
    rw [h3.2.1]
    cases b.current_task <;> rfl
  · exact ⟨by simpa using hd tx_operation_t.O_GLB_SEND_STATE,
      fun x hx => frame_built_state_bytes cfg cd b hlen x hx⟩
  · refine ⟨by simpa using hd tx_operation_t.O_GIVE_BATON, h3.2.2, ?_, ?_⟩
    · intro hs
      rw [h3.2.2, hs]
      rfl
    · intro h1 h2
      rw [show MSGIDX_BOARDS_OVER = 3 from rfl, h3.2.2]
      exact to_int8_to_uint8 _ (by omega) h2

/-- C18 on board 5 of the shipped configuration: the Baton frame for next hop 4
with the sleep sentinel as tally is `03 05 04 FF`, and the Restart frame with
epoch 258 for destination 1 is `00 05 01 02`. -/
theorem frame_layout_shipped :
    (frame_built (shipped_config 5) int_part_codec tx_operation_t.O_GIVE_BATON
        { power_on exact_arith (shipped_config 5) with
          dst_of_baton := 4, boards_completed_their_task := -1 }).take 4 = [3, 5, 4, 255]
    ∧ (frame_built (shipped_config 5) int_part_codec tx_operation_t.O_GLB_RESTART
        { power_on exact_arith (shipped_config 5) with
          restart_id := 258, num_of_pending_msgs_for_tx := 5 }).take 4 = [0, 5, 1, 2]
    ∧ to_int8 ((frame_built (shipped_config 5) int_part_codec tx_operation_t.O_GIVE_BATON
        { power_on exact_arith (shipped_config 5) with
          dst_of_baton := 4, boards_completed_their_task := -1 }).getD MSGIDX_BOARDS_OVER 0)
        = -1 :=
  ⟨by decide, by decide,
   (frame_layout (shipped_config 5) int_part_codec
      { power_on exact_arith (shipped_config 5) with
        dst_of_baton := 4, boards_completed_their_task := -1 } rfl).2.2.2.2.1.2.2.2
      (by decide) (by decide)⟩


/-! ## Theorems: reception -/

/-- C16: a received frame whose destination byte (offset 2) is not the board's
own id is not dispatched. Whatever its type and payload, and for any number of
such frames in the radio's queue, `handle_received_packet` leaves the board as
it was. -/
theorem frame_for_other_board_ignored (cfg : Config F) (cd : FloatCodec F)
    (rx_queue : List (List Int)) (b : Board F)
    (hdst : ∀ frame, frame ∈ rx_queue → frame.getD MSGIDX_DST_BOARD 0 ≠ (cfg.BOARD_ID : Int)) :
    handle_received_packet cfg cd rx_queue b = b := by
  unfold handle_received_packet
  induction rx_queue generalizing b with
  | nil => rfl
  | cons p q ih =>
    simp only [List.foldl_cons]
    have hp : ¬ (p.getD 2 0 = (cfg.BOARD_ID : Int)) := hdst p (List.mem_cons_self p q)
    rw [if_neg hp, ite_self]
    exact ih b (fun frame hf => hdst frame (List.mem_cons_of_mem p hf))

/-- C16 on board 5 of the shipped configuration: a 16-byte Baton frame from
board 0 (a valid predecessor of board 5) addressed to board 4, and a Restart
frame with epoch 9 addressed to board 1, change nothing. -/
theorem frame_for_other_board_ignored_shipped :
    (frame_of 3 0 4 6).length = 16
    ∧ handle_received_packet (shipped_config 5) int_part_codec
        [frame_of 3 0 4 6, frame_of 0 2 1 9] (power_on exact_arith (shipped_config 5))
      = power_on exact_arith (shipped_config 5) :=
  ⟨rfl, frame_for_other_board_ignored (shipped_config 5) int_part_codec
    [frame_of 3 0 4 6, frame_of 0 2 1 9] (power_on exact_arith (shipped_config 5))
    (by decide)⟩

theorem handle_consensus_state_frame (cfg : Config F) (cd : FloatCodec F)
    (rx_buffer : List Int) (b : Board F)
    (htype : rx_buffer.getD MSGIDX_TYPE 0 = message_t.MSG_CONSENSUS_STATE.toInt)
    (hawake : app_is_ok_to_sleep b = false) :
    handle_rx_packet_payload cfg cd rx_buffer b
      = set_consensus_state b (rx_buffer.getD MSGIDX_SRC_BOARD 0).toNat
          (cd.of_bytes [rx_buffer.getD 3 0, rx_buffer.getD 4 0,
            rx_buffer.getD 5 0, rx_buffer.getD 6 0]) := by
  have hm : message_t.ofInt (rx_buffer.getD MSGIDX_TYPE 0)
      = some message_t.MSG_CONSENSUS_STATE := by
    rw [htype]; rfl
  unfold handle_rx_packet_payload
  simp only [hm, hawake, Bool.false_eq_true, if_false]

theorem float_bits_roundtrip (v : Int) (h0 : 0 ≤ v) (h1 : v < 4294967296) :
    float_bits_codec.of_bytes
        [to_uint8 ((float_bits_codec.to_bytes v).getD 0 0),
         to_uint8 ((float_bits_codec.to_bytes v).getD 1 0),
         to_uint8 ((float_bits_codec.to_bytes v).getD 2 0),
         to_uint8 ((float_bits_codec.to_bytes v).getD 3 0)] = v := by
  simp only [float_bits_codec, to_uint8, List.getD_cons_zero, List.getD_cons_succ]
  omega

/-- C17: floats as 32-bit patterns. The ConsensusState frame that board `s < N`
(ids fit a byte) builds while its own state has the pattern `v` is handled by
an awake board as the store `consensus_states[s] = v`: with `s` inside the
receiver's array it stores exactly `v` at index `s` of that board's state
vector and changes nothing else, and in no case does another entry change. -/
theorem consensus_state_frame_roundtrip (cfg_s cfg_r : Config Int) (bs br : Board Int) (v : Int)
    (h0 : 0 ≤ v) (h1 : v < 4294967296)
    (hs : cfg_s.BOARD_ID < cfg_s.NUM_OF_BOARDS) (hN : cfg_s.NUM_OF_BOARDS ≤ 256)
    (hown : bs.consensus_states.get? cfg_s.BOARD_ID = some v)
    (hlen : bs.tx_packet.length = TX_PAYLOAD_LENGTH)
    (hawake : app_is_ok_to_sleep br = false) :
    handle_rx_packet_payload cfg_r float_bits_codec
        (frame_built cfg_s float_bits_codec tx_operation_t.O_GLB_SEND_STATE bs) br
      = set_consensus_state br cfg_s.BOARD_ID v
    ∧ (cfg_s.BOARD_ID < br.consensus_states.length →
        handle_rx_packet_payload cfg_r float_bits_codec
          (frame_built cfg_s float_bits_codec tx_operation_t.O_GLB_SEND_STATE bs) br
        = { br with consensus_states := br.consensus_states.set cfg_s.BOARD_ID v })
    ∧ (cfg_s.BOARD_ID < br.consensus_states.length →
        (handle_rx_packet_payload cfg_r float_bits_codec
          (frame_built cfg_s float_bits_codec tx_operation_t.O_GLB_SEND_STATE bs)
          br).consensus_states.getD cfg_s.BOARD_ID 0 = v)
    ∧ (∀ j, j ≠ cfg_s.BOARD_ID →
        (handle_rx_packet_payload cfg_r float_bits_codec
          (frame_built cfg_s float_bits_codec tx_operation_t.O_GLB_SEND_STATE bs)
          br).consensus_states.getD j 0 = br.consensus_states.getD j 0) := by
  have hb := frame_built_state_bytes cfg_s float_bits_codec bs hlen v hown
  have hsrc : (frame_built cfg_s float_bits_codec tx_operation_t.O_GLB_SEND_STATE bs).getD
      MSGIDX_SRC_BOARD 0 = (cfg_s.BOARD_ID : Int) := by
    rw [frame_built_source cfg_s float_bits_codec _ bs hlen]
    exact to_uint8_of_byte _ (Int.natCast_nonneg _) (by exact_mod_cast (by omega : cfg_s.BOARD_ID < 256))
  have htype := frame_built_type cfg_s float_bits_codec tx_operation_t.O_GLB_SEND_STATE bs hlen
  have e : handle_rx_packet_payload cfg_r float_bits_codec
        (frame_built cfg_s float_bits_codec tx_operation_t.O_GLB_SEND_STATE bs) br
      = set_consensus_state br cfg_s.BOARD_ID v := by
    rw [handle_consensus_state_frame cfg_r float_bits_codec _ br htype hawake, hsrc,
      hb.1, hb.2.1, hb.2.2.1, hb.2.2.2, float_bits_roundtrip v h0 h1, Int.toNat_ofNat]
  have ein : cfg_s.BOARD_ID < br.consensus_states.length →
      set_consensus_state br cfg_s.BOARD_ID v
        = { br with consensus_states := br.consensus_states.set cfg_s.BOARD_ID v } := by
    intro hlt
    unfold set_consensus_state
    rw [if_pos hlt]
  refine ⟨e, fun hlt => e.trans (ein hlt), ?_, ?_⟩
  · intro hlt
    rw [e, ein hlt]
    exact getD_set_same _ _ _ _ hlt
  · intro j hj
    rw [e]
    unfold set_consensus_state
    split_ifs
    · exact getD_set_ne _ _ _ _ _ (fun h => hj h.symm)
    · rfl

/-- C17 for board 1 of the shipped configuration with own state `20.0f`
(pattern `0x41A00000`), received by board 5. -/
theorem consensus_state_frame_roundtrip_shipped :
    (handle_rx_packet_payload (shipped_config_bits 5) float_bits_codec
        (frame_built (shipped_config_bits 1) float_bits_codec tx_operation_t.O_GLB_SEND_STATE
          { power_on_bits (shipped_config_bits 1) with
            consensus_states := [0, 0x41A00000, 0, 0, 0, 0], num_of_pending_msgs_for_tx := 1 })
        (power_on_bits (shipped_config_bits 5))).consensus_states
      = [0, 0x41A00000, 0, 0, 0, 0] :=
  (congrArg (fun c : Board Int => c.consensus_states)
    (consensus_state_frame_roundtrip (shipped_config_bits 1) (shipped_config_bits 5)
      { power_on_bits (shipped_config_bits 1) with
        consensus_states := [0, 0x41A00000, 0, 0, 0, 0], num_of_pending_msgs_for_tx := 1 }
      (power_on_bits (shipped_config_bits 5)) 0x41A00000 (by decide) (by decide) (by decide)
      (by decide) rfl rfl rfl).1).trans (by decide)


/-! ## Theorems: the restart epoch -/

theorem restart_id_handle_rx_packet_payload (cfg : Config F) (cd : FloatCodec F)
    (rx_buffer : List Int) (b : Board F) :
    b.restart_id ≤ (handle_rx_packet_payload cfg cd rx_buffer b).restart_id := by
  simp only [handle_rx_packet_payload]
  generalize message_t.ofInt (rx_buffer.getD MSGIDX_TYPE 0) = m
  rcases m with _ | m
  · exact le_refl _
  · cases m
    all_goals simp only [app_is_ok_to_sleep, wake_up, cancel_timer, set_consensus_state]
    all_goals split_ifs
    all_goals first | exact le_refl _ | (dsimp only; omega)

theorem restart_id_handle_received_packet (cfg : Config F) (cd : FloatCodec F)
    (rx_queue : List (List Int)) (b : Board F) :
    b.restart_id ≤ (handle_received_packet cfg cd rx_queue b).restart_id := by
  unfold handle_received_packet
  induction rx_queue generalizing b with
  | nil => exact le_refl _
  | cons p q ih =>
    simp only [List.foldl_cons]
    refine le_trans ?_ (ih _)
    split_ifs
    · exact le_refl _
    · exact restart_id_handle_rx_packet_payload cfg cd p b
    · exact le_refl _

theorem restart_id_enable_alarm (cfg : Config F) (b : Board F) :
    (enable_alarm cfg b).restart_id = b.restart_id + 1 := by
  have e0 : (set_dst_after_first_occurrence cfg { b with baton := true }).control.restart_id
      = ({ b with baton := true } : Board F).control.restart_id := by
    rw [control_set_dst_after_first_occurrence]
  have e : (set_dst_after_first_occurrence cfg { b with baton := true }).restart_id
      = b.restart_id := e0
  have h : (enable_alarm cfg b).restart_id
      = (set_dst_after_first_occurrence cfg { b with baton := true }).restart_id + 1 := rfl
  rw [h, e]

theorem restart_id_handle_app_events (fl : FloatOps F) (cfg : Config F) (b : Board F) :
    (handle_app_events fl cfg b).restart_id = b.restart_id := by
  by_cases h1 : b.packet_received = true
  · rw [handle_app_events_packet_received fl cfg b h1]; rfl
  have h1 : b.packet_received = false := by simpa using h1
  by_cases h2 : b.packet_sent = true
  · rw [handle_app_events_packet_sent fl cfg b h1 h2]
  have h2 : b.packet_sent = false := by simpa using h2
  by_cases h3 : b.rx_error = true
  · rw [handle_app_events_rx_error fl cfg b h1 h2 h3]
  have h3 : b.rx_error = false := by simpa using h3
  by_cases h4 : b.tx_error = true
  · rw [handle_app_events_tx_error fl cfg b h1 h2 h3 h4]
  have h4 : b.tx_error = false := by simpa using h4
  by_cases h5 : b.cal_error = true
  · rw [handle_app_events_cal_error fl cfg b h1 h2 h3 h4 h5]
  have h5 : b.cal_error = false := by simpa using h5
  have hs : no_transport_signal b := ⟨h1, h2, h3, h4, h5⟩
  by_cases h6 : sleep_rule_applies b
  · rw [handle_app_events_sleep fl cfg b hs h6]; rfl
  by_cases h7 : restart_rule_applies b
  · rw [handle_app_events_restart fl cfg b hs h6 h7]; rfl
  by_cases h8 : bypass_rule_applies b
  · rw [handle_app_events_bypass fl cfg b hs h6 h7 h8]; rfl
  by_cases h9 : average_rule_applies b
  · rw [handle_app_events_average fl cfg b hs h6 h7 h8 h9]; rfl
  · rw [handle_app_events_no_rule fl cfg b hs h6 h7 h8 h9]

theorem restart_id_after_transmission (cfg : Config F) (msg_sent : Bool) (b : Board F) :
    (after_transmission cfg msg_sent b).restart_id = b.restart_id := by
  simp only [after_transmission]
  cases b.tx_operation_to_achieve
  all_goals simp only [Board.push, Board.pop_state, set_timer]
  all_goals split_ifs <;> rfl

theorem restart_id_packet_transmission (cfg : Config F) (cd : FloatCodec F)
    (oper : tx_operation_t) (b : Board F) :
    (packet_transmission cfg cd oper b).2.restart_id = b.restart_id := by
  have e0 : (packet_transmission cfg cd oper b).2.control.restart_id = b.control.restart_id := by
    rw [packet_transmission_control]
  exact e0

theorem restart_id_execute_app_state (fl : FloatOps F) (cd : FloatCodec F) (cfg : Config F)
    (rx_queue : List (List Int)) (b : Board F) :
    (state_t.ofInt b.state ≠ some state_t.S_INIT_AND_SLEEP →
        b.restart_id ≤ (execute_app_state fl cd cfg rx_queue b).restart_id)
    ∧ (state_t.ofInt b.state = some state_t.S_INIT_AND_SLEEP →
        (execute_app_state fl cd cfg rx_queue b).restart_id = 0) := by
  cases h : state_t.ofInt b.state with
  | none =>
    rw [execute_app_state_unexpected fl cd cfg rx_queue b h]
    exact ⟨fun _ => le_refl _, fun hc => by cases hc⟩
  | some st =>
    cases st with
    | S_RESTART_COMPLETED =>
      rw [execute_app_state_restart_completed fl cd cfg rx_queue b h]
      refine ⟨fun _ => ?_, fun hc => by cases hc⟩
      split_ifs <;> exact le_refl _
    | S_START_AVG_CONSENSUS =>
      rw [execute_app_state_start_avg_consensus fl cd cfg rx_queue b h]
      refine ⟨fun _ => ?_, fun hc => by cases hc⟩
      simp only [initialize_consensus_setup, measure_temperature]
      split_ifs <;> exact le_refl _
    | S_SEND_AVG_CONSENSUS_MSGS =>
      rw [execute_app_state_send_avg_consensus_msgs fl cd cfg rx_queue b h]
      refine ⟨fun _ => ?_, fun hc => by cases hc⟩
      split_ifs <;> exact le_refl _
    | S_UPDATE_AVG_CONSENSUS_STATE =>
      rw [execute_app_state_update_avg_consensus_state fl cd cfg rx_queue b h]
      refine ⟨fun _ => ?_, fun hc => by cases hc⟩
      simp only [update_completion_tally]
      split_ifs <;> exact le_refl _
    | S_INIT_AND_SLEEP =>
      rw [execute_app_state_init_and_sleep fl cd cfg rx_queue b h]
      exact ⟨fun hc => absurd rfl hc, fun _ => rfl⟩
    | S_PACKET_TX =>
      rw [execute_app_state_packet_tx fl cd cfg rx_queue b h]
      refine ⟨fun _ => ?_, fun hc => by cases hc⟩
      rw [restart_id_after_transmission, restart_id_packet_transmission]
    | S_PACKET_RECEIVED =>
      rw [execute_app_state_packet_received fl cd cfg rx_queue b h]
      exact ⟨fun _ => restart_id_handle_received_packet cfg cd rx_queue b, fun hc => by cases hc⟩
    | S_PACKET_SENT =>
      rw [execute_app_state_packet_sent fl cd cfg rx_queue b h]
      exact ⟨fun _ => le_refl _, fun hc => by cases hc⟩
    | S_RX_PACKET_ERROR =>
      rw [execute_app_state_rx_packet_error fl cd cfg rx_queue b h]
      exact ⟨fun _ => le_refl _, fun hc => by cases hc⟩
    | S_TX_PACKET_ERROR =>
      rw [execute_app_state_tx_packet_error fl cd cfg rx_queue b h]
      exact ⟨fun _ => le_refl _, fun hc => by cases hc⟩
    | S_CALIBRATION_ERROR =>
      rw [execute_app_state_calibration_error fl cd cfg rx_queue b h]
      exact ⟨fun _ => le_refl _, fun hc => by cases hc⟩
    | S_IDLE =>
      rw [execute_app_state_idle fl cd cfg rx_queue b h]
      exact ⟨fun _ => le_refl _, fun hc => by cases hc⟩

/-- C19 as stated fails: a scheduler tick that executes `S_INIT_AND_SLEEP` on a
board whose restart epoch is 5 leaves the epoch at 0. -/
theorem restart_id_reset_by_init_and_sleep :
    ({ power_on exact_arith (shipped_config 5) with restart_id := 5 } : Board ℚ).restart_id = 5
    ∧ (app_process_action exact_arith int_part_codec (shipped_config 5) []
        { power_on exact_arith (shipped_config 5) with restart_id := 5 }).restart_id = 0
    ∧ ¬ (({ power_on exact_arith (shipped_config 5) with restart_id := 5 } : Board ℚ).restart_id
        ≤ (app_process_action exact_arith int_part_codec (shipped_config 5) []
            { power_on exact_arith (shipped_config 5) with restart_id := 5 }).restart_id) := by
  decide

/-- C19, amended: for every operation whose stores stay inside the arrays (the
board is `memory_intact` afterwards), `restart_id` does not decrease when a
received frame is handled, in event intake (it is unchanged), or when any
state other than `S_INIT_AND_SLEEP` is executed; a watchdog expiry makes it grow
by one; a tick that executes `S_INIT_AND_SLEEP` re-initialises the board and
leaves `restart_id = 0`. -/
theorem restart_id_monotone_except_init (fl : FloatOps F) (cd : FloatCodec F) (cfg : Config F)
    (b : Board F) :
    (∀ rx_buffer, memory_intact (handle_rx_packet_payload cfg cd rx_buffer b) →
        b.restart_id ≤ (handle_rx_packet_payload cfg cd rx_buffer b).restart_id)
    ∧ (∀ rx_queue, memory_intact (handle_received_packet cfg cd rx_queue b) →
        b.restart_id ≤ (handle_received_packet cfg cd rx_queue b).restart_id)
    ∧ (enable_alarm cfg b).restart_id = b.restart_id + 1
    ∧ (memory_intact (handle_app_events fl cfg b) →
        (handle_app_events fl cfg b).restart_id = b.restart_id)
    ∧ (∀ rx_queue, memory_intact (app_process_action fl cd cfg rx_queue b) →
        state_t.ofInt (handle_app_events fl cfg b).state ≠ some state_t.S_INIT_AND_SLEEP →
        b.restart_id ≤ (app_process_action fl cd cfg rx_queue b).restart_id)
    ∧ (∀ rx_queue, memory_intact (app_process_action fl cd cfg rx_queue b) →
        state_t.ofInt (handle_app_events fl cfg b).state = some state_t.S_INIT_AND_SLEEP →
        (app_process_action fl cd cfg rx_queue b).restart_id = 0) := by
  refine ⟨fun rx_buffer _ => restart_id_handle_rx_packet_payload cfg cd rx_buffer b,
    fun rx_queue _ => restart_id_handle_received_packet cfg cd rx_queue b,
    restart_id_enable_alarm cfg b,
    fun _ => restart_id_handle_app_events fl cfg b, ?_, ?_⟩
  · intro rx_queue _ hne
    have h := (restart_id_execute_app_state fl cd cfg rx_queue (handle_app_events fl cfg b)).1 hne
    rw [restart_id_handle_app_events] at h
    exact h
  · intro rx_queue _ he
    exact (restart_id_execute_app_state fl cd cfg rx_queue (handle_app_events fl cfg b)).2 he

/-- C19, amended, on board 5 of the shipped configuration with epoch 5: an idle
tick keeps the epoch, a tick that executes `S_INIT_AND_SLEEP` resets it, and a
Restart frame with epoch 9 raises it to 9; no store leaves an array. -/
theorem restart_id_monotone_except_init_shipped :
    (5 : Int) ≤ (app_process_action exact_arith int_part_codec (shipped_config 5) []
        { power_on exact_arith (shipped_config 5) with
          restart_id := 5, state := state_t.S_IDLE.toInt }).restart_id
    ∧ (app_process_action exact_arith int_part_codec (shipped_config 5) []
        { power_on exact_arith (shipped_config 5) with restart_id := 5 }).restart_id = 0
    ∧ (5 : Int) ≤ (handle_rx_packet_payload (shipped_config 5) int_part_codec (frame_of 0 4 5 9)
        { power_on exact_arith (shipped_config 5) with restart_id := 5 }).restart_id :=
  ⟨(restart_id_monotone_except_init exact_arith int_part_codec (shipped_config 5)
      { power_on exact_arith (shipped_config 5) with
        restart_id := 5, state := state_t.S_IDLE.toInt }).2.2.2.2.1 [] (by decide) (by decide),
   (restart_id_monotone_except_init exact_arith int_part_codec (shipped_config 5)
      { power_on exact_arith (shipped_config 5) with restart_id := 5 }).2.2.2.2.2 []
      (by decide) (by decide),
   (restart_id_monotone_except_init exact_arith int_part_codec (shipped_config 5)
      { power_on exact_arith (shipped_config 5) with restart_id := 5 }).1 (frame_of 0 4 5 9)
      (by decide)⟩

/-! ## Theorems: a dropped token frame and the next hop -/

/-- C20, the code on board 5 of the shipped configuration, awake and holding the
token with next hop 4, when it handles a Baton frame sent by board 1 (not a
valid predecessor): the token flag is kept but `dst_of_baton` becomes `-1`, so
the frame that releases the token afterwards carries destination byte `0xFF`
and is sent on channel 255 instead of to board 4. -/
theorem dropped_baton_frame_overwrites_next_hop :
    ¬ valid_predecessor shipped_baton_path 5 1
    ∧ ({ power_on exact_arith (shipped_config 5) with
          baton := true, baton_cntr := 1, dst_of_baton := 4 } : Board ℚ).dst_of_baton = 4
    ∧ (handle_rx_packet_payload (shipped_config 5) int_part_codec (frame_of 3 1 5 0)
        { power_on exact_arith (shipped_config 5) with
          baton := true, baton_cntr := 1, dst_of_baton := 4 }).dst_of_baton = -1
    ∧ (handle_rx_packet_payload (shipped_config 5) int_part_codec (frame_of 3 1 5 0)
        { power_on exact_arith (shipped_config 5) with
          baton := true, baton_cntr := 1, dst_of_baton := 4 }).baton = true
    ∧ (frame_built (shipped_config 5) int_part_codec tx_operation_t.O_GIVE_BATON
        { power_on exact_arith (shipped_config 5) with
          baton := true, baton_cntr := 1, dst_of_baton := 4 }).getD MSGIDX_DST_BOARD 0 = 4
    ∧ (frame_built (shipped_config 5) int_part_codec tx_operation_t.O_GIVE_BATON
        (handle_rx_packet_payload (shipped_config 5) int_part_codec (frame_of 3 1 5 0)
          { power_on exact_arith (shipped_config 5) with
            baton := true, baton_cntr := 1, dst_of_baton := 4 })).getD MSGIDX_DST_BOARD 0 = 255
    ∧ destinations_sent (packet_transmission (shipped_config 5) int_part_codec
        tx_operation_t.O_GIVE_BATON
        (handle_rx_packet_payload (shipped_config 5) int_part_codec (frame_of 3 1 5 0)
          { power_on exact_arith (shipped_config 5) with
            baton := true, baton_cntr := 1, dst_of_baton := 4 })).2.trace = [255] := by
  decide


/-! ## Theorems: the broadcast loop -/

theorem after_transmission_broadcast (cfg : Config F) (msg_sent : Bool) (b : Board F)
    (hop : b.tx_operation_to_achieve ≠ tx_operation_t.O_GIVE_BATON) :
    (after_transmission cfg msg_sent b).num_of_pending_msgs_for_tx
        = b.num_of_pending_msgs_for_tx - 1
    ∧ (after_transmission cfg msg_sent b).tx_operation_to_achieve
        = (if b.num_of_pending_msgs_for_tx - 1 = 0 then tx_operation_t.O_GIVE_BATON
           else b.tx_operation_to_achieve)
    ∧ (after_transmission cfg msg_sent b).trace = b.trace
    ∧ (after_transmission cfg msg_sent b).tx_packet = b.tx_packet := by
  simp only [after_transmission]
  cases h : b.tx_operation_to_achieve
  case O_GIVE_BATON => exact absurd h hop
  all_goals simp only [Board.push, Board.pop_state]
  all_goals split_ifs
  all_goals exact ⟨rfl, rfl, rfl, rfl⟩

theorem frames_sent_append (l1 l2 : List Action) :
    frames_sent (l1 ++ l2) = frames_sent l1 ++ frames_sent l2 := by
  induction l1 with
  | nil => rfl
  | cons a l ih =>
    cases a
    all_goals simp only [List.cons_append, frames_sent, List.append_eq, ih]

theorem destinations_sent_append_send (l : List Action) (payload : List Int) (d : Int) :
    destinations_sent (l ++ [Action.send_packet payload d])
      = destinations_sent l ++ [payload.getD MSGIDX_DST_BOARD 0] := by
  simp only [destinations_sent, frames_sent_append, frames_sent, List.map_append, List.map_cons,
    List.map_nil]

theorem graph_at_int_of_nat (cfg : Config F) (i j : Nat) :
    cfg.graph_at_int (i : Int) (j : Int) = cfg.graph_at i j := by
  unfold Config.graph_at_int
  rw [if_pos ⟨Int.ofNat_nonneg i, Int.ofNat_nonneg j⟩]
  simp only [Int.toNat_ofNat]

/-- One execution of the transmission state during a broadcast whose next
candidate address is `j`. -/
theorem transmit_once_broadcast (fl : FloatOps F) (cd : FloatCodec F) (cfg : Config F)
    (b : Board F) (j : Nat)
    (hop : b.tx_operation_to_achieve ≠ tx_operation_t.O_GIVE_BATON)
    (hp : b.num_of_pending_msgs_for_tx = (cfg.NUM_OF_BOARDS : Int) - (j : Int))
    (hj : j < 256) (hlen : b.tx_packet.length = TX_PAYLOAD_LENGTH) :
    destinations_sent (transmit_once fl cd cfg b).trace
        = destinations_sent b.trace
          ++ (([j].filter (fun d => decide (d ≠ cfg.BOARD_ID) && cfg.graph_at cfg.BOARD_ID d)).map
              (fun d : Nat => (d : Int)))
    ∧ (transmit_once fl cd cfg b).num_of_pending_msgs_for_tx
        = (cfg.NUM_OF_BOARDS : Int) - (j : Int) - 1
    ∧ (transmit_once fl cd cfg b).tx_operation_to_achieve
        = (if (cfg.NUM_OF_BOARDS : Int) - (j : Int) - 1 = 0 then tx_operation_t.O_GIVE_BATON
           else b.tx_operation_to_achieve)
    ∧ (transmit_once fl cd cfg b).tx_packet.length = TX_PAYLOAD_LENGTH := by
  have hst : state_t.ofInt ({ b with state := state_t.S_PACKET_TX.toInt } : Board F).state
      = some state_t.S_PACKET_TX := rfl
  have e1 : ({ b with state := state_t.S_PACKET_TX.toInt } : Board F).tx_operation_to_achieve
      = b.tx_operation_to_achieve := rfl
  have e2 : ({ b with state := state_t.S_PACKET_TX.toInt } : Board F).num_of_pending_msgs_for_tx
      = b.num_of_pending_msgs_for_tx := rfl
  have e3 : ({ b with state := state_t.S_PACKET_TX.toInt } : Board F).tx_packet
      = b.tx_packet := rfl
  have e4 : ({ b with state := state_t.S_PACKET_TX.toInt } : Board F).trace = b.trace := rfl
  generalize hb1 : ({ b with state := state_t.S_PACKET_TX.toInt } : Board F) = b1 at hst e1 e2 e3 e4
  have hsa : send_addr cfg b1 = (j : Int) := by
    unfold send_addr
    rw [e2, hp]
    omega
  have hop1 : (packet_transmission cfg cd b.tx_operation_to_achieve b1).2.tx_operation_to_achieve
      ≠ tx_operation_t.O_GIVE_BATON := by
    rw [packet_transmission_operation, e1]
    exact hop
  have hat := after_transmission_broadcast cfg
    (packet_transmission cfg cd b.tx_operation_to_achieve b1).1
    (packet_transmission cfg cd b.tx_operation_to_achieve b1).2 hop1
  rw [packet_transmission_pending, packet_transmission_operation, e1, e2, hp] at hat
  have hone : transmit_once fl cd cfg b
      = after_transmission cfg (packet_transmission cfg cd b.tx_operation_to_achieve b1).1
          (packet_transmission cfg cd b.tx_operation_to_achieve b1).2 := by
    unfold transmit_once
    rw [hb1, execute_app_state_packet_tx fl cd cfg [] b1 hst, e1]
  rw [hone]
  refine ⟨?_, hat.1, hat.2.1, ?_⟩
  · rw [hat.2.2.1, packet_transmission_trace]
    have hflag := packet_transmission_flag_iff cfg cd b.tx_operation_to_achieve b1
    rw [hsa, graph_at_int_of_nat] at hflag
    have hdst : (frame_built cfg cd b.tx_operation_to_achieve b1).getD MSGIDX_DST_BOARD 0
        = (j : Int) := by
      rw [frame_built_destination cfg cd _ b1 (by rw [e3]; exact hlen), if_neg hop, hsa]
      exact to_uint8_of_byte _ (Int.ofNat_nonneg j) (by omega)
    by_cases hn : j ≠ cfg.BOARD_ID ∧ cfg.graph_at cfg.BOARD_ID j = true
    · have hf : (packet_transmission cfg cd b.tx_operation_to_achieve b1).1 = true :=
        hflag.2 (Or.inr ⟨fun hc => hn.1 (by exact_mod_cast hc), hn.2⟩)
      rw [if_pos hf, destinations_sent_append_send, hdst, e4]
      have hfil : [j].filter (fun d => decide (d ≠ cfg.BOARD_ID) && cfg.graph_at cfg.BOARD_ID d)
          = [j] := by
        simp [hn.1, hn.2]
      rw [hfil]
      rfl
    · have hf : ¬ (packet_transmission cfg cd b.tx_operation_to_achieve b1).1 = true := by
        intro hc
        rcases hflag.1 hc with h | h
        · exact hop h
        · exact hn ⟨fun hc2 => h.1 (by rw [hc2]), h.2⟩
      rw [if_neg hf, e4]
      have hfil : [j].filter (fun d => decide (d ≠ cfg.BOARD_ID) && cfg.graph_at cfg.BOARD_ID d)
          = [] := by
        rw [List.filter_cons_of_neg]
        · rfl
        · simpa using hn
      rw [hfil]
      simp
  · rw [hat.2.2.2]
    have hl := frame_built_length cfg cd b.tx_operation_to_achieve b1
    unfold frame_built at hl
    rw [hl, e3]
    exact hlen

/-- The broadcast loop: `k` executions of the transmission state starting at
candidate address `j`. -/
theorem transmit_times_broadcast (fl : FloatOps F) (cd : FloatCodec F) (cfg : Config F)
    (hN : cfg.NUM_OF_BOARDS ≤ 256) :
    ∀ (k j : Nat) (b : Board F),
      b.tx_operation_to_achieve ≠ tx_operation_t.O_GIVE_BATON →
      b.num_of_pending_msgs_for_tx = (cfg.NUM_OF_BOARDS : Int) - (j : Int) →
      j + k ≤ cfg.NUM_OF_BOARDS →
      b.tx_packet.length = TX_PAYLOAD_LENGTH →
      destinations_sent (transmit_times fl cd cfg k b).trace
          = destinations_sent b.trace
            ++ (((List.range' j k).filter
                  (fun d => decide (d ≠ cfg.BOARD_ID) && cfg.graph_at cfg.BOARD_ID d)).map
                (fun d : Nat => (d : Int)))
      ∧ (transmit_times fl cd cfg k b).num_of_pending_msgs_for_tx
          = (cfg.NUM_OF_BOARDS : Int) - (j : Int) - (k : Int)
      ∧ (j + k < cfg.NUM_OF_BOARDS →
          (transmit_times fl cd cfg k b).tx_operation_to_achieve = b.tx_operation_to_achieve)
      ∧ (j + k = cfg.NUM_OF_BOARDS → 0 < k →
          (transmit_times fl cd cfg k b).tx_operation_to_achieve = tx_operation_t.O_GIVE_BATON) := by
  intro k
  induction k with
  | zero =>
    intro j b _ hp _ _
    refine ⟨?_, ?_, fun _ => rfl, fun _ h => absurd h (lt_irrefl 0)⟩
    · simp [transmit_times]
    · simp only [transmit_times]
      rw [hp]
      simp
  | succ k ih =>
    intro j b hop hp hjk hlen
    have h1 := transmit_once_broadcast fl cd cfg b j hop hp (by omega) hlen
    simp only [transmit_times]
    rcases Nat.eq_zero_or_pos k with hk | hk
    · subst hk
      simp only [transmit_times]
      refine ⟨?_, ?_, ?_, ?_⟩
      · rw [h1.1]
        rfl
      · rw [h1.2.1]
        simp
      · intro hlt
        rw [h1.2.2.1, if_neg (by omega)]
      · intro heq _
        rw [h1.2.2.1, if_pos (by omega)]
    · have hop1 : (transmit_once fl cd cfg b).tx_operation_to_achieve
          = b.tx_operation_to_achieve := by
        rw [h1.2.2.1, if_neg (by omega)]
      have h2 := ih (j + 1) (transmit_once fl cd cfg b) (by rw [hop1]; exact hop)
        (by rw [h1.2.1]; push_cast; ring) (by omega) h1.2.2.2
      refine ⟨?_, ?_, ?_, ?_⟩
      · rw [h2.1, h1.1, List.append_assoc, ← List.map_append, ← List.filter_append]
        rfl
      · rw [h2.2.1]
        push_cast
        ring
      · intro hlt
        rw [h2.2.2.1 (by omega), hop1]
      · intro heq _
        exact h2.2.2.2 (by omega) hk

theorem neighbours_nodup (cfg : Config F) : (neighbours cfg).Nodup :=
  List.Nodup.filter _ (List.nodup_range _)

theorem mem_neighbours (cfg : Config F) (d : Nat) :
    d ∈ neighbours cfg
      ↔ d < cfg.NUM_OF_BOARDS ∧ d ≠ cfg.BOARD_ID ∧ cfg.graph_at cfg.BOARD_ID d = true := by
  simp [neighbours, List.mem_filter, List.mem_range]

/-- C15 as stated fails: on board 3 of the shipped configuration (only neighbour:
board 2) a Start-Task broadcast of `N = 6` executions hands the radio a single
frame, addressed to board 2; no frame is addressed to boards 0, 1, 4 or 5. -/
theorem broadcast_skips_non_neighbours :
    destinations_sent (transmit_times exact_arith int_part_codec (shipped_config 3) 6
        { power_on exact_arith (shipped_config 3) with
          tx_operation_to_achieve := tx_operation_t.O_GLB_START_TASK,
          num_of_pending_msgs_for_tx := 6 }).trace = [2]
    ∧ (destinations_sent (transmit_times exact_arith int_part_codec (shipped_config 3) 6
        { power_on exact_arith (shipped_config 3) with
          tx_operation_to_achieve := tx_operation_t.O_GLB_START_TASK,
          num_of_pending_msgs_for_tx := 6 }).trace).count 0 = 0
    ∧ (0 : Nat) ≠ (shipped_config 3).BOARD_ID
    ∧ (transmit_times exact_arith int_part_codec (shipped_config 3) 6
        { power_on exact_arith (shipped_config 3) with
          tx_operation_to_achieve := tx_operation_t.O_GLB_START_TASK,
          num_of_pending_msgs_for_tx := 6 }).tx_operation_to_achieve
        = tx_operation_t.O_GIVE_BATON := by
  decide

/-- C15, amended: a broadcast (operation other than `O_GIVE_BATON`) that starts
with `num_of_pending_msgs_for_tx = N` hands the radio, over `N` executions of
the transmission state, exactly one frame for every board `d < N` that differs
from the own id AND is adjacent to it in `graph`, in ascending order of `d`,
and no other frame; the operation is unchanged before the `N`-th execution and
is `O_GIVE_BATON` after it. -/
theorem broadcast_reaches_neighbours (fl : FloatOps F) (cd : FloatCodec F) (cfg : Config F)
    (b : Board F)
    (hop : b.tx_operation_to_achieve ≠ tx_operation_t.O_GIVE_BATON)
    (hp : b.num_of_pending_msgs_for_tx = (cfg.NUM_OF_BOARDS : Int))
    (hN1 : 1 ≤ cfg.NUM_OF_BOARDS) (hN : cfg.NUM_OF_BOARDS ≤ 256)
    (hlen : b.tx_packet.length = TX_PAYLOAD_LENGTH) :
    destinations_sent (transmit_times fl cd cfg cfg.NUM_OF_BOARDS b).trace
        = destinations_sent b.trace ++ (neighbours cfg).map (fun d : Nat => (d : Int))
    ∧ (∀ d : Nat, ((neighbours cfg).map (fun d : Nat => (d : Int))).count (d : Int)
        = if d < cfg.NUM_OF_BOARDS ∧ d ≠ cfg.BOARD_ID ∧ cfg.graph_at cfg.BOARD_ID d = true
          then 1 else 0)
    ∧ (∀ k, k < cfg.NUM_OF_BOARDS →
        (transmit_times fl cd cfg k b).tx_operation_to_achieve = b.tx_operation_to_achieve)
    ∧ (transmit_times fl cd cfg cfg.NUM_OF_BOARDS b).tx_operation_to_achieve
        = tx_operation_t.O_GIVE_BATON
    ∧ (transmit_times fl cd cfg cfg.NUM_OF_BOARDS b).num_of_pending_msgs_for_tx = 0 := by
  have hp0 : b.num_of_pending_msgs_for_tx = (cfg.NUM_OF_BOARDS : Int) - ((0 : Nat) : Int) := by
    rw [hp]
    simp
  have hall := transmit_times_broadcast fl cd cfg hN cfg.NUM_OF_BOARDS 0 b hop hp0 (by omega) hlen
  refine ⟨?_, ?_, ?_, hall.2.2.2 (by omega) (by omega), ?_⟩
  · rw [hall.1, ← List.range_eq_range']
    rfl
  · intro d
    rw [List.count_map_of_injective _ _ Nat.cast_injective]
    by_cases hd : d < cfg.NUM_OF_BOARDS ∧ d ≠ cfg.BOARD_ID ∧ cfg.graph_at cfg.BOARD_ID d = true
    · rw [if_pos hd]
      exact List.count_eq_one_of_mem (neighbours_nodup cfg) ((mem_neighbours cfg d).2 hd)
    · rw [if_neg hd]
      exact List.count_eq_zero_of_not_mem (fun hm => hd ((mem_neighbours cfg d).1 hm))
  · intro k hk
    exact (transmit_times_broadcast fl cd cfg hN k 0 b hop hp0 (by omega) hlen).2.2.1 (by omega)
  · rw [hall.2.1]
    simp

/-- C15, amended, on board 5 of the shipped configuration (neighbours 0, 1, 4):
a Restart broadcast sends three frames, to boards 0, 1 and 4 in this order. -/
theorem broadcast_reaches_neighbours_shipped :
    neighbours (shipped_config 5) = [0, 1, 4]
    ∧ destinations_sent (transmit_times exact_arith int_part_codec (shipped_config 5) 6
        { power_on exact_arith (shipped_config 5) with
          tx_operation_to_achieve := tx_operation_t.O_GLB_RESTART,
          num_of_pending_msgs_for_tx := 6 }).trace = [0, 1, 4]
    ∧ (transmit_times exact_arith int_part_codec (shipped_config 5) 6
        { power_on exact_arith (shipped_config 5) with
          tx_operation_to_achieve := tx_operation_t.O_GLB_RESTART,
          num_of_pending_msgs_for_tx := 6 }).tx_operation_to_achieve
        = tx_operation_t.O_GIVE_BATON :=
  ⟨by decide,
   (broadcast_reaches_neighbours exact_arith int_part_codec (shipped_config 5)
      { power_on exact_arith (shipped_config 5) with
        tx_operation_to_achieve := tx_operation_t.O_GLB_RESTART,
        num_of_pending_msgs_for_tx := 6 }
      (by decide) (by decide) (by decide) (by decide) (by decide)).1,
   (broadcast_reaches_neighbours exact_arith int_part_codec (shipped_config 5)
      { power_on exact_arith (shipped_config 5) with
        tx_operation_to_achieve := tx_operation_t.O_GLB_RESTART,
        num_of_pending_msgs_for_tx := 6 }
      (by decide) (by decide) (by decide) (by decide) (by decide)).2.2.2.1⟩



/-! ## Theorems: frames received while asleep -/

/-- C21: while the board is asleep (`app_is_ok_to_sleep` is true), handling a
ConsensusState frame (type 2) or a Baton frame (type 3) leaves the whole board
unchanged, whatever the sender and the payload; the same holds for the receive
path `handle_received_packet` on such a frame. In particular the state vector,
the token flag, the receive counter, the next holder, the tally and the sleep
flag are unchanged. -/
theorem asleep_ignores_state_and_baton_frames (cfg : Config F) (cd : FloatCodec F)
    (rx_buffer : List Int) (b : Board F)
    (hs : app_is_ok_to_sleep b = true)
    (ht : rx_buffer.getD MSGIDX_TYPE 0 = message_t.MSG_CONSENSUS_STATE.toInt
        ∨ rx_buffer.getD MSGIDX_TYPE 0 = message_t.MSG_BATON.toInt) :
    handle_rx_packet_payload cfg cd rx_buffer b = b
    ∧ handle_received_packet cfg cd [rx_buffer] b = b
    ∧ (handle_rx_packet_payload cfg cd rx_buffer b).consensus_states = b.consensus_states
    ∧ (handle_rx_packet_payload cfg cd rx_buffer b).baton = b.baton
    ∧ (handle_rx_packet_payload cfg cd rx_buffer b).baton_cntr = b.baton_cntr
    ∧ (handle_rx_packet_payload cfg cd rx_buffer b).dst_of_baton = b.dst_of_baton
    ∧ (handle_rx_packet_payload cfg cd rx_buffer b).boards_completed_their_task
        = b.boards_completed_their_task
    ∧ (handle_rx_packet_payload cfg cd rx_buffer b).ready_to_sleep = true := by
  have h : handle_rx_packet_payload cfg cd rx_buffer b = b := by
    unfold handle_rx_packet_payload
    rcases ht with ht | ht
    · simp only [ht]
      have e : message_t.ofInt message_t.MSG_CONSENSUS_STATE.toInt
          = some message_t.MSG_CONSENSUS_STATE := rfl
      rw [e]
      simp only [hs, if_true]
    · simp only [ht]
      have e : message_t.ofInt message_t.MSG_BATON.toInt = some message_t.MSG_BATON := rfl
      rw [e]
      simp only [hs, if_true]
  refine ⟨h, ?_, ?_, ?_, ?_, ?_, ?_, ?_⟩
  · unfold handle_received_packet
    simp only [List.foldl_cons, List.foldl_nil]
    split_ifs
    · rfl
    · exact h
    · rfl
  all_goals rw [h]
  exact hs

/-- C21 on board 5 of the shipped configuration, asleep: a Baton frame from its
valid predecessor 4 and a ConsensusState frame from board 0 change nothing. -/
theorem asleep_ignores_state_and_baton_frames_shipped :
    handle_rx_packet_payload (shipped_config 5) int_part_codec (frame_of 3 4 5 2)
        { power_on exact_arith (shipped_config 5) with ready_to_sleep := true }
      = { power_on exact_arith (shipped_config 5) with ready_to_sleep := true }
    ∧ handle_rx_packet_payload (shipped_config 5) int_part_codec (frame_of 2 0 5 7)
        { power_on exact_arith (shipped_config 5) with ready_to_sleep := true }
      = { power_on exact_arith (shipped_config 5) with ready_to_sleep := true } :=
  ⟨(asleep_ignores_state_and_baton_frames (shipped_config 5) int_part_codec (frame_of 3 4 5 2)
      { power_on exact_arith (shipped_config 5) with ready_to_sleep := true } rfl
      (Or.inr rfl)).1,
   (asleep_ignores_state_and_baton_frames (shipped_config 5) int_part_codec (frame_of 2 0 5 7)
      { power_on exact_arith (shipped_config 5) with ready_to_sleep := true } rfl
      (Or.inl rfl)).1⟩

/-! ## Theorems: the shipped topology and tour -/

/-- C22: the shipped 6 x 6 topology has every self-loop set, is symmetric, and
is connected: every board is reachable from every board along edges of
`graph`. -/
theorem shipped_topology_wellformed :
    (∀ i : Fin 6, (shipped_config 0).graph_at i i = true)
    ∧ (∀ i j : Fin 6, (shipped_config 0).graph_at i j = (shipped_config 0).graph_at j i)
    ∧ (∀ i j : Fin 6, reachable (shipped_config 0) i j) := by
  refine ⟨by decide, by decide, ?_⟩
  have to0 : ∀ i : Fin 6, reachable (shipped_config 0) i 0 := by
    intro i
    fin_cases i
    · exact Relation.ReflTransGen.refl
    · exact Relation.ReflTransGen.single (by decide)
    · exact (Relation.ReflTransGen.single (by decide : adjacent (shipped_config 0) 2 1)).tail
        (by decide : adjacent (shipped_config 0) 1 0)
    · exact ((Relation.ReflTransGen.single (by decide : adjacent (shipped_config 0) 3 2)).tail
        (by decide : adjacent (shipped_config 0) 2 1)).tail
        (by decide : adjacent (shipped_config 0) 1 0)
    · exact (Relation.ReflTransGen.single (by decide : adjacent (shipped_config 0) 4 5)).tail
        (by decide : adjacent (shipped_config 0) 5 0)
    · exact Relation.ReflTransGen.single (by decide)
  have from0 : ∀ j : Fin 6, reachable (shipped_config 0) 0 j := by
    intro j
    fin_cases j
    · exact Relation.ReflTransGen.refl
    · exact Relation.ReflTransGen.single (by decide)
    · exact (Relation.ReflTransGen.single (by decide : adjacent (shipped_config 0) 0 1)).tail
        (by decide : adjacent (shipped_config 0) 1 2)
    · exact ((Relation.ReflTransGen.single (by decide : adjacent (shipped_config 0) 0 1)).tail
        (by decide : adjacent (shipped_config 0) 1 2)).tail
        (by decide : adjacent (shipped_config 0) 2 3)
    · exact (Relation.ReflTransGen.single (by decide : adjacent (shipped_config 0) 0 5)).tail
        (by decide : adjacent (shipped_config 0) 5 4)
    · exact Relation.ReflTransGen.single (by decide)
  intro i j
  exact Relation.ReflTransGen.trans (to0 i) (from0 j)

/-- C23: the shipped tour `[3,2,1,0,5,4,5,1,2]` is valid for the shipped
topology: (R1) every board id `0..5` appears in it; (R2) every pair of
consecutive entries, the pair (last, first) included, is adjacent in `graph`;
(R3) no board has two cyclic occurrences with the same predecessor and
different successors. Its entries are board ids. -/
theorem shipped_tour_valid :
    shipped_baton_path = [3, 2, 1, 0, 5, 4, 5, 1, 2]
    ∧ (∀ d : Fin 6, ((d : Nat) : Int) ∈ shipped_baton_path)
    ∧ (∀ k : Fin 9,
        (shipped_config 0).graph_at_int (shipped_baton_path.getD k 0)
          (shipped_baton_path.getD (cyc_succ 9 k) 0) = true)
    ∧ rule_R3 shipped_baton_path
    ∧ (∀ k : Fin 9, 0 ≤ shipped_baton_path.getD k 0 ∧ shipped_baton_path.getD k 0 < 6) := by
  refine ⟨rfl, by decide, by decide, by decide, by decide⟩


/-! ## Theorems: one execution of the transmission state -/

theorem eq_of_control_eq (b1 b2 : Board F) (h : b1.control = b2.control) :
    b1 = { b2 with dst_of_baton := b1.dst_of_baton, tx_packet := b1.tx_packet,
                   trace := b1.trace } := by
  cases b1
  cases b2
  simp only [Board.control, Board.mk.injEq] at h
  simp only [Board.mk.injEq]
  tauto

/-- The board that `packet_transmission` returns: only `tx_packet` and the
record of radio calls change. -/
theorem packet_transmission_snd (cfg : Config F) (cd : FloatCodec F) (oper : tx_operation_t)
    (b : Board F) :
    (packet_transmission cfg cd oper b).2
      = { b with
          tx_packet := frame_built cfg cd oper b,
          trace := if (packet_transmission cfg cd oper b).1 = true then
              b.trace ++ [Action.send_packet (frame_built cfg cd oper b)
                ((frame_built cfg cd oper b).getD MSGIDX_DST_BOARD 0)]
            else b.trace } := by
  have h := eq_of_control_eq _ _ (packet_transmission_control cfg cd oper b)
  rw [packet_transmission_dst_of_baton, packet_transmission_trace] at h
  exact h

theorem after_transmission_broadcast_sent (cfg : Config F) (b : Board F)
    (hop : b.tx_operation_to_achieve ≠ tx_operation_t.O_GIVE_BATON) :
    after_transmission cfg true b
      = { b with
          num_of_pending_msgs_for_tx := b.num_of_pending_msgs_for_tx - 1,
          stk := b.stk.push state_t.S_PACKET_TX.toInt,
          tx_operation_to_achieve :=
            if b.num_of_pending_msgs_for_tx - 1 = 0 then tx_operation_t.O_GIVE_BATON
            else b.tx_operation_to_achieve,
          state := state_t.S_IDLE.toInt } := by
  unfold after_transmission
  cases h : b.tx_operation_to_achieve
  case O_GIVE_BATON => exact absurd h hop
  all_goals simp only [Board.push, if_true]
  all_goals split_ifs <;> rfl

theorem after_transmission_broadcast_not_sent (cfg : Config F) (b : Board F)
    (hop : b.tx_operation_to_achieve ≠ tx_operation_t.O_GIVE_BATON) :
    after_transmission cfg false b
      = { b with
          num_of_pending_msgs_for_tx := b.num_of_pending_msgs_for_tx - 1,
          stk := (b.stk.push state_t.S_PACKET_TX.toInt).pop.2,
          tx_operation_to_achieve :=
            if b.num_of_pending_msgs_for_tx - 1 = 0 then tx_operation_t.O_GIVE_BATON
            else b.tx_operation_to_achieve,
          state := (b.stk.push state_t.S_PACKET_TX.toInt).pop.1 } := by
  unfold after_transmission
  cases h : b.tx_operation_to_achieve
  case O_GIVE_BATON => exact absurd h hop
  all_goals simp only [Board.push, Board.pop_state, Bool.false_eq_true, if_false]
  all_goals split_ifs <;> rfl

theorem after_transmission_give_baton (cfg : Config F) (b : Board F)
    (hop : b.tx_operation_to_achieve = tx_operation_t.O_GIVE_BATON) :
    after_transmission cfg true b
      = { b with
          baton := false,
          boards_completed_their_task := 0,
          state := state_t.S_IDLE.toInt,
          tmr0_running := if b.starting_board = (cfg.BOARD_ID : Int) then true
            else b.tmr0_running,
          trace := if b.starting_board = (cfg.BOARD_ID : Int) then
              b.trace ++ [Action.set_timer (cfg.RESTART_TIMEOUT_MILISECS * 1000)]
            else b.trace } := by
  unfold after_transmission
  rw [hop]
  simp only [set_timer, if_true]
  split_ifs <;> rfl

/-- Facts about `push` on a stack with a free slot, and about the `pop` that
follows it. -/
theorem Stack.push_free_slot (s : Stack) (v : Int) (hlen : s.stack.length = 20)
    (hlo : -1 ≤ s.top) (hhi : s.top + 1 < 20) :
    (s.push v).stack.length = 20
    ∧ (s.push v).top = s.top + 1
    ∧ (s.push v).entries = s.entries ++ [v]
    ∧ (s.push v).pop.1 = v
    ∧ (s.push v).pop.2.entries = s.entries
    ∧ (s.push v).pop.2.top = s.top
    ∧ (s.push v).pop.2.stack.length = 20 := by
  have hfull : s.isfull = false := by
    unfold Stack.isfull; simp only [STACK_MAXSIZE]
    have : ¬ (s.top = 20) := by omega
    simp [this]
  have hpush : s.push v = Stack.store { s with top := s.top + 1 } (s.top + 1) v := by
    unfold Stack.push; simp [hfull]
  have hin : 0 ≤ s.top + 1 ∧ s.top + 1 < STACK_MAXSIZE := by
    simp only [STACK_MAXSIZE]; omega
  have htop : (s.push v).top = s.top + 1 := by
    rw [hpush]; unfold Stack.store; simp [hin]
  have hslen : (s.push v).stack.length = 20 := by
    rw [hpush]; unfold Stack.store; simp [hin, hlen]
  have hne : (s.push v).isempty = false := by
    unfold Stack.isempty
    have : ¬ ((s.push v).top = -1) := by rw [htop]; omega
    simp [this]
  have hload_top : (s.push v).load (s.top + 1) = v := by
    rw [hpush]; exact Stack.load_store_same _ _ _ hlen
  have hload_lt : ∀ j : Int, 0 ≤ j → j < s.top + 1 → (s.push v).load j = s.load j := by
    intro j hj hlt
    rw [hpush, Stack.load_store_inside _ _ _ _ hj hlt]
    rfl
  have hpop : (s.push v).pop = (v, { s.push v with top := s.top }) := by
    unfold Stack.pop
    simp only [hne, Bool.not_false, if_true, htop, hload_top]
    congr 2
    omega
  have hent : ∀ t : Stack, (∀ j : Int, 0 ≤ j → j < s.top + 1 → t.load j = s.load j) →
      t.top = s.top → t.entries = s.entries := by
    intro t ht htt
    unfold Stack.entries
    rw [htt]
    apply List.map_congr_left
    intro i hi
    rw [List.mem_range] at hi
    apply ht
    · omega
    · omega
  refine ⟨hslen, htop, ?_, ?_, ?_, ?_, ?_⟩
  · unfold Stack.entries
    rw [htop]
    have e : (s.top + 1 + 1).toNat = (s.top + 1).toNat + 1 := by omega
    rw [e, List.range_succ, List.map_append]
    congr 1
    · apply List.map_congr_left
      intro i hi
      rw [List.mem_range] at hi
      apply hload_lt <;> omega
    · have e2 : (((s.top + 1).toNat : Nat) : Int) = s.top + 1 := by omega
      simp only [List.map_cons, List.map_nil, e2, hload_top]
  · rw [hpop]
  · rw [hpop]
    apply hent
    · intro j hj hlt
      rw [← hload_lt j hj hlt]
      rfl
    · rfl
  · rw [hpop]
  · rw [hpop]
    exact hslen

/-- The function `pop` on a stack whose entries are `es ++ [c]`. -/
theorem Stack.pop_of_entries (s : Stack) (es : List Int) (c : Int)
    (htop : s.top = (es.length : Int)) (hent : s.entries = es ++ [c]) :
    s.pop.1 = c ∧ s.pop.2.entries = es ∧ s.pop.2.top = (es.length : Int) - 1
    ∧ s.pop.2.stack = s.stack := by
  have hne : s.isempty = false := by
    unfold Stack.isempty
    have : ¬ (s.top = -1) := by omega
    simp [this]
  have hpop : s.pop = (s.load s.top, { s with top := s.top - 1 }) := by
    unfold Stack.pop
    simp only [hne, Bool.not_false, if_true]
  have e : (s.top + 1).toNat = es.length + 1 := by omega
  unfold Stack.entries at hent
  rw [e, List.range_succ, List.map_append] at hent
  have hl : ((List.range es.length).map (fun i : Nat => s.load (i : Int))).length = es.length := by
    simp
  have h2 := List.append_inj hent hl
  refine ⟨?_, ?_, ?_, ?_⟩
  · rw [hpop]
    have h3 := h2.2
    simp only [List.map_cons, List.map_nil, List.cons.injEq, and_true] at h3
    rw [htop]
    exact h3
  · rw [hpop]
    unfold Stack.entries
    have e3 : (s.top - 1 + 1).toNat = es.length := by omega
    simp only [e3]
    exact h2.1
  · rw [hpop]
    simp only [htop]
  · rw [hpop]


/-- C26: one execution of the state `S_PACKET_TX` with a broadcast operation
(restart, task start or consensus state) and pending count `p`, `1 ≤ p ≤ N`, on
a stack with a free slot. The frame built is addressed to `N - p`. If `N - p`
differs from the own id and is adjacent to it in `graph`, exactly this frame is
handed to the radio, the state becomes `S_IDLE` and `S_PACKET_TX` is on top of
the stack; otherwise nothing is sent, the pushed `S_PACKET_TX` is popped again
(the state is `S_PACKET_TX`, the stack holds its previous entries). In both
cases the pending count becomes `p - 1` and the operation becomes
`O_GIVE_BATON` exactly when `p - 1 = 0`. -/
theorem transmit_step_broadcast (fl : FloatOps F) (cd : FloatCodec F) (cfg : Config F)
    (rx_queue : List (List Int)) (b : Board F) (p : Int)
    (hst : state_t.ofInt b.state = some state_t.S_PACKET_TX)
    (hop : b.tx_operation_to_achieve ≠ tx_operation_t.O_GIVE_BATON)
    (hp : b.num_of_pending_msgs_for_tx = p) (hp1 : 1 ≤ p) (hpN : p ≤ (cfg.NUM_OF_BOARDS : Int))
    (hN : cfg.NUM_OF_BOARDS ≤ 256)
    (hlen : b.tx_packet.length = TX_PAYLOAD_LENGTH)
    (hslen : b.stk.stack.length = 20) (hlo : -1 ≤ b.stk.top) (hhi : b.stk.top + 1 < 20) :
    (frame_built cfg cd b.tx_operation_to_achieve b).getD MSGIDX_DST_BOARD 0
        = (cfg.NUM_OF_BOARDS : Int) - p
    ∧ (((cfg.NUM_OF_BOARDS : Int) - p ≠ (cfg.BOARD_ID : Int)
          ∧ cfg.graph_at_int cfg.BOARD_ID ((cfg.NUM_OF_BOARDS : Int) - p) = true) →
        (execute_app_state fl cd cfg rx_queue b).trace
            = b.trace ++ [Action.send_packet (frame_built cfg cd b.tx_operation_to_achieve b)
                ((cfg.NUM_OF_BOARDS : Int) - p)]
        ∧ (execute_app_state fl cd cfg rx_queue b).state = state_t.S_IDLE.toInt
        ∧ (execute_app_state fl cd cfg rx_queue b).stk.entries
            = b.stk.entries ++ [state_t.S_PACKET_TX.toInt])
    ∧ (¬ ((cfg.NUM_OF_BOARDS : Int) - p ≠ (cfg.BOARD_ID : Int)
          ∧ cfg.graph_at_int cfg.BOARD_ID ((cfg.NUM_OF_BOARDS : Int) - p) = true) →
        (execute_app_state fl cd cfg rx_queue b).trace = b.trace
        ∧ (execute_app_state fl cd cfg rx_queue b).state = state_t.S_PACKET_TX.toInt
        ∧ (execute_app_state fl cd cfg rx_queue b).stk.entries = b.stk.entries
        ∧ (execute_app_state fl cd cfg rx_queue b).stk.top = b.stk.top)
    ∧ (execute_app_state fl cd cfg rx_queue b).num_of_pending_msgs_for_tx = p - 1
    ∧ (execute_app_state fl cd cfg rx_queue b).tx_operation_to_achieve
        = (if p - 1 = 0 then tx_operation_t.O_GIVE_BATON else b.tx_operation_to_achieve) := by
  have hsa : send_addr cfg b = (cfg.NUM_OF_BOARDS : Int) - p := by
    unfold send_addr
    rw [hp]
  have hdst : (frame_built cfg cd b.tx_operation_to_achieve b).getD MSGIDX_DST_BOARD 0
      = (cfg.NUM_OF_BOARDS : Int) - p := by
    rw [frame_built_destination cfg cd _ b hlen, if_neg hop, hsa]
    exact to_uint8_of_byte _ (by omega) (by omega)
  have hflag := packet_transmission_flag_iff cfg cd b.tx_operation_to_achieve b
  rw [hsa] at hflag
  have hstack := Stack.push_free_slot b.stk state_t.S_PACKET_TX.toInt hslen hlo hhi
  have hop2 : (packet_transmission cfg cd b.tx_operation_to_achieve b).2.tx_operation_to_achieve
      ≠ tx_operation_t.O_GIVE_BATON := by
    rw [packet_transmission_operation]
    exact hop
  rw [execute_app_state_packet_tx fl cd cfg rx_queue b hst]
  by_cases hn : (cfg.NUM_OF_BOARDS : Int) - p ≠ (cfg.BOARD_ID : Int)
      ∧ cfg.graph_at_int cfg.BOARD_ID ((cfg.NUM_OF_BOARDS : Int) - p) = true
  · have hf : (packet_transmission cfg cd b.tx_operation_to_achieve b).1 = true :=
      hflag.2 (Or.inr hn)
    rw [hf, after_transmission_broadcast_sent cfg _ hop2, packet_transmission_snd, hf, if_pos rfl,
      hdst]
    refine ⟨rfl, fun _ => ⟨rfl, rfl, hstack.2.2.1⟩, fun hc => absurd hn hc, ?_, ?_⟩
    · show b.num_of_pending_msgs_for_tx - 1 = p - 1
      rw [hp]
    · show (if b.num_of_pending_msgs_for_tx - 1 = 0 then tx_operation_t.O_GIVE_BATON
          else b.tx_operation_to_achieve) = _
      rw [hp]
  · have hf : (packet_transmission cfg cd b.tx_operation_to_achieve b).1 = false := by
      cases hc : (packet_transmission cfg cd b.tx_operation_to_achieve b).1
      · rfl
      · rcases hflag.1 hc with h | h
        · exact absurd h hop
        · exact absurd h hn
    rw [hf, after_transmission_broadcast_not_sent cfg _ hop2, packet_transmission_snd, hf,
      if_neg (by decide)]
    refine ⟨hdst, fun hc => absurd hc hn,
      fun _ => ⟨rfl, hstack.2.2.2.1, hstack.2.2.2.2.1, hstack.2.2.2.2.2.1⟩, ?_, ?_⟩
    · show b.num_of_pending_msgs_for_tx - 1 = p - 1
      rw [hp]
    · show (if b.num_of_pending_msgs_for_tx - 1 = 0 then tx_operation_t.O_GIVE_BATON
          else b.tx_operation_to_achieve) = _
      rw [hp]

/-- C26 on board 5 of the shipped configuration in a Restart broadcast: with
pending count 6 the frame goes to board 0 (a neighbour) and the board waits in
`S_IDLE`; with pending count 3 the destination 3 is not a neighbour, nothing is
sent and the state stays `S_PACKET_TX`; with pending count 1 the destination is
the board itself, nothing is sent and the operation becomes `O_GIVE_BATON`. -/
theorem transmit_step_broadcast_shipped :
    ((execute_app_state exact_arith int_part_codec (shipped_config 5) []
        { power_on exact_arith (shipped_config 5) with
          state := state_t.S_PACKET_TX.toInt, num_of_pending_msgs_for_tx := 6 }).trace
        = [Action.send_packet (frame_of 0 5 0 0) 0]
      ∧ (execute_app_state exact_arith int_part_codec (shipped_config 5) []
        { power_on exact_arith (shipped_config 5) with
          state := state_t.S_PACKET_TX.toInt, num_of_pending_msgs_for_tx := 6 }).state
        = state_t.S_IDLE.toInt
      ∧ (execute_app_state exact_arith int_part_codec (shipped_config 5) []
        { power_on exact_arith (shipped_config 5) with
          state := state_t.S_PACKET_TX.toInt, num_of_pending_msgs_for_tx := 6 }).stk.entries
        = [state_t.S_PACKET_TX.toInt])
    ∧ ((execute_app_state exact_arith int_part_codec (shipped_config 5) []
        { power_on exact_arith (shipped_config 5) with
          state := state_t.S_PACKET_TX.toInt, num_of_pending_msgs_for_tx := 3 }).trace = []
      ∧ (execute_app_state exact_arith int_part_codec (shipped_config 5) []
        { power_on exact_arith (shipped_config 5) with
          state := state_t.S_PACKET_TX.toInt, num_of_pending_msgs_for_tx := 3 }).state
        = state_t.S_PACKET_TX.toInt
      ∧ (execute_app_state exact_arith int_part_codec (shipped_config 5) []
        { power_on exact_arith (shipped_config 5) with
          state := state_t.S_PACKET_TX.toInt, num_of_pending_msgs_for_tx := 3 }).stk.entries = []
      ∧ (execute_app_state exact_arith int_part_codec (shipped_config 5) []
        { power_on exact_arith (shipped_config 5) with
          state := state_t.S_PACKET_TX.toInt, num_of_pending_msgs_for_tx := 3 }).stk.top = -1)
    ∧ (execute_app_state exact_arith int_part_codec (shipped_config 5) []
        { power_on exact_arith (shipped_config 5) with
          state := state_t.S_PACKET_TX.toInt,
          num_of_pending_msgs_for_tx := 1 }).tx_operation_to_achieve
        = tx_operation_t.O_GIVE_BATON :=
  ⟨(transmit_step_broadcast exact_arith int_part_codec (shipped_config 5) []
      { power_on exact_arith (shipped_config 5) with
        state := state_t.S_PACKET_TX.toInt, num_of_pending_msgs_for_tx := 6 } 6
      rfl (by decide) rfl (by decide) (by decide) (by decide) rfl rfl (by decide)
      (by decide)).2.1 (by decide),
   (transmit_step_broadcast exact_arith int_part_codec (shipped_config 5) []
      { power_on exact_arith (shipped_config 5) with
        state := state_t.S_PACKET_TX.toInt, num_of_pending_msgs_for_tx := 3 } 3
      rfl (by decide) rfl (by decide) (by decide) (by decide) rfl rfl (by decide)
      (by decide)).2.2.1 (by decide),
   (transmit_step_broadcast exact_arith int_part_codec (shipped_config 5) []
      { power_on exact_arith (shipped_config 5) with
        state := state_t.S_PACKET_TX.toInt, num_of_pending_msgs_for_tx := 1 } 1
      rfl (by decide) rfl (by decide) (by decide) (by decide) rfl rfl (by decide)
      (by decide)).2.2.2.2⟩

/-- C27: one execution of the state `S_PACKET_TX` with the operation
`O_GIVE_BATON`. Exactly one frame is handed to the radio: a Baton frame with
source the own id, destination `dst_of_baton` and byte 3 the tally (each as a
byte). The token flag becomes false, the tally 0, the state `S_IDLE`; the stack
is unchanged. The watchdog is armed exactly when `starting_board` is the own
id, for `(LENGTH_OF_BATON_PATH - 1) * 1000` milliseconds (the timer takes
microseconds). Nothing else changes but `tx_packet`. -/
theorem transmit_step_give_baton (fl : FloatOps F) (cd : FloatCodec F) (cfg : Config F)
    (rx_queue : List (List Int)) (b : Board F)
    (hst : state_t.ofInt b.state = some state_t.S_PACKET_TX)
    (hop : b.tx_operation_to_achieve = tx_operation_t.O_GIVE_BATON)
    (hlen : b.tx_packet.length = TX_PAYLOAD_LENGTH) :
    execute_app_state fl cd cfg rx_queue b
      = { b with
          tx_packet := frame_built cfg cd tx_operation_t.O_GIVE_BATON b,
          baton := false,
          boards_completed_their_task := 0,
          state := state_t.S_IDLE.toInt,
          tmr0_running := if b.starting_board = (cfg.BOARD_ID : Int) then true
            else b.tmr0_running,
          trace := if b.starting_board = (cfg.BOARD_ID : Int) then
              (b.trace ++ [Action.send_packet (frame_built cfg cd tx_operation_t.O_GIVE_BATON b)
                ((frame_built cfg cd tx_operation_t.O_GIVE_BATON b).getD MSGIDX_DST_BOARD 0)])
                ++ [Action.set_timer (cfg.RESTART_TIMEOUT_MILISECS * 1000)]
            else
              b.trace ++ [Action.send_packet (frame_built cfg cd tx_operation_t.O_GIVE_BATON b)
                ((frame_built cfg cd tx_operation_t.O_GIVE_BATON b).getD MSGIDX_DST_BOARD 0)] }
    ∧ (frame_built cfg cd tx_operation_t.O_GIVE_BATON b).getD MSGIDX_TYPE 0
        = message_t.MSG_BATON.toInt
    ∧ (frame_built cfg cd tx_operation_t.O_GIVE_BATON b).getD MSGIDX_SRC_BOARD 0
        = to_uint8 cfg.BOARD_ID
    ∧ (frame_built cfg cd tx_operation_t.O_GIVE_BATON b).getD MSGIDX_DST_BOARD 0
        = to_uint8 b.dst_of_baton
    ∧ (frame_built cfg cd tx_operation_t.O_GIVE_BATON b).getD MSGIDX_BOARDS_OVER 0
        = to_uint8 b.boards_completed_their_task
    ∧ (execute_app_state fl cd cfg rx_queue b).stk = b.stk
    ∧ cfg.RESTART_TIMEOUT_MILISECS = ((cfg.baton_path.length : Int) - 1) * 1000 := by
  have hf : (packet_transmission cfg cd tx_operation_t.O_GIVE_BATON b).1 = true :=
    (packet_transmission_flag_iff cfg cd tx_operation_t.O_GIVE_BATON b).2 (Or.inl rfl)
  have e : execute_app_state fl cd cfg rx_queue b
      = { b with
          tx_packet := frame_built cfg cd tx_operation_t.O_GIVE_BATON b,
          baton := false,
          boards_completed_their_task := 0,
          state := state_t.S_IDLE.toInt,
          tmr0_running := if b.starting_board = (cfg.BOARD_ID : Int) then true
            else b.tmr0_running,
          trace := if b.starting_board = (cfg.BOARD_ID : Int) then
              (b.trace ++ [Action.send_packet (frame_built cfg cd tx_operation_t.O_GIVE_BATON b)
                ((frame_built cfg cd tx_operation_t.O_GIVE_BATON b).getD MSGIDX_DST_BOARD 0)])
                ++ [Action.set_timer (cfg.RESTART_TIMEOUT_MILISECS * 1000)]
            else
              b.trace ++ [Action.send_packet (frame_built cfg cd tx_operation_t.O_GIVE_BATON b)
                ((frame_built cfg cd tx_operation_t.O_GIVE_BATON b).getD MSGIDX_DST_BOARD 0)] } := by
    have hop2 : (packet_transmission cfg cd tx_operation_t.O_GIVE_BATON b).2.tx_operation_to_achieve
        = tx_operation_t.O_GIVE_BATON := by
      rw [packet_transmission_operation]
      exact hop
    rw [execute_app_state_packet_tx fl cd cfg rx_queue b hst, hop, hf,
      after_transmission_give_baton cfg _ hop2, packet_transmission_snd, hf, if_pos rfl]
    by_cases hsb : b.starting_board = (cfg.BOARD_ID : Int)
    · simp only [hsb, if_true, hop]
    · simp only [hsb, if_false, hop]
  refine ⟨e, ?_, frame_built_source cfg cd _ b hlen, ?_, (frame_built_byte3 cfg cd b hlen).2.2,
    ?_, rfl⟩
  · rw [frame_built_type cfg cd _ b hlen]
    rfl
  · rw [frame_built_destination cfg cd _ b hlen, if_pos rfl]
  · rw [e]

/-- C27 on board 5 of the shipped configuration: as the initiator
(`starting_board = 5`) it hands the Baton frame for board 4 with tally 2 to the
radio and arms the watchdog for 8000 ms; as a follower (`starting_board = 0`) it
does not arm it. -/
theorem transmit_step_give_baton_shipped :
    (execute_app_state exact_arith int_part_codec (shipped_config 5) []
        { power_on exact_arith (shipped_config 5) with
          state := state_t.S_PACKET_TX.toInt,
          tx_operation_to_achieve := tx_operation_t.O_GIVE_BATON, baton := true,
          dst_of_baton := 4, starting_board := 5, boards_completed_their_task := 2 }).trace
      = [Action.send_packet (frame_of 3 5 4 2) 4, Action.set_timer 8000000]
    ∧ (execute_app_state exact_arith int_part_codec (shipped_config 5) []
        { power_on exact_arith (shipped_config 5) with
          state := state_t.S_PACKET_TX.toInt,
          tx_operation_to_achieve := tx_operation_t.O_GIVE_BATON, baton := true,
          dst_of_baton := 4, starting_board := 0, boards_completed_their_task := 2 }).trace
      = [Action.send_packet (frame_of 3 5 4 2) 4]
    ∧ (shipped_config 5).RESTART_TIMEOUT_MILISECS = 8000 := by
  have h1 := (transmit_step_give_baton exact_arith int_part_codec (shipped_config 5) []
      { power_on exact_arith (shipped_config 5) with
        state := state_t.S_PACKET_TX.toInt,
        tx_operation_to_achieve := tx_operation_t.O_GIVE_BATON, baton := true,
        dst_of_baton := 4, starting_board := 5, boards_completed_their_task := 2 }
      rfl rfl rfl).1
  have h2 := (transmit_step_give_baton exact_arith int_part_codec (shipped_config 5) []
      { power_on exact_arith (shipped_config 5) with
        state := state_t.S_PACKET_TX.toInt,
        tx_operation_to_achieve := tx_operation_t.O_GIVE_BATON, baton := true,
        dst_of_baton := 4, starting_board := 0, boards_completed_their_task := 2 }
      rfl rfl rfl).1
  refine ⟨?_, ?_, by decide⟩
  · rw [h1]
    decide
  · rw [h2]
    decide


/-! ## Theorems: the consensus update step -/

/-- The convergence bookkeeping writes only the converged flag and the tally. -/
theorem update_completion_tally_eq (fl : FloatOps F) (cfg : Config F) (prev_state : F)
    (b : Board F) :
    update_completion_tally fl cfg prev_state b
      = { b with
          consensus_is_over :=
            if fl.le (fl.fabs (fl.sub prev_state
                (b.consensus_states.getD cfg.BOARD_ID (fl.ofInt 0)))) cfg.STOP_THRESHOLD = true
                ∧ ¬ b.consensus_is_over = true then true
            else if fl.lt cfg.STOP_THRESHOLD (fl.fabs (fl.sub prev_state
                (b.consensus_states.getD cfg.BOARD_ID (fl.ofInt 0)))) = true
                ∧ b.consensus_is_over = true
                ∧ b.boards_completed_their_task ≠ SEND_SYSTEM_TO_SLEEP then false
            else b.consensus_is_over,
          boards_completed_their_task :=
            if fl.le (fl.fabs (fl.sub prev_state
                (b.consensus_states.getD cfg.BOARD_ID (fl.ofInt 0)))) cfg.STOP_THRESHOLD = true
                ∧ ¬ b.consensus_is_over = true then to_int8 (b.boards_completed_their_task + 1)
            else if fl.lt cfg.STOP_THRESHOLD (fl.fabs (fl.sub prev_state
                (b.consensus_states.getD cfg.BOARD_ID (fl.ofInt 0)))) = true
                ∧ b.consensus_is_over = true
                ∧ b.boards_completed_their_task ≠ SEND_SYSTEM_TO_SLEEP then
              to_int8 (b.boards_completed_their_task - 1)
            else b.boards_completed_their_task } := by
  unfold update_completion_tally
  dsimp only
  split_ifs <;> rfl

/-- The value `next_state` of `update_consensus_state`, in exact arithmetic: the
sum over `i < N` of `weights[i] * consensus_states[i]`. -/
theorem update_consensus_state_exact (cfg : Config ℚ) (b : Board ℚ) :
    (update_consensus_state exact_arith cfg b).consensus_states
      = b.consensus_states.set cfg.BOARD_ID
          (∑ i in Finset.range cfg.NUM_OF_BOARDS, b.weights.getD i 0 * b.consensus_states.getD i 0) := by
  have e : (update_consensus_state exact_arith cfg b).consensus_states
      = b.consensus_states.set cfg.BOARD_ID ((List.range cfg.NUM_OF_BOARDS).foldl
          (fun acc j => acc + b.weights.getD j (exact_arith.ofInt 0)
              * b.consensus_states.getD j (exact_arith.ofInt 0))
          (exact_arith.ofInt 0)) := rfl
  rw [e, exact_arith_zero, foldl_add_range]

/-- C29: executing `S_UPDATE_AVG_CONSENSUS_STATE`. With the token, the own entry
of `consensus_states` becomes the sum over `i < N` of `weights[i] *
consensus_states[i]`, accumulated in index order from the entries before the
step, and no other entry changes; `consensus_iters` (a `uint8_t`) is
incremented, `S_SEND_AVG_CONSENSUS_MSGS` is pushed, the state is `S_PACKET_TX`
with the operation `O_GIVE_BATON`. Without the token nothing changes. -/
theorem update_state_step (fl : FloatOps F) (cd : FloatCodec F) (cfg : Config F)
    (rx_queue : List (List Int)) (b : Board F)
    (hst : state_t.ofInt b.state = some state_t.S_UPDATE_AVG_CONSENSUS_STATE) :
    (b.baton = true →
      (execute_app_state fl cd cfg rx_queue b).consensus_states
          = b.consensus_states.set cfg.BOARD_ID
              ((List.range cfg.NUM_OF_BOARDS).foldl
                (fun acc i => fl.add acc
                  (fl.mul (b.weights.getD i (fl.ofInt 0))
                    (b.consensus_states.getD i (fl.ofInt 0))))
                (fl.ofInt 0))
      ∧ (∀ (j : Nat) (d : F), j ≠ cfg.BOARD_ID →
          (execute_app_state fl cd cfg rx_queue b).consensus_states.getD j d
            = b.consensus_states.getD j d)
      ∧ (execute_app_state fl cd cfg rx_queue b).consensus_states.length
          = b.consensus_states.length
      ∧ (execute_app_state fl cd cfg rx_queue b).consensus_iters
          = to_uint8 (b.consensus_iters + 1)
      ∧ (0 ≤ b.consensus_iters → b.consensus_iters < 255 →
          (execute_app_state fl cd cfg rx_queue b).consensus_iters = b.consensus_iters + 1)
      ∧ (execute_app_state fl cd cfg rx_queue b).stk
          = b.stk.push state_t.S_SEND_AVG_CONSENSUS_MSGS.toInt
      ∧ (execute_app_state fl cd cfg rx_queue b).state = state_t.S_PACKET_TX.toInt
      ∧ (execute_app_state fl cd cfg rx_queue b).tx_operation_to_achieve
          = tx_operation_t.O_GIVE_BATON)
    ∧ (b.baton = false → execute_app_state fl cd cfg rx_queue b = b) := by
  rw [execute_app_state_update_avg_consensus_state fl cd cfg rx_queue b hst]
  constructor
  · intro hb
    rw [if_pos hb, update_completion_tally_eq]
    refine ⟨rfl, ?_, ?_, rfl, ?_, rfl, rfl, rfl⟩
    · intro j d hj
      show (b.consensus_states.set cfg.BOARD_ID _).getD j d = _
      exact getD_set_ne _ _ _ _ _ (fun h => hj h.symm)
    · show (b.consensus_states.set cfg.BOARD_ID _).length = _
      exact List.length_set _ _ _
    · intro h0 h1
      show to_uint8 (b.consensus_iters + 1) = _
      unfold to_uint8
      omega
  · intro hb
    rw [if_neg (by rw [hb]; decide)]


/-- C29 on board 5 of the shipped configuration with its weights
`[1/4, 1/4, 0, 0, 1/4, 1/4]` and the readings `[10,20,30,20,15,25]` as known
states: the own entry becomes `(10 + 20 + 15 + 25) / 4 = 35/2`, the counter goes
from 4 to 5; without the token nothing changes. -/
theorem update_state_step_shipped :
    (execute_app_state exact_arith int_part_codec (shipped_config 5) []
        { power_on exact_arith (shipped_config 5) with
          state := state_t.S_UPDATE_AVG_CONSENSUS_STATE.toInt, baton := true,
          weights := [1 / 4, 1 / 4, 0, 0, 1 / 4, 1 / 4],
          consensus_states := [10, 20, 30, 20, 15, 25],
          consensus_iters := 4 }).consensus_states = [10, 20, 30, 20, 15, 35 / 2]
    ∧ (execute_app_state exact_arith int_part_codec (shipped_config 5) []
        { power_on exact_arith (shipped_config 5) with
          state := state_t.S_UPDATE_AVG_CONSENSUS_STATE.toInt, baton := true,
          weights := [1 / 4, 1 / 4, 0, 0, 1 / 4, 1 / 4],
          consensus_states := [10, 20, 30, 20, 15, 25],
          consensus_iters := 4 }).consensus_iters = 5
    ∧ execute_app_state exact_arith int_part_codec (shipped_config 5) []
        { power_on exact_arith (shipped_config 5) with
          state := state_t.S_UPDATE_AVG_CONSENSUS_STATE.toInt,
          weights := [1 / 4, 1 / 4, 0, 0, 1 / 4, 1 / 4],
          consensus_states := [10, 20, 30, 20, 15, 25],
          consensus_iters := 4 }
      = { power_on exact_arith (shipped_config 5) with
          state := state_t.S_UPDATE_AVG_CONSENSUS_STATE.toInt,
          weights := [1 / 4, 1 / 4, 0, 0, 1 / 4, 1 / 4],
          consensus_states := [10, 20, 30, 20, 15, 25],
          consensus_iters := 4 } := by
  have h := (update_state_step exact_arith int_part_codec (shipped_config 5) []
      { power_on exact_arith (shipped_config 5) with
        state := state_t.S_UPDATE_AVG_CONSENSUS_STATE.toInt, baton := true,
        weights := [1 / 4, 1 / 4, 0, 0, 1 / 4, 1 / 4],
        consensus_states := [10, 20, 30, 20, 15, 25],
        consensus_iters := 4 } rfl).1 rfl
  refine ⟨?_, h.2.2.2.2.1 (by decide) (by decide),
    (update_state_step exact_arith int_part_codec (shipped_config 5) []
      { power_on exact_arith (shipped_config 5) with
        state := state_t.S_UPDATE_AVG_CONSENSUS_STATE.toInt,
        weights := [1 / 4, 1 / 4, 0, 0, 1 / 4, 1 / 4],
        consensus_states := [10, 20, 30, 20, 15, 25],
        consensus_iters := 4 } rfl).2 rfl⟩
  rw [h.1]
  show ([10, 20, 30, 20, 15, 25] : List ℚ).set 5
      ((List.range 6).foldl
        (fun acc i => exact_arith.add acc
          (exact_arith.mul (([1 / 4, 1 / 4, 0, 0, 1 / 4, 1 / 4] : List ℚ).getD i (exact_arith.ofInt 0))
            (([10, 20, 30, 20, 15, 25] : List ℚ).getD i (exact_arith.ofInt 0))))
        (exact_arith.ofInt 0)) = _
  have r6 : List.range 6 = [0, 1, 2, 3, 4, 5] := by decide
  rw [r6]
  simp only [List.foldl_cons, List.foldl_nil, List.getD_cons_zero, List.getD_cons_succ,
    exact_arith]
  norm_num

/-- The board after `S_UPDATE_AVG_CONSENSUS_STATE` is executed with the token. -/
theorem update_state_step_eq (fl : FloatOps F) (cd : FloatCodec F) (cfg : Config F)
    (rx_queue : List (List Int)) (b : Board F)
    (hst : state_t.ofInt b.state = some state_t.S_UPDATE_AVG_CONSENSUS_STATE)
    (hb : b.baton = true) :
    execute_app_state fl cd cfg rx_queue b
      = { update_consensus_state fl cfg b with
          stk := b.stk.push state_t.S_SEND_AVG_CONSENSUS_MSGS.toInt,
          state := state_t.S_PACKET_TX.toInt,
          tx_operation_to_achieve := tx_operation_t.O_GIVE_BATON,
          consensus_is_over :=
            if fl.le (fl.fabs (fl.sub (b.consensus_states.getD cfg.BOARD_ID (fl.ofInt 0))
                ((update_consensus_state fl cfg b).consensus_states.getD cfg.BOARD_ID
                  (fl.ofInt 0)))) cfg.STOP_THRESHOLD = true
                ∧ ¬ b.consensus_is_over = true then true
            else if fl.lt cfg.STOP_THRESHOLD
                (fl.fabs (fl.sub (b.consensus_states.getD cfg.BOARD_ID (fl.ofInt 0))
                  ((update_consensus_state fl cfg b).consensus_states.getD cfg.BOARD_ID
                    (fl.ofInt 0)))) = true
                ∧ b.consensus_is_over = true
                ∧ b.boards_completed_their_task ≠ SEND_SYSTEM_TO_SLEEP then false
            else b.consensus_is_over,
          boards_completed_their_task :=
            if fl.le (fl.fabs (fl.sub (b.consensus_states.getD cfg.BOARD_ID (fl.ofInt 0))
                ((update_consensus_state fl cfg b).consensus_states.getD cfg.BOARD_ID
                  (fl.ofInt 0)))) cfg.STOP_THRESHOLD = true
                ∧ ¬ b.consensus_is_over = true then to_int8 (b.boards_completed_their_task + 1)
            else if fl.lt cfg.STOP_THRESHOLD
                (fl.fabs (fl.sub (b.consensus_states.getD cfg.BOARD_ID (fl.ofInt 0))
                  ((update_consensus_state fl cfg b).consensus_states.getD cfg.BOARD_ID
                    (fl.ofInt 0)))) = true
                ∧ b.consensus_is_over = true
                ∧ b.boards_completed_their_task ≠ SEND_SYSTEM_TO_SLEEP then
              to_int8 (b.boards_completed_their_task - 1)
            else b.boards_completed_their_task } := by
  rw [execute_app_state_update_avg_consensus_state fl cd cfg rx_queue b hst, if_pos hb,
    update_completion_tally_eq]
  rfl

/-- C30: the convergence bookkeeping of an `S_UPDATE_AVG_CONSENSUS_STATE` step
executed with the token, for `d = |own state before - own state after|`. If
`d <= STOP_THRESHOLD` and `consensus_is_over` is false, the flag becomes true
and the tally (an `int8_t`) is incremented; otherwise, if `d > STOP_THRESHOLD`,
the flag is true and the tally is not `SEND_SYSTEM_TO_SLEEP`, the flag becomes
false and the tally is decremented; in every other case the flag and the tally
are unchanged. -/
theorem convergence_bookkeeping (fl : FloatOps F) (cd : FloatCodec F) (cfg : Config F)
    (rx_queue : List (List Int)) (b : Board F)
    (hst : state_t.ofInt b.state = some state_t.S_UPDATE_AVG_CONSENSUS_STATE)
    (hb : b.baton = true) :
    (execute_app_state fl cd cfg rx_queue b).consensus_states
        = (update_consensus_state fl cfg b).consensus_states
    ∧ ((fl.le (fl.fabs (fl.sub (b.consensus_states.getD cfg.BOARD_ID (fl.ofInt 0))
            ((execute_app_state fl cd cfg rx_queue b).consensus_states.getD cfg.BOARD_ID
              (fl.ofInt 0)))) cfg.STOP_THRESHOLD = true
          ∧ b.consensus_is_over = false) →
        (execute_app_state fl cd cfg rx_queue b).consensus_is_over = true
        ∧ (execute_app_state fl cd cfg rx_queue b).boards_completed_their_task
            = to_int8 (b.boards_completed_their_task + 1)
        ∧ (-128 ≤ b.boards_completed_their_task → b.boards_completed_their_task < 127 →
            (execute_app_state fl cd cfg rx_queue b).boards_completed_their_task
              = b.boards_completed_their_task + 1))
    ∧ (¬ (fl.le (fl.fabs (fl.sub (b.consensus_states.getD cfg.BOARD_ID (fl.ofInt 0))
            ((execute_app_state fl cd cfg rx_queue b).consensus_states.getD cfg.BOARD_ID
              (fl.ofInt 0)))) cfg.STOP_THRESHOLD = true
          ∧ b.consensus_is_over = false) →
        (fl.lt cfg.STOP_THRESHOLD
            (fl.fabs (fl.sub (b.consensus_states.getD cfg.BOARD_ID (fl.ofInt 0))
              ((execute_app_state fl cd cfg rx_queue b).consensus_states.getD cfg.BOARD_ID
                (fl.ofInt 0)))) = true
          ∧ b.consensus_is_over = true
          ∧ b.boards_completed_their_task ≠ SEND_SYSTEM_TO_SLEEP) →
        (execute_app_state fl cd cfg rx_queue b).consensus_is_over = false
        ∧ (execute_app_state fl cd cfg rx_queue b).boards_completed_their_task
            = to_int8 (b.boards_completed_their_task - 1)
        ∧ (-128 < b.boards_completed_their_task → b.boards_completed_their_task ≤ 127 →
            (execute_app_state fl cd cfg rx_queue b).boards_completed_their_task
              = b.boards_completed_their_task - 1))
    ∧ (¬ (fl.le (fl.fabs (fl.sub (b.consensus_states.getD cfg.BOARD_ID (fl.ofInt 0))
            ((execute_app_state fl cd cfg rx_queue b).consensus_states.getD cfg.BOARD_ID
              (fl.ofInt 0)))) cfg.STOP_THRESHOLD = true
          ∧ b.consensus_is_over = false) →
        ¬ (fl.lt cfg.STOP_THRESHOLD
            (fl.fabs (fl.sub (b.consensus_states.getD cfg.BOARD_ID (fl.ofInt 0))
              ((execute_app_state fl cd cfg rx_queue b).consensus_states.getD cfg.BOARD_ID
                (fl.ofInt 0)))) = true
          ∧ b.consensus_is_over = true
          ∧ b.boards_completed_their_task ≠ SEND_SYSTEM_TO_SLEEP) →
        (execute_app_state fl cd cfg rx_queue b).consensus_is_over = b.consensus_is_over
        ∧ (execute_app_state fl cd cfg rx_queue b).boards_completed_their_task
            = b.boards_completed_their_task) := by
  have e := update_state_step_eq fl cd cfg rx_queue b hst hb
  have hcs : (execute_app_state fl cd cfg rx_queue b).consensus_states
      = (update_consensus_state fl cfg b).consensus_states := by
    rw [e]
  rw [hcs]
  generalize hd : fl.fabs (fl.sub (b.consensus_states.getD cfg.BOARD_ID (fl.ofInt 0))
      ((update_consensus_state fl cfg b).consensus_states.getD cfg.BOARD_ID (fl.ofInt 0))) = d
    at e
  have hover : (execute_app_state fl cd cfg rx_queue b).consensus_is_over
      = (if fl.le d cfg.STOP_THRESHOLD = true ∧ ¬ b.consensus_is_over = true then true
         else if fl.lt cfg.STOP_THRESHOLD d = true ∧ b.consensus_is_over = true
            ∧ b.boards_completed_their_task ≠ SEND_SYSTEM_TO_SLEEP then false
         else b.consensus_is_over) := by
    rw [e]
  have htally : (execute_app_state fl cd cfg rx_queue b).boards_completed_their_task
      = (if fl.le d cfg.STOP_THRESHOLD = true ∧ ¬ b.consensus_is_over = true then
          to_int8 (b.boards_completed_their_task + 1)
         else if fl.lt cfg.STOP_THRESHOLD d = true ∧ b.consensus_is_over = true
            ∧ b.boards_completed_their_task ≠ SEND_SYSTEM_TO_SLEEP then
          to_int8 (b.boards_completed_their_task - 1)
         else b.boards_completed_their_task) := by
    rw [e]
  rw [hover, htally]
  refine ⟨rfl, ?_, ?_, ?_⟩
  · intro hA
    have hA2 : fl.le d cfg.STOP_THRESHOLD = true ∧ ¬ b.consensus_is_over = true :=
      ⟨hA.1, by rw [hA.2]; decide⟩
    rw [if_pos hA2, if_pos hA2]
    refine ⟨rfl, rfl, ?_⟩
    intro h0 h1
    unfold to_int8
    omega
  · intro hA hB
    have hA2 : ¬ (fl.le d cfg.STOP_THRESHOLD = true ∧ ¬ b.consensus_is_over = true) := by
      intro hc
      exact hA ⟨hc.1, by simpa using hc.2⟩
    rw [if_neg hA2, if_neg hA2, if_pos hB, if_pos hB]
    refine ⟨rfl, rfl, ?_⟩
    intro h0 h1
    unfold to_int8
    omega
  · intro hA hB
    have hA2 : ¬ (fl.le d cfg.STOP_THRESHOLD = true ∧ ¬ b.consensus_is_over = true) := by
      intro hc
      exact hA ⟨hc.1, by simpa using hc.2⟩
    rw [if_neg hA2, if_neg hA2, if_neg hB, if_neg hB]
    exact ⟨rfl, rfl⟩


/-- C30 on board 5 of the shipped configuration (threshold `1/10`) when all
known states are 20: the update leaves the own state at 20, so `d = 0`; with
the flag false and the tally 2, the flag becomes true and the tally 3. -/
theorem convergence_bookkeeping_shipped :
    (execute_app_state exact_arith int_part_codec (shipped_config 5) []
        { power_on exact_arith (shipped_config 5) with
          state := state_t.S_UPDATE_AVG_CONSENSUS_STATE.toInt, baton := true,
          weights := [1 / 4, 1 / 4, 0, 0, 1 / 4, 1 / 4],
          consensus_states := [20, 20, 20, 20, 20, 20],
          boards_completed_their_task := 2 }).consensus_is_over = true
    ∧ (execute_app_state exact_arith int_part_codec (shipped_config 5) []
        { power_on exact_arith (shipped_config 5) with
          state := state_t.S_UPDATE_AVG_CONSENSUS_STATE.toInt, baton := true,
          weights := [1 / 4, 1 / 4, 0, 0, 1 / 4, 1 / 4],
          consensus_states := [20, 20, 20, 20, 20, 20],
          boards_completed_their_task := 2 }).boards_completed_their_task = 3 := by
  have h := convergence_bookkeeping exact_arith int_part_codec (shipped_config 5) []
      { power_on exact_arith (shipped_config 5) with
        state := state_t.S_UPDATE_AVG_CONSENSUS_STATE.toInt, baton := true,
        weights := [1 / 4, 1 / 4, 0, 0, 1 / 4, 1 / 4],
        consensus_states := [20, 20, 20, 20, 20, 20],
        boards_completed_their_task := 2 } rfl rfl
  have hcs : (execute_app_state exact_arith int_part_codec (shipped_config 5) []
        { power_on exact_arith (shipped_config 5) with
          state := state_t.S_UPDATE_AVG_CONSENSUS_STATE.toInt, baton := true,
          weights := [1 / 4, 1 / 4, 0, 0, 1 / 4, 1 / 4],
          consensus_states := [20, 20, 20, 20, 20, 20],
          boards_completed_their_task := 2 }).consensus_states
      = [20, 20, 20, 20, 20, 20] := by
    rw [h.1]
    show ([20, 20, 20, 20, 20, 20] : List ℚ).set 5
        ((List.range 6).foldl
          (fun acc i => exact_arith.add acc
            (exact_arith.mul
              (([1 / 4, 1 / 4, 0, 0, 1 / 4, 1 / 4] : List ℚ).getD i (exact_arith.ofInt 0))
              (([20, 20, 20, 20, 20, 20] : List ℚ).getD i (exact_arith.ofInt 0))))
          (exact_arith.ofInt 0)) = _
    have r6 : List.range 6 = [0, 1, 2, 3, 4, 5] := by decide
    rw [r6]
    simp only [List.foldl_cons, List.foldl_nil, List.getD_cons_zero, List.getD_cons_succ,
      exact_arith]
    norm_num
  have h2 := h.2.1
  rw [hcs] at h2
  have h3 := h2 ⟨by
    show exact_arith.le (exact_arith.fabs (exact_arith.sub
      (([20, 20, 20, 20, 20, 20] : List ℚ).getD 5 (exact_arith.ofInt 0))
      (([20, 20, 20, 20, 20, 20] : List ℚ).getD 5 (exact_arith.ofInt 0)))) (1 / 10) = true
    simp only [List.getD_cons_zero, List.getD_cons_succ, exact_arith]
    norm_num, rfl⟩
  exact ⟨h3.1, h3.2.2 (by decide) (by decide)⟩

/-! ## Theorems: convergence on the shipped network -/

theorem range_six : List.range 6 = [0, 1, 2, 3, 4, 5] := by decide

/-- The weight rows of the six boards of the shipped topology. -/
theorem shipped_weight_matrix :
    (List.range 6).map (fun i => (List.range 6).map (fun j => weight_matrix (shipped_config 0) i j))
      = [[1/2, 1/4, 0, 0, 0, 1/4],
         [1/4, 1/4, 1/4, 0, 0, 1/4],
         [0, 1/4, 1/2, 1/4, 0, 0],
         [0, 0, 1/4, 3/4, 0, 0],
         [0, 0, 0, 0, 3/4, 1/4],
         [1/4, 1/4, 0, 0, 1/4, 1/4]] := by
  have hg : graph_degree (shipped_config 0) = 3 := by decide
  have d0 : degree (shipped_config 0) 0 = 2 := by decide
  have d1 : degree (shipped_config 0) 1 = 3 := by decide
  have d2 : degree (shipped_config 0) 2 = 2 := by decide
  have d3 : degree (shipped_config 0) 3 = 1 := by decide
  have d4 : degree (shipped_config 0) 4 = 1 := by decide
  have d5 : degree (shipped_config 0) 5 = 3 := by decide
  have hw : ∀ i j : Nat, j < 6 → weight_matrix (shipped_config 0) i j
      = if (shipped_config 0).graph_at i j = false then 0
        else if j = i then
          1 - ((degree (shipped_config 0) i : Int) : ℚ) / (((3 : Int) : ℚ) + 1)
        else 1 / (((3 : Int) : ℚ) + 1) := by
    intro i j hj
    rw [weight_matrix_entry (shipped_config 0) i j hj, hg]
  rw [range_six]
  simp only [List.map_cons, List.map_nil]
  rw [hw 0 0 (by decide), hw 0 1 (by decide), hw 0 2 (by decide), hw 0 3 (by decide),
    hw 0 4 (by decide), hw 0 5 (by decide), hw 1 0 (by decide), hw 1 1 (by decide),
    hw 1 2 (by decide), hw 1 3 (by decide), hw 1 4 (by decide), hw 1 5 (by decide),
    hw 2 0 (by decide), hw 2 1 (by decide), hw 2 2 (by decide), hw 2 3 (by decide),
    hw 2 4 (by decide), hw 2 5 (by decide), hw 3 0 (by decide), hw 3 1 (by decide),
    hw 3 2 (by decide), hw 3 3 (by decide), hw 3 4 (by decide), hw 3 5 (by decide),
    hw 4 0 (by decide), hw 4 1 (by decide), hw 4 2 (by decide), hw 4 3 (by decide),
    hw 4 4 (by decide), hw 4 5 (by decide), hw 5 0 (by decide), hw 5 1 (by decide),
    hw 5 2 (by decide), hw 5 3 (by decide), hw 5 4 (by decide), hw 5 5 (by decide),
    d0, d1, d2, d3, d4, d5]
  simp only [Config.graph_at, shipped_config, shipped_graph, List.getD_cons_zero,
    List.getD_cons_succ]
  norm_num

theorem synchronous_round_eq_sums (cfg : Config ℚ) (x : List ℚ)
    (hx : x.length = cfg.NUM_OF_BOARDS) :
    synchronous_round cfg x
      = (List.range cfg.NUM_OF_BOARDS).map (fun i =>
          ∑ j in Finset.range cfg.NUM_OF_BOARDS, weight_matrix cfg i j * x.getD j 0) := by
  unfold synchronous_round
  apply List.map_congr_left
  intro i hi
  rw [List.mem_range] at hi
  exact synchronous_round_entry cfg x hx i hi

/-- One synchronous round on the shipped topology, entry by entry. -/
theorem shipped_round (x0 x1 x2 x3 x4 x5 : ℚ) :
    synchronous_round (shipped_config 0) [x0, x1, x2, x3, x4, x5]
      = [x0 / 2 + x1 / 4 + x5 / 4,
         x0 / 4 + x1 / 4 + x2 / 4 + x5 / 4,
         x1 / 4 + x2 / 2 + x3 / 4,
         x2 / 4 + 3 * x3 / 4,
         3 * x4 / 4 + x5 / 4,
         x0 / 4 + x1 / 4 + x4 / 4 + x5 / 4] := by
  have hW := shipped_weight_matrix
  rw [range_six] at hW
  simp only [List.map_cons, List.map_nil, List.cons.injEq, and_true] at hW
  obtain ⟨⟨h00, h01, h02, h03, h04, h05⟩, ⟨h10, h11, h12, h13, h14, h15⟩,
    ⟨h20, h21, h22, h23, h24, h25⟩, ⟨h30, h31, h32, h33, h34, h35⟩,
    ⟨h40, h41, h42, h43, h44, h45⟩, ⟨h50, h51, h52, h53, h54, h55⟩⟩ := hW
  have hN : (shipped_config 0).NUM_OF_BOARDS = 6 := rfl
  rw [synchronous_round_eq_sums (shipped_config 0) [x0, x1, x2, x3, x4, x5] rfl, hN, range_six]
  simp only [List.map_cons, List.map_nil, Finset.sum_range_succ, Finset.sum_range_zero, List.getD_cons_zero,
    List.getD_cons_succ, h00, h01, h02, h03, h04, h05, h10, h11, h12, h13, h14, h15,
    h20, h21, h22, h23, h24, h25, h30, h31, h32, h33, h34, h35, h40, h41, h42, h43, h44, h45,
    h50, h51, h52, h53, h54, h55]
  refine congrArg₂ List.cons (by ring) (congrArg₂ List.cons (by ring) (congrArg₂ List.cons
    (by ring) (congrArg₂ List.cons (by ring) (congrArg₂ List.cons (by ring)
    (congrArg₂ List.cons (by ring) rfl)))))

theorem near_mean_round (c : ℚ) (x : List ℚ) (h : near_mean c x) :
    near_mean c (synchronous_round (shipped_config 0) x) := by
  obtain ⟨x0, x1, x2, x3, x4, x5, hx, hs, h0, h1, h2, h3, h4, h5⟩ := h
  rw [abs_le] at h0 h1 h2 h3 h4 h5
  rw [hx, shipped_round]
  refine ⟨_, _, _, _, _, _, rfl, by linarith, ?_, ?_, ?_, ?_, ?_, ?_⟩
  all_goals rw [abs_le]
  all_goals constructor <;> linarith

theorem synchronous_rounds_four (cfg : Config ℚ) (x : List ℚ) :
    synchronous_rounds cfg 4 x
      = synchronous_round cfg (synchronous_round cfg (synchronous_round cfg
          (synchronous_round cfg x))) := rfl

/-- Four synchronous rounds on the shipped topology: every entry is a
combination of all six entries with weights that are multiples of `1/256`, none
of them zero. -/
theorem shipped_four_rounds (x0 x1 x2 x3 x4 x5 : ℚ) :
    synchronous_rounds (shipped_config 0) 4 [x0, x1, x2, x3, x4, x5]
      = [(70 * x0 + 56 * x1 + 28 * x2 + 9 * x3 + 36 * x4 + 57 * x5) / 256,
         (56 * x0 + 52 * x1 + 42 * x2 + 29 * x3 + 30 * x4 + 47 * x5) / 256,
         (28 * x0 + 42 * x1 + 72 * x2 + 83 * x3 + 8 * x4 + 23 * x5) / 256,
         (9 * x0 + 29 * x1 + 83 * x2 + 126 * x3 + x4 + 8 * x5) / 256,
         (36 * x0 + 30 * x1 + 8 * x2 + x3 + 118 * x4 + 63 * x5) / 256,
         (57 * x0 + 47 * x1 + 23 * x2 + 8 * x3 + 63 * x4 + 58 * x5) / 256] := by
  rw [synchronous_rounds_four, shipped_round, shipped_round, shipped_round, shipped_round]
  refine congrArg₂ List.cons (by ring) (congrArg₂ List.cons (by ring) (congrArg₂ List.cons
    (by ring) (congrArg₂ List.cons (by ring) (congrArg₂ List.cons (by ring)
    (congrArg₂ List.cons (by ring) rfl)))))

theorem near_mean_four_rounds (c : ℚ) (x : List ℚ) (h : near_mean c x) :
    near_mean (125 / 128 * c) (synchronous_rounds (shipped_config 0) 4 x) := by
  obtain ⟨x0, x1, x2, x3, x4, x5, hx, hs, h0, h1, h2, h3, h4, h5⟩ := h
  rw [abs_le] at h0 h1 h2 h3 h4 h5
  rw [hx, shipped_four_rounds]
  refine ⟨_, _, _, _, _, _, rfl, by linarith, ?_, ?_, ?_, ?_, ?_, ?_⟩
  all_goals rw [abs_le]
  all_goals constructor <;> linarith

theorem synchronous_rounds_add (cfg : Config ℚ) (m n : Nat) (x : List ℚ) :
    synchronous_rounds cfg (m + n) x = synchronous_rounds cfg n (synchronous_rounds cfg m x) := by
  induction m generalizing x with
  | zero => simp [synchronous_rounds]
  | succ m ih =>
    have e : m + 1 + n = (m + n) + 1 := by omega
    rw [e]
    simp only [synchronous_rounds]
    exact ih _

theorem near_mean_rounds (c : ℚ) (k : Nat) (x : List ℚ) (h : near_mean c x) :
    near_mean c (synchronous_rounds (shipped_config 0) k x) := by
  induction k generalizing x with
  | zero => exact h
  | succ k ih => exact ih _ (near_mean_round c x h)

theorem near_mean_contraction (n : Nat) :
    near_mean (10 * (125 / 128) ^ n)
      (synchronous_rounds (shipped_config 0) (4 * n) [10, 20, 30, 20, 15, 25]) := by
  induction n with
  | zero =>
    refine ⟨10, 20, 30, 20, 15, 25, rfl, by norm_num, ?_, ?_, ?_, ?_, ?_, ?_⟩
    all_goals norm_num [abs_le]
  | succ n ih =>
    have e : 4 * (n + 1) = 4 * n + 4 := by omega
    rw [e, synchronous_rounds_add]
    have h := near_mean_four_rounds _ _ ih
    have e2 : (125 / 128 : ℚ) * (10 * (125 / 128) ^ n) = 10 * (125 / 128) ^ (n + 1) := by
      ring
    rw [e2] at h
    exact h

theorem near_mean_entry (c : ℚ) (x : List ℚ) (h : near_mean c x) (i : Nat) (hi : i < 6) :
    |x.getD i 0 - 20| ≤ c := by
  obtain ⟨x0, x1, x2, x3, x4, x5, hx, _, h0, h1, h2, h3, h4, h5⟩ := h
  rw [hx]
  interval_cases i
  · exact h0
  · exact h1
  · exact h2
  · exact h3
  · exact h4
  · exact h5

/-- C24: on the shipped topology with the shipped readings
`[10,20,30,20,15,25]`, iterating synchronous consensus rounds in exact
arithmetic keeps the mean at 20 after every round, and every board's estimate
converges to 20: for every `eps > 0` there is a `K` such that after any
`k >= K` rounds every entry is within `eps` of 20. -/
theorem shipped_consensus_converges :
    (shipped_config 0).simulated_temperatures = [10, 20, 30, 20, 15, 25]
    ∧ (∀ k, network_mean (shipped_config 0)
        (synchronous_rounds (shipped_config 0) k [10, 20, 30, 20, 15, 25]) = 20)
    ∧ (∀ eps : ℚ, 0 < eps → ∃ K : Nat, ∀ k, K ≤ k → ∀ i, i < 6 →
        |(synchronous_rounds (shipped_config 0) k [10, 20, 30, 20, 15, 25]).getD i 0 - 20|
          < eps) := by
  refine ⟨rfl, ?_, ?_⟩
  · intro k
    have h := (synchronous_rounds_sum (shipped_config 0) (by decide) (by decide) k
      [10, 20, 30, 20, 15, 25] rfl).2
    unfold network_mean
    rw [h]
    norm_num [shipped_config]
  · intro eps heps
    obtain ⟨n, hn⟩ := exists_pow_lt_of_lt_one (show (0 : ℚ) < eps / 10 by positivity)
      (show (125 / 128 : ℚ) < 1 by norm_num)
    refine ⟨4 * n, ?_⟩
    intro k hk i hi
    have e : k = 4 * n + (k - 4 * n) := by omega
    rw [e, synchronous_rounds_add]
    have h := near_mean_entry _ _ (near_mean_rounds _ (k - 4 * n) _ (near_mean_contraction n)) i hi
    have h2 : 10 * (125 / 128 : ℚ) ^ n < eps := by
      have := mul_lt_mul_of_pos_left hn (show (0 : ℚ) < 10 by norm_num)
      have e3 : (10 : ℚ) * (eps / 10) = eps := by ring
      rw [e3] at this
      exact this
    exact lt_of_le_of_lt h h2

/-- C24 for `eps = 1/100`: from some round on, every estimate is within 0.01
of 20. -/
theorem shipped_consensus_converges_hundredth :
    (0 : ℚ) < 1 / 100
    ∧ ∃ K : Nat, ∀ k, K ≤ k → ∀ i, i < 6 →
        |(synchronous_rounds (shipped_config 0) k [10, 20, 30, 20, 15, 25]).getD i 0 - 20|
          < 1 / 100 :=
  ⟨by norm_num, shipped_consensus_converges.2.2 (1 / 100) (by norm_num)⟩


/-! ## Theorems: a broadcast followed by the release of the token -/

theorem sl_rail_util_on_event_send_complete (events : Int) (b : Board F) :
    sl_rail_util_on_event (send_complete events) b
      = { b with error_code := events, packet_sent := true } := rfl

theorem frames_sent_append_send (l : List Action) (payload : List Int) (d : Int) :
    frames_sent (l ++ [Action.send_packet payload d]) = frames_sent l ++ [payload] := by
  rw [frames_sent_append]
  rfl

theorem frames_sent_append_start_receiving (l : List Action) (ch : Int) :
    frames_sent (l ++ [Action.start_receiving ch]) = frames_sent l := by
  rw [frames_sent_append]
  exact List.append_nil _

theorem frames_sent_append_set_timer (l : List Action) (t : Int) :
    frames_sent (l ++ [Action.set_timer t]) = frames_sent l := by
  rw [frames_sent_append]
  exact List.append_nil _

theorem ticks_with_completion_add (fl : FloatOps F) (cd : FloatCodec F) (cfg : Config F)
    (events : Int) (m n : Nat) (b : Board F) :
    ticks_with_completion fl cd cfg events (m + n) b
      = ticks_with_completion fl cd cfg events n (ticks_with_completion fl cd cfg events m b) := by
  induction m generalizing b with
  | zero => simp [ticks_with_completion]
  | succ m ih =>
    have e : m + 1 + n = (m + n) + 1 := by omega
    rw [e]
    simp only [ticks_with_completion]
    exact ih _

/-- A tick of the transmission loop in which the candidate address is a
neighbour: the frame is handed to the radio and the board waits in `S_IDLE`
with the send-complete signal raised. -/
theorem tick_broadcast_sent (fl : FloatOps F) (cd : FloatCodec F) (cfg : Config F)
    (events : Int) (oper : tx_operation_t) (es : List Int) (dst : Int) (j : Nat) (b : Board F)
    (hoper : oper ≠ tx_operation_t.O_GIVE_BATON)
    (I : Transmitting cfg oper es dst j b) (hj : j < cfg.NUM_OF_BOARDS)
    (hnb : j ≠ cfg.BOARD_ID ∧ cfg.graph_at cfg.BOARD_ID j = true) :
    tick_with_completion fl cd cfg events b
      = { b with
          tx_packet := frame_built cfg cd oper b,
          trace := b.trace ++ [Action.send_packet (frame_built cfg cd oper b)
            ((frame_built cfg cd oper b).getD MSGIDX_DST_BOARD 0)],
          num_of_pending_msgs_for_tx := b.num_of_pending_msgs_for_tx - 1,
          stk := b.stk.push state_t.S_PACKET_TX.toInt,
          tx_operation_to_achieve :=
            if b.num_of_pending_msgs_for_tx - 1 = 0 then tx_operation_t.O_GIVE_BATON else oper,
          state := state_t.S_IDLE.toInt,
          error_code := events,
          packet_sent := true } := by
  have hop : b.tx_operation_to_achieve = oper := by
    rw [I.operation, if_neg (by omega)]
  have hst : state_t.ofInt b.state = some state_t.S_PACKET_TX := by
    rw [I.state_tx]
    rfl
  have h7 : ¬ restart_rule_applies b := by
    unfold restart_rule_applies
    rw [I.no_restart]
    simp
  have h9 : ¬ average_rule_applies b := by
    unfold average_rule_applies
    rw [I.no_average]
    simp
  have hsa : send_addr cfg b = (j : Int) := by
    unfold send_addr
    rw [I.pending]
    omega
  have hf : (packet_transmission cfg cd oper b).1 = true := by
    rw [packet_transmission_flag_iff, hsa, graph_at_int_of_nat]
    exact Or.inr ⟨fun hc => hnb.1 (by exact_mod_cast hc), hnb.2⟩
  have hop2 : (packet_transmission cfg cd oper b).2.tx_operation_to_achieve
      ≠ tx_operation_t.O_GIVE_BATON := by
    rw [packet_transmission_operation, hop]
    exact hoper
  have e1 : app_process_action fl cd cfg [] b
      = { b with
          tx_packet := frame_built cfg cd oper b,
          trace := b.trace ++ [Action.send_packet (frame_built cfg cd oper b)
            ((frame_built cfg cd oper b).getD MSGIDX_DST_BOARD 0)],
          num_of_pending_msgs_for_tx := b.num_of_pending_msgs_for_tx - 1,
          stk := b.stk.push state_t.S_PACKET_TX.toInt,
          tx_operation_to_achieve :=
            if b.num_of_pending_msgs_for_tx - 1 = 0 then tx_operation_t.O_GIVE_BATON else oper,
          state := state_t.S_IDLE.toInt } := by
    unfold app_process_action
    rw [handle_app_events_no_rule fl cfg b I.quiet I.no_sleep h7 I.no_bypass h9,
      execute_app_state_packet_tx fl cd cfg [] b hst, hop, hf,
      after_transmission_broadcast_sent cfg _ hop2, packet_transmission_snd, hf, if_pos rfl]
    simp only [hop]
  unfold tick_with_completion
  rw [e1]
  have hlen : ¬ ((frames_sent (b.trace ++ [Action.send_packet (frame_built cfg cd oper b)
      ((frame_built cfg cd oper b).getD MSGIDX_DST_BOARD 0)])).length
      = (frames_sent b.trace).length) := by
    rw [frames_sent_append_send, List.length_append]
    simp
  rw [if_neg hlen]
  rfl


/-- A tick of the transmission loop in which the candidate address is not a
neighbour (or is the board itself): nothing is sent and the state stays
`S_PACKET_TX`. -/
theorem tick_broadcast_not_sent (fl : FloatOps F) (cd : FloatCodec F) (cfg : Config F)
    (events : Int) (oper : tx_operation_t) (es : List Int) (dst : Int) (j : Nat) (b : Board F)
    (hoper : oper ≠ tx_operation_t.O_GIVE_BATON)
    (I : Transmitting cfg oper es dst j b) (hj : j < cfg.NUM_OF_BOARDS)
    (hnb : ¬ (j ≠ cfg.BOARD_ID ∧ cfg.graph_at cfg.BOARD_ID j = true)) :
    tick_with_completion fl cd cfg events b
      = { b with
          tx_packet := frame_built cfg cd oper b,
          num_of_pending_msgs_for_tx := b.num_of_pending_msgs_for_tx - 1,
          stk := (b.stk.push state_t.S_PACKET_TX.toInt).pop.2,
          tx_operation_to_achieve :=
            if b.num_of_pending_msgs_for_tx - 1 = 0 then tx_operation_t.O_GIVE_BATON else oper,
          state := (b.stk.push state_t.S_PACKET_TX.toInt).pop.1 } := by
  have hop : b.tx_operation_to_achieve = oper := by
    rw [I.operation, if_neg (by omega)]
  have hst : state_t.ofInt b.state = some state_t.S_PACKET_TX := by
    rw [I.state_tx]
    rfl
  have h7 : ¬ restart_rule_applies b := by
    unfold restart_rule_applies
    rw [I.no_restart]
    simp
  have h9 : ¬ average_rule_applies b := by
    unfold average_rule_applies
    rw [I.no_average]
    simp
  have hsa : send_addr cfg b = (j : Int) := by
    unfold send_addr
    rw [I.pending]
    omega
  have hf : (packet_transmission cfg cd oper b).1 = false := by
    cases hc : (packet_transmission cfg cd oper b).1
    · rfl
    · rw [packet_transmission_flag_iff, hsa, graph_at_int_of_nat] at hc
      rcases hc with h | h
      · exact absurd h hoper
      · exact absurd ⟨fun hc2 => h.1 (by rw [hc2]), h.2⟩ hnb
  have hop2 : (packet_transmission cfg cd oper b).2.tx_operation_to_achieve
      ≠ tx_operation_t.O_GIVE_BATON := by
    rw [packet_transmission_operation, hop]
    exact hoper
  have e1 : app_process_action fl cd cfg [] b
      = { b with
          tx_packet := frame_built cfg cd oper b,
          num_of_pending_msgs_for_tx := b.num_of_pending_msgs_for_tx - 1,
          stk := (b.stk.push state_t.S_PACKET_TX.toInt).pop.2,
          tx_operation_to_achieve :=
            if b.num_of_pending_msgs_for_tx - 1 = 0 then tx_operation_t.O_GIVE_BATON else oper,
          state := (b.stk.push state_t.S_PACKET_TX.toInt).pop.1 } := by
    unfold app_process_action
    rw [handle_app_events_no_rule fl cfg b I.quiet I.no_sleep h7 I.no_bypass h9,
      execute_app_state_packet_tx fl cd cfg [] b hst, hop, hf,
      after_transmission_broadcast_not_sent cfg _ hop2, packet_transmission_snd, hf,
      if_neg (by decide)]
    simp only [hop]
  unfold tick_with_completion
  rw [e1, if_pos rfl]

/-- The tick that consumes the send-complete signal: the receiver is
restarted and the state is popped from the stack. -/
theorem tick_after_send_complete (fl : FloatOps F) (cd : FloatCodec F) (cfg : Config F)
    (events : Int) (b : Board F)
    (h1 : b.packet_received = false) (h2 : b.packet_sent = true) :
    tick_with_completion fl cd cfg events b
      = { b with
          packet_sent := false,
          trace := b.trace ++ [Action.start_receiving cfg.BOARD_ID],
          state := b.stk.pop.1,
          stk := b.stk.pop.2 } := by
  have e1 : app_process_action fl cd cfg [] b
      = { b with
          packet_sent := false,
          trace := b.trace ++ [Action.start_receiving cfg.BOARD_ID],
          state := b.stk.pop.1,
          stk := b.stk.pop.2 } := by
    unfold app_process_action
    rw [handle_app_events_packet_sent fl cfg b h1 h2,
      execute_app_state_packet_sent fl cd cfg []
        { b with packet_sent := false, state := state_t.S_PACKET_SENT.toInt } rfl]
    rfl
  unfold tick_with_completion
  rw [e1]
  have hlen : (frames_sent (b.trace ++ [Action.start_receiving (cfg.BOARD_ID : Int)])).length
      = (frames_sent b.trace).length := by
    rw [frames_sent_append_start_receiving]
  rw [if_pos hlen]

/-- The tick of the transmission loop that releases the token. -/
theorem tick_give_baton (fl : FloatOps F) (cd : FloatCodec F) (cfg : Config F)
    (events : Int) (oper : tx_operation_t) (es : List Int) (dst : Int) (b : Board F)
    (I : Transmitting cfg oper es dst cfg.NUM_OF_BOARDS b) :
    tick_with_completion fl cd cfg events b
      = { b with
          tx_packet := frame_built cfg cd tx_operation_t.O_GIVE_BATON b,
          baton := false,
          boards_completed_their_task := 0,
          state := state_t.S_IDLE.toInt,
          tmr0_running := if b.starting_board = (cfg.BOARD_ID : Int) then true
            else b.tmr0_running,
          trace := if b.starting_board = (cfg.BOARD_ID : Int) then
              (b.trace ++ [Action.send_packet (frame_built cfg cd tx_operation_t.O_GIVE_BATON b)
                ((frame_built cfg cd tx_operation_t.O_GIVE_BATON b).getD MSGIDX_DST_BOARD 0)])
                ++ [Action.set_timer (cfg.RESTART_TIMEOUT_MILISECS * 1000)]
            else
              b.trace ++ [Action.send_packet (frame_built cfg cd tx_operation_t.O_GIVE_BATON b)
                ((frame_built cfg cd tx_operation_t.O_GIVE_BATON b).getD MSGIDX_DST_BOARD 0)],
          error_code := events,
          packet_sent := true } := by
  have hop : b.tx_operation_to_achieve = tx_operation_t.O_GIVE_BATON := by
    rw [I.operation, if_pos rfl]
  have hst : state_t.ofInt b.state = some state_t.S_PACKET_TX := by
    rw [I.state_tx]
    rfl
  have h7 : ¬ restart_rule_applies b := by
    unfold restart_rule_applies
    rw [I.no_restart]
    simp
  have h9 : ¬ average_rule_applies b := by
    unfold average_rule_applies
    rw [I.no_average]
    simp
  have hf : (packet_transmission cfg cd tx_operation_t.O_GIVE_BATON b).1 = true :=
    (packet_transmission_flag_iff cfg cd tx_operation_t.O_GIVE_BATON b).2 (Or.inl rfl)
  have hop2 : (packet_transmission cfg cd tx_operation_t.O_GIVE_BATON b).2.tx_operation_to_achieve
      = tx_operation_t.O_GIVE_BATON := by
    rw [packet_transmission_operation]
    exact hop
  have e1 : app_process_action fl cd cfg [] b
      = { b with
          tx_packet := frame_built cfg cd tx_operation_t.O_GIVE_BATON b,
          baton := false,
          boards_completed_their_task := 0,
          state := state_t.S_IDLE.toInt,
          tmr0_running := if b.starting_board = (cfg.BOARD_ID : Int) then true
            else b.tmr0_running,
          trace := if b.starting_board = (cfg.BOARD_ID : Int) then
              (b.trace ++ [Action.send_packet (frame_built cfg cd tx_operation_t.O_GIVE_BATON b)
                ((frame_built cfg cd tx_operation_t.O_GIVE_BATON b).getD MSGIDX_DST_BOARD 0)])
                ++ [Action.set_timer (cfg.RESTART_TIMEOUT_MILISECS * 1000)]
            else
              b.trace ++ [Action.send_packet (frame_built cfg cd tx_operation_t.O_GIVE_BATON b)
                ((frame_built cfg cd tx_operation_t.O_GIVE_BATON b).getD MSGIDX_DST_BOARD 0)] } := by
    unfold app_process_action
    rw [handle_app_events_no_rule fl cfg b I.quiet I.no_sleep h7 I.no_bypass h9,
      execute_app_state_packet_tx fl cd cfg [] b hst, hop, hf,
      after_transmission_give_baton cfg _ hop2, packet_transmission_snd, hf, if_pos rfl]
    by_cases hsb : b.starting_board = (cfg.BOARD_ID : Int)
    · simp only [hsb, if_true, hop]
    · simp only [hsb, if_false, hop]
  unfold tick_with_completion
  rw [e1]
  have hlen : ¬ ((frames_sent (if b.starting_board = (cfg.BOARD_ID : Int) then
              (b.trace ++ [Action.send_packet (frame_built cfg cd tx_operation_t.O_GIVE_BATON b)
                ((frame_built cfg cd tx_operation_t.O_GIVE_BATON b).getD MSGIDX_DST_BOARD 0)])
                ++ [Action.set_timer (cfg.RESTART_TIMEOUT_MILISECS * 1000)]
            else
              b.trace ++ [Action.send_packet (frame_built cfg cd tx_operation_t.O_GIVE_BATON b)
                ((frame_built cfg cd tx_operation_t.O_GIVE_BATON b).getD MSGIDX_DST_BOARD 0)])).length
      = (frames_sent b.trace).length) := by
    split_ifs
    · rw [frames_sent_append_set_timer, frames_sent_append_send, List.length_append]
      simp
    · rw [frames_sent_append_send, List.length_append]
      simp
  rw [if_neg hlen]
  rfl


theorem frame_kinds_sent_append_send (l : List Action) (payload : List Int) (d : Int) :
    frame_kinds_sent (l ++ [Action.send_packet payload d])
      = frame_kinds_sent l ++ [(payload.getD MSGIDX_TYPE 0, payload.getD MSGIDX_DST_BOARD 0)] := by
  unfold frame_kinds_sent
  rw [frames_sent_append_send, List.map_append]
  rfl

theorem frame_kinds_sent_append_start_receiving (l : List Action) (ch : Int) :
    frame_kinds_sent (l ++ [Action.start_receiving ch]) = frame_kinds_sent l := by
  unfold frame_kinds_sent
  rw [frames_sent_append_start_receiving]

theorem frame_kinds_sent_append_set_timer (l : List Action) (t : Int) :
    frame_kinds_sent (l ++ [Action.set_timer t]) = frame_kinds_sent l := by
  unfold frame_kinds_sent
  rw [frames_sent_append_set_timer]

theorem frame_built_kind (cfg : Config F) (cd : FloatCodec F) (oper : tx_operation_t)
    (b : Board F) (hlen : b.tx_packet.length = TX_PAYLOAD_LENGTH) :
    (frame_built cfg cd oper b).getD MSGIDX_TYPE 0 = frame_type oper := by
  rw [frame_built_type cfg cd oper b hlen]
  cases oper <;> rfl

/-- One candidate address of the transmission loop: two ticks if a frame is
sent (the second consumes the send-complete signal), one tick otherwise. -/
theorem transmitting_step (fl : FloatOps F) (cd : FloatCodec F) (cfg : Config F)
    (events : Int) (oper : tx_operation_t) (es : List Int) (dst : Int) (j : Nat) (b : Board F)
    (hoper : oper ≠ tx_operation_t.O_GIVE_BATON) (hN : cfg.NUM_OF_BOARDS ≤ 256)
    (I : Transmitting cfg oper es dst j b) (hj : j < cfg.NUM_OF_BOARDS) :
    Transmitting cfg oper es dst (j + 1)
        (ticks_with_completion fl cd cfg events
          (1 + ([j].filter
            (fun d => decide (d ≠ cfg.BOARD_ID) && cfg.graph_at cfg.BOARD_ID d)).length) b)
    ∧ frame_kinds_sent (ticks_with_completion fl cd cfg events
          (1 + ([j].filter
            (fun d => decide (d ≠ cfg.BOARD_ID) && cfg.graph_at cfg.BOARD_ID d)).length) b).trace
        = frame_kinds_sent b.trace
          ++ ([j].filter
              (fun d => decide (d ≠ cfg.BOARD_ID) && cfg.graph_at cfg.BOARD_ID d)).map
            (fun d : Nat => (frame_type oper, (d : Int))) := by
  have hstack := Stack.push_free_slot b.stk state_t.S_PACKET_TX.toInt I.storage
    (by rw [I.top]; omega) (by rw [I.top]; have := I.room; omega)
  have hsa : send_addr cfg b = (j : Int) := by
    unfold send_addr
    rw [I.pending]
    omega
  have hdst : (frame_built cfg cd oper b).getD MSGIDX_DST_BOARD 0 = (j : Int) := by
    rw [frame_built_destination cfg cd _ b I.frame_size, if_neg hoper, hsa]
    exact to_uint8_of_byte _ (Int.ofNat_nonneg j) (by omega)
  have hopn : (if b.num_of_pending_msgs_for_tx - 1 = 0 then tx_operation_t.O_GIVE_BATON else oper)
      = (if j + 1 = cfg.NUM_OF_BOARDS then tx_operation_t.O_GIVE_BATON else oper) := by
    rw [I.pending]
    by_cases h : j + 1 = cfg.NUM_OF_BOARDS
    · rw [if_pos h, if_pos (by omega)]
    · rw [if_neg h, if_neg (by omega)]
  have hpn : b.num_of_pending_msgs_for_tx - 1
      = (cfg.NUM_OF_BOARDS : Int) - ((j + 1 : Nat) : Int) := by
    rw [I.pending]
    push_cast
    ring
  by_cases hnb : j ≠ cfg.BOARD_ID ∧ cfg.graph_at cfg.BOARD_ID j = true
  · have hfil : [j].filter (fun d => decide (d ≠ cfg.BOARD_ID) && cfg.graph_at cfg.BOARD_ID d)
        = [j] := by
      simp [hnb.1, hnb.2]
    rw [hfil]
    have e2 : ticks_with_completion fl cd cfg events (1 + [j].length) b
        = tick_with_completion fl cd cfg events (tick_with_completion fl cd cfg events b) := rfl
    rw [e2, tick_broadcast_sent fl cd cfg events oper es dst j b hoper I hj hnb,
      tick_after_send_complete]
    rotate_left
    · exact I.quiet.1
    · rfl
    constructor
    · exact {
        state_tx := hstack.2.2.2.1
        operation := hopn
        pending := hpn
        token := I.token
        quiet := ⟨I.quiet.1, rfl, I.quiet.2.2.1, I.quiet.2.2.2.1, I.quiet.2.2.2.2⟩
        no_sleep := I.no_sleep
        no_restart := I.no_restart
        no_bypass := I.no_bypass
        no_average := I.no_average
        storage := hstack.2.2.2.2.2.2
        top := hstack.2.2.2.2.2.1.trans I.top
        entries := hstack.2.2.2.2.1.trans I.entries
        room := I.room
        next_holder := I.next_holder
        frame_size := (frame_built_length cfg cd oper b).trans I.frame_size }
    · show frame_kinds_sent ((b.trace ++ [Action.send_packet (frame_built cfg cd oper b)
          ((frame_built cfg cd oper b).getD MSGIDX_DST_BOARD 0)])
          ++ [Action.start_receiving (cfg.BOARD_ID : Int)]) = _
      rw [frame_kinds_sent_append_start_receiving, frame_kinds_sent_append_send,
        frame_built_kind cfg cd oper b I.frame_size, hdst]
      rfl
  · have hfil : [j].filter (fun d => decide (d ≠ cfg.BOARD_ID) && cfg.graph_at cfg.BOARD_ID d)
        = [] := by
      rw [List.filter_cons_of_neg]
      · rfl
      · simpa using hnb
    rw [hfil]
    have e2 : ticks_with_completion fl cd cfg events (1 + ([] : List Nat).length) b
        = tick_with_completion fl cd cfg events b := rfl
    rw [e2, tick_broadcast_not_sent fl cd cfg events oper es dst j b hoper I hj hnb]
    constructor
    · exact {
        state_tx := hstack.2.2.2.1
        operation := hopn
        pending := hpn
        token := I.token
        quiet := I.quiet
        no_sleep := I.no_sleep
        no_restart := I.no_restart
        no_bypass := I.no_bypass
        no_average := I.no_average
        storage := hstack.2.2.2.2.2.2
        top := hstack.2.2.2.2.2.1.trans I.top
        entries := hstack.2.2.2.2.1.trans I.entries
        room := I.room
        next_holder := I.next_holder
        frame_size := (frame_built_length cfg cd oper b).trans I.frame_size }
    · show frame_kinds_sent b.trace = _
      simp

/-- The last two ticks of the transmission loop: the token is released and,
once the transmission is complete, the continuation is popped. -/
theorem transmitting_release (fl : FloatOps F) (cd : FloatCodec F) (cfg : Config F)
    (events : Int) (oper : tx_operation_t) (rest : List Int) (c dst : Int) (b : Board F)
    (I : Transmitting cfg oper (rest ++ [c]) dst cfg.NUM_OF_BOARDS b) :
    (ticks_with_completion fl cd cfg events 2 b).state = c
    ∧ (ticks_with_completion fl cd cfg events 2 b).stk.entries = rest
    ∧ (ticks_with_completion fl cd cfg events 2 b).baton = false
    ∧ frame_kinds_sent (ticks_with_completion fl cd cfg events 2 b).trace
        = frame_kinds_sent b.trace ++ [(message_t.MSG_BATON.toInt, to_uint8 dst)] := by
  have hpop := Stack.pop_of_entries b.stk rest c
    (by rw [I.top]; simp) I.entries
  have hdst : (frame_built cfg cd tx_operation_t.O_GIVE_BATON b).getD MSGIDX_DST_BOARD 0
      = to_uint8 dst := by
    rw [frame_built_destination cfg cd _ b I.frame_size, if_pos rfl, I.next_holder]
  have hty : (frame_built cfg cd tx_operation_t.O_GIVE_BATON b).getD MSGIDX_TYPE 0
      = message_t.MSG_BATON.toInt := frame_built_kind cfg cd _ b I.frame_size
  have e2 : ticks_with_completion fl cd cfg events 2 b
      = tick_with_completion fl cd cfg events (tick_with_completion fl cd cfg events b) := rfl
  rw [e2, tick_give_baton fl cd cfg events oper (rest ++ [c]) dst b I,
    tick_after_send_complete]
  rotate_left
  · exact I.quiet.1
  · rfl
  refine ⟨hpop.1, hpop.2.1, rfl, ?_⟩
  by_cases hsb : b.starting_board = (cfg.BOARD_ID : Int)
  · show frame_kinds_sent ((if b.starting_board = (cfg.BOARD_ID : Int) then _ else _)
        ++ [Action.start_receiving (cfg.BOARD_ID : Int)]) = _
    rw [if_pos hsb, frame_kinds_sent_append_start_receiving, frame_kinds_sent_append_set_timer,
      frame_kinds_sent_append_send, hdst, hty]
  · show frame_kinds_sent ((if b.starting_board = (cfg.BOARD_ID : Int) then _ else _)
        ++ [Action.start_receiving (cfg.BOARD_ID : Int)]) = _
    rw [if_neg hsb, frame_kinds_sent_append_start_receiving,
      frame_kinds_sent_append_send, hdst, hty]


/-- The transmission loop from candidate address `j` to the end of the
broadcast. -/
theorem transmitting_loop (fl : FloatOps F) (cd : FloatCodec F) (cfg : Config F)
    (events : Int) (oper : tx_operation_t) (es : List Int) (dst : Int)
    (hoper : oper ≠ tx_operation_t.O_GIVE_BATON) (hN : cfg.NUM_OF_BOARDS ≤ 256) :
    ∀ (k j : Nat) (b : Board F), j + k = cfg.NUM_OF_BOARDS →
      Transmitting cfg oper es dst j b →
      Transmitting cfg oper es dst cfg.NUM_OF_BOARDS
          (ticks_with_completion fl cd cfg events
            (k + ((List.range' j k).filter
              (fun d => decide (d ≠ cfg.BOARD_ID) && cfg.graph_at cfg.BOARD_ID d)).length) b)
      ∧ frame_kinds_sent (ticks_with_completion fl cd cfg events
            (k + ((List.range' j k).filter
              (fun d => decide (d ≠ cfg.BOARD_ID) && cfg.graph_at cfg.BOARD_ID d)).length) b).trace
          = frame_kinds_sent b.trace
            ++ ((List.range' j k).filter
                (fun d => decide (d ≠ cfg.BOARD_ID) && cfg.graph_at cfg.BOARD_ID d)).map
              (fun d : Nat => (frame_type oper, (d : Int))) := by
  intro k
  induction k with
  | zero =>
    intro j b hjk I
    have hj : j = cfg.NUM_OF_BOARDS := by omega
    subst hj
    refine ⟨I, ?_⟩
    simp [ticks_with_completion]
  | succ k ih =>
    intro j b hjk I
    have h1 := transmitting_step fl cd cfg events oper es dst j b hoper hN I (by omega)
    have h2 := ih (j + 1) _ (by omega) h1.1
    have hr : List.range' j (k + 1) = [j] ++ List.range' (j + 1) k := rfl
    have hn : k + 1 + ((List.range' j (k + 1)).filter
          (fun d => decide (d ≠ cfg.BOARD_ID) && cfg.graph_at cfg.BOARD_ID d)).length
        = (1 + ([j].filter
            (fun d => decide (d ≠ cfg.BOARD_ID) && cfg.graph_at cfg.BOARD_ID d)).length)
          + (k + ((List.range' (j + 1) k).filter
            (fun d => decide (d ≠ cfg.BOARD_ID) && cfg.graph_at cfg.BOARD_ID d)).length) := by
      rw [hr, List.filter_append, List.length_append]
      omega
    rw [hn, ticks_with_completion_add]
    refine ⟨h2.1, ?_⟩
    rw [h2.2, h1.2, hr, List.filter_append, List.map_append, List.append_assoc]

/-- C28: a broadcast followed by the release of the token. The board is in the
state `S_PACKET_TX` with a broadcast operation, pending count `N`, the token
held, no signal and no command pending, rules 6 to 8 of `handle_app_events` not
applicable, and a stack `rest ++ [c]` (top `c`) with a free slot. It is ticked
while each transmission is completed before the next tick and no other signal
arrives. After `N + (number of neighbours) + 2` ticks it has handed to the
radio one frame of the broadcast for each neighbour other than itself, in
ascending order of the ids, then one Baton frame for `dst_of_baton`, and
nothing else; its state is `c`, its stack holds `rest`, and it no longer holds
the token. -/
theorem broadcast_then_release (fl : FloatOps F) (cd : FloatCodec F) (cfg : Config F)
    (events : Int) (oper : tx_operation_t) (rest : List Int) (c : Int) (b : Board F)
    (hN1 : 1 ≤ cfg.NUM_OF_BOARDS) (hN : cfg.NUM_OF_BOARDS ≤ 256)
    (hst : b.state = state_t.S_PACKET_TX.toInt)
    (hop : b.tx_operation_to_achieve = oper) (hoper : oper ≠ tx_operation_t.O_GIVE_BATON)
    (hp : b.num_of_pending_msgs_for_tx = (cfg.NUM_OF_BOARDS : Int))
    (hb : b.baton = true) (hq : no_transport_signal b)
    (hrc : b.restart_command = false) (hac : b.average_command = false)
    (h6 : ¬ sleep_rule_applies b) (h8 : ¬ bypass_rule_applies b)
    (hstore : b.stk.stack.length = 20) (htop : b.stk.top = (rest.length : Int))
    (hent : b.stk.entries = rest ++ [c]) (hroom : rest.length + 1 < 20)
    (hlen : b.tx_packet.length = TX_PAYLOAD_LENGTH) :
    frame_kinds_sent (ticks_with_completion fl cd cfg events
        (cfg.NUM_OF_BOARDS + (neighbours cfg).length + 2) b).trace
      = frame_kinds_sent b.trace
        ++ (neighbours cfg).map (fun d : Nat => (frame_type oper, (d : Int)))
        ++ [(message_t.MSG_BATON.toInt, to_uint8 b.dst_of_baton)]
    ∧ (ticks_with_completion fl cd cfg events
        (cfg.NUM_OF_BOARDS + (neighbours cfg).length + 2) b).state = c
    ∧ (ticks_with_completion fl cd cfg events
        (cfg.NUM_OF_BOARDS + (neighbours cfg).length + 2) b).stk.entries = rest
    ∧ (ticks_with_completion fl cd cfg events
        (cfg.NUM_OF_BOARDS + (neighbours cfg).length + 2) b).baton = false := by
  have I0 : Transmitting cfg oper (rest ++ [c]) b.dst_of_baton 0 b := {
    state_tx := hst
    operation := by rw [hop, if_neg (by omega)]
    pending := by rw [hp]; simp
    token := hb
    quiet := hq
    no_sleep := h6
    no_restart := hrc
    no_bypass := h8
    no_average := hac
    storage := hstore
    top := by rw [htop]; simp
    entries := hent
    room := by simp; omega
    next_holder := rfl
    frame_size := hlen }
  have hloop := transmitting_loop fl cd cfg events oper (rest ++ [c]) b.dst_of_baton hoper hN
    cfg.NUM_OF_BOARDS 0 b (by omega) I0
  rw [← List.range_eq_range'] at hloop
  have hnb : (List.range cfg.NUM_OF_BOARDS).filter
      (fun d => decide (d ≠ cfg.BOARD_ID) && cfg.graph_at cfg.BOARD_ID d) = neighbours cfg := rfl
  rw [hnb] at hloop
  have hrel := transmitting_release fl cd cfg events oper rest c b.dst_of_baton _ hloop.1
  rw [ticks_with_completion_add]
  refine ⟨?_, hrel.1, hrel.2.1, hrel.2.2.1⟩
  rw [hrel.2.2.2, hloop.2]

/-- C28 on board 5 of the shipped configuration (neighbours 0, 1, 4) in a
Start-Task broadcast with `S_START_AVG_CONSENSUS` as continuation and next
holder 4: after `6 + 3 + 2 = 11` ticks the frames sent are Start-Task frames
for 0, 1, 4 and a Baton frame for 4. -/
theorem broadcast_then_release_shipped :
    frame_kinds_sent (ticks_with_completion exact_arith int_part_codec (shipped_config 5) 0 11
        { power_on exact_arith (shipped_config 5) with
          state := state_t.S_PACKET_TX.toInt,
          tx_operation_to_achieve := tx_operation_t.O_GLB_START_TASK,
          num_of_pending_msgs_for_tx := 6, baton := true, baton_cntr := 1,
          batons_per_cycle := 2, dst_of_baton := 4, starting_board := 5,
          stk := Stack.init.push state_t.S_START_AVG_CONSENSUS.toInt }).trace
      = [(1, 0), (1, 1), (1, 4), (3, 4)]
    ∧ (ticks_with_completion exact_arith int_part_codec (shipped_config 5) 0 11
        { power_on exact_arith (shipped_config 5) with
          state := state_t.S_PACKET_TX.toInt,
          tx_operation_to_achieve := tx_operation_t.O_GLB_START_TASK,
          num_of_pending_msgs_for_tx := 6, baton := true, baton_cntr := 1,
          batons_per_cycle := 2, dst_of_baton := 4, starting_board := 5,
          stk := Stack.init.push state_t.S_START_AVG_CONSENSUS.toInt }).state
      = state_t.S_START_AVG_CONSENSUS.toInt
    ∧ (ticks_with_completion exact_arith int_part_codec (shipped_config 5) 0 11
        { power_on exact_arith (shipped_config 5) with
          state := state_t.S_PACKET_TX.toInt,
          tx_operation_to_achieve := tx_operation_t.O_GLB_START_TASK,
          num_of_pending_msgs_for_tx := 6, baton := true, baton_cntr := 1,
          batons_per_cycle := 2, dst_of_baton := 4, starting_board := 5,
          stk := Stack.init.push state_t.S_START_AVG_CONSENSUS.toInt }).stk.entries = []
    ∧ (ticks_with_completion exact_arith int_part_codec (shipped_config 5) 0 11
        { power_on exact_arith (shipped_config 5) with
          state := state_t.S_PACKET_TX.toInt,
          tx_operation_to_achieve := tx_operation_t.O_GLB_START_TASK,
          num_of_pending_msgs_for_tx := 6, baton := true, baton_cntr := 1,
          batons_per_cycle := 2, dst_of_baton := 4, starting_board := 5,
          stk := Stack.init.push state_t.S_START_AVG_CONSENSUS.toInt }).baton = false :=
  broadcast_then_release exact_arith int_part_codec (shipped_config 5) 0
    tx_operation_t.O_GLB_START_TASK [] state_t.S_START_AVG_CONSENSUS.toInt
    { power_on exact_arith (shipped_config 5) with
      state := state_t.S_PACKET_TX.toInt,
      tx_operation_to_achieve := tx_operation_t.O_GLB_START_TASK,
      num_of_pending_msgs_for_tx := 6, baton := true, baton_cntr := 1,
      batons_per_cycle := 2, dst_of_baton := 4, starting_board := 5,
      stk := Stack.init.push state_t.S_START_AVG_CONSENSUS.toInt }
    (by decide) (by decide) rfl rfl (by decide) rfl rfl (by decide) rfl rfl (by decide)
    (by decide) (by decide) (by decide) (by decide) (by decide) (by decide)

/-! ## Theorems: token uniqueness in a network run -/

theorem RxEffect.refl (P : Prop) (b : Board F) : RxEffect P b b where
  state := rfl
  stk := rfl
  packet_received := rfl
  packet_sent := rfl
  rx_error := rfl
  tx_error := rfl
  cal_error := rfl
  restart_command := rfl
  operation := rfl
  task := rfl
  per_cycle := rfl
  frame := rfl
  frames := rfl
  token_kept := fun h => h
  command_kept := fun _ => rfl
  untouched := fun _ => ⟨rfl, rfl⟩

theorem RxEffect.trans (P Q : Prop) (b b1 b2 : Board F) (h1 : RxEffect P b b1)
    (h2 : RxEffect Q b1 b2) : RxEffect (P ∧ Q) b b2 where
  state := h2.state.trans h1.state
  stk := h2.stk.trans h1.stk
  packet_received := h2.packet_received.trans h1.packet_received
  packet_sent := h2.packet_sent.trans h1.packet_sent
  rx_error := h2.rx_error.trans h1.rx_error
  tx_error := h2.tx_error.trans h1.tx_error
  cal_error := h2.cal_error.trans h1.cal_error
  restart_command := h2.restart_command.trans h1.restart_command
  operation := h2.operation.trans h1.operation
  task := h2.task.trans h1.task
  per_cycle := h2.per_cycle.trans h1.per_cycle
  frame := h2.frame.trans h1.frame
  frames := h2.frames.trans h1.frames
  token_kept := fun h => h2.token_kept (h1.token_kept h)
  command_kept := fun h =>
    (h2.command_kept (h1.task.trans h)).trans (h1.command_kept h)
  untouched := fun h =>
    ⟨((h2.untouched h.2).1).trans ((h1.untouched h.1).1),
     ((h2.untouched h.2).2).trans ((h1.untouched h.1).2)⟩

theorem RxEffect.weaken (P Q : Prop) (b b1 : Board F) (h : RxEffect P b b1) (hQ : Q → P) :
    RxEffect Q b b1 :=
  { h with untouched := fun q => h.untouched (hQ q) }

theorem message_t.ofInt_eq_some (t : Int) (m : message_t) (h : message_t.ofInt t = some m) :
    t = m.toInt := by
  unfold message_t.ofInt at h
  split_ifs at h with h0 h1 h2 h3
  all_goals simp only [Option.some.injEq] at h
  all_goals subst h
  · exact h0
  · exact h1
  · exact h2
  · exact h3

theorem frames_sent_append_cancel_timer (l : List Action) :
    frames_sent (l ++ [Action.cancel_timer]) = frames_sent l := by
  rw [frames_sent_append]
  exact List.append_nil _

/-- Handling one frame that is not a Restart frame. -/
theorem handle_rx_packet_payload_effect (cfg : Config F) (cd : FloatCodec F)
    (rx_buffer : List Int) (b : Board F)
    (h0 : rx_buffer.getD MSGIDX_TYPE 0 ≠ message_t.MSG_RESTART.toInt) :
    RxEffect (rx_buffer.getD MSGIDX_TYPE 0 ≠ message_t.MSG_BATON.toInt) b
      (handle_rx_packet_payload cfg cd rx_buffer b) := by
  simp only [handle_rx_packet_payload]
  generalize hm : message_t.ofInt (rx_buffer.getD MSGIDX_TYPE 0) = m
  rcases m with _ | m
  · exact RxEffect.refl _ b
  · have ht := message_t.ofInt_eq_some _ _ hm
    cases m with
    | MSG_RESTART => exact absurd ht h0
    | MSG_START_TASK =>
      simp only [wake_up]
      split_ifs with hc
      · exact {
          state := rfl, stk := rfl, packet_received := rfl, packet_sent := rfl, rx_error := rfl,
          tx_error := rfl, cal_error := rfl, restart_command := rfl, operation := rfl,
          task := rfl, per_cycle := rfl, frame := rfl, frames := rfl,
          token_kept := fun h => h,
          command_kept := fun h => by
            exfalso
            apply hc.1
            rw [hc.2]
            show task_t.T_CONSENSUS.toInt = b.current_task.toInt
            rw [h],
          untouched := fun _ => ⟨rfl, rfl⟩ }
      · exact {
          state := rfl, stk := rfl, packet_received := rfl, packet_sent := rfl, rx_error := rfl,
          tx_error := rfl, cal_error := rfl, restart_command := rfl, operation := rfl,
          task := rfl, per_cycle := rfl, frame := rfl, frames := rfl,
          token_kept := fun h => h,
          command_kept := fun _ => rfl,
          untouched := fun _ => ⟨rfl, rfl⟩ }
    | MSG_CONSENSUS_STATE =>
      simp only [app_is_ok_to_sleep, set_consensus_state]
      split_ifs
      · exact RxEffect.refl _ b
      · exact {
          state := rfl, stk := rfl, packet_received := rfl, packet_sent := rfl, rx_error := rfl,
          tx_error := rfl, cal_error := rfl, restart_command := rfl, operation := rfl,
          task := rfl, per_cycle := rfl, frame := rfl, frames := rfl,
          token_kept := fun h => h,
          command_kept := fun _ => rfl,
          untouched := fun _ => ⟨rfl, rfl⟩ }
      · exact {
          state := rfl, stk := rfl, packet_received := rfl, packet_sent := rfl, rx_error := rfl,
          tx_error := rfl, cal_error := rfl, restart_command := rfl, operation := rfl,
          task := rfl, per_cycle := rfl, frame := rfl, frames := rfl,
          token_kept := fun h => h,
          command_kept := fun _ => rfl,
          untouched := fun _ => ⟨rfl, rfl⟩ }
    | MSG_BATON =>
      simp only [app_is_ok_to_sleep, cancel_timer]
      split_ifs
      all_goals first
        | exact RxEffect.refl _ b
        | exact {
            state := rfl, stk := rfl, packet_received := rfl, packet_sent := rfl,
            rx_error := rfl, tx_error := rfl, cal_error := rfl, restart_command := rfl,
            operation := rfl, task := rfl, per_cycle := rfl, frame := rfl,
            frames := by first | rfl | exact frames_sent_append_cancel_timer _,
            token_kept := fun h => by first | exact h | rfl,
            command_kept := fun _ => rfl,
            untouched := fun h => absurd ht h }

/-- Handling the frames held by the radio, none of them a Restart frame. -/
theorem handle_received_packet_effect (cfg : Config F) (cd : FloatCodec F)
    (rx_queue : List (List Int)) (b : Board F)
    (h0 : ∀ frame, frame ∈ rx_queue → frame.getD MSGIDX_TYPE 0 ≠ message_t.MSG_RESTART.toInt) :
    RxEffect (∀ frame, frame ∈ rx_queue → frame.getD MSGIDX_TYPE 0 ≠ message_t.MSG_BATON.toInt)
      b (handle_received_packet cfg cd rx_queue b) := by
  unfold handle_received_packet
  induction rx_queue generalizing b with
  | nil => exact RxEffect.refl _ b
  | cons p q ih =>
    simp only [List.foldl_cons]
    have h1 : RxEffect (p.getD MSGIDX_TYPE 0 ≠ message_t.MSG_BATON.toInt) b
        (if p.length ≠ TX_PAYLOAD_LENGTH then b
         else if p.getD 2 0 = (cfg.BOARD_ID : Int) then handle_rx_packet_payload cfg cd p b
         else b) := by
      split_ifs
      · exact RxEffect.refl _ b
      · exact handle_rx_packet_payload_effect cfg cd p b (h0 p (List.mem_cons_self _ _))
      · exact RxEffect.refl _ b
    have h2 := ih (if p.length ≠ TX_PAYLOAD_LENGTH then b
         else if p.getD 2 0 = (cfg.BOARD_ID : Int) then handle_rx_packet_payload cfg cd p b
         else b) (fun frame hf => h0 frame (List.mem_cons_of_mem _ hf))
    exact RxEffect.weaken _ _ _ _ (RxEffect.trans _ _ _ _ _ h1 h2)
      (fun h => ⟨h p (List.mem_cons_self _ _), fun frame hf => h frame (List.mem_cons_of_mem _ hf)⟩)

theorem frames_emitted_of_append (t t1 : List Action) (l : List (List Int))
    (h : frames_sent t1 = frames_sent t ++ l) : frames_emitted t t1 = l := by
  unfold frames_emitted
  rw [h]
  exact List.drop_left _ _

theorem frames_emitted_of_eq (t t1 : List Action) (h : frames_sent t1 = frames_sent t) :
    frames_emitted t t1 = [] :=
  frames_emitted_of_append t t1 [] (by rw [h, List.append_nil])

theorem token_count_le_one (b : Board F) : token_count b ≤ 1 := by
  unfold token_count
  split_ifs <;> omega

theorem token_count_of_baton (b : Board F) (h : b.baton = true) : token_count b = 1 := by
  unfold token_count
  rw [if_pos h]

theorem token_count_of_not_baton (b : Board F) (h : b.baton = false) : token_count b = 0 := by
  unfold token_count
  rw [if_neg (by rw [h]; decide)]

theorem token_count_congr (b b1 : Board F) (h : b1.baton = b.baton) :
    token_count b1 = token_count b := by
  unfold token_count
  rw [h]

theorem baton_frames_nil : baton_frames [] = 0 := rfl

theorem baton_frames_single (frame : List Int) :
    baton_frames [frame]
      = if frame.getD MSGIDX_TYPE 0 = message_t.MSG_BATON.toInt then 1 else 0 := by
  unfold baton_frames
  by_cases h : frame.getD MSGIDX_TYPE 0 = message_t.MSG_BATON.toInt
  · rw [List.filter_cons_of_pos (by simpa using h), if_pos h]
    rfl
  · rw [List.filter_cons_of_neg (by simpa using h), if_neg h]
    rfl

theorem baton_frames_append (l1 l2 : List (List Int)) :
    baton_frames (l1 ++ l2) = baton_frames l1 + baton_frames l2 := by
  unfold baton_frames
  rw [List.filter_append, List.length_append]

theorem baton_frames_eq_zero (l : List (List Int)) (h : baton_frames l = 0) :
    ∀ frame, frame ∈ l → frame.getD MSGIDX_TYPE 0 ≠ message_t.MSG_BATON.toInt := by
  intro frame hf hc
  unfold baton_frames at h
  have hm : frame ∈ l.filter
      (fun frame => decide (frame.getD MSGIDX_TYPE 0 = message_t.MSG_BATON.toInt)) := by
    rw [List.mem_filter]
    exact ⟨hf, by simpa using hc⟩
  rw [List.length_eq_zero] at h
  rw [h] at hm
  exact absurd hm (List.not_mem_nil _)

theorem baton_frames_pos (l : List (List Int))
    (h : ¬ ∀ frame, frame ∈ l → frame.getD MSGIDX_TYPE 0 ≠ message_t.MSG_BATON.toInt) :
    1 ≤ baton_frames l := by
  by_contra hc
  exact h (baton_frames_eq_zero l (by omega))

theorem shape_for_idle_radio (b : Board F) (h : Shape b) : ShapeFor false b := by
  unfold ShapeFor
  rw [if_neg (by decide)]
  exact h

theorem shape_for_busy_radio (b : Board F) (h : Awaiting b) : ShapeFor true b := by
  unfold ShapeFor
  rw [if_pos rfl]
  exact h

theorem shape_of_idle_radio (b : Board F) (h : ShapeFor false b) : Shape b := by
  unfold ShapeFor at h
  rw [if_neg (by decide)] at h
  exact h

theorem awaiting_of_busy_radio (b : Board F) (h : ShapeFor true b) : Awaiting b := by
  unfold ShapeFor at h
  rw [if_pos rfl] at h
  exact h

/-- A tick that hands no frame to the radio and does not read the radio. -/
theorem tick_outcome_silent (fl : FloatOps F) (cd : FloatCodec F) (cfg : Config F)
    (q : List (List Int)) (busy : Bool) (b E : Board F)
    (hE : app_process_action fl cd cfg q b = E)
    (hst : (handle_app_events fl cfg b).state ≠ state_t.S_PACKET_RECEIVED.toInt)
    (hfr : frames_sent E.trace = frames_sent b.trace)
    (hshape : ShapeFor busy E) (hsteady : Steady E) (htok : token_count E ≤ token_count b) :
    TickOutcome b (app_process_action fl cd cfg q b)
      (frames_emitted b.trace (app_process_action fl cd cfg q b).trace)
      (if (handle_app_events fl cfg b).state = state_t.S_PACKET_RECEIVED.toInt
        then baton_frames q else 0)
      (busy || !(frames_emitted b.trace (app_process_action fl cd cfg q b).trace).isEmpty) := by
  have ho : frames_emitted b.trace (app_process_action fl cd cfg q b).trace = [] := by
    rw [hE]
    exact frames_emitted_of_eq _ _ hfr
  rw [ho, if_neg hst, hE]
  have eb : (busy || !([] : List (List Int)).isEmpty) = busy := by
    cases busy <;> rfl
  rw [eb]
  exact {
    shape := hshape
    steady := hsteady
    clean := fun _ h => absurd h (List.not_mem_nil _)
    tokens := by rw [baton_frames_nil]; omega }

/-- A tick that reads the radio; it hands no frame to the radio. -/
theorem tick_outcome_received (fl : FloatOps F) (cd : FloatCodec F) (cfg : Config F)
    (q : List (List Int)) (b E : Board F)
    (hE : app_process_action fl cd cfg q b = E)
    (hst : (handle_app_events fl cfg b).state = state_t.S_PACKET_RECEIVED.toInt)
    (hfr : frames_sent E.trace = frames_sent b.trace)
    (hshape : Shape E) (hsteady : Steady E)
    (htok : token_count E ≤ token_count b + baton_frames q) :
    TickOutcome b (app_process_action fl cd cfg q b)
      (frames_emitted b.trace (app_process_action fl cd cfg q b).trace)
      (if (handle_app_events fl cfg b).state = state_t.S_PACKET_RECEIVED.toInt
        then baton_frames q else 0)
      (false || !(frames_emitted b.trace (app_process_action fl cd cfg q b).trace).isEmpty) := by
  have ho : frames_emitted b.trace (app_process_action fl cd cfg q b).trace = [] := by
    rw [hE]
    exact frames_emitted_of_eq _ _ hfr
  rw [ho, if_pos hst, hE]
  have eb : (false || !([] : List (List Int)).isEmpty) = false := rfl
  rw [eb]
  exact {
    shape := shape_for_idle_radio E hshape
    steady := hsteady
    clean := fun _ h => absurd h (List.not_mem_nil _)
    tokens := by rw [baton_frames_nil]; omega }

/-- A tick that hands the frame `frame` to the radio, which transmits from
then on. -/
theorem tick_outcome_send (fl : FloatOps F) (cd : FloatCodec F) (cfg : Config F)
    (q : List (List Int)) (b E : Board F) (frame : List Int)
    (hE : app_process_action fl cd cfg q b = E)
    (hst : (handle_app_events fl cfg b).state ≠ state_t.S_PACKET_RECEIVED.toInt)
    (hfr : frames_sent E.trace = frames_sent b.trace ++ [frame])
    (hshape : Awaiting E) (hsteady : Steady E)
    (hclean : frame.getD MSGIDX_TYPE 0 ≠ message_t.MSG_RESTART.toInt)
    (htok : token_count E + baton_frames [frame] ≤ token_count b) :
    TickOutcome b (app_process_action fl cd cfg q b)
      (frames_emitted b.trace (app_process_action fl cd cfg q b).trace)
      (if (handle_app_events fl cfg b).state = state_t.S_PACKET_RECEIVED.toInt
        then baton_frames q else 0)
      (false || !(frames_emitted b.trace (app_process_action fl cd cfg q b).trace).isEmpty) := by
  have ho : frames_emitted b.trace (app_process_action fl cd cfg q b).trace = [frame] := by
    rw [hE]
    exact frames_emitted_of_append _ _ _ hfr
  rw [ho, if_neg hst, hE]
  have eb : (false || !([frame] : List (List Int)).isEmpty) = true := rfl
  rw [eb]
  exact {
    shape := shape_for_busy_radio E hshape
    steady := hsteady
    clean := fun f h => by
      rw [List.mem_singleton] at h
      rw [h]
      exact hclean
    tokens := by omega }

theorem Shape.top_bounds (b : Board F) (h : Shape b) : -1 ≤ b.stk.top ∧ b.stk.top ≤ 1 := by
  cases h with
  | idle hs ht hp => rw [ht]; omega
  | waiting hc ht hp hw => rw [ht]; omega
  | init hs ht hp => rw [ht]; omega
  | transmitting c hc hs ht he hp hb ha hw ho => rw [ht]; omega
  | sending c hc hs ht he hp hb ha hw ho => rw [ht]; omega
  | released c hc hs ht he hp => rw [ht]; omega

/-- The tick that handles the frames held by the radio (rule 1). -/
theorem tick_received (fl : FloatOps F) (cd : FloatCodec F) (cfg : Config F)
    (q : List (List Int)) (b : Board F)
    (hS : Shape b) (hT : Steady b)
    (hq0 : ∀ frame, frame ∈ q → frame.getD MSGIDX_TYPE 0 ≠ message_t.MSG_RESTART.toInt)
    (hq3 : b.baton = true →
      ∀ frame, frame ∈ q → frame.getD MSGIDX_TYPE 0 ≠ message_t.MSG_BATON.toInt)
    (h1 : b.packet_received = true) :
    TickOutcome b (app_process_action fl cd cfg q b)
      (frames_emitted b.trace (app_process_action fl cd cfg q b).trace)
      (if (handle_app_events fl cfg b).state = state_t.S_PACKET_RECEIVED.toInt
        then baton_frames q else 0)
      (false || !(frames_emitted b.trace (app_process_action fl cd cfg q b).trace).isEmpty) := by
  have hb := Shape.top_bounds b hS
  have hstack := Stack.push_free_slot b.stk b.state hT.storage hb.1 (by omega)
  have R := handle_received_packet_effect cfg cd q
    ({ ({ b with packet_received := false } : Board F).push b.state with
        state := state_t.S_PACKET_RECEIVED.toInt }) hq0
  have hE : app_process_action fl cd cfg q b
      = (handle_received_packet cfg cd q
          ({ ({ b with packet_received := false } : Board F).push b.state with
              state := state_t.S_PACKET_RECEIVED.toInt })).pop_state := by
    unfold app_process_action
    rw [handle_app_events_packet_received fl cfg b h1,
      execute_app_state_packet_received fl cd cfg q
        ({ ({ b with packet_received := false } : Board F).push b.state with
            state := state_t.S_PACKET_RECEIVED.toInt }) rfl]
  have hst : (handle_app_events fl cfg b).state = state_t.S_PACKET_RECEIVED.toInt := by
    rw [handle_app_events_packet_received fl cfg b h1]
  generalize handle_received_packet cfg cd q
      ({ ({ b with packet_received := false } : Board F).push b.state with
          state := state_t.S_PACKET_RECEIVED.toInt }) = h at R hE
  have hstk : h.stk = b.stk.push b.state := R.stk
  have e_state : h.pop_state.state = b.state := by
    show h.stk.pop.1 = b.state
    rw [hstk]
    exact hstack.2.2.2.1
  have e_top : h.pop_state.stk.top = b.stk.top := by
    show h.stk.pop.2.top = b.stk.top
    rw [hstk]
    exact hstack.2.2.2.2.2.1
  have e_entries : h.pop_state.stk.entries = b.stk.entries := by
    show h.stk.pop.2.entries = b.stk.entries
    rw [hstk]
    exact hstack.2.2.2.2.1
  have e_storage : h.pop_state.stk.stack.length = 20 := by
    show h.stk.pop.2.stack.length = 20
    rw [hstk]
    exact hstack.2.2.2.2.2.2
  have e_ps : h.pop_state.packet_sent = b.packet_sent := R.packet_sent
  have e_task : h.pop_state.current_task = b.current_task := R.task
  have e_avg : b.current_task = task_t.T_CONSENSUS →
      h.pop_state.average_command = b.average_command := R.command_kept
  have e_op : h.pop_state.tx_operation_to_achieve = b.tx_operation_to_achieve := R.operation
  have e_bpc : h.pop_state.batons_per_cycle = b.batons_per_cycle := R.per_cycle
  have e_tok : b.baton = true → h.pop_state.baton = true := R.token_kept
  have e_un : (∀ frame, frame ∈ q → frame.getD MSGIDX_TYPE 0 ≠ message_t.MSG_BATON.toInt) →
      h.pop_state.baton = b.baton ∧ h.pop_state.baton_cntr = b.baton_cntr := R.untouched
  have e_work : working b → working h.pop_state := by
    intro hw
    exact ⟨e_task.trans hw.1, (e_avg hw.1).trans hw.2⟩
  have e_act : b.baton = true → acting b → acting h.pop_state := by
    intro hbt ha
    unfold acting
    rw [(e_un (hq3 hbt)).2, e_bpc]
    exact ha
  refine tick_outcome_received fl cd cfg q b _ hE hst ?_ ?_ ?_ ?_
  · exact R.frames
  · cases hS with
    | idle hs ht hp =>
      exact Shape.idle (e_state.trans hs) (e_top.trans ht) (e_ps.trans hp)
    | waiting hc ht hp hw =>
      exact Shape.waiting (by rw [e_state]; exact hc) (e_top.trans ht) (e_ps.trans hp)
        (e_work hw)
    | init hs ht hp =>
      exact Shape.init (e_state.trans hs) (e_top.trans ht) (e_ps.trans hp)
    | transmitting c hc hs ht he hp hbt ha hw ho =>
      exact Shape.transmitting c hc (e_state.trans hs) (e_top.trans ht) (e_entries.trans he)
        (e_ps.trans hp) (e_tok hbt) (e_act hbt ha) (e_work hw) (by rw [e_op]; exact ho)
    | sending c hc hs ht he hp hbt ha hw ho =>
      exact Shape.sending c hc (e_state.trans hs) (e_top.trans ht) (e_entries.trans he)
        (e_ps.trans hp) (e_tok hbt) (e_act hbt ha) (e_work hw) (by rw [e_op]; exact ho)
    | released c hc hs ht he hp =>
      refine Shape.released c ?_ (e_state.trans hs) (e_top.trans ht) (e_entries.trans he)
        (e_ps.trans hp)
      rcases hc with hc | hc | hc
      · exact Or.inl hc
      · exact Or.inr (Or.inl hc)
      · exact Or.inr (Or.inr ⟨hc.1, e_work hc.2⟩)
  · exact {
      no_restart := R.restart_command.trans hT.no_restart
      no_rx_error := R.rx_error.trans hT.no_rx_error
      no_tx_error := R.tx_error.trans hT.no_tx_error
      no_cal_error := R.cal_error.trans hT.no_cal_error
      storage := e_storage
      frame_size := by
        show h.tx_packet.length = TX_PAYLOAD_LENGTH
        rw [R.frame]
        exact hT.frame_size }
  · by_cases hnb : ∀ frame, frame ∈ q → frame.getD MSGIDX_TYPE 0 ≠ message_t.MSG_BATON.toInt
    · rw [token_count_congr b h.pop_state (e_un hnb).1]
      omega
    · have := baton_frames_pos q hnb
      have := token_count_le_one h.pop_state
      omega

/-- The state `S_PACKET_TX` executed for the operation `O_GIVE_BATON`. -/
theorem execute_packet_tx_give_baton (fl : FloatOps F) (cd : FloatCodec F) (cfg : Config F)
    (q : List (List Int)) (a : Board F)
    (hst : a.state = state_t.S_PACKET_TX.toInt)
    (hop : a.tx_operation_to_achieve = tx_operation_t.O_GIVE_BATON) :
    execute_app_state fl cd cfg q a
      = { a with
          tx_packet := frame_built cfg cd tx_operation_t.O_GIVE_BATON a,
          baton := false,
          boards_completed_their_task := 0,
          state := state_t.S_IDLE.toInt,
          tmr0_running := if a.starting_board = (cfg.BOARD_ID : Int) then true
            else a.tmr0_running,
          trace := if a.starting_board = (cfg.BOARD_ID : Int) then
              (a.trace ++ [Action.send_packet (frame_built cfg cd tx_operation_t.O_GIVE_BATON a)
                ((frame_built cfg cd tx_operation_t.O_GIVE_BATON a).getD MSGIDX_DST_BOARD 0)])
                ++ [Action.set_timer (cfg.RESTART_TIMEOUT_MILISECS * 1000)]
            else
              a.trace ++ [Action.send_packet (frame_built cfg cd tx_operation_t.O_GIVE_BATON a)
                ((frame_built cfg cd tx_operation_t.O_GIVE_BATON a).getD MSGIDX_DST_BOARD 0)] } := by
  have hs : state_t.ofInt a.state = some state_t.S_PACKET_TX := by
    rw [hst]
    rfl
  have hf : (packet_transmission cfg cd tx_operation_t.O_GIVE_BATON a).1 = true :=
    (packet_transmission_flag_iff cfg cd tx_operation_t.O_GIVE_BATON a).2 (Or.inl rfl)
  have hop2 : (packet_transmission cfg cd tx_operation_t.O_GIVE_BATON a).2.tx_operation_to_achieve
      = tx_operation_t.O_GIVE_BATON := by
    rw [packet_transmission_operation]
    exact hop
  rw [execute_app_state_packet_tx fl cd cfg q a hs, hop, hf,
    after_transmission_give_baton cfg _ hop2, packet_transmission_snd, hf, if_pos rfl]
  by_cases hsb : a.starting_board = (cfg.BOARD_ID : Int)
  · simp only [hsb, if_true, hop]
  · simp only [hsb, if_false, hop]

/-- The state `S_PACKET_TX` executed for a broadcast whose candidate address
is a neighbour. -/
theorem execute_packet_tx_broadcast_sent (fl : FloatOps F) (cd : FloatCodec F) (cfg : Config F)
    (q : List (List Int)) (a : Board F)
    (hst : a.state = state_t.S_PACKET_TX.toInt)
    (hop : a.tx_operation_to_achieve ≠ tx_operation_t.O_GIVE_BATON)
    (hf : (packet_transmission cfg cd a.tx_operation_to_achieve a).1 = true) :
    execute_app_state fl cd cfg q a
      = { a with
          tx_packet := frame_built cfg cd a.tx_operation_to_achieve a,
          trace := a.trace ++ [Action.send_packet (frame_built cfg cd a.tx_operation_to_achieve a)
            ((frame_built cfg cd a.tx_operation_to_achieve a).getD MSGIDX_DST_BOARD 0)],
          num_of_pending_msgs_for_tx := a.num_of_pending_msgs_for_tx - 1,
          stk := a.stk.push state_t.S_PACKET_TX.toInt,
          tx_operation_to_achieve :=
            if a.num_of_pending_msgs_for_tx - 1 = 0 then tx_operation_t.O_GIVE_BATON
            else a.tx_operation_to_achieve,
          state := state_t.S_IDLE.toInt } := by
  have hs : state_t.ofInt a.state = some state_t.S_PACKET_TX := by
    rw [hst]
    rfl
  have hop2 : (packet_transmission cfg cd a.tx_operation_to_achieve a).2.tx_operation_to_achieve
      ≠ tx_operation_t.O_GIVE_BATON := by
    rw [packet_transmission_operation]
    exact hop
  rw [execute_app_state_packet_tx fl cd cfg q a hs, hf,
    after_transmission_broadcast_sent cfg _ hop2, packet_transmission_snd, hf, if_pos rfl]

/-- The state `S_PACKET_TX` executed for a broadcast whose candidate address
is not a neighbour. -/
theorem execute_packet_tx_broadcast_not_sent (fl : FloatOps F) (cd : FloatCodec F)
    (cfg : Config F) (q : List (List Int)) (a : Board F)
    (hst : a.state = state_t.S_PACKET_TX.toInt)
    (hop : a.tx_operation_to_achieve ≠ tx_operation_t.O_GIVE_BATON)
    (hf : (packet_transmission cfg cd a.tx_operation_to_achieve a).1 = false) :
    execute_app_state fl cd cfg q a
      = { a with
          tx_packet := frame_built cfg cd a.tx_operation_to_achieve a,
          num_of_pending_msgs_for_tx := a.num_of_pending_msgs_for_tx - 1,
          stk := (a.stk.push state_t.S_PACKET_TX.toInt).pop.2,
          tx_operation_to_achieve :=
            if a.num_of_pending_msgs_for_tx - 1 = 0 then tx_operation_t.O_GIVE_BATON
            else a.tx_operation_to_achieve,
          state := (a.stk.push state_t.S_PACKET_TX.toInt).pop.1 } := by
  have hs : state_t.ofInt a.state = some state_t.S_PACKET_TX := by
    rw [hst]
    rfl
  have hop2 : (packet_transmission cfg cd a.tx_operation_to_achieve a).2.tx_operation_to_achieve
      ≠ tx_operation_t.O_GIVE_BATON := by
    rw [packet_transmission_operation]
    exact hop
  rw [execute_app_state_packet_tx fl cd cfg q a hs, hf,
    after_transmission_broadcast_not_sent cfg _ hop2, packet_transmission_snd, hf,
    if_neg (by decide)]

theorem frame_built_not_restart (cfg : Config F) (cd : FloatCodec F) (oper : tx_operation_t)
    (a : Board F) (hlen : a.tx_packet.length = TX_PAYLOAD_LENGTH)
    (h : oper ≠ tx_operation_t.O_GLB_RESTART) :
    (frame_built cfg cd oper a).getD MSGIDX_TYPE 0 ≠ message_t.MSG_RESTART.toInt := by
  rw [frame_built_type cfg cd oper a hlen]
  cases oper
  · exact absurd rfl h
  all_goals decide

theorem frame_built_not_baton (cfg : Config F) (cd : FloatCodec F) (oper : tx_operation_t)
    (a : Board F) (hlen : a.tx_packet.length = TX_PAYLOAD_LENGTH)
    (h : oper ≠ tx_operation_t.O_GIVE_BATON) :
    (frame_built cfg cd oper a).getD MSGIDX_TYPE 0 ≠ message_t.MSG_BATON.toInt := by
  rw [frame_built_type cfg cd oper a hlen]
  cases oper
  case O_GIVE_BATON => exact absurd rfl h
  all_goals decide

/-- A tick whose intake leaves the board `a` in the state `S_PACKET_TX` with
the token and the stack `[c]`: the token is released with a Baton frame, or a
frame of the broadcast is sent, or the candidate address is skipped. -/
theorem transmit_outcome (fl : FloatOps F) (cd : FloatCodec F) (cfg : Config F)
    (q : List (List Int)) (b a : Board F) (c : Int)
    (ha : handle_app_events fl cfg b = a)
    (hst : a.state = state_t.S_PACKET_TX.toInt)
    (htop : a.stk.top = 0) (hent : a.stk.entries = [c])
    (hps : a.packet_sent = false) (hpr : a.packet_received = false)
    (hfr : frames_sent a.trace = frames_sent b.trace)
    (hT : Steady a)
    (hno : a.tx_operation_to_achieve ≠ tx_operation_t.O_GLB_RESTART)
    (hbat : a.baton = true) (hb : b.baton = true)
    (hgive : a.tx_operation_to_achieve = tx_operation_t.O_GIVE_BATON →
      c = state_t.S_IDLE.toInt ∨ c = state_t.S_INIT_AND_SLEEP.toInt
        ∨ (is_task_state c ∧ working a))
    (hbroad : a.tx_operation_to_achieve ≠ tx_operation_t.O_GIVE_BATON →
      is_task_state c ∧ acting a ∧ working a ∧ ¬ sleep_rule_applies a) :
    TickOutcome b (app_process_action fl cd cfg q b)
      (frames_emitted b.trace (app_process_action fl cd cfg q b).trace)
      (if (handle_app_events fl cfg b).state = state_t.S_PACKET_RECEIVED.toInt
        then baton_frames q else 0)
      (false || !(frames_emitted b.trace (app_process_action fl cd cfg q b).trace).isEmpty) := by
  have hE : app_process_action fl cd cfg q b = execute_app_state fl cd cfg q a := by
    unfold app_process_action
    rw [ha]
  have hne : (handle_app_events fl cfg b).state ≠ state_t.S_PACKET_RECEIVED.toInt := by
    rw [ha, hst]
    decide
  have hstack := Stack.push_free_slot a.stk state_t.S_PACKET_TX.toInt hT.storage
    (by rw [htop]; omega) (by rw [htop]; omega)
  by_cases hop : a.tx_operation_to_achieve = tx_operation_t.O_GIVE_BATON
  · rw [execute_packet_tx_give_baton fl cd cfg q a hst hop] at hE
    refine tick_outcome_send fl cd cfg q b _
      (frame_built cfg cd tx_operation_t.O_GIVE_BATON a) hE hne ?_ ?_ ?_ ?_ ?_
    · show frames_sent (if a.starting_board = (cfg.BOARD_ID : Int) then _ else _) = _
      split_ifs
      · rw [frames_sent_append_set_timer, frames_sent_append_send, hfr]
      · rw [frames_sent_append_send, hfr]
    · refine Awaiting.release c ?_ rfl htop hent hps hpr rfl
      rcases hgive hop with h | h | h
      · exact Or.inl h
      · exact Or.inr (Or.inl h)
      · exact Or.inr (Or.inr ⟨h.1, h.2.1, h.2.2⟩)
    · exact {
        no_restart := hT.no_restart
        no_rx_error := hT.no_rx_error
        no_tx_error := hT.no_tx_error
        no_cal_error := hT.no_cal_error
        storage := hT.storage
        frame_size := by
          show (frame_built cfg cd tx_operation_t.O_GIVE_BATON a).length = TX_PAYLOAD_LENGTH
          rw [frame_built_length]
          exact hT.frame_size }
    · exact frame_built_not_restart cfg cd _ a hT.frame_size (by decide)
    · rw [token_count_of_baton b hb, token_count_of_not_baton _ rfl, baton_frames_single]
      split_ifs <;> omega
  · obtain ⟨hc, hact, hw, hns⟩ := hbroad hop
    cases hf : (packet_transmission cfg cd a.tx_operation_to_achieve a).1
    · rw [execute_packet_tx_broadcast_not_sent fl cd cfg q a hst hop hf] at hE
      refine tick_outcome_silent fl cd cfg q false b _ hE hne hfr ?_ ?_ ?_
      · refine shape_for_idle_radio _
          (Shape.transmitting c hc hstack.2.2.2.1 ?_ ?_ hps hbat hact ⟨hw.1, hw.2⟩ ?_)
        · exact hstack.2.2.2.2.2.1.trans htop
        · exact hstack.2.2.2.2.1.trans hent
        · show (if a.num_of_pending_msgs_for_tx - 1 = 0 then tx_operation_t.O_GIVE_BATON
            else a.tx_operation_to_achieve) ≠ tx_operation_t.O_GLB_RESTART
          split_ifs
          · decide
          · exact hno
      · exact {
          no_restart := hT.no_restart
          no_rx_error := hT.no_rx_error
          no_tx_error := hT.no_tx_error
          no_cal_error := hT.no_cal_error
          storage := hstack.2.2.2.2.2.2
          frame_size := by
            show (frame_built cfg cd a.tx_operation_to_achieve a).length = TX_PAYLOAD_LENGTH
            rw [frame_built_length]
            exact hT.frame_size }
      · rw [token_count_of_baton b hb]
        exact token_count_le_one _
    · rw [execute_packet_tx_broadcast_sent fl cd cfg q a hst hop hf] at hE
      refine tick_outcome_send fl cd cfg q b _
        (frame_built cfg cd a.tx_operation_to_achieve a) hE hne ?_ ?_ ?_ ?_ ?_
      · show frames_sent (a.trace ++ _) = _
        rw [frames_sent_append_send, hfr]
      · refine Awaiting.broadcast c hc rfl ?_ ?_ hps hpr hbat hact ⟨hw.1, hw.2⟩ ?_
          (fun h => hns ⟨h.1, h.2.1, h.2.2⟩)
        · show (a.stk.push state_t.S_PACKET_TX.toInt).top = 1
          rw [hstack.2.1, htop]
          rfl
        · show (a.stk.push state_t.S_PACKET_TX.toInt).entries = _
          rw [hstack.2.2.1, hent]
          rfl
        · show (if a.num_of_pending_msgs_for_tx - 1 = 0 then tx_operation_t.O_GIVE_BATON
            else a.tx_operation_to_achieve) ≠ tx_operation_t.O_GLB_RESTART
          split_ifs
          · decide
          · exact hno
      · exact {
          no_restart := hT.no_restart
          no_rx_error := hT.no_rx_error
          no_tx_error := hT.no_tx_error
          no_cal_error := hT.no_cal_error
          storage := hstack.1
          frame_size := by
            show (frame_built cfg cd a.tx_operation_to_achieve a).length = TX_PAYLOAD_LENGTH
            rw [frame_built_length]
            exact hT.frame_size }
      · exact frame_built_not_restart cfg cd _ a hT.frame_size hno
      · rw [token_count_of_baton b hb, baton_frames_single,
          if_neg (frame_built_not_baton cfg cd _ a hT.frame_size hop)]
        have := token_count_le_one
          ({ a with
            tx_packet := frame_built cfg cd a.tx_operation_to_achieve a,
            trace := a.trace ++ [Action.send_packet
              (frame_built cfg cd a.tx_operation_to_achieve a)
              ((frame_built cfg cd a.tx_operation_to_achieve a).getD MSGIDX_DST_BOARD 0)],
            num_of_pending_msgs_for_tx := a.num_of_pending_msgs_for_tx - 1,
            stk := a.stk.push state_t.S_PACKET_TX.toInt,
            tx_operation_to_achieve :=
              if a.num_of_pending_msgs_for_tx - 1 = 0 then tx_operation_t.O_GIVE_BATON
              else a.tx_operation_to_achieve,
            state := state_t.S_IDLE.toInt } : Board F)
        omega

theorem Stack.entries_of_empty (s : Stack) (h : s.top = -1) : s.entries = [] := by
  unfold Stack.entries
  rw [h]
  rfl

/-- The tick that consumes the send-complete signal (rule 2). -/
theorem tick_sent (fl : FloatOps F) (cd : FloatCodec F) (cfg : Config F)
    (q : List (List Int)) (b : Board F)
    (hS : Shape b) (hT : Steady b)
    (h1 : b.packet_received = false) (h2 : b.packet_sent = true) :
    TickOutcome b (app_process_action fl cd cfg q b)
      (frames_emitted b.trace (app_process_action fl cd cfg q b).trace)
      (if (handle_app_events fl cfg b).state = state_t.S_PACKET_RECEIVED.toInt
        then baton_frames q else 0)
      (false || !(frames_emitted b.trace (app_process_action fl cd cfg q b).trace).isEmpty) := by
  have hE : app_process_action fl cd cfg q b
      = { b with
          packet_sent := false,
          trace := b.trace ++ [Action.start_receiving cfg.BOARD_ID],
          state := b.stk.pop.1,
          stk := b.stk.pop.2 } := by
    unfold app_process_action
    rw [handle_app_events_packet_sent fl cfg b h1 h2,
      execute_app_state_packet_sent fl cd cfg q
        { b with packet_sent := false, state := state_t.S_PACKET_SENT.toInt } rfl]
    rfl
  have hne : (handle_app_events fl cfg b).state ≠ state_t.S_PACKET_RECEIVED.toInt := by
    rw [handle_app_events_packet_sent fl cfg b h1 h2]
    show state_t.S_PACKET_SENT.toInt ≠ state_t.S_PACKET_RECEIVED.toInt
    decide
  have hsteady : ∀ (n : Nat), b.stk.pop.2.stack = b.stk.stack →
      Steady ({ b with
          packet_sent := false,
          trace := b.trace ++ [Action.start_receiving cfg.BOARD_ID],
          state := b.stk.pop.1,
          stk := b.stk.pop.2 } : Board F) := by
    intro _ hk
    exact {
      no_restart := hT.no_restart
      no_rx_error := hT.no_rx_error
      no_tx_error := hT.no_tx_error
      no_cal_error := hT.no_cal_error
      storage := by
        show b.stk.pop.2.stack.length = 20
        rw [hk]
        exact hT.storage
      frame_size := hT.frame_size }
  refine tick_outcome_silent fl cd cfg q false b _ hE hne
    (frames_sent_append_start_receiving _ _) ?_ ?_ (le_of_eq rfl)
  · apply shape_for_idle_radio
    cases hS with
    | idle hs ht hp => rw [hp] at h2; exact absurd h2 (by decide)
    | waiting hc ht hp hw => rw [hp] at h2; exact absurd h2 (by decide)
    | init hs ht hp => rw [hp] at h2; exact absurd h2 (by decide)
    | transmitting c hc hs ht he hp hbt ha hw ho => rw [hp] at h2; exact absurd h2 (by decide)
    | sending c hc hs ht he hp hbt ha hw ho =>
      have hpop := Stack.pop_of_entries b.stk [c] state_t.S_PACKET_TX.toInt
        (by rw [ht]; rfl) (by rw [he]; rfl)
      exact Shape.transmitting c hc hpop.1 hpop.2.2.1 hpop.2.1 rfl hbt ha ⟨hw.1, hw.2⟩ ho
    | released c hc hs ht he hp =>
      have hpop := Stack.pop_of_entries b.stk [] c (by rw [ht]; rfl) (by rw [he]; rfl)
      rcases hc with hc | hc | hc
      · exact Shape.idle (hpop.1.trans hc) hpop.2.2.1 rfl
      · exact Shape.init (hpop.1.trans hc) hpop.2.2.1 rfl
      · exact Shape.waiting (by show is_task_state b.stk.pop.1; rw [hpop.1]; exact hc.1)
          hpop.2.2.1 rfl ⟨hc.2.1, hc.2.2⟩
  · cases hS with
    | idle hs ht hp => rw [hp] at h2; exact absurd h2 (by decide)
    | waiting hc ht hp hw => rw [hp] at h2; exact absurd h2 (by decide)
    | init hs ht hp => rw [hp] at h2; exact absurd h2 (by decide)
    | transmitting c hc hs ht he hp hbt ha hw ho => rw [hp] at h2; exact absurd h2 (by decide)
    | sending c hc hs ht he hp hbt ha hw ho =>
      exact hsteady 0 (Stack.pop_of_entries b.stk [c] state_t.S_PACKET_TX.toInt
        (by rw [ht]; rfl) (by rw [he]; rfl)).2.2.2
    | released c hc hs ht he hp =>
      exact hsteady 0
        (Stack.pop_of_entries b.stk [] c (by rw [ht]; rfl) (by rw [he]; rfl)).2.2.2

/-- The tick in which the sleep rule (rule 6) fires. -/
theorem tick_sleep_rule (fl : FloatOps F) (cd : FloatCodec F) (cfg : Config F)
    (q : List (List Int)) (b : Board F)
    (hT : Steady b) (hs : no_transport_signal b) (h6 : sleep_rule_applies b) :
    TickOutcome b (app_process_action fl cd cfg q b)
      (frames_emitted b.trace (app_process_action fl cd cfg q b).trace)
      (if (handle_app_events fl cfg b).state = state_t.S_PACKET_RECEIVED.toInt
        then baton_frames q else 0)
      (false || !(frames_emitted b.trace (app_process_action fl cd cfg q b).trace).isEmpty) := by
  have hstack := Stack.push_free_slot b.stk.clear state_t.S_INIT_AND_SLEEP.toInt hT.storage
    (le_of_eq rfl) (by show (-1 : Int) + 1 < 20; decide)
  refine transmit_outcome fl cd cfg q b _ state_t.S_INIT_AND_SLEEP.toInt
    (handle_app_events_sleep fl cfg b hs h6) rfl hstack.2.1
    (Stack.entries_clear_push b.stk _ hT.storage) hs.2.1 hs.1 rfl ?hT ?hno h6.1 h6.1
    (fun _ => Or.inr (Or.inl rfl)) (fun h => absurd rfl h)
  case hno =>
    show tx_operation_t.O_GIVE_BATON ≠ tx_operation_t.O_GLB_RESTART
    decide
  exact {
    no_restart := hT.no_restart
    no_rx_error := hT.no_rx_error
    no_tx_error := hT.no_tx_error
    no_cal_error := hT.no_cal_error
    storage := hstack.1
    frame_size := hT.frame_size }

/-- The tick in which the bypass rule (rule 8) fires on a board with an empty
stack. -/
theorem tick_bypass_rule (fl : FloatOps F) (cd : FloatCodec F) (cfg : Config F)
    (q : List (List Int)) (b : Board F)
    (hT : Steady b) (hs : no_transport_signal b) (h6 : ¬ sleep_rule_applies b)
    (h7 : ¬ restart_rule_applies b) (h8 : bypass_rule_applies b)
    (ht : b.stk.top = -1)
    (hc : b.state = state_t.S_IDLE.toInt ∨ b.state = state_t.S_INIT_AND_SLEEP.toInt
        ∨ (is_task_state b.state ∧ working b)) :
    TickOutcome b (app_process_action fl cd cfg q b)
      (frames_emitted b.trace (app_process_action fl cd cfg q b).trace)
      (if (handle_app_events fl cfg b).state = state_t.S_PACKET_RECEIVED.toInt
        then baton_frames q else 0)
      (false || !(frames_emitted b.trace (app_process_action fl cd cfg q b).trace).isEmpty) := by
  have hstack := Stack.push_free_slot b.stk b.state hT.storage
    (by rw [ht]) (by rw [ht]; decide)
  refine transmit_outcome fl cd cfg q b _ b.state
    (handle_app_events_bypass fl cfg b hs h6 h7 h8) rfl ?htop ?hent hs.2.1 hs.1 rfl ?hT ?hno
    h8.1 h8.1 ?hgive (fun h => absurd rfl h)
  case hno =>
    show tx_operation_t.O_GIVE_BATON ≠ tx_operation_t.O_GLB_RESTART
    decide
  case htop =>
    show (b.stk.push b.state).top = 0
    rw [hstack.2.1, ht]
    rfl
  case hent =>
    show (b.stk.push b.state).entries = [b.state]
    rw [hstack.2.2.1, Stack.entries_of_empty b.stk ht]
    rfl
  case hT =>
    exact {
      no_restart := hT.no_restart
      no_rx_error := hT.no_rx_error
      no_tx_error := hT.no_tx_error
      no_cal_error := hT.no_cal_error
      storage := hstack.1
      frame_size := hT.frame_size }
  case hgive =>
    intro _
    rcases hc with h | h | h
    · exact Or.inl h
    · exact Or.inr (Or.inl h)
    · exact Or.inr (Or.inr ⟨h.1, h.2.1, h.2.2⟩)

/-- The tick in which the averaging command is taken up (rule 9) on a board
with an empty stack. -/
theorem tick_average_rule (fl : FloatOps F) (cd : FloatCodec F) (cfg : Config F)
    (q : List (List Int)) (b : Board F)
    (hT : Steady b) (hs : no_transport_signal b) (h6 : ¬ sleep_rule_applies b)
    (h7 : ¬ restart_rule_applies b) (h8 : ¬ bypass_rule_applies b)
    (h9 : average_rule_applies b) (ht : b.stk.top = -1) :
    TickOutcome b (app_process_action fl cd cfg q b)
      (frames_emitted b.trace (app_process_action fl cd cfg q b).trace)
      (if (handle_app_events fl cfg b).state = state_t.S_PACKET_RECEIVED.toInt
        then baton_frames q else 0)
      (false || !(frames_emitted b.trace (app_process_action fl cd cfg q b).trace).isEmpty) := by
  have hstack := Stack.push_free_slot b.stk state_t.S_START_AVG_CONSENSUS.toInt hT.storage
    (by rw [ht]) (by rw [ht]; decide)
  have hact : acting b := by
    unfold acting
    by_contra hc
    exact h8 ⟨h9.2, hc⟩
  have hd : tx_operation_t.O_GLB_START_TASK ≠ tx_operation_t.O_GIVE_BATON := by decide
  refine transmit_outcome fl cd cfg q b _ state_t.S_START_AVG_CONSENSUS.toInt
    (handle_app_events_average fl cfg b hs h6 h7 h8 h9) rfl ?htop ?hent hs.2.1 hs.1 rfl ?hT ?hno
    h9.2 h9.2 (fun h => absurd h hd)
    (fun _ => ⟨Or.inl rfl, hact, ⟨rfl, rfl⟩, fun h => h6 ⟨h.1, h.2.1, h.2.2⟩⟩)
  case hno =>
    show tx_operation_t.O_GLB_START_TASK ≠ tx_operation_t.O_GLB_RESTART
    decide
  case htop =>
    show (b.stk.push state_t.S_START_AVG_CONSENSUS.toInt).top = 0
    rw [hstack.2.1, ht]
    rfl
  case hent =>
    show (b.stk.push state_t.S_START_AVG_CONSENSUS.toInt).entries = _
    rw [hstack.2.2.1, Stack.entries_of_empty b.stk ht]
    rfl
  case hT =>
    exact {
      no_restart := hT.no_restart
      no_rx_error := hT.no_rx_error
      no_tx_error := hT.no_tx_error
      no_cal_error := hT.no_cal_error
      storage := hstack.1
      frame_size := hT.frame_size }

theorem initialize_consensus_setup_effect (fl : FloatOps F) (cfg : Config F) (b : Board F) :
    RxEffect True b (initialize_consensus_setup fl cfg (measure_temperature fl cfg b)) := by
  unfold initialize_consensus_setup
  split_ifs
  · exact ⟨rfl, rfl, rfl, rfl, rfl, rfl, rfl, rfl, rfl, rfl, rfl, rfl, rfl, fun h => h,
      fun _ => rfl, fun _ => ⟨rfl, rfl⟩⟩
  · exact ⟨rfl, rfl, rfl, rfl, rfl, rfl, rfl, rfl, rfl, rfl, rfl, rfl, rfl, fun h => h,
      fun _ => rfl, fun _ => ⟨rfl, rfl⟩⟩

/-- A tick in which no signal is pending and none of the rules 6 to 9 fires:
the state reached is executed. -/
theorem tick_no_rule (fl : FloatOps F) (cd : FloatCodec F) (cfg : Config F)
    (q : List (List Int)) (b : Board F)
    (hS : Shape b) (hT : Steady b) (hs : no_transport_signal b) (h6 : ¬ sleep_rule_applies b)
    (h7 : ¬ restart_rule_applies b) (h8 : ¬ bypass_rule_applies b)
    (h9 : ¬ average_rule_applies b) :
    TickOutcome b (app_process_action fl cd cfg q b)
      (frames_emitted b.trace (app_process_action fl cd cfg q b).trace)
      (if (handle_app_events fl cfg b).state = state_t.S_PACKET_RECEIVED.toInt
        then baton_frames q else 0)
      (false || !(frames_emitted b.trace (app_process_action fl cd cfg q b).trace).isEmpty) := by
  have ha := handle_app_events_no_rule fl cfg b hs h6 h7 h8 h9
  have hE0 : app_process_action fl cd cfg q b = execute_app_state fl cd cfg q b := by
    unfold app_process_action
    rw [ha]
  have hact : b.baton = true → acting b := by
    intro hb
    unfold acting
    by_contra hc
    exact h8 ⟨hb, hc⟩
  cases hS with
  | idle hst ht hp =>
    have hne : (handle_app_events fl cfg b).state ≠ state_t.S_PACKET_RECEIVED.toInt := by
      rw [ha, hst]
      decide
    rw [execute_app_state_idle fl cd cfg q b (by rw [hst]; rfl)] at hE0
    exact tick_outcome_silent fl cd cfg q false b b hE0 hne rfl
      (shape_for_idle_radio b (Shape.idle hst ht hp)) hT
      (le_of_eq rfl)
  | waiting hc ht hp hw =>
    have hne : (handle_app_events fl cfg b).state ≠ state_t.S_PACKET_RECEIVED.toInt := by
      rw [ha]
      rcases hc with h | h | h <;> rw [h] <;> decide
    by_cases hb : b.baton = true
    · rcases hc with h | h | h
      · rw [execute_app_state_start_avg_consensus fl cd cfg q b (by rw [h]; rfl), if_pos hb]
          at hE0
        have R := initialize_consensus_setup_effect fl cfg b
        refine tick_outcome_silent fl cd cfg q false b _ hE0 hne R.frames ?_ ?_ ?_
        · exact shape_for_idle_radio _ (Shape.waiting (Or.inr (Or.inl rfl))
            (by rw [← ht]; exact congrArg Stack.top R.stk)
            (R.packet_sent.trans hp) ⟨R.task.trans hw.1, (R.command_kept hw.1).trans hw.2⟩)
        · exact {
            no_restart := R.restart_command.trans hT.no_restart
            no_rx_error := R.rx_error.trans hT.no_rx_error
            no_tx_error := R.tx_error.trans hT.no_tx_error
            no_cal_error := R.cal_error.trans hT.no_cal_error
            storage := by
              show (initialize_consensus_setup fl cfg
                (measure_temperature fl cfg b)).stk.stack.length = 20
              rw [R.stk]
              exact hT.storage
            frame_size := by
              show (initialize_consensus_setup fl cfg
                (measure_temperature fl cfg b)).tx_packet.length = TX_PAYLOAD_LENGTH
              rw [R.frame]
              exact hT.frame_size }
        · rw [token_count_of_baton b hb]
          exact token_count_le_one _
      · rw [execute_app_state_send_avg_consensus_msgs fl cd cfg q b (by rw [h]; rfl), if_pos hb]
          at hE0
        have hstack := Stack.push_free_slot b.stk state_t.S_UPDATE_AVG_CONSENSUS_STATE.toInt
          hT.storage (by rw [ht]) (by rw [ht]; decide)
        refine tick_outcome_silent fl cd cfg q false b _ hE0 hne rfl ?_ ?_ (le_of_eq rfl)
        · refine shape_for_idle_radio _
            (Shape.transmitting state_t.S_UPDATE_AVG_CONSENSUS_STATE.toInt
              (Or.inr (Or.inr rfl)) rfl ?_ ?_ hp hb (hact hb) ⟨hw.1, hw.2⟩ ?_)
          · show (b.stk.push state_t.S_UPDATE_AVG_CONSENSUS_STATE.toInt).top = 0
            rw [hstack.2.1, ht]
            rfl
          · show (b.stk.push state_t.S_UPDATE_AVG_CONSENSUS_STATE.toInt).entries = _
            rw [hstack.2.2.1, Stack.entries_of_empty b.stk ht]
            rfl
          · show tx_operation_t.O_GLB_SEND_STATE ≠ tx_operation_t.O_GLB_RESTART
            decide
        · exact {
            no_restart := hT.no_restart
            no_rx_error := hT.no_rx_error
            no_tx_error := hT.no_tx_error
            no_cal_error := hT.no_cal_error
            storage := hstack.1
            frame_size := hT.frame_size }
      · rw [update_state_step_eq fl cd cfg q b (by rw [h]; rfl) hb] at hE0
        have hstack := Stack.push_free_slot b.stk state_t.S_SEND_AVG_CONSENSUS_MSGS.toInt
          hT.storage (by rw [ht]) (by rw [ht]; decide)
        refine tick_outcome_silent fl cd cfg q false b _ hE0 hne rfl ?_ ?_ (le_of_eq rfl)
        · refine shape_for_idle_radio _
            (Shape.transmitting state_t.S_SEND_AVG_CONSENSUS_MSGS.toInt
              (Or.inr (Or.inl rfl)) rfl ?_ ?_ hp hb (hact hb) ⟨hw.1, hw.2⟩ ?_)
          · show (b.stk.push state_t.S_SEND_AVG_CONSENSUS_MSGS.toInt).top = 0
            rw [hstack.2.1, ht]
            rfl
          · show (b.stk.push state_t.S_SEND_AVG_CONSENSUS_MSGS.toInt).entries = _
            rw [hstack.2.2.1, Stack.entries_of_empty b.stk ht]
            rfl
          · show tx_operation_t.O_GIVE_BATON ≠ tx_operation_t.O_GLB_RESTART
            decide
        · exact {
            no_restart := hT.no_restart
            no_rx_error := hT.no_rx_error
            no_tx_error := hT.no_tx_error
            no_cal_error := hT.no_cal_error
            storage := hstack.1
            frame_size := hT.frame_size }
    · have hE : app_process_action fl cd cfg q b = b := by
        rw [hE0]
        rcases hc with h | h | h
        · rw [execute_app_state_start_avg_consensus fl cd cfg q b (by rw [h]; rfl), if_neg hb]
        · rw [execute_app_state_send_avg_consensus_msgs fl cd cfg q b (by rw [h]; rfl),
            if_neg hb]
        · rw [execute_app_state_update_avg_consensus_state fl cd cfg q b (by rw [h]; rfl),
            if_neg hb]
      exact tick_outcome_silent fl cd cfg q false b b hE hne rfl
        (shape_for_idle_radio b (Shape.waiting hc ht hp hw)) hT (le_of_eq rfl)
  | init hst ht hp =>
    have hne : (handle_app_events fl cfg b).state ≠ state_t.S_PACKET_RECEIVED.toInt := by
      rw [ha, hst]
      decide
    rw [execute_app_state_init_and_sleep fl cd cfg q b (by rw [hst]; rfl)] at hE0
    refine tick_outcome_silent fl cd cfg q false b _ hE0 hne ?_
      (shape_for_idle_radio _ (Shape.idle rfl rfl rfl)) ?_ ?_
    · show frames_sent ((b.trace ++ [Action.start_receiving cfg.BOARD_ID])
        ++ [Action.cancel_timer]) = _
      rw [frames_sent_append_cancel_timer, frames_sent_append_start_receiving]
    · exact {
        no_restart := rfl
        no_rx_error := rfl
        no_tx_error := rfl
        no_cal_error := rfl
        storage := hT.storage
        frame_size := hT.frame_size }
    · rw [token_count_of_not_baton _ rfl]
      exact Nat.zero_le _
  | transmitting c hc hst ht he hp hbt hac hw ho =>
    exact transmit_outcome fl cd cfg q b b c ha hst ht he hp hs.1 rfl hT ho hbt hbt
      (fun _ => Or.inr (Or.inr ⟨hc, hw⟩)) (fun _ => ⟨hc, hac, hw, h6⟩)
  | sending c hc hst ht he hp hbt hac hw ho =>
    rw [hs.2.1] at hp
    exact absurd hp (by decide)
  | released c hc hst ht he hp =>
    rw [hs.2.1] at hp
    exact absurd hp (by decide)

/-- A tick of a board whose radio is transmitting does nothing: no signal is
pending, no rule fires and the state is `S_IDLE`. -/
theorem tick_while_transmitting (fl : FloatOps F) (cd : FloatCodec F) (cfg : Config F)
    (q : List (List Int)) (b : Board F) (hA : Awaiting b) (hT : Steady b) :
    TickOutcome b (app_process_action fl cd cfg q b)
      (frames_emitted b.trace (app_process_action fl cd cfg q b).trace)
      (if (handle_app_events fl cfg b).state = state_t.S_PACKET_RECEIVED.toInt
        then baton_frames q else 0)
      (true || !(frames_emitted b.trace (app_process_action fl cd cfg q b).trace).isEmpty) := by
  have key : no_transport_signal b ∧ ¬ sleep_rule_applies b ∧ ¬ restart_rule_applies b
      ∧ ¬ bypass_rule_applies b ∧ ¬ average_rule_applies b
      ∧ b.state = state_t.S_IDLE.toInt := by
    have h7 : ¬ restart_rule_applies b := by
      unfold restart_rule_applies
      rw [hT.no_restart]
      simp
    cases hA with
    | broadcast c hc hs ht he hp hr hb ha hw ho hn =>
      refine ⟨⟨hr, hp, hT.no_rx_error, hT.no_tx_error, hT.no_cal_error⟩, hn, h7,
        fun h => h.2 ha, ?_, hs⟩
      intro h
      have := h.1
      rw [hw.2] at this
      exact absurd this (by decide)
    | release c hc hs ht he hp hr hb =>
      have hnb : ¬ (b.baton = true) := by
        rw [hb]
        decide
      exact ⟨⟨hr, hp, hT.no_rx_error, hT.no_tx_error, hT.no_cal_error⟩,
        fun h => hnb h.1, h7, fun h => hnb h.1, fun h => hnb h.2, hs⟩
  obtain ⟨hs, h6, h7, h8, h9, hst⟩ := key
  have ha := handle_app_events_no_rule fl cfg b hs h6 h7 h8 h9
  have hE : app_process_action fl cd cfg q b = b := by
    unfold app_process_action
    rw [ha, execute_app_state_idle fl cd cfg q b (by rw [hst]; rfl)]
  have hne : (handle_app_events fl cfg b).state ≠ state_t.S_PACKET_RECEIVED.toInt := by
    rw [ha, hst]
    decide
  exact tick_outcome_silent fl cd cfg q true b b hE hne rfl (shape_for_busy_radio b hA) hT
    (le_of_eq rfl)

/-- A tick of a board keeps its shape: whatever the pending signals and
rules, a board with one of the shapes that is steady, whose radio holds no
Restart frame and, while it has the token, no Baton frame, has one of the
shapes and is steady after the tick; it sends no Restart frame, and the tokens
held plus the Baton frames sent do not exceed the tokens held before plus the
Baton frames consumed. -/
theorem board_tick_idle_radio (fl : FloatOps F) (cd : FloatCodec F) (cfg : Config F)
    (q : List (List Int)) (b : Board F)
    (hS : Shape b) (hT : Steady b)
    (hq0 : ∀ frame, frame ∈ q → frame.getD MSGIDX_TYPE 0 ≠ message_t.MSG_RESTART.toInt)
    (hq3 : b.baton = true →
      ∀ frame, frame ∈ q → frame.getD MSGIDX_TYPE 0 ≠ message_t.MSG_BATON.toInt) :
    TickOutcome b (app_process_action fl cd cfg q b)
      (frames_emitted b.trace (app_process_action fl cd cfg q b).trace)
      (if (handle_app_events fl cfg b).state = state_t.S_PACKET_RECEIVED.toInt
        then baton_frames q else 0)
      (false || !(frames_emitted b.trace (app_process_action fl cd cfg q b).trace).isEmpty) := by
  by_cases h1 : b.packet_received = true
  · exact tick_received fl cd cfg q b hS hT hq0 hq3 h1
  have h1f : b.packet_received = false := by
    cases h : b.packet_received
    · rfl
    · exact absurd h h1
  by_cases h2 : b.packet_sent = true
  · exact tick_sent fl cd cfg q b hS hT h1f h2
  have h2f : b.packet_sent = false := by
    cases h : b.packet_sent
    · rfl
    · exact absurd h h2
  have hs : no_transport_signal b :=
    ⟨h1f, h2f, hT.no_rx_error, hT.no_tx_error, hT.no_cal_error⟩
  have h7 : ¬ restart_rule_applies b := by
    unfold restart_rule_applies
    rw [hT.no_restart]
    simp
  by_cases h6 : sleep_rule_applies b
  · exact tick_sleep_rule fl cd cfg q b hT hs h6
  by_cases h8 : bypass_rule_applies b
  · cases hS with
    | idle hst ht hp =>
      exact tick_bypass_rule fl cd cfg q b hT hs h6 h7 h8 ht (Or.inl hst)
    | waiting hc ht hp hw =>
      exact tick_bypass_rule fl cd cfg q b hT hs h6 h7 h8 ht (Or.inr (Or.inr ⟨hc, hw⟩))
    | init hst ht hp =>
      exact tick_bypass_rule fl cd cfg q b hT hs h6 h7 h8 ht (Or.inr (Or.inl hst))
    | transmitting c hc hst ht he hp hbt hac hw ho => exact absurd hac h8.2
    | sending c hc hst ht he hp hbt hac hw ho => exact absurd hp h2
    | released c hc hst ht he hp => exact absurd hp h2
  by_cases h9 : average_rule_applies b
  · have hnw : ¬ working b := by
      intro hw
      have := h9.1
      rw [hw.2] at this
      exact absurd this (by decide)
    cases hS with
    | idle hst ht hp =>
      exact tick_average_rule fl cd cfg q b hT hs h6 h7 h8 h9 ht
    | waiting hc ht hp hw => exact absurd hw hnw
    | init hst ht hp =>
      exact tick_average_rule fl cd cfg q b hT hs h6 h7 h8 h9 ht
    | transmitting c hc hst ht he hp hbt hac hw ho => exact absurd hw hnw
    | sending c hc hst ht he hp hbt hac hw ho => exact absurd hp h2
    | released c hc hst ht he hp => exact absurd hp h2
  exact tick_no_rule fl cd cfg q b hS hT hs h6 h7 h8 h9

/-- A tick of a board, whether its radio is transmitting or not. -/
theorem board_tick_outcome (fl : FloatOps F) (cd : FloatCodec F) (cfg : Config F)
    (q : List (List Int)) (busy : Bool) (b : Board F)
    (hS : ShapeFor busy b) (hT : Steady b)
    (hq0 : ∀ frame, frame ∈ q → frame.getD MSGIDX_TYPE 0 ≠ message_t.MSG_RESTART.toInt)
    (hq3 : b.baton = true →
      ∀ frame, frame ∈ q → frame.getD MSGIDX_TYPE 0 ≠ message_t.MSG_BATON.toInt) :
    TickOutcome b (app_process_action fl cd cfg q b)
      (frames_emitted b.trace (app_process_action fl cd cfg q b).trace)
      (if (handle_app_events fl cfg b).state = state_t.S_PACKET_RECEIVED.toInt
        then baton_frames q else 0)
      (busy || !(frames_emitted b.trace (app_process_action fl cd cfg q b).trace).isEmpty) := by
  cases busy
  · exact board_tick_idle_radio fl cd cfg q b (shape_of_idle_radio b hS) hT hq0 hq3
  · exact tick_while_transmitting fl cd cfg q b (awaiting_of_busy_radio b hS) hT

theorem sum_range_update_nat {α : Type} (g : α → Nat) (f : Nat → α) (n i : Nat) (v : α)
    (hi : i < n) :
    ((List.range n).map (fun j => g (Function.update f i v j))).sum + g (f i)
      = ((List.range n).map (fun j => g (f j))).sum + g v := by
  induction n with
  | zero => omega
  | succ m ih =>
    rw [List.range_succ, List.map_append, List.map_append, List.sum_append, List.sum_append]
    simp only [List.map_cons, List.map_nil, List.sum_cons, List.sum_nil, Nat.add_zero]
    by_cases him : i < m
    · have h := ih him
      have e : Function.update f i v m = f m := Function.update_noteq (by omega) v f
      rw [e]
      omega
    · have him2 : i = m := by omega
      subst him2
      have e : (List.range i).map (fun j => g (Function.update f i v j))
          = (List.range i).map (fun j => g (f j)) := by
        apply List.map_congr_left
        intro j hj
        rw [List.mem_range] at hj
        rw [Function.update_noteq (by omega)]
      rw [e, Function.update_same]
      omega

theorem le_sum_range_nat {α : Type} (g : α → Nat) (f : Nat → α) (n i : Nat) (hi : i < n) :
    g (f i) ≤ ((List.range n).map (fun j => g (f j))).sum := by
  induction n with
  | zero => omega
  | succ m ih =>
    rw [List.range_succ, List.map_append, List.sum_append]
    simp only [List.map_cons, List.map_nil, List.sum_cons, List.sum_nil, Nat.add_zero]
    by_cases him : i < m
    · have := ih him
      omega
    · have him2 : i = m := by omega
      subst him2
      omega

theorem sum_range_single_nat (f : Nat → Nat) (s n : Nat) (h0 : ∀ j, j ≠ s → f j = 0) :
    ((List.range n).map f).sum = if s < n then f s else 0 := by
  induction n with
  | zero => rfl
  | succ m ih =>
    rw [List.range_succ, List.map_append, List.sum_append, ih]
    simp only [List.map_cons, List.map_nil, List.sum_cons, List.sum_nil, Nat.add_zero]
    by_cases hsm : s < m
    · rw [if_pos hsm, if_pos (by omega), h0 m (by omega)]
      omega
    · rw [if_neg hsm]
      by_cases hsm2 : s = m
      · subst hsm2
        rw [if_pos (by omega)]
        omega
      · rw [if_neg (by omega), h0 m (fun h => hsm2 h.symm)]

theorem baton_frames_cons (frame : List Int) (l : List (List Int)) :
    baton_frames (frame :: l) = baton_frames [frame] + baton_frames l :=
  baton_frames_append [frame] l

theorem baton_frames_eraseIdx (l : List (List Int)) (k : Nat) (frame : List Int)
    (h : l.get? k = some frame) :
    baton_frames (l.eraseIdx k) + baton_frames [frame] = baton_frames l := by
  induction l generalizing k with
  | nil => exact absurd h (by simp)
  | cons x xs ih =>
    cases k with
    | zero =>
      have e : x = frame := by simpa using h
      subst e
      rw [List.eraseIdx_cons_zero, baton_frames_cons x xs]
      omega
    | succ k =>
      have h2 : xs.get? k = some frame := by simpa using h
      rw [List.eraseIdx_cons_succ, baton_frames_cons x (xs.eraseIdx k), baton_frames_cons x xs]
      have := ih k h2
      omega

/-- The network invariant after a tick of board `i` with a given outcome. -/
theorem net_inv_of_tick (cfg : Config F) (net : Network F) (i : Nat)
    (hi : i < cfg.NUM_OF_BOARDS) (b2 : Board F) (out : List (List Int))
    (consumed : Prop) [Decidable consumed] (busy : Bool) (I : NetInv cfg net)
    (O : TickOutcome (net.boards i) b2 out
      (if consumed then baton_frames (net.rx_queues i) else 0) busy) :
    NetInv cfg
      { boards := Function.update net.boards i b2,
        rx_queues := if consumed then Function.update net.rx_queues i [] else net.rx_queues,
        in_flight := net.in_flight ++ out,
        tx_busy := Function.update net.tx_busy i busy } := by
  refine {
    shapes := ?_
    steady := ?_
    flying := ?_
    queued := ?_
    tokens := ?_ }
  · intro j hj
    show ShapeFor (Function.update net.tx_busy i busy j) (Function.update net.boards i b2 j)
    by_cases hji : j = i
    · rw [hji, Function.update_same, Function.update_same]
      exact O.shape
    · rw [Function.update_noteq hji, Function.update_noteq hji]
      exact I.shapes j hj
  · intro j hj
    show Steady (Function.update net.boards i b2 j)
    by_cases hji : j = i
    · rw [hji, Function.update_same]
      exact O.steady
    · rw [Function.update_noteq hji]
      exact I.steady j hj
  · intro frame hf
    rcases List.mem_append.1 hf with h | h
    · exact I.flying frame h
    · exact O.clean frame h
  · intro j hj frame hf
    by_cases hc : consumed
    · have hf2 : frame ∈ Function.update net.rx_queues i [] j := by
        have e : (if consumed then Function.update net.rx_queues i [] else net.rx_queues)
            = Function.update net.rx_queues i [] := if_pos hc
        rw [← e]
        exact hf
      by_cases hji : j = i
      · rw [hji, Function.update_same] at hf2
        exact absurd hf2 (List.not_mem_nil _)
      · rw [Function.update_noteq hji] at hf2
        exact I.queued j hj frame hf2
    · have hf2 : frame ∈ net.rx_queues j := by
        have e : (if consumed then Function.update net.rx_queues i [] else net.rx_queues)
            = net.rx_queues := if_neg hc
        rw [← e]
        exact hf
      exact I.queued j hj frame hf2
  · have hI := I.tokens
    have hO := O.tokens
    unfold token_holders baton_frames_in_network at hI ⊢
    have hT := sum_range_update_nat token_count net.boards cfg.NUM_OF_BOARDS i b2 hi
    have hF := baton_frames_append net.in_flight out
    show ((List.range cfg.NUM_OF_BOARDS).map
        (fun j => token_count (Function.update net.boards i b2 j))).sum
      + (baton_frames (net.in_flight ++ out)
        + ((List.range cfg.NUM_OF_BOARDS).map
          (fun j => baton_frames
            ((if consumed then Function.update net.rx_queues i [] else net.rx_queues) j))).sum)
      ≤ 1
    by_cases hc : consumed
    · rw [if_pos hc] at hO ⊢
      have hQ := sum_range_update_nat baton_frames net.rx_queues cfg.NUM_OF_BOARDS i [] hi
      rw [baton_frames_nil] at hQ
      omega
    · rw [if_neg hc] at hO ⊢
      omega

/-- A tick of a board keeps the network invariant. -/
theorem net_tick_invariant (fl : FloatOps F) (cd : FloatCodec F) (cfg : Config F)
    (net : Network F) (i : Nat) (I : NetInv cfg net) :
    NetInv cfg (net_tick fl cd cfg net i) := by
  unfold net_tick
  by_cases hi : i < cfg.NUM_OF_BOARDS
  · rw [if_pos hi]
    have hle1 := le_sum_range_nat token_count net.boards cfg.NUM_OF_BOARDS i hi
    have hle2 := le_sum_range_nat baton_frames net.rx_queues cfg.NUM_OF_BOARDS i hi
    have hI := I.tokens
    unfold token_holders baton_frames_in_network at hI
    have hq3 : (net.boards i).baton = true → ∀ frame, frame ∈ net.rx_queues i →
        frame.getD MSGIDX_TYPE 0 ≠ message_t.MSG_BATON.toInt := by
      intro hb
      have := token_count_of_baton (net.boards i) hb
      exact baton_frames_eq_zero _ (by omega)
    exact net_inv_of_tick cfg net i hi _ _ _ _ I
      (board_tick_outcome fl cd (cfg.for_board i) (net.rx_queues i) (net.tx_busy i)
        (net.boards i) (I.shapes i hi) (I.steady i hi) (I.queued i hi) hq3)
  · rw [if_neg hi]
    exact I

theorem shape_packet_arrived (events : Int) (b : Board F) (h : Shape b) :
    Shape (sl_rail_util_on_event (packet_arrived events) b) := by
  have e : sl_rail_util_on_event (packet_arrived events) b
      = { b with error_code := events, packet_received := true } := rfl
  rw [e]
  cases h with
  | idle hs ht hp => exact Shape.idle hs ht hp
  | waiting hc ht hp hw => exact Shape.waiting hc ht hp ⟨hw.1, hw.2⟩
  | init hs ht hp => exact Shape.init hs ht hp
  | transmitting c hc hs ht he hp hb ha hw ho =>
    exact Shape.transmitting c hc hs ht he hp hb ha ⟨hw.1, hw.2⟩ ho
  | sending c hc hs ht he hp hb ha hw ho =>
    exact Shape.sending c hc hs ht he hp hb ha ⟨hw.1, hw.2⟩ ho
  | released c hc hs ht he hp =>
    refine Shape.released c ?_ hs ht he hp
    rcases hc with h | h | h
    · exact Or.inl h
    · exact Or.inr (Or.inl h)
    · exact Or.inr (Or.inr ⟨h.1, h.2.1, h.2.2⟩)

theorem steady_packet_arrived (events : Int) (b : Board F) (h : Steady b) :
    Steady (sl_rail_util_on_event (packet_arrived events) b) := by
  have e : sl_rail_util_on_event (packet_arrived events) b
      = { b with error_code := events, packet_received := true } := rfl
  rw [e]
  exact ⟨h.no_restart, h.no_rx_error, h.no_tx_error, h.no_cal_error, h.storage, h.frame_size⟩

/-- The send-complete event on a board whose radio is transmitting. -/
theorem shape_send_complete (events : Int) (b : Board F) (h : Awaiting b) :
    Shape (sl_rail_util_on_event (send_complete events) b) := by
  rw [sl_rail_util_on_event_send_complete]
  cases h with
  | broadcast c hc hs ht he hp hr hb ha hw ho hn =>
    exact Shape.sending c hc hs ht he rfl hb ha ⟨hw.1, hw.2⟩ ho
  | release c hc hs ht he hp hr hb =>
    refine Shape.released c ?_ hs ht he rfl
    rcases hc with h | h | h
    · exact Or.inl h
    · exact Or.inr (Or.inl h)
    · exact Or.inr (Or.inr ⟨h.1, h.2.1, h.2.2⟩)

theorem steady_send_complete (events : Int) (b : Board F) (h : Steady b) :
    Steady (sl_rail_util_on_event (send_complete events) b) := by
  rw [sl_rail_util_on_event_send_complete]
  exact ⟨h.no_restart, h.no_rx_error, h.no_tx_error, h.no_cal_error, h.storage, h.frame_size⟩

/-- The end of a transmission keeps the network invariant. -/
theorem net_complete_invariant (cfg : Config F) (events : Int) (net : Network F) (i : Nat)
    (I : NetInv cfg net) : NetInv cfg (net_complete cfg events net i) := by
  unfold net_complete
  by_cases hc : i < cfg.NUM_OF_BOARDS ∧ net.tx_busy i = true
  · rw [if_pos hc]
    have hA : Awaiting (net.boards i) := by
      have h := I.shapes i hc.1
      rw [hc.2] at h
      exact awaiting_of_busy_radio _ h
    refine {
      shapes := ?_
      steady := ?_
      flying := I.flying
      queued := I.queued
      tokens := ?_ }
    · intro j hj
      show ShapeFor (Function.update net.tx_busy i false j) (Function.update net.boards i _ j)
      by_cases hji : j = i
      · rw [hji, Function.update_same, Function.update_same]
        exact shape_for_idle_radio _ (shape_send_complete events _ hA)
      · rw [Function.update_noteq hji, Function.update_noteq hji]
        exact I.shapes j hj
    · intro j hj
      show Steady (Function.update net.boards i _ j)
      by_cases hji : j = i
      · rw [hji, Function.update_same]
        exact steady_send_complete events _ (I.steady i hc.1)
      · rw [Function.update_noteq hji]
        exact I.steady j hj
    · have hI := I.tokens
      unfold token_holders baton_frames_in_network at hI ⊢
      have hT := sum_range_update_nat token_count net.boards cfg.NUM_OF_BOARDS i
        (sl_rail_util_on_event (send_complete events) (net.boards i)) hc.1
      have he : token_count (sl_rail_util_on_event (send_complete events) (net.boards i))
          = token_count (net.boards i) := rfl
      show ((List.range cfg.NUM_OF_BOARDS).map
          (fun j => token_count (Function.update net.boards i
            (sl_rail_util_on_event (send_complete events) (net.boards i)) j))).sum
        + (baton_frames net.in_flight
          + ((List.range cfg.NUM_OF_BOARDS).map
            (fun j => baton_frames (net.rx_queues j))).sum)
        ≤ 1
      omega
  · rw [if_neg hc]
    exact I

/-- The delivery of a frame keeps the network invariant. -/
theorem net_deliver_invariant (cfg : Config F) (events : Int) (net : Network F) (k : Nat)
    (I : NetInv cfg net) : NetInv cfg (net_deliver cfg events net k) := by
  unfold net_deliver
  cases hk : net.in_flight.get? k with
  | none => exact I
  | some frame =>
    show NetInv cfg (if (0 ≤ frame.getD MSGIDX_DST_BOARD 0
        ∧ frame.getD MSGIDX_DST_BOARD 0 < (cfg.NUM_OF_BOARDS : Int))
        ∧ net.tx_busy (frame.getD MSGIDX_DST_BOARD 0).toNat = false then _ else _)
    by_cases hd : (0 ≤ frame.getD MSGIDX_DST_BOARD 0
        ∧ frame.getD MSGIDX_DST_BOARD 0 < (cfg.NUM_OF_BOARDS : Int))
        ∧ net.tx_busy (frame.getD MSGIDX_DST_BOARD 0).toNat = false
    · rw [if_pos hd]
      have hdn : (frame.getD MSGIDX_DST_BOARD 0).toNat < cfg.NUM_OF_BOARDS := by omega
      have hbusy := hd.2
      generalize (frame.getD MSGIDX_DST_BOARD 0).toNat = d at hdn hbusy ⊢
      have hmem : frame ∈ net.in_flight := List.get?_mem hk
      have hS : Shape (net.boards d) := by
        have h := I.shapes d hdn
        rw [hbusy] at h
        exact shape_of_idle_radio _ h
      refine {
        shapes := ?_
        steady := ?_
        flying := ?_
        queued := ?_
        tokens := ?_ }
      · intro j hj
        show ShapeFor (net.tx_busy j) (Function.update net.boards d _ j)
        by_cases hji : j = d
        · rw [hji, Function.update_same, hbusy]
          exact shape_for_idle_radio _ (shape_packet_arrived events _ hS)
        · rw [Function.update_noteq hji]
          exact I.shapes j hj
      · intro j hj
        show Steady (Function.update net.boards d _ j)
        by_cases hji : j = d
        · rw [hji, Function.update_same]
          exact steady_packet_arrived events _ (I.steady d hdn)
        · rw [Function.update_noteq hji]
          exact I.steady j hj
      · intro f hf
        exact I.flying f (List.mem_of_mem_eraseIdx hf)
      · intro j hj f hf
        have hf2 : f ∈ Function.update net.rx_queues d (net.rx_queues d ++ [frame]) j := hf
        by_cases hji : j = d
        · rw [hji, Function.update_same] at hf2
          rcases List.mem_append.1 hf2 with h | h
          · exact I.queued d hdn f h
          · rw [List.mem_singleton] at h
            rw [h]
            exact I.flying frame hmem
        · rw [Function.update_noteq hji] at hf2
          exact I.queued j hj f hf2
      · have hI := I.tokens
        unfold token_holders baton_frames_in_network at hI ⊢
        have hT := sum_range_update_nat token_count net.boards cfg.NUM_OF_BOARDS d
          (sl_rail_util_on_event (packet_arrived events) (net.boards d)) hdn
        have hc : token_count (sl_rail_util_on_event (packet_arrived events) (net.boards d))
            = token_count (net.boards d) := rfl
        have hQ := sum_range_update_nat baton_frames net.rx_queues cfg.NUM_OF_BOARDS d
          (net.rx_queues d ++ [frame]) hdn
        rw [baton_frames_append] at hQ
        have hE := baton_frames_eraseIdx net.in_flight k frame hk
        show ((List.range cfg.NUM_OF_BOARDS).map
            (fun j => token_count (Function.update net.boards d
              (sl_rail_util_on_event (packet_arrived events) (net.boards d)) j))).sum
          + (baton_frames (net.in_flight.eraseIdx k)
            + ((List.range cfg.NUM_OF_BOARDS).map
              (fun j => baton_frames
                (Function.update net.rx_queues d (net.rx_queues d ++ [frame]) j))).sum)
          ≤ 1
        omega
    · rw [if_neg hd]
      exact I

theorem set_dst_after_first_occurrence_eq (cfg : Config F) (b : Board F) :
    set_dst_after_first_occurrence cfg b
      = { b with dst_of_baton := (set_dst_after_first_occurrence cfg b).dst_of_baton } := by
  simp only [set_dst_after_first_occurrence]
  cases (List.range cfg.LENGTH_OF_BATON_PATH).find?
      (fun i => decide (cfg.baton_path.getD i 0 = (cfg.BOARD_ID : Int))) with
  | none => split_ifs <;> rfl
  | some i => split_ifs <;> rfl

/-- Board `i` after power-on and its first tick. -/
theorem asleep_board_eq (fl : FloatOps F) (cd : FloatCodec F) (cfg : Config F) (i : Nat) :
    asleep_board fl cd cfg i
      = sleep { initialize_app fl (cfg.for_board i) (power_on fl (cfg.for_board i)) with
          state := state_t.S_IDLE.toInt } := by
  unfold asleep_board app_process_action
  rw [handle_app_events_no_rule fl (cfg.for_board i) (power_on fl (cfg.for_board i))
      ⟨rfl, rfl, rfl, rfl, rfl⟩ (fun h => Bool.false_ne_true h.1)
      (fun h => Bool.false_ne_true h.1) (fun h => Bool.false_ne_true h.1)
      (fun h => Bool.false_ne_true h.1),
    execute_app_state_init_and_sleep fl cd (cfg.for_board i) []
      (power_on fl (cfg.for_board i)) rfl]

theorem asleep_board_shape (fl : FloatOps F) (cd : FloatCodec F) (cfg : Config F) (i : Nat) :
    Shape (asleep_board fl cd cfg i) := by
  rw [asleep_board_eq]
  exact Shape.idle rfl rfl rfl

theorem asleep_board_steady (fl : FloatOps F) (cd : FloatCodec F) (cfg : Config F) (i : Nat) :
    Steady (asleep_board fl cd cfg i) := by
  rw [asleep_board_eq]
  exact ⟨rfl, rfl, rfl, rfl, rfl, rfl⟩

theorem asleep_board_no_token (fl : FloatOps F) (cd : FloatCodec F) (cfg : Config F) (i : Nat) :
    (asleep_board fl cd cfg i).baton = false := by
  rw [asleep_board_eq]
  rfl

/-- The averaging command changes neither the state, nor the stack, nor a
signal. -/
theorem cli_avg_consensus_keeps (cfg : Config F) (b : Board F) :
    (cli_avg_consensus cfg b).state = b.state
    ∧ (cli_avg_consensus cfg b).stk = b.stk
    ∧ (cli_avg_consensus cfg b).packet_sent = b.packet_sent
    ∧ (cli_avg_consensus cfg b).restart_command = b.restart_command
    ∧ (cli_avg_consensus cfg b).rx_error = b.rx_error
    ∧ (cli_avg_consensus cfg b).tx_error = b.tx_error
    ∧ (cli_avg_consensus cfg b).cal_error = b.cal_error
    ∧ (cli_avg_consensus cfg b).tx_packet = b.tx_packet := by
  unfold cli_avg_consensus
  split_ifs
  · exact ⟨rfl, rfl, rfl, rfl, rfl, rfl, rfl, rfl⟩
  · simp only []
    rw [set_dst_after_first_occurrence_eq]
    exact ⟨rfl, rfl, rfl, rfl, rfl, rfl, rfl, rfl⟩

/-- The network in which every board is asleep and one has been given the
averaging command satisfies the invariant. -/
theorem initial_network_invariant (fl : FloatOps F) (cd : FloatCodec F) (cfg : Config F)
    (s : Nat) : NetInv cfg (initial_network fl cd cfg s) := by
  have hk := cli_avg_consensus_keeps (cfg.for_board s) (asleep_board fl cd cfg s)
  have hshape : Shape (cli_avg_consensus (cfg.for_board s) (asleep_board fl cd cfg s)) := by
    have h := asleep_board_shape fl cd cfg s
    rw [asleep_board_eq] at h hk ⊢
    exact Shape.idle (hk.1.trans rfl) (by rw [hk.2.1]; rfl) (hk.2.2.1.trans rfl)
  have hsteady : Steady (cli_avg_consensus (cfg.for_board s) (asleep_board fl cd cfg s)) := by
    have h := asleep_board_steady fl cd cfg s
    exact {
      no_restart := hk.2.2.2.1.trans h.no_restart
      no_rx_error := hk.2.2.2.2.1.trans h.no_rx_error
      no_tx_error := hk.2.2.2.2.2.1.trans h.no_tx_error
      no_cal_error := hk.2.2.2.2.2.2.1.trans h.no_cal_error
      storage := by rw [hk.2.1]; exact h.storage
      frame_size := by rw [hk.2.2.2.2.2.2.2]; exact h.frame_size }
  refine {
    shapes := ?_
    steady := ?_
    flying := ?_
    queued := ?_
    tokens := ?_ }
  · intro j _
    show ShapeFor false (if j = s then _ else _)
    split_ifs
    · exact shape_for_idle_radio _ hshape
    · exact shape_for_idle_radio _ (asleep_board_shape fl cd cfg j)
  · intro j _
    show Steady (if j = s then _ else _)
    split_ifs
    · exact hsteady
    · exact asleep_board_steady fl cd cfg j
  · intro frame hf
    exact absurd hf (List.not_mem_nil _)
  · intro j _ frame hf
    exact absurd hf (List.not_mem_nil _)
  · unfold token_holders baton_frames_in_network
    have h1 : ((List.range cfg.NUM_OF_BOARDS).map
        (fun j => token_count ((initial_network fl cd cfg s).boards j))).sum
        = if s < cfg.NUM_OF_BOARDS then token_count ((initial_network fl cd cfg s).boards s)
          else 0 := sum_range_single_nat
      (fun j => token_count ((initial_network fl cd cfg s).boards j)) s cfg.NUM_OF_BOARDS
      (by
        intro j hj
        show token_count (if j = s then _ else _) = 0
        rw [if_neg hj]
        exact token_count_of_not_baton _ (asleep_board_no_token fl cd cfg j))
    have h2 : ((List.range cfg.NUM_OF_BOARDS).map
        (fun j => baton_frames ((initial_network fl cd cfg s).rx_queues j))).sum
        = if s < cfg.NUM_OF_BOARDS then baton_frames ((initial_network fl cd cfg s).rx_queues s)
          else 0 := sum_range_single_nat
      (fun j => baton_frames ((initial_network fl cd cfg s).rx_queues j)) s cfg.NUM_OF_BOARDS
      (fun _ _ => rfl)
    have h3 : baton_frames ((initial_network fl cd cfg s).rx_queues s) = 0 := rfl
    have h4 : baton_frames (initial_network fl cd cfg s).in_flight = 0 := rfl
    have h5 := token_count_le_one ((initial_network fl cd cfg s).boards s)
    rw [h1, h2, h3, h4]
    split_ifs <;> omega

/-- Every network reached by a run satisfies the invariant. -/
theorem net_run_invariant (fl : FloatOps F) (cd : FloatCodec F) (cfg : Config F)
    (events : Int) (s : Nat) (inputs : List NetInput) :
    NetInv cfg (net_run fl cd cfg events s inputs) := by
  unfold net_run
  have h : ∀ (l : List NetInput) (net : Network F), NetInv cfg net →
      NetInv cfg (l.foldl (net_step fl cd cfg events) net) := by
    intro l
    induction l with
    | nil => intro net I; exact I
    | cons x xs ih =>
      intro net I
      rw [List.foldl_cons]
      apply ih
      cases x with
      | tick i => exact net_tick_invariant fl cd cfg net i I
      | complete i => exact net_complete_invariant cfg events net i I
      | deliver k => exact net_deliver_invariant cfg events net k I
  exact h inputs _ (initial_network_invariant fl cd cfg s)

theorem token_holders_unique (cfg : Config F) (net : Network F)
    (h : token_holders cfg net ≤ 1) (i j : Nat) (hi : i < cfg.NUM_OF_BOARDS)
    (hj : j < cfg.NUM_OF_BOARDS) (hbi : (net.boards i).baton = true)
    (hbj : (net.boards j).baton = true) : i = j := by
  by_contra hne
  unfold token_holders at h
  obtain ⟨v, hv⟩ : ∃ v : Board F, token_count v = 0 :=
    ⟨{ net.boards i with baton := false }, rfl⟩
  have h1 := sum_range_update_nat token_count net.boards cfg.NUM_OF_BOARDS i v hi
  have h2 := le_sum_range_nat token_count (Function.update net.boards i v)
    cfg.NUM_OF_BOARDS j hj
  rw [Function.update_noteq (fun e => hne e.symm)] at h2
  have h3 := token_count_of_baton _ hbi
  have h4 := token_count_of_baton _ hbj
  omega

/-- C25: in every multi-board run that starts with all boards initialised and
asleep and a single averaging command given on board `s`, in which every input
is a tick of a board, the send-complete event of a transmitting radio, or the
delivery of a frame in flight to the board of its destination byte (no frame
is lost, no watchdog expires, no radio receives while it transmits), after
every sequence of inputs the number of boards whose `baton` flag is true plus
the number of Baton frames in flight or held by a radio is at most 1, and at
most one board has `baton = true`. This holds for every configuration, the
shipped one included, and for every float model. -/
theorem token_unique_in_network_run (fl : FloatOps F) (cd : FloatCodec F) (cfg : Config F)
    (events : Int) (s : Nat) (inputs : List NetInput) :
    token_holders cfg (net_run fl cd cfg events s inputs)
        + baton_frames_in_network cfg (net_run fl cd cfg events s inputs) ≤ 1
    ∧ ∀ i j, i < cfg.NUM_OF_BOARDS → j < cfg.NUM_OF_BOARDS →
        ((net_run fl cd cfg events s inputs).boards i).baton = true →
        ((net_run fl cd cfg events s inputs).boards j).baton = true → i = j := by
  have I := net_run_invariant fl cd cfg events s inputs
  refine ⟨I.tokens, ?_⟩
  intro i j hi hj hbi hbj
  exact token_holders_unique cfg _ (by have := I.tokens; omega) i j hi hj hbi hbj

/-! ## Theorems: averaging rule, StartTask frames, housekeeping states -/

/-- C33: with no transport signal pending and rules 6 to 8 not applicable, if
an averaging command is pending and the token is held, `handle_app_events`
clears the averaging command, sets the current task to `T_CONSENSUS`, the
pending count to `N`, the state to `S_PACKET_TX` with operation
`O_GLB_START_TASK`, and pushes `S_START_AVG_CONSENSUS` (on a stack with a free
slot it becomes the top entry); nothing else changes. If rule 9 is not
applicable either, `handle_app_events` changes nothing. -/
theorem average_rule_effect (fl : FloatOps F) (cfg : Config F) (b : Board F)
    (hs : no_transport_signal b) (h6 : ¬ sleep_rule_applies b)
    (h7 : ¬ restart_rule_applies b) (h8 : ¬ bypass_rule_applies b) :
    (b.average_command = true ∧ b.baton = true →
      handle_app_events fl cfg b
        = { b with
            average_command := false,
            num_of_pending_msgs_for_tx := (cfg.NUM_OF_BOARDS : Int),
            current_task := task_t.T_CONSENSUS,
            state := state_t.S_PACKET_TX.toInt,
            tx_operation_to_achieve := tx_operation_t.O_GLB_START_TASK,
            stk := b.stk.push state_t.S_START_AVG_CONSENSUS.toInt }
      ∧ (b.stk.stack.length = 20 → -1 ≤ b.stk.top → b.stk.top + 1 < 20 →
          (handle_app_events fl cfg b).stk.entries
            = b.stk.entries ++ [state_t.S_START_AVG_CONSENSUS.toInt]))
    ∧ (¬ (b.average_command = true ∧ b.baton = true) → handle_app_events fl cfg b = b) := by
  constructor
  · intro h9
    have e : handle_app_events fl cfg b
        = { b with
            average_command := false,
            num_of_pending_msgs_for_tx := (cfg.NUM_OF_BOARDS : Int),
            current_task := task_t.T_CONSENSUS,
            state := state_t.S_PACKET_TX.toInt,
            tx_operation_to_achieve := tx_operation_t.O_GLB_START_TASK,
            stk := b.stk.push state_t.S_START_AVG_CONSENSUS.toInt } := by
      rw [handle_app_events_average fl cfg b hs h6 h7 h8 h9]
      rfl
    refine ⟨e, ?_⟩
    intro hlen hlo hhi
    rw [e]
    exact (Stack.push_free_slot b.stk _ hlen hlo hhi).2.2.1
  · intro h9
    exact handle_app_events_no_rule fl cfg b hs h6 h7 h8 h9

/-- C33 on board 0 of the shipped configuration: a board with the averaging
command pending and the first token held, and the same board without the
token. -/
theorem average_rule_effect_shipped :
    (handle_app_events exact_arith (shipped_config 0)
        { power_on exact_arith (shipped_config 0) with
          baton := true, baton_cntr := 1, batons_per_cycle := 1, average_command := true,
          state := state_t.S_IDLE.toInt }).stk.entries
        = [state_t.S_START_AVG_CONSENSUS.toInt]
    ∧ handle_app_events exact_arith (shipped_config 0)
        { power_on exact_arith (shipped_config 0) with
          baton_cntr := 1, batons_per_cycle := 1, average_command := true,
          state := state_t.S_IDLE.toInt }
      = { power_on exact_arith (shipped_config 0) with
          baton_cntr := 1, batons_per_cycle := 1, average_command := true,
          state := state_t.S_IDLE.toInt } :=
  ⟨((average_rule_effect exact_arith (shipped_config 0)
      { power_on exact_arith (shipped_config 0) with
        baton := true, baton_cntr := 1, batons_per_cycle := 1, average_command := true,
        state := state_t.S_IDLE.toInt }
      (by decide) (by decide) (by decide) (by decide)).1 ⟨rfl, rfl⟩).2 rfl (by decide)
      (by decide),
   (average_rule_effect exact_arith (shipped_config 0)
      { power_on exact_arith (shipped_config 0) with
        baton_cntr := 1, batons_per_cycle := 1, average_command := true,
        state := state_t.S_IDLE.toInt }
      (by decide) (by decide) (by decide) (by decide)).2 (by decide)⟩

/-- C34: handling a StartTask frame. The board is awake afterwards; the
averaging command is set if the frame's task byte is `T_CONSENSUS` and the
current task is not `T_CONSENSUS`, and is otherwise left as it was (never
cleared); no other field changes. -/
theorem start_task_frame_handling (cfg : Config F) (cd : FloatCodec F) (rx_buffer : List Int)
    (b : Board F)
    (htype : rx_buffer.getD MSGIDX_TYPE 0 = message_t.MSG_START_TASK.toInt) :
    handle_rx_packet_payload cfg cd rx_buffer b
      = { b with
          ready_to_sleep := false,
          average_command :=
            if rx_buffer.getD MSGIDX_TASK 0 = task_t.T_CONSENSUS.toInt
                ∧ b.current_task ≠ task_t.T_CONSENSUS then true
            else b.average_command }
    ∧ app_is_ok_to_sleep (handle_rx_packet_payload cfg cd rx_buffer b) = false
    ∧ ((handle_rx_packet_payload cfg cd rx_buffer b).average_command = true
        ↔ (b.average_command = true
          ∨ (rx_buffer.getD MSGIDX_TASK 0 = task_t.T_CONSENSUS.toInt
              ∧ b.current_task ≠ task_t.T_CONSENSUS))) := by
  have hm : message_t.ofInt (rx_buffer.getD MSGIDX_TYPE 0) = some message_t.MSG_START_TASK := by
    rw [htype]
    rfl
  have hiff : (rx_buffer.getD MSGIDX_TASK 0 ≠ b.current_task.toInt
        ∧ rx_buffer.getD MSGIDX_TASK 0 = task_t.T_CONSENSUS.toInt)
      ↔ (rx_buffer.getD MSGIDX_TASK 0 = task_t.T_CONSENSUS.toInt
        ∧ b.current_task ≠ task_t.T_CONSENSUS) := by
    constructor
    · rintro ⟨h1, h2⟩
      refine ⟨h2, ?_⟩
      intro hc
      rw [hc] at h1
      exact h1 h2
    · rintro ⟨h1, h2⟩
      refine ⟨?_, h1⟩
      rw [h1]
      cases hct : b.current_task
      · decide
      · exact absurd hct h2
  have e : handle_rx_packet_payload cfg cd rx_buffer b
      = { b with
          ready_to_sleep := false,
          average_command :=
            if rx_buffer.getD MSGIDX_TASK 0 = task_t.T_CONSENSUS.toInt
                ∧ b.current_task ≠ task_t.T_CONSENSUS then true
            else b.average_command } := by
    simp only [handle_rx_packet_payload, hm]
    by_cases hc : rx_buffer.getD MSGIDX_TASK 0 = task_t.T_CONSENSUS.toInt
        ∧ b.current_task ≠ task_t.T_CONSENSUS
    · rw [if_pos hc]
      have hc2 : rx_buffer.getD MSGIDX_TASK 0 ≠ (wake_up b).current_task.toInt
          ∧ rx_buffer.getD MSGIDX_TASK 0 = task_t.T_CONSENSUS.toInt := hiff.2 hc
      rw [if_pos hc2]
      rfl
    · rw [if_neg hc]
      have hc2 : ¬ (rx_buffer.getD MSGIDX_TASK 0 ≠ (wake_up b).current_task.toInt
          ∧ rx_buffer.getD MSGIDX_TASK 0 = task_t.T_CONSENSUS.toInt) :=
        fun h => hc (hiff.1 h)
      rw [if_neg hc2]
      rfl
  refine ⟨e, by rw [e]; rfl, ?_⟩
  rw [e]
  show (if rx_buffer.getD MSGIDX_TASK 0 = task_t.T_CONSENSUS.toInt
      ∧ b.current_task ≠ task_t.T_CONSENSUS then true else b.average_command) = true ↔ _
  by_cases hc : rx_buffer.getD MSGIDX_TASK 0 = task_t.T_CONSENSUS.toInt
      ∧ b.current_task ≠ task_t.T_CONSENSUS
  · rw [if_pos hc]
    exact ⟨fun _ => Or.inr hc, fun _ => rfl⟩
  · rw [if_neg hc]
    exact ⟨fun h => Or.inl h, fun h => h.elim id (fun h2 => absurd h2 hc)⟩

/-- C34 on board 2 of the shipped configuration: an asleep board with no task
is woken and commanded by a StartTask frame for `T_CONSENSUS`. -/
theorem start_task_frame_handling_shipped :
    handle_rx_packet_payload (shipped_config 2) int_part_codec (frame_of 1 1 2 1)
        { power_on exact_arith (shipped_config 2) with ready_to_sleep := true }
      = { power_on exact_arith (shipped_config 2) with
          ready_to_sleep := false, average_command := true } :=
  (start_task_frame_handling (shipped_config 2) int_part_codec (frame_of 1 1 2 1)
    { power_on exact_arith (shipped_config 2) with ready_to_sleep := true } rfl).1

/-- C36: executing `S_RESTART_COMPLETED` sets the averaging command when
`starting_board` is the board's own id and leaves it as it was otherwise; in
both cases the state becomes `S_IDLE` and no other field (the stack included)
changes. -/
theorem restart_completed_execution (fl : FloatOps F) (cd : FloatCodec F) (cfg : Config F)
    (rx_queue : List (List Int)) (b : Board F)
    (hst : b.state = state_t.S_RESTART_COMPLETED.toInt) :
    execute_app_state fl cd cfg rx_queue b
      = { b with
          state := state_t.S_IDLE.toInt,
          average_command :=
            if b.starting_board = (cfg.BOARD_ID : Int) then true else b.average_command } := by
  rw [execute_app_state_restart_completed fl cd cfg rx_queue b (by rw [hst]; rfl)]
  split_ifs <;> rfl

/-- C36 on the shipped configuration: board 3 as initiator (command re-issued)
and board 2 with initiator 3 (command left clear). -/
theorem restart_completed_execution_shipped :
    execute_app_state exact_arith int_part_codec (shipped_config 3) []
        { power_on exact_arith (shipped_config 3) with
          state := state_t.S_RESTART_COMPLETED.toInt, starting_board := 3 }
      = { power_on exact_arith (shipped_config 3) with
          state := state_t.S_IDLE.toInt, starting_board := 3, average_command := true }
    ∧ execute_app_state exact_arith int_part_codec (shipped_config 2) []
        { power_on exact_arith (shipped_config 2) with
          state := state_t.S_RESTART_COMPLETED.toInt, starting_board := 3 }
      = { power_on exact_arith (shipped_config 2) with
          state := state_t.S_IDLE.toInt, starting_board := 3 } :=
  ⟨restart_completed_execution exact_arith int_part_codec (shipped_config 3) []
      { power_on exact_arith (shipped_config 3) with
        state := state_t.S_RESTART_COMPLETED.toInt, starting_board := 3 } rfl,
   restart_completed_execution exact_arith int_part_codec (shipped_config 2) []
      { power_on exact_arith (shipped_config 2) with
        state := state_t.S_RESTART_COMPLETED.toInt, starting_board := 3 } rfl⟩

theorem state_t.ofInt_eq_none_iff (s : Int) : state_t.ofInt s = none ↔ (s < 0 ∨ 11 < s) := by
  unfold state_t.ofInt
  constructor
  · intro h
    by_contra hc
    have hr : 0 ≤ s ∧ s ≤ 11 := by omega
    have : s = 0 ∨ s = 1 ∨ s = 2 ∨ s = 3 ∨ s = 4 ∨ s = 5 ∨ s = 6 ∨ s = 7 ∨ s = 8 ∨ s = 9
        ∨ s = 10 ∨ s = 11 := by omega
    rcases this with h0 | h0 | h0 | h0 | h0 | h0 | h0 | h0 | h0 | h0 | h0 | h0 <;>
      (subst h0; simp at h)
  · intro h
    have h0 : ¬ s = 0 := by omega
    have h1 : ¬ s = 1 := by omega
    have h2 : ¬ s = 2 := by omega
    have h3 : ¬ s = 3 := by omega
    have h4 : ¬ s = 4 := by omega
    have h5 : ¬ s = 5 := by omega
    have h6 : ¬ s = 6 := by omega
    have h7 : ¬ s = 7 := by omega
    have h8 : ¬ s = 8 := by omega
    have h9 : ¬ s = 9 := by omega
    have h10 : ¬ s = 10 := by omega
    have h11 : ¬ s = 11 := by omega
    simp only [h0, h1, h2, h3, h4, h5, h6, h7, h8, h9, h10, h11, if_false]

/-- C37: executing `S_RX_PACKET_ERROR`, `S_TX_PACKET_ERROR`,
`S_CALIBRATION_ERROR`, or a state value outside the twelve enumerators `0..11`
(such as the `-1` that `pop` returns on an empty stack), sets the state to
`S_IDLE` and changes no other field; executing `S_IDLE` changes nothing. -/
theorem housekeeping_states_execution (fl : FloatOps F) (cd : FloatCodec F) (cfg : Config F)
    (rx_queue : List (List Int)) (b : Board F) :
    ((b.state = state_t.S_RX_PACKET_ERROR.toInt ∨ b.state = state_t.S_TX_PACKET_ERROR.toInt
        ∨ b.state = state_t.S_CALIBRATION_ERROR.toInt ∨ b.state < 0 ∨ 11 < b.state) →
      execute_app_state fl cd cfg rx_queue b = { b with state := state_t.S_IDLE.toInt })
    ∧ (b.state = state_t.S_IDLE.toInt → execute_app_state fl cd cfg rx_queue b = b) := by
  constructor
  · rintro (h | h | h | h | h)
    · exact execute_app_state_rx_packet_error fl cd cfg rx_queue b (by rw [h]; rfl)
    · exact execute_app_state_tx_packet_error fl cd cfg rx_queue b (by rw [h]; rfl)
    · exact execute_app_state_calibration_error fl cd cfg rx_queue b (by rw [h]; rfl)
    · exact execute_app_state_unexpected fl cd cfg rx_queue b
        ((state_t.ofInt_eq_none_iff b.state).2 (Or.inl h))
    · exact execute_app_state_unexpected fl cd cfg rx_queue b
        ((state_t.ofInt_eq_none_iff b.state).2 (Or.inr h))
  · intro h
    exact execute_app_state_idle fl cd cfg rx_queue b (by rw [h]; rfl)

/-- C37 on board 4 of the shipped configuration holding the token with a
non-empty stack: the states `S_TX_PACKET_ERROR` and `-1` lead to `S_IDLE`, and
`S_IDLE` changes nothing. -/
theorem housekeeping_states_execution_shipped :
    execute_app_state exact_arith int_part_codec (shipped_config 4) []
        { power_on exact_arith (shipped_config 4) with
          state := state_t.S_TX_PACKET_ERROR.toInt, baton := true,
          boards_completed_their_task := 2, stk := Stack.init.push 3 }
      = { power_on exact_arith (shipped_config 4) with
          state := state_t.S_IDLE.toInt, baton := true, boards_completed_their_task := 2,
          stk := Stack.init.push 3 }
    ∧ execute_app_state exact_arith int_part_codec (shipped_config 4) []
        { power_on exact_arith (shipped_config 4) with
          state := -1, baton := true, boards_completed_their_task := 2,
          stk := Stack.init.push 3 }
      = { power_on exact_arith (shipped_config 4) with
          state := state_t.S_IDLE.toInt, baton := true, boards_completed_their_task := 2,
          stk := Stack.init.push 3 }
    ∧ execute_app_state exact_arith int_part_codec (shipped_config 4) []
        { power_on exact_arith (shipped_config 4) with
          state := state_t.S_IDLE.toInt, baton := true, boards_completed_their_task := 2,
          stk := Stack.init.push 3 }
      = { power_on exact_arith (shipped_config 4) with
          state := state_t.S_IDLE.toInt, baton := true, boards_completed_their_task := 2,
          stk := Stack.init.push 3 } :=
  ⟨(housekeeping_states_execution exact_arith int_part_codec (shipped_config 4) []
      { power_on exact_arith (shipped_config 4) with
        state := state_t.S_TX_PACKET_ERROR.toInt, baton := true,
        boards_completed_their_task := 2, stk := Stack.init.push 3 }).1 (Or.inr (Or.inl rfl)),
   (housekeeping_states_execution exact_arith int_part_codec (shipped_config 4) []
      { power_on exact_arith (shipped_config 4) with
        state := -1, baton := true, boards_completed_their_task := 2,
        stk := Stack.init.push 3 }).1 (Or.inr (Or.inr (Or.inr (Or.inl (by decide))))),
   (housekeeping_states_execution exact_arith int_part_codec (shipped_config 4) []
      { power_on exact_arith (shipped_config 4) with
        state := state_t.S_IDLE.toInt, baton := true, boards_completed_their_task := 2,
        stk := Stack.init.push 3 }).2 rfl⟩

/-! ## Theorems: watchdog expiry and tour occurrences -/

theorem find_first_in_range (p : Nat → Bool) (n i : Nat) (hi : i < n) (hp : p i = true)
    (hfirst : ∀ k, k < i → p k = false) : (List.range n).find? p = some i := by
  induction n with
  | zero => omega
  | succ m ih =>
    rw [List.range_succ, List.find?_append]
    by_cases him : i < m
    · rw [ih him]
      rfl
    · have him2 : i = m := by omega
      subst him2
      have hnone : (List.range i).find? p = none := by
        rw [List.find?_eq_none]
        intro k hk
        rw [List.mem_range] at hk
        rw [hfirst k hk]
        decide
      rw [hnone]
      simp [hp]

/-- The destination computed by `enable_alarm` and `cli_avg_consensus` when the
first occurrence of `BOARD_ID` in the tour is at position `i`. -/
theorem set_dst_after_first_occurrence_value (cfg : Config F) (b : Board F) (i : Nat)
    (hi : i < cfg.baton_path.length)
    (hocc : cfg.baton_path.getD i 0 = (cfg.BOARD_ID : Int))
    (hfirst : ∀ k, k < i → cfg.baton_path.getD k 0 ≠ (cfg.BOARD_ID : Int))
    (hL : cfg.baton_path.length ≤ 127) :
    (set_dst_after_first_occurrence cfg b).dst_of_baton
      = cfg.baton_path.getD (cyc_succ cfg.baton_path.length i) 0 := by
  have hfind : (List.range cfg.LENGTH_OF_BATON_PATH).find?
      (fun i => decide (cfg.baton_path.getD i 0 = (cfg.BOARD_ID : Int))) = some i := by
    apply find_first_in_range _ _ _ hi
    · simpa using hocc
    · intro k hk
      simpa using hfirst k hk
  have h8 : to_int8 ((i : Int) + 1) = (i : Int) + 1 := by
    unfold to_int8
    omega
  simp only [set_dst_after_first_occurrence, hfind, h8]
  unfold cyc_succ Config.LENGTH_OF_BATON_PATH
  by_cases hw : i + 1 = cfg.baton_path.length
  · have hw2 : (i : Int) + 1 = (cfg.baton_path.length : Int) := by omega
    rw [if_pos hw]
    simp only [hw2, if_true]
    unfold Config.baton_path_at
    rw [if_pos (le_refl _)]
    rfl
  · have hw2 : ¬ ((i : Int) + 1 = (cfg.baton_path.length : Int)) := by omega
    rw [if_neg hw]
    simp only [hw2, if_false]
    unfold Config.baton_path_at
    rw [if_pos (by omega)]
    have e : ((i : Int) + 1).toNat = i + 1 := by omega
    rw [e]

/-- C35: a watchdog expiry on a board whose id occurs in the tour, first at
position `i`. `enable_alarm` records a pending restart, adds 1 to
`restart_id`, sets `baton`, and sets `dst_of_baton` to the tour entry at the
position that cyclically follows `i` (position 0 after the last); no other
field changes. As an input of the board, the expiry also leaves the
single-shot timer `tmr0` disarmed. The tour has at most 127 entries
(`dst_of_baton` is an `int8_t`). -/
theorem watchdog_expiry_effect (fl : FloatOps F) (cd : FloatCodec F) (cfg : Config F)
    (b : Board F) (i : Nat)
    (hi : i < cfg.baton_path.length)
    (hocc : cfg.baton_path.getD i 0 = (cfg.BOARD_ID : Int))
    (hfirst : ∀ k, k < i → cfg.baton_path.getD k 0 ≠ (cfg.BOARD_ID : Int))
    (hL : cfg.baton_path.length ≤ 127) :
    enable_alarm cfg b
      = { b with
          baton := true,
          restart_command := true,
          restart_id := b.restart_id + 1,
          dst_of_baton := cfg.baton_path.getD (cyc_succ cfg.baton_path.length i) 0 }
    ∧ (b.tmr0_running = true →
        step fl cd cfg b Input.alarm
          = { b with
              baton := true,
              restart_command := true,
              restart_id := b.restart_id + 1,
              dst_of_baton := cfg.baton_path.getD (cyc_succ cfg.baton_path.length i) 0,
              tmr0_running := false }) := by
  have h : ∀ c : Board F, enable_alarm cfg c
      = { c with
          baton := true,
          restart_command := true,
          restart_id := c.restart_id + 1,
          dst_of_baton := cfg.baton_path.getD (cyc_succ cfg.baton_path.length i) 0 } := by
    intro c
    have e1 : enable_alarm cfg c
        = { set_dst_after_first_occurrence cfg { c with baton := true } with
            restart_command := true,
            restart_id := (set_dst_after_first_occurrence cfg { c with baton := true }).restart_id
              + 1 } := rfl
    rw [e1, set_dst_after_first_occurrence_eq,
      set_dst_after_first_occurrence_value cfg _ i hi hocc hfirst hL]
  refine ⟨h b, ?_⟩
  intro htmr
  show (if b.tmr0_running = true then enable_alarm cfg { b with tmr0_running := false } else b)
    = _
  rw [if_pos htmr, h]

/-- C35 on the shipped tour `[3,2,1,0,5,4,5,1,2]`: board 5 (first at position
4, next holder 4) and board 2 (first at position 1, next holder 1). -/
theorem watchdog_expiry_effect_shipped :
    enable_alarm (shipped_config 5)
        { power_on exact_arith (shipped_config 5) with restart_id := 6, tmr0_running := true }
      = { power_on exact_arith (shipped_config 5) with
          restart_id := 7, tmr0_running := true, baton := true, restart_command := true,
          dst_of_baton := 4 }
    ∧ step exact_arith int_part_codec (shipped_config 2)
        { power_on exact_arith (shipped_config 2) with restart_id := 6, tmr0_running := true }
        Input.alarm
      = { power_on exact_arith (shipped_config 2) with
          restart_id := 7, tmr0_running := false, baton := true, restart_command := true,
          dst_of_baton := 1 } :=
  ⟨(watchdog_expiry_effect exact_arith int_part_codec (shipped_config 5)
      { power_on exact_arith (shipped_config 5) with restart_id := 6, tmr0_running := true }
      4 (by decide) (by decide) (by decide) (by decide)).1,
   (watchdog_expiry_effect exact_arith int_part_codec (shipped_config 2)
      { power_on exact_arith (shipped_config 2) with restart_id := 6, tmr0_running := true }
      1 (by decide) (by decide) (by decide) (by decide)).2 rfl⟩

/-! ## Theorems: the overrun records are never removed -/

theorem memory_intact_of_fields (b b1 : Board F)
    (h1 : b1.stk.overrun.isEmpty = true → b.stk.overrun.isEmpty = true)
    (h2 : b1.consensus_overrun.isEmpty = true → b.consensus_overrun.isEmpty = true)
    (I : memory_intact b1) : memory_intact b :=
  ⟨h1 I.1, h2 I.2⟩

/-- A ConsensusState frame whose sender byte is outside the receiver's array,
handled by an awake board: the store of app_process.c:349 is recorded as an
overrun, the state vector keeps its entries, and the board is no longer
`memory_intact`. -/
theorem consensus_state_frame_outside_array (cfg : Config F) (cd : FloatCodec F)
    (rx_buffer : List Int) (b : Board F)
    (htype : rx_buffer.getD MSGIDX_TYPE 0 = message_t.MSG_CONSENSUS_STATE.toInt)
    (hawake : app_is_ok_to_sleep b = false)
    (hout : b.consensus_states.length ≤ (rx_buffer.getD MSGIDX_SRC_BOARD 0).toNat) :
    (handle_rx_packet_payload cfg cd rx_buffer b).consensus_overrun
        = ((rx_buffer.getD MSGIDX_SRC_BOARD 0).toNat,
            cd.of_bytes [rx_buffer.getD 3 0, rx_buffer.getD 4 0,
              rx_buffer.getD 5 0, rx_buffer.getD 6 0]) :: b.consensus_overrun
    ∧ (handle_rx_packet_payload cfg cd rx_buffer b).consensus_states = b.consensus_states
    ∧ ¬ memory_intact (handle_rx_packet_payload cfg cd rx_buffer b) := by
  rw [handle_consensus_state_frame cfg cd rx_buffer b htype hawake]
  unfold set_consensus_state
  rw [if_neg (Nat.not_lt.2 hout)]
  refine ⟨rfl, rfl, ?_⟩
  intro I
  exact absurd I.2 (by simp)

/-- The frame `[2, 8, 5, 0, ...]` (a ConsensusState frame with sender byte 8) on
awake board 5 of the shipped configuration, whose state vector has 6 entries. -/
theorem consensus_state_frame_outside_array_shipped :
    (handle_rx_packet_payload (shipped_config_bits 5) float_bits_codec (frame_of 2 8 5 0)
        (power_on_bits (shipped_config_bits 5))).consensus_overrun = [(8, 0)]
    ∧ ¬ memory_intact (handle_rx_packet_payload (shipped_config_bits 5) float_bits_codec
        (frame_of 2 8 5 0) (power_on_bits (shipped_config_bits 5))) := by
  decide

/-- A push on a stack that holds 20 entries writes `stack[20]`: the board is no
longer `memory_intact`. -/
theorem push_on_full_stack_outside_array (b : Board F) (data : Int)
    (htop : b.stk.top = 19) : ¬ memory_intact (b.push data) := by
  intro I
  have h : ((b.stk.push data).overrun.isEmpty = true) := I.1
  have e : b.stk.push data
      = { b.stk with top := 20, overrun := (20, data) :: b.stk.overrun } := by
    simp only [Stack.push, Stack.store, Stack.isfull, STACK_MAXSIZE, htop]
    rfl
  rw [e] at h
  exact absurd h (by simp)

/-! ## Theorems: the divisor `batons_per_cycle` -/

/-- The tick after the send-complete event: the receiver is restarted and the
state is popped from the stack. -/
theorem resume_after_send_complete (fl : FloatOps F) (cd : FloatCodec F) (cfg : Config F)
    (events : Int) (E : Board F) (h1 : E.packet_received = false) :
    app_process_action fl cd cfg [] (sl_rail_util_on_event (send_complete events) E)
      = { E with
          error_code := events,
          packet_sent := false,
          trace := E.trace ++ [Action.start_receiving cfg.BOARD_ID],
          state := E.stk.pop.1,
          stk := E.stk.pop.2 } := by
  rw [sl_rail_util_on_event_send_complete]
  unfold app_process_action
  rw [handle_app_events_packet_sent fl cfg
      ({ E with error_code := events, packet_sent := true } : Board F) h1 rfl,
    execute_app_state_packet_sent fl cd cfg []
      ({ ({ E with error_code := events, packet_sent := true } : Board F) with
          packet_sent := false, state := state_t.S_PACKET_SENT.toInt }) rfl]
  rfl

/-- C32: with no transport signal pending and rules 6 and 7 not applicable, a
board that holds the token with `(baton_cntr - 1) % batons_per_cycle != 0`
(stack with a free slot). Event intake pushes the current state and sets
state `S_PACKET_TX` with operation `O_GIVE_BATON`, nothing else. The state
execution of the same tick hands exactly one frame to the radio, the Baton
frame for `dst_of_baton` carrying the tally, and clears the token flag; the
state vector, the weights, the iteration counter, the converged flag, the task
and the command flags are as before the tick. After the send-complete event
the next tick resumes the interrupted state with the stack entries as before
the delivery. -/
theorem bypass_rule_effect (fl : FloatOps F) (cd : FloatCodec F) (cfg : Config F)
    (events : Int) (rx_queue : List (List Int)) (b : Board F)
    (hs : no_transport_signal b) (h6 : ¬ sleep_rule_applies b)
    (h7 : ¬ restart_rule_applies b) (hb : b.baton = true)
    (hc : c_mod (b.baton_cntr - 1) b.batons_per_cycle ≠ 0)
    (hlen : b.stk.stack.length = 20) (hlo : -1 ≤ b.stk.top) (hhi : b.stk.top + 1 < 20)
    (hfr : b.tx_packet.length = TX_PAYLOAD_LENGTH) :
    handle_app_events fl cfg b
      = { b with
          stk := b.stk.push b.state,
          tx_operation_to_achieve := tx_operation_t.O_GIVE_BATON,
          state := state_t.S_PACKET_TX.toInt }
    ∧ app_process_action fl cd cfg rx_queue b
      = { b with
          stk := b.stk.push b.state,
          tx_operation_to_achieve := tx_operation_t.O_GIVE_BATON,
          tx_packet := frame_built cfg cd tx_operation_t.O_GIVE_BATON b,
          baton := false,
          boards_completed_their_task := 0,
          state := state_t.S_IDLE.toInt,
          tmr0_running := if b.starting_board = (cfg.BOARD_ID : Int) then true
            else b.tmr0_running,
          trace := if b.starting_board = (cfg.BOARD_ID : Int) then
              (b.trace ++ [Action.send_packet (frame_built cfg cd tx_operation_t.O_GIVE_BATON b)
                ((frame_built cfg cd tx_operation_t.O_GIVE_BATON b).getD MSGIDX_DST_BOARD 0)])
                ++ [Action.set_timer (cfg.RESTART_TIMEOUT_MILISECS * 1000)]
            else
              b.trace ++ [Action.send_packet (frame_built cfg cd tx_operation_t.O_GIVE_BATON b)
                ((frame_built cfg cd tx_operation_t.O_GIVE_BATON b).getD MSGIDX_DST_BOARD 0)] }
    ∧ frames_sent (app_process_action fl cd cfg rx_queue b).trace
        = frames_sent b.trace ++ [frame_built cfg cd tx_operation_t.O_GIVE_BATON b]
    ∧ (frame_built cfg cd tx_operation_t.O_GIVE_BATON b).getD MSGIDX_TYPE 0
        = message_t.MSG_BATON.toInt
    ∧ (frame_built cfg cd tx_operation_t.O_GIVE_BATON b).getD MSGIDX_DST_BOARD 0
        = to_uint8 b.dst_of_baton
    ∧ (frame_built cfg cd tx_operation_t.O_GIVE_BATON b).getD MSGIDX_BOARDS_OVER 0
        = to_uint8 b.boards_completed_their_task
    ∧ (app_process_action fl cd cfg []
        (sl_rail_util_on_event (send_complete events)
          (app_process_action fl cd cfg rx_queue b))).state = b.state
    ∧ (app_process_action fl cd cfg []
        (sl_rail_util_on_event (send_complete events)
          (app_process_action fl cd cfg rx_queue b))).stk.entries = b.stk.entries
    ∧ (app_process_action fl cd cfg []
        (sl_rail_util_on_event (send_complete events)
          (app_process_action fl cd cfg rx_queue b))).stk.top = b.stk.top
    ∧ (app_process_action fl cd cfg []
        (sl_rail_util_on_event (send_complete events)
          (app_process_action fl cd cfg rx_queue b))).baton = false := by
  have h8 : bypass_rule_applies b := ⟨hb, hc⟩
  have e1 : handle_app_events fl cfg b
      = { b with
          stk := b.stk.push b.state,
          tx_operation_to_achieve := tx_operation_t.O_GIVE_BATON,
          state := state_t.S_PACKET_TX.toInt } := by
    rw [handle_app_events_bypass fl cfg b hs h6 h7 h8]
    rfl
  have hfb : frame_built cfg cd tx_operation_t.O_GIVE_BATON
      ({ b with
          stk := b.stk.push b.state,
          tx_operation_to_achieve := tx_operation_t.O_GIVE_BATON,
          state := state_t.S_PACKET_TX.toInt } : Board F)
      = frame_built cfg cd tx_operation_t.O_GIVE_BATON b := by
    rw [frame_built_give_baton, frame_built_give_baton]
  have e2 : app_process_action fl cd cfg rx_queue b
      = { b with
          stk := b.stk.push b.state,
          tx_operation_to_achieve := tx_operation_t.O_GIVE_BATON,
          tx_packet := frame_built cfg cd tx_operation_t.O_GIVE_BATON b,
          baton := false,
          boards_completed_their_task := 0,
          state := state_t.S_IDLE.toInt,
          tmr0_running := if b.starting_board = (cfg.BOARD_ID : Int) then true
            else b.tmr0_running,
          trace := if b.starting_board = (cfg.BOARD_ID : Int) then
              (b.trace ++ [Action.send_packet (frame_built cfg cd tx_operation_t.O_GIVE_BATON b)
                ((frame_built cfg cd tx_operation_t.O_GIVE_BATON b).getD MSGIDX_DST_BOARD 0)])
                ++ [Action.set_timer (cfg.RESTART_TIMEOUT_MILISECS * 1000)]
            else
              b.trace ++ [Action.send_packet (frame_built cfg cd tx_operation_t.O_GIVE_BATON b)
                ((frame_built cfg cd tx_operation_t.O_GIVE_BATON b).getD MSGIDX_DST_BOARD 0)] } := by
    unfold app_process_action
    rw [e1, execute_packet_tx_give_baton fl cd cfg rx_queue _ rfl rfl, hfb]
  have hstack := Stack.push_free_slot b.stk b.state hlen hlo hhi
  have hpr : (app_process_action fl cd cfg rx_queue b).packet_received = false := by
    rw [e2]
    exact hs.1
  have hstk : (app_process_action fl cd cfg rx_queue b).stk = b.stk.push b.state := by
    rw [e2]
  have hbt : (app_process_action fl cd cfg rx_queue b).baton = false := by
    rw [e2]
  have e3 := resume_after_send_complete fl cd cfg events
    (app_process_action fl cd cfg rx_queue b) hpr
  refine ⟨e1, e2, ?_, ?_, ?_, ?_, ?_, ?_, ?_, ?_⟩
  · rw [e2]
    show frames_sent (if b.starting_board = (cfg.BOARD_ID : Int) then _ else _) = _
    split_ifs
    · rw [frames_sent_append_set_timer, frames_sent_append_send]
    · rw [frames_sent_append_send]
  · rw [frame_built_type cfg cd _ b hfr]
    rfl
  · rw [frame_built_destination cfg cd _ b hfr, if_pos rfl]
  · exact (frame_built_byte3 cfg cd b hfr).2.2
  · rw [e3]
    show (app_process_action fl cd cfg rx_queue b).stk.pop.1 = b.state
    rw [hstk]
    exact hstack.2.2.2.1
  · rw [e3]
    show (app_process_action fl cd cfg rx_queue b).stk.pop.2.entries = b.stk.entries
    rw [hstk]
    exact hstack.2.2.2.2.1
  · rw [e3]
    show (app_process_action fl cd cfg rx_queue b).stk.pop.2.top = b.stk.top
    rw [hstk]
    exact hstack.2.2.2.2.2.1
  · rw [e3]
    exact hbt

/-- C32 on board 5 of the shipped configuration (two occurrences in the tour)
waiting in `S_UPDATE_AVG_CONSENSUS_STATE` when it receives its second token: the
Baton frame goes to board 1 with the tally 3, and the board is back in
`S_UPDATE_AVG_CONSENSUS_STATE` without the token after the send completes. -/
theorem bypass_rule_effect_shipped :
    frames_sent (app_process_action exact_arith int_part_codec (shipped_config 5) []
        { power_on exact_arith (shipped_config 5) with
          state := state_t.S_UPDATE_AVG_CONSENSUS_STATE.toInt, baton := true, baton_cntr := 2,
          batons_per_cycle := 2, dst_of_baton := 1, boards_completed_their_task := 3,
          current_task := task_t.T_CONSENSUS }).trace
      = [[3, 5, 1, 3, 0, 0, 0, 0, 0, 0, 0, 0, 0, 0, 0, 0]]
    ∧ (app_process_action exact_arith int_part_codec (shipped_config 5) []
        (sl_rail_util_on_event (send_complete 0)
          (app_process_action exact_arith int_part_codec (shipped_config 5) []
            { power_on exact_arith (shipped_config 5) with
              state := state_t.S_UPDATE_AVG_CONSENSUS_STATE.toInt, baton := true,
              baton_cntr := 2, batons_per_cycle := 2, dst_of_baton := 1,
              boards_completed_their_task := 3,
              current_task := task_t.T_CONSENSUS }))).state
      = state_t.S_UPDATE_AVG_CONSENSUS_STATE.toInt
    ∧ (app_process_action exact_arith int_part_codec (shipped_config 5) []
        (sl_rail_util_on_event (send_complete 0)
          (app_process_action exact_arith int_part_codec (shipped_config 5) []
            { power_on exact_arith (shipped_config 5) with
              state := state_t.S_UPDATE_AVG_CONSENSUS_STATE.toInt, baton := true,
              baton_cntr := 2, batons_per_cycle := 2, dst_of_baton := 1,
              boards_completed_their_task := 3,
              current_task := task_t.T_CONSENSUS }))).baton = false :=
  ⟨(bypass_rule_effect exact_arith int_part_codec (shipped_config 5) 0 []
      { power_on exact_arith (shipped_config 5) with
        state := state_t.S_UPDATE_AVG_CONSENSUS_STATE.toInt, baton := true, baton_cntr := 2,
        batons_per_cycle := 2, dst_of_baton := 1, boards_completed_their_task := 3,
        current_task := task_t.T_CONSENSUS }
      (by decide) (by decide) (by decide) rfl (by decide) rfl (by decide) (by decide)
      rfl).2.2.1,
   (bypass_rule_effect exact_arith int_part_codec (shipped_config 5) 0 []
      { power_on exact_arith (shipped_config 5) with
        state := state_t.S_UPDATE_AVG_CONSENSUS_STATE.toInt, baton := true, baton_cntr := 2,
        batons_per_cycle := 2, dst_of_baton := 1, boards_completed_their_task := 3,
        current_task := task_t.T_CONSENSUS }
      (by decide) (by decide) (by decide) rfl (by decide) rfl (by decide) (by decide)
      rfl).2.2.2.2.2.2.1,
   (bypass_rule_effect exact_arith int_part_codec (shipped_config 5) 0 []
      { power_on exact_arith (shipped_config 5) with
        state := state_t.S_UPDATE_AVG_CONSENSUS_STATE.toInt, baton := true, baton_cntr := 2,
        batons_per_cycle := 2, dst_of_baton := 1, boards_completed_their_task := 3,
        current_task := task_t.T_CONSENSUS }
      (by decide) (by decide) (by decide) rfl (by decide) rfl (by decide) (by decide)
      rfl).2.2.2.2.2.2.2.2.2⟩

/-! ## Theorems: no double counting -/

/-- One `S_UPDATE_AVG_CONSENSUS_STATE` step: the tally moves by the change of
the step (as an `int8_t`), and the change is the difference of the converged
flag after and before the step, counted as 1 and 0. -/
theorem update_step_accounting (fl : FloatOps F) (cd : FloatCodec F) (cfg : Config F)
    (rx_queue : List (List Int)) (b : Board F)
    (hst : b.state = state_t.S_UPDATE_AVG_CONSENSUS_STATE.toInt) :
    (execute_app_state fl cd cfg rx_queue b).boards_completed_their_task
        = (if update_step_change fl cfg b = 0 then b.boards_completed_their_task
          else to_int8 (b.boards_completed_their_task + update_step_change fl cfg b))
    ∧ update_step_change fl cfg b
        = (if (execute_app_state fl cd cfg rx_queue b).consensus_is_over then 1 else 0)
          - (if b.consensus_is_over then 1 else 0) := by
  have hs : state_t.ofInt b.state = some state_t.S_UPDATE_AVG_CONSENSUS_STATE := by
    rw [hst]
    rfl
  by_cases hb : b.baton = true
  · rw [update_state_step_eq fl cd cfg rx_queue b hs hb]
    unfold update_step_change tally_change
    rw [if_pos hb]
    have e1 : (update_consensus_state fl cfg b).consensus_is_over = b.consensus_is_over := rfl
    have e2 : (update_consensus_state fl cfg b).boards_completed_their_task
        = b.boards_completed_their_task := rfl
    simp only [e1, e2]
    by_cases g1 : fl.le (fl.fabs (fl.sub (b.consensus_states.getD cfg.BOARD_ID (fl.ofInt 0))
        ((update_consensus_state fl cfg b).consensus_states.getD cfg.BOARD_ID (fl.ofInt 0))))
        cfg.STOP_THRESHOLD = true ∧ ¬ b.consensus_is_over = true
    · have hf : b.consensus_is_over = false := by
        cases h : b.consensus_is_over
        · rfl
        · exact absurd h g1.2
      rw [if_pos g1, if_pos g1, if_pos g1]
      refine ⟨?_, ?_⟩
      · rw [if_neg (by decide)]
      · rw [hf]
        simp
    · by_cases g2 : fl.lt cfg.STOP_THRESHOLD
          (fl.fabs (fl.sub (b.consensus_states.getD cfg.BOARD_ID (fl.ofInt 0))
            ((update_consensus_state fl cfg b).consensus_states.getD cfg.BOARD_ID
              (fl.ofInt 0)))) = true
          ∧ b.consensus_is_over = true
          ∧ b.boards_completed_their_task ≠ SEND_SYSTEM_TO_SLEEP
      · rw [if_neg g1, if_pos g2, if_neg g1, if_pos g2, if_neg g1, if_pos g2]
        rw [g2.2.1]
        refine ⟨?_, ?_⟩
        · rw [if_neg (by decide)]
          rfl
        · simp
      · rw [if_neg g1, if_neg g2, if_neg g1, if_neg g2, if_neg g1, if_neg g2]
        refine ⟨?_, ?_⟩
        · rw [if_pos rfl]
        · omega
  · rw [execute_app_state_update_avg_consensus_state fl cd cfg rx_queue b hs, if_neg hb]
    unfold update_step_change
    rw [if_neg hb]
    refine ⟨?_, ?_⟩
    · rw [if_pos rfl]
    · omega

theorem net_contribution_eq (fl : FloatOps F) (cd : FloatCodec F) (cfg : Config F)
    (steps : List (Board F)) (flag : Bool) :
    (net_contribution fl cd cfg flag steps).2
      = (if (net_contribution fl cd cfg flag steps).1 then 1 else 0)
        - (if flag then 1 else 0) := by
  induction steps generalizing flag with
  | nil =>
    show (0 : Int) = (if flag = true then 1 else 0) - (if flag = true then 1 else 0)
    omega
  | cons next rest ih =>
    have h1 := (update_step_accounting fl cd cfg [] (at_update_step flag next) rfl).2
    have h2 := ih (execute_app_state fl cd cfg [] (at_update_step flag next)).consensus_is_over
    have hf : (at_update_step flag next).consensus_is_over = flag := rfl
    rw [hf] at h1
    show update_step_change fl cfg (at_update_step flag next)
        + (net_contribution fl cd cfg
          (execute_app_state fl cd cfg [] (at_update_step flag next)).consensus_is_over rest).2
      = (if (net_contribution fl cd cfg
          (execute_app_state fl cd cfg [] (at_update_step flag next)).consensus_is_over rest).1
            = true then 1 else 0)
        - (if flag = true then 1 else 0)
    rw [h1, h2]
    omega

/-- C31: no double counting. For every finite sequence of
`S_UPDATE_AVG_CONSENSUS_STATE` steps of one board within a task, starting with
the converged flag false, whatever the board's other fields are at each step
(state vector, weights, tally, token), the net contribution of the board to the
tally (increments minus decrements) is 0 or 1 after the sequence, and it is 1
exactly when the converged flag is true. Each step moves the tally by its
change: the tally after the step is the tally before it plus the change, as an
`int8_t`. -/
theorem no_double_counting (fl : FloatOps F) (cd : FloatCodec F) (cfg : Config F)
    (steps : List (Board F)) :
    ((net_contribution fl cd cfg false steps).2 = 0
        ∨ (net_contribution fl cd cfg false steps).2 = 1)
    ∧ ((net_contribution fl cd cfg false steps).2 = 1
        ↔ (net_contribution fl cd cfg false steps).1 = true)
    ∧ (∀ (flag : Bool) (next : Board F),
        (execute_app_state fl cd cfg [] (at_update_step flag next)).boards_completed_their_task
          = (if update_step_change fl cfg (at_update_step flag next) = 0 then
              next.boards_completed_their_task
            else to_int8 (next.boards_completed_their_task
              + update_step_change fl cfg (at_update_step flag next)))) := by
  have h := net_contribution_eq fl cd cfg steps false
  refine ⟨?_, ?_, ?_⟩
  · rw [h]
    cases (net_contribution fl cd cfg false steps).1 <;> decide
  · rw [h]
    cases (net_contribution fl cd cfg false steps).1 <;> decide
  · intro flag next
    exact (update_step_accounting fl cd cfg [] (at_update_step flag next) rfl).1

/-- C31 evaluated on board 5 with whole-number arithmetic and threshold 1: a
step that keeps the own state (weight row `[0,0,0,0,0,1]`) makes the board
agree, net contribution 1; a following step that moves the own state from 25
to 10 (weight row `[1,0,0,0,0,0]`) withdraws the agreement, net contribution
0; a further step that keeps it agrees again, net contribution 1, not 2. -/
theorem no_double_counting_whole_numbers :
    net_contribution integer_arith float_bits_codec whole_number_config false
        [whole_number_board [0, 0, 0, 0, 0, 1]] = (true, 1)
    ∧ net_contribution integer_arith float_bits_codec whole_number_config false
        [whole_number_board [0, 0, 0, 0, 0, 1], whole_number_board [1, 0, 0, 0, 0, 0]]
      = (false, 0)
    ∧ net_contribution integer_arith float_bits_codec whole_number_config false
        [whole_number_board [0, 0, 0, 0, 0, 1], whole_number_board [1, 0, 0, 0, 0, 0],
          whole_number_board [0, 0, 0, 0, 0, 1]] = (true, 1)
    ∧ ((net_contribution integer_arith float_bits_codec whole_number_config false
        [whole_number_board [0, 0, 0, 0, 0, 1], whole_number_board [1, 0, 0, 0, 0, 0],
          whole_number_board [0, 0, 0, 0, 0, 1]]).2 = 0
      ∨ (net_contribution integer_arith float_bits_codec whole_number_config false
        [whole_number_board [0, 0, 0, 0, 0, 1], whole_number_board [1, 0, 0, 0, 0, 0],
          whole_number_board [0, 0, 0, 0, 0, 1]]).2 = 1) :=
  ⟨by decide, by decide, by decide,
   (no_double_counting integer_arith float_bits_codec whole_number_config
      [whole_number_board [0, 0, 0, 0, 0, 1], whole_number_board [1, 0, 0, 0, 0, 0],
        whole_number_board [0, 0, 0, 0, 0, 1]]).1⟩

/-! ## Theorems: the update is a convex combination -/

/-- The entries of the weight row of the board, in exact arithmetic. -/
theorem initialize_weights_entry (cfg : Config ℚ) (j : Nat) (hj : j < cfg.NUM_OF_BOARDS) :
    (initialize_weights exact_arith cfg).getD j 0
      = if cfg.graph_at cfg.BOARD_ID j = false then 0
        else if j = cfg.BOARD_ID then
          1 - ((degree cfg cfg.BOARD_ID : Int) : ℚ) / (((graph_degree cfg : Int) : ℚ) + 1)
        else 1 / (((graph_degree cfg : Int) : ℚ) + 1) :=
  weight_matrix_entry cfg cfg.BOARD_ID j hj

theorem initialize_weights_bounds (cfg : Config ℚ) (hb : cfg.BOARD_ID < cfg.NUM_OF_BOARDS) :
    0 < 1 / (((graph_degree cfg : Int) : ℚ) + 1)
    ∧ 1 / (((graph_degree cfg : Int) : ℚ) + 1) ≤ 1
    ∧ 1 / (((graph_degree cfg : Int) : ℚ) + 1)
        ≤ 1 - ((degree cfg cfg.BOARD_ID : Int) : ℚ) / (((graph_degree cfg : Int) : ℚ) + 1)
    ∧ 1 - ((degree cfg cfg.BOARD_ID : Int) : ℚ) / (((graph_degree cfg : Int) : ℚ) + 1) ≤ 1 := by
  have hmax := (graph_degree_is_max cfg).1 cfg.BOARD_ID hb
  have hg0 := (graph_degree_is_max cfg).2.1
  have hd0 : 0 ≤ degree cfg cfg.BOARD_ID := by
    rw [degree_eq_count]
    exact Int.ofNat_nonneg _
  have hg : (0 : ℚ) ≤ ((graph_degree cfg : Int) : ℚ) := by exact_mod_cast hg0
  have hd : (0 : ℚ) ≤ ((degree cfg cfg.BOARD_ID : Int) : ℚ) := by exact_mod_cast hd0
  have hdg : ((degree cfg cfg.BOARD_ID : Int) : ℚ) ≤ ((graph_degree cfg : Int) : ℚ) := by
    exact_mod_cast hmax
  have hpos : (0 : ℚ) < ((graph_degree cfg : Int) : ℚ) + 1 := by linarith
  refine ⟨by positivity, ?_, ?_, ?_⟩
  · rw [div_le_iff₀ hpos]
    linarith
  · rw [div_le_iff₀ hpos, sub_mul, div_mul_cancel₀ _ (ne_of_gt hpos)]
    linarith
  · have : 0 ≤ ((degree cfg cfg.BOARD_ID : Int) : ℚ) / (((graph_degree cfg : Int) : ℚ) + 1) :=
      div_nonneg hd (le_of_lt hpos)
    linarith

theorem initialize_weights_sum_range (cfg : Config ℚ)
    (hb : cfg.BOARD_ID < cfg.NUM_OF_BOARDS)
    (hself : cfg.graph_at cfg.BOARD_ID cfg.BOARD_ID = true) :
    ∑ j in Finset.range cfg.NUM_OF_BOARDS, (initialize_weights exact_arith cfg).getD j 0 = 1 := by
  have hlen : (initialize_weights exact_arith cfg).length = cfg.NUM_OF_BOARDS := by
    unfold initialize_weights
    rw [List.length_map, List.length_range]
  have h := list_sum_eq_sum_getD (initialize_weights exact_arith cfg)
  rw [hlen, initialize_weights_sum cfg hself hb] at h
  exact h.symm

/-- C38: for every topology with `graph[b][b] = true` (and `b < N`), in exact
arithmetic: every weight computed by board `b` lies in `[0, 1]`, the weight of
a board that is not adjacent is 0, the own weight is at least
`1 / (gr_deg + 1) > 0`, and the weights sum to 1. Consequently the value that
`update_consensus_state` writes to the own entry, computed with these weights,
lies between any lower bound `lo` and upper bound `hi` of the known states of
`b` and its neighbours. -/
theorem update_is_convex_combination (cfg : Config ℚ) (b : Board ℚ) (lo hi : ℚ)
    (hb : cfg.BOARD_ID < cfg.NUM_OF_BOARDS)
    (hself : cfg.graph_at cfg.BOARD_ID cfg.BOARD_ID = true)
    (hw : b.weights = initialize_weights exact_arith cfg)
    (hlen : cfg.BOARD_ID < b.consensus_states.length)
    (hbounds : ∀ j, j < cfg.NUM_OF_BOARDS → cfg.graph_at cfg.BOARD_ID j = true →
      lo ≤ b.consensus_states.getD j 0 ∧ b.consensus_states.getD j 0 ≤ hi) :
    (∀ j, j < cfg.NUM_OF_BOARDS →
      0 ≤ (initialize_weights exact_arith cfg).getD j 0
      ∧ (initialize_weights exact_arith cfg).getD j 0 ≤ 1
      ∧ (cfg.graph_at cfg.BOARD_ID j = false → (initialize_weights exact_arith cfg).getD j 0 = 0))
    ∧ 0 < 1 / (((graph_degree cfg : Int) : ℚ) + 1)
    ∧ 1 / (((graph_degree cfg : Int) : ℚ) + 1)
        ≤ (initialize_weights exact_arith cfg).getD cfg.BOARD_ID 0
    ∧ ∑ j in Finset.range cfg.NUM_OF_BOARDS, (initialize_weights exact_arith cfg).getD j 0 = 1
    ∧ (update_consensus_state exact_arith cfg b).consensus_states.getD cfg.BOARD_ID 0
        = ∑ j in Finset.range cfg.NUM_OF_BOARDS,
            (initialize_weights exact_arith cfg).getD j 0 * b.consensus_states.getD j 0
    ∧ lo ≤ (update_consensus_state exact_arith cfg b).consensus_states.getD cfg.BOARD_ID 0
    ∧ (update_consensus_state exact_arith cfg b).consensus_states.getD cfg.BOARD_ID 0 ≤ hi := by
  obtain ⟨hpos, hle1, hown, hown1⟩ := initialize_weights_bounds cfg hb
  have hsum := initialize_weights_sum_range cfg hb hself
  have hweights : ∀ j, j < cfg.NUM_OF_BOARDS →
      0 ≤ (initialize_weights exact_arith cfg).getD j 0
      ∧ (initialize_weights exact_arith cfg).getD j 0 ≤ 1
      ∧ (cfg.graph_at cfg.BOARD_ID j = false →
          (initialize_weights exact_arith cfg).getD j 0 = 0) := by
    intro j hj
    rw [initialize_weights_entry cfg j hj]
    by_cases hg : cfg.graph_at cfg.BOARD_ID j = false
    · rw [if_pos hg]
      exact ⟨le_refl _, zero_le_one, fun _ => rfl⟩
    · rw [if_neg hg]
      by_cases hjb : j = cfg.BOARD_ID
      · rw [if_pos hjb]
        exact ⟨by linarith, hown1, fun h => absurd h hg⟩
      · rw [if_neg hjb]
        exact ⟨le_of_lt hpos, hle1, fun h => absurd h hg⟩
  have hownw : 1 / (((graph_degree cfg : Int) : ℚ) + 1)
      ≤ (initialize_weights exact_arith cfg).getD cfg.BOARD_ID 0 := by
    rw [initialize_weights_entry cfg cfg.BOARD_ID hb,
      if_neg (by rw [hself]; decide), if_pos rfl]
    exact hown
  have hval : (update_consensus_state exact_arith cfg b).consensus_states.getD cfg.BOARD_ID 0
      = ∑ j in Finset.range cfg.NUM_OF_BOARDS,
          (initialize_weights exact_arith cfg).getD j 0 * b.consensus_states.getD j 0 := by
    rw [update_consensus_state_exact, getD_set_same _ _ _ _ hlen, hw]
  have hterm : ∀ j, j ∈ Finset.range cfg.NUM_OF_BOARDS →
      (initialize_weights exact_arith cfg).getD j 0 * lo
        ≤ (initialize_weights exact_arith cfg).getD j 0 * b.consensus_states.getD j 0
      ∧ (initialize_weights exact_arith cfg).getD j 0 * b.consensus_states.getD j 0
        ≤ (initialize_weights exact_arith cfg).getD j 0 * hi := by
    intro j hj
    rw [Finset.mem_range] at hj
    obtain ⟨h0, _, hz⟩ := hweights j hj
    by_cases hg : cfg.graph_at cfg.BOARD_ID j = true
    · obtain ⟨h1, h2⟩ := hbounds j hj hg
      exact ⟨mul_le_mul_of_nonneg_left h1 h0, mul_le_mul_of_nonneg_left h2 h0⟩
    · have hg2 : cfg.graph_at cfg.BOARD_ID j = false := by
        cases h : cfg.graph_at cfg.BOARD_ID j
        · rfl
        · exact absurd h hg
      rw [hz hg2]
      simp
  refine ⟨hweights, hpos, hownw, hsum, hval, ?_, ?_⟩
  · rw [hval]
    calc lo = (∑ j in Finset.range cfg.NUM_OF_BOARDS,
          (initialize_weights exact_arith cfg).getD j 0) * lo := by rw [hsum, one_mul]
      _ = ∑ j in Finset.range cfg.NUM_OF_BOARDS,
          (initialize_weights exact_arith cfg).getD j 0 * lo := Finset.sum_mul _ _ _
      _ ≤ _ := Finset.sum_le_sum (fun j hj => (hterm j hj).1)
  · rw [hval]
    calc ∑ j in Finset.range cfg.NUM_OF_BOARDS,
          (initialize_weights exact_arith cfg).getD j 0 * b.consensus_states.getD j 0
        ≤ ∑ j in Finset.range cfg.NUM_OF_BOARDS,
          (initialize_weights exact_arith cfg).getD j 0 * hi :=
          Finset.sum_le_sum (fun j hj => (hterm j hj).2)
      _ = (∑ j in Finset.range cfg.NUM_OF_BOARDS,
          (initialize_weights exact_arith cfg).getD j 0) * hi := (Finset.sum_mul _ _ _).symm
      _ = hi := by rw [hsum, one_mul]

/-- C38 on board 5 of the shipped configuration with the readings
`[10,20,30,20,15,25]` as known states: the neighbours `0, 1, 4` and the board
itself hold values in `[10, 25]` (boards 2 and 3, not adjacent, hold 30 and
20), and the updated own state lies in `[10, 25]`; the own weight is at least
`1 / (gr_deg + 1)`. -/
theorem update_is_convex_combination_shipped :
    1 / (((graph_degree (shipped_config 5) : Int) : ℚ) + 1)
        ≤ (initialize_weights exact_arith (shipped_config 5)).getD 5 0
    ∧ 10 ≤ (update_consensus_state exact_arith (shipped_config 5)
        { power_on exact_arith (shipped_config 5) with
          weights := initialize_weights exact_arith (shipped_config 5),
          consensus_states := [10, 20, 30, 20, 15, 25] }).consensus_states.getD 5 0
    ∧ (update_consensus_state exact_arith (shipped_config 5)
        { power_on exact_arith (shipped_config 5) with
          weights := initialize_weights exact_arith (shipped_config 5),
          consensus_states := [10, 20, 30, 20, 15, 25] }).consensus_states.getD 5 0 ≤ 25 := by
  have hbounds : ∀ j, j < (shipped_config 5).NUM_OF_BOARDS →
      (shipped_config 5).graph_at (shipped_config 5).BOARD_ID j = true →
      (10 : ℚ) ≤ ([10, 20, 30, 20, 15, 25] : List ℚ).getD j 0
      ∧ ([10, 20, 30, 20, 15, 25] : List ℚ).getD j 0 ≤ 25 := by
    intro j hj hg
    have hj6 : j < 6 := hj
    interval_cases j
    · constructor <;> norm_num
    · constructor <;> norm_num
    · exact absurd hg (by decide)
    · exact absurd hg (by decide)
    · constructor <;> norm_num
    · constructor <;> norm_num
  have h := update_is_convex_combination (shipped_config 5)
    { power_on exact_arith (shipped_config 5) with
      weights := initialize_weights exact_arith (shipped_config 5),
      consensus_states := [10, 20, 30, 20, 15, 25] } 10 25
    (by decide) (by decide) rfl (by decide) hbounds
  exact ⟨h.2.2.1, h.2.2.2.2.2.1, h.2.2.2.2.2.2⟩

/-! ## Theorems: the watchdog is armed only without the token -/

end Edas
